import Mathlib

/-!
Ray-tracing acceleration structures and fence-gated resource lifetimes.

A shallow embedding of the ray-tracing stage `CD3D_RT` of the renderer
(`RenderDll/XRenderD3D9/D3D_RT.cpp`, `D3D_RT.h`): the geometry validator and
selector, the frame-context ring, the deferred-release queue and the
acceleration-structure build, followed by theorems about them.

Conventions of the embedding.

* Pointers (`ID3D12Resource*`, allocators, fences) are natural numbers, `0`
  being `nullptr`.
* `UINT64` fence counters and `size_t` sizes are natural numbers; the counters
  grow by one per submission, so the 64-bit wrap is out of reach of any run.
* `float` is a type `F` with the operations of `FloatOps`; every theorem holds
  for every interpretation of these operations, the hardware's included.
  `Dec` is an exact decimal interpretation used to evaluate concrete inputs.
* The GPU runs on its own timeline.  The state holds the completed value of the
  frame fence and a tape of future progress; every read of the fence and every
  wait on it consumes one tape entry.
* Calls that leave the process (`Release`, allocator `Reset`, queue `Signal`,
  ...) are recorded in the `trace` field of the state, oldest first.  Objects
  that one call creates and releases itself (the command list of a build, its
  allocator, its fence) are not tracked.
-/

namespace D3D_RT

set_option maxHeartbeats 1000000

/-! ## Floating point and vectors -/

/-- The operations the code applies to `float` values, with the literals it
uses.  `isqrt` is the reciprocal square root of the math library. -/
class FloatOps (F : Type) extends Add F, Sub F, Mul F, Neg F where
  /-- The comparison `a < b`. -/
  lt : F → F → Bool
  /-- The test `isfinite(a)`. -/
  isfinite : F → Bool
  /-- Reciprocal square root. -/
  isqrt : F → F
  /-- Literal `0.0f`. -/
  c0 : F
  /-- Literal `0.5f`. -/
  c0_5 : F
  /-- Literal `1.0f`. -/
  c1 : F
  /-- Literal `5.0f`. -/
  c5 : F
  /-- Literal `25.0f`. -/
  c25 : F
  /-- Literal `200.0f`. -/
  c200 : F
  /-- Literal `1e-20f`. -/
  c1e_20 : F
  /-- Literal `1e30f`. -/
  c1e30 : F

/-- Exact decimal numbers `m / 10 ^ e`. -/
structure Dec where
  m : Int
  e : Nat
  deriving Repr, DecidableEq

namespace Dec

def add (a b : Dec) : Dec := ⟨a.m * 10 ^ b.e + b.m * 10 ^ a.e, a.e + b.e⟩

def sub (a b : Dec) : Dec := ⟨a.m * 10 ^ b.e - b.m * 10 ^ a.e, a.e + b.e⟩

def mul (a b : Dec) : Dec := ⟨a.m * b.m, a.e + b.e⟩

def neg (a : Dec) : Dec := ⟨-a.m, a.e⟩

def lt (a b : Dec) : Bool := decide (a.m * 10 ^ b.e < b.m * 10 ^ a.e)

def ofInt (n : Int) : Dec := ⟨n, 0⟩

end Dec

/-- Exact decimal arithmetic: sums, differences and products are computed
without rounding and every value is finite.  On integers of small magnitude
binary32 computes the same results.  The reciprocal square root is the
identity, which is exact at `1`, the only argument it meets for an axis-aligned
unit view direction. -/
instance : FloatOps Dec where
  add := Dec.add
  sub := Dec.sub
  mul := Dec.mul
  neg := Dec.neg
  lt := Dec.lt
  isfinite := fun _ => true
  isqrt := fun a => a
  c0 := Dec.ofInt 0
  c0_5 := ⟨5, 1⟩
  c1 := Dec.ofInt 1
  c5 := Dec.ofInt 5
  c25 := Dec.ofInt 25
  c200 := Dec.ofInt 200
  c1e_20 := ⟨1, 20⟩
  c1e30 := Dec.ofInt (10 ^ 30)

/-- The engine's `Vec3`. -/
structure Vec3 (F : Type) where
  x : F
  y : F
  z : F
  deriving DecidableEq

namespace Vec3

variable {F : Type} [FloatOps F]

/-- `operator-` of two vectors. -/
def sub (a b : Vec3 F) : Vec3 F := ⟨a.x - b.x, a.y - b.y, a.z - b.z⟩

/-- `operator+` of two vectors. -/
def add (a b : Vec3 F) : Vec3 F := ⟨a.x + b.x, a.y + b.y, a.z + b.z⟩

/-- Unary minus. -/
def neg (a : Vec3 F) : Vec3 F := ⟨-a.x, -a.y, -a.z⟩

/-- Multiplication by a scalar. -/
def scale (a : Vec3 F) (k : F) : Vec3 F := ⟨a.x * k, a.y * k, a.z * k⟩

/-- `Vec3::Cross`. -/
def Cross (a b : Vec3 F) : Vec3 F :=
  ⟨a.y * b.z - a.z * b.y, a.z * b.x - a.x * b.z, a.x * b.y - a.y * b.x⟩

/-- `Vec3::GetLengthSquared`. -/
def GetLengthSquared (a : Vec3 F) : F := a.x * a.x + a.y * a.y + a.z * a.z

/-- `Vec3::GetNormalizedSafe(safe)`: the vector scaled to unit length, or
`safe` when its squared length is not positive. -/
def GetNormalizedSafe (a safe : Vec3 F) : Vec3 F :=
  let fLen2 := a.GetLengthSquared
  if FloatOps.lt FloatOps.c0 fLen2 then a.scale (FloatOps.isqrt fLen2) else safe

end Vec3

/-- The engine's `Matrix34`, row by row. -/
structure Matrix34 (F : Type) where
  rows : List (List F)
  deriving DecidableEq

/-- `Matrix34::CreateIdentity`. -/
def Matrix34.CreateIdentity {F : Type} [FloatOps F] : Matrix34 F :=
  let o : F := FloatOps.c0
  let i : F := FloatOps.c1
  ⟨[[i, o, o, o], [o, i, o, o], [o, o, i, o]]⟩

/-! ## Geometry records and their validation -/

/-- `CD3D_RT::SafeGeometryData`; the indices are `uint32` values. -/
structure SafeGeometryData (F : Type) where
  vertices : List (Vec3 F)
  indices : List Nat
  worldTransform : Matrix34 F
  debugName : String
  deriving DecidableEq

section Validate

variable {F : Type} [FloatOps F]

/-- The running maximum `for (uint32_t idx : m.indices) maxIdx = (idx > maxIdx ? idx : maxIdx)`. -/
def maxIndex (indices : List Nat) : Nat :=
  indices.foldl (fun maxIdx idx => if idx > maxIdx then idx else maxIdx) 0

/-- The test `!isfinite(p.x) || !isfinite(p.y) || !isfinite(p.z)`. -/
def hasNonFinite (p : Vec3 F) : Bool :=
  !FloatOps.isfinite p.x || !FloatOps.isfinite p.y || !FloatOps.isfinite p.z

/-- The body of the triangle loop: the squared magnitude of the cross product
of two edges is below `1e-20f`. -/
def isDegenerate (a b c : Vec3 F) : Bool :=
  let ab := b.sub a
  let ac := c.sub a
  let cr := ab.Cross ac
  FloatOps.lt (cr.x * cr.x + cr.y * cr.y + cr.z * cr.z) FloatOps.c1e_20

/-- The loop `for (size_t t = 0; t + 2 < i && t < 300; t += 3)` from position
`t` on: `some true` when a degenerate triangle is met, `some false` when the
loop runs to its end, `none` when a read falls outside `indices` or `vertices`
or the fuel is used up. -/
def triangleLoop (m : SafeGeometryData F) (i : Nat) : Nat → Nat → Option Bool
  | 0, _ => none
  | fuel + 1, t =>
    if t + 2 < i ∧ t < 300 then do
      let i0 ← m.indices[t + 0]?
      let i1 ← m.indices[t + 1]?
      let i2 ← m.indices[t + 2]?
      let a ← m.vertices[i0]?
      let b ← m.vertices[i1]?
      let c ← m.vertices[i2]?
      if isDegenerate a b c then some true else triangleLoop m i fuel (t + 3)
    else some false

/-- `ValidateMeshData(m, why)`: the verdict and the value of `why` afterwards;
`none` stands for a read outside a container. -/
def ValidateMeshData (m : SafeGeometryData F) (why : String) : Option (Bool × String) :=
  let v := m.vertices.length
  let i := m.indices.length
  if v < 3 then some (false, "less than 3 vertices")
  else if i < 3 ∨ i % 3 ≠ 0 then some (false, "index count not multiple of 3")
  else if i > 30000000 then some (false, "too many indices")
  else
    let maxIdx := maxIndex m.indices
    if maxIdx ≥ v then
      some (false, "index " ++ toString maxIdx ++ " out of range (v=" ++ toString v ++ ")")
    else if m.vertices.any hasNonFinite then some (false, "NaN/Inf in vertices")
    else
      match triangleLoop m i 101 0 with
      | none => none
      | some true => some (false, "degenerate triangles")
      | some false => some (true, why)

/-- The block `// INLINE VALIDATION` of `ExtractLevelGeometry`: the value of
`validationError` afterwards (the empty string for a record that passes);
`none` stands for a read outside a container, which the `__except` handler of
the loop body catches. -/
def inlineValidationError (nodeGeometry : SafeGeometryData F) : Option String :=
  let v := nodeGeometry.vertices.length
  let i := nodeGeometry.indices.length
  if v < 3 then some "less than 3 vertices"
  else if i < 3 ∨ i % 3 ≠ 0 then some "index count not multiple of 3"
  else if i > 30000000 then some "too many indices"
  else
    let maxIdx := maxIndex nodeGeometry.indices
    if maxIdx ≥ v then
      some ("index " ++ toString maxIdx ++ " out of range (v=" ++ toString v ++ ")")
    else
      let hasInvalidVertices := nodeGeometry.vertices.any hasNonFinite
      if hasInvalidVertices then some "NaN/Inf in vertices"
      else
        match triangleLoop nodeGeometry i 101 0 with
        | none => none
        | some hasDegenerate => if hasDegenerate then some "degenerate triangles" else some ""

/-- The end of the loop body of `ExtractLevelGeometry` for one render node whose
mesh was read into `nodeGeometry`: the value of `outGeometry` afterwards.  The
record is skipped when `validationError` is not empty, or when the validation
ran into the `__except` handler, else it is appended. -/
def extractNode (outGeometry : List (SafeGeometryData F)) (nodeGeometry : SafeGeometryData F) :
    List (SafeGeometryData F) :=
  match inlineValidationError nodeGeometry with
  | none => outGeometry
  | some validationError =>
    if validationError ≠ "" then outGeometry else outGeometry ++ [nodeGeometry]

/-- The block `// Validate and add procedural meshes - INLINE VALIDATION` of
`ExtractLevelGeometry`, for one mesh: the value of `validationError` afterwards
(the empty string for a mesh that passes); `none` stands for a read outside a
container. -/
def proceduralValidationError (mesh : SafeGeometryData F) : Option String :=
  let v := mesh.vertices.length
  let i := mesh.indices.length
  if v < 3 then some "less than 3 vertices"
  else if i < 3 ∨ i % 3 ≠ 0 then some "index count not multiple of 3"
  else if i > 30000000 then some "too many indices"
  else
    let maxIdx := maxIndex mesh.indices
    if maxIdx ≥ v then
      some ("index " ++ toString maxIdx ++ " out of range (v=" ++ toString v ++ ")")
    else
      let valid := !mesh.vertices.any hasNonFinite
      let validationError := if valid then "" else "NaN/Inf in vertices"
      if valid then
        match triangleLoop mesh i 101 0 with
        | none => none
        | some degenerate => some (if degenerate then "degenerate triangles" else validationError)
      else some validationError

/-- Triangle number `k` of the record (index positions `3k`, `3k+1`, `3k+2`)
exists and its squared cross-product magnitude is below `1e-20f`. -/
def triangleDegenerate (m : SafeGeometryData F) (k : Nat) : Prop :=
  ∃ i0 i1 i2 a b c,
    m.indices[3 * k]? = some i0 ∧ m.indices[3 * k + 1]? = some i1 ∧
    m.indices[3 * k + 2]? = some i2 ∧
    m.vertices[i0]? = some a ∧ m.vertices[i1]? = some b ∧ m.vertices[i2]? = some c ∧
    isDegenerate a b c = true

end Validate

/-! ## Shader containers -/

/-- A byte of a shader buffer. -/
abbrev BYTE := Fin 256

/-- The read `header[k]` of `validateDXILContainer`, where `header` is the
buffer seen as an array of little-endian `DWORD`s; the callers read inside the
buffer. -/
def headerDWORD (bc : List BYTE) (k : Nat) : Nat :=
  (bc.getD (4 * k) 0).val + 256 * (bc.getD (4 * k + 1) 0).val +
    65536 * (bc.getD (4 * k + 2) 0).val + 16777216 * (bc.getD (4 * k + 3) 0).val

/-- The lambda `validateDXILContainer` of `ValidateCompiledShaders`; its
arguments `name` and `warnOnTiny` only choose the log line. -/
def validateDXILContainer (bc : List BYTE) : Bool :=
  if bc.length < 32 then false
  else
    let signature := headerDWORD bc 0
    if signature ≠ 0x43425844 then false
    else
      let containerSize := headerDWORD bc 6
      let partCount := headerDWORD bc 7
      if containerSize ≠ bc.length then false
      else if partCount = 0 then false
      else true

/-- The value of a byte string read as a little-endian number, the reading the
specification gives of the header fields.  The code does not compute it;
`headerDWORD` is what the code computes. -/
def littleEndian : List BYTE → Nat
  | [] => 0
  | b :: bs => b.val + 256 * littleEndian bs

/-- The three buffers `ValidateCompiledShaders` reads from `m_shaderCompiler`. -/
structure ShaderBytecode where
  rayGenBytecode : List BYTE
  missBytecode : List BYTE
  closestHitBytecode : List BYTE

/-- `ValidateCompiledShaders()`. -/
def ValidateCompiledShaders (m_shaderCompiler : ShaderBytecode) : Bool :=
  let rayGenBytecode := m_shaderCompiler.rayGenBytecode
  let missBytecode := m_shaderCompiler.missBytecode
  let closestHitBytecode := m_shaderCompiler.closestHitBytecode
  if rayGenBytecode.isEmpty then false
  else if missBytecode.isEmpty then false
  else if closestHitBytecode.isEmpty then false
  else
    let ok := true
    let ok := ok && validateDXILContainer rayGenBytecode
    let ok := ok && validateDXILContainer missBytecode
    let ok := ok && validateDXILContainer closestHitBytecode
    if !ok then false else true

/-- The read `partHeader[0]` of `validateDXIL`, where `partHeader` is the buffer
from byte `off` on seen as an array of little-endian `DWORD`s; the caller reads
inside the buffer. -/
def readDWORD (bc : List BYTE) (off : Nat) : Nat :=
  (bc.getD off 0).val + 256 * (bc.getD (off + 1) 0).val +
    65536 * (bc.getD (off + 2) 0).val + 16777216 * (bc.getD (off + 3) 0).val

/-- The lambda `validateDXIL` of `CCompiler::ValidateShaderBytecode`; its
argument `shaderType` only chooses the log line. -/
def validateDXIL (bytecode : List BYTE) : Bool :=
  if bytecode.length < 32 then false
  else
    let signature := headerDWORD bytecode 0
    let containerSize := headerDWORD bytecode 6
    let partCount := headerDWORD bytecode 7
    if signature ≠ 0x43425844 then false
    else if containerSize ≠ bytecode.length then false
    else if partCount = 0 ∨ partCount > 16 then false
    else if bytecode.length ≥ 32 + partCount * 4 then
      let foundDXIL :=
        (List.range partCount).foldl
          (fun foundDXIL i =>
            let partOffset := headerDWORD bytecode (8 + i)
            if partOffset ≥ bytecode.length - 8 then foundDXIL
            else
              let partFourCC := readDWORD bytecode partOffset
              if partFourCC = 0x4C495844 then true else foundDXIL)
          false
      if !foundDXIL then false else true
    else false

/-- The members of `CCompiler` that hold the three shaders. -/
structure CCompiler where
  m_rayGenShaderBytecode : List BYTE := []
  m_missShaderBytecode : List BYTE := []
  m_closestHitShaderBytecode : List BYTE := []
  m_rayGenShaderSize : Nat := 0
  m_missShaderSize : Nat := 0
  m_closestHitShaderSize : Nat := 0
  deriving DecidableEq

namespace CCompiler

/-- The getters `GetRayGenShaderBytecode`, `GetMissShaderBytecode` and
`GetClosestHitShaderBytecode`, through which `CD3D_RT` reads the buffers. -/
def getBytecode (c : CCompiler) : ShaderBytecode :=
  { rayGenBytecode := c.m_rayGenShaderBytecode
    missBytecode := c.m_missShaderBytecode
    closestHitBytecode := c.m_closestHitShaderBytecode }

/-- `CCompiler::ValidateShaderBytecode()`. -/
def ValidateShaderBytecode (c : CCompiler) : Bool :=
  if c.m_rayGenShaderBytecode.isEmpty then false
  else if c.m_missShaderBytecode.isEmpty then false
  else if c.m_closestHitShaderBytecode.isEmpty then false
  else
    let allValid := true
    let allValid := allValid && validateDXIL c.m_rayGenShaderBytecode
    let allValid := allValid && validateDXIL c.m_missShaderBytecode
    let allValid := allValid && validateDXIL c.m_closestHitShaderBytecode
    allValid

/-- `CCompiler::CreateShaderBytecode()`. -/
def CreateShaderBytecode (c : CCompiler) : CCompiler :=
  { c with
    m_rayGenShaderSize := c.m_rayGenShaderBytecode.length
    m_missShaderSize := c.m_missShaderBytecode.length
    m_closestHitShaderSize := c.m_closestHitShaderBytecode.length }

/-- The four bytes `memcpy` writes for a `UINT32`, low byte first. -/
def bytesOfUINT32 (x : Nat) : List BYTE :=
  [Fin.ofNat (x % 256), Fin.ofNat (x / 256 % 256), Fin.ofNat (x / 65536 % 256),
    Fin.ofNat (x / 16777216 % 256)]

/-- The array `minimalDXILCode` of `createDXILContainer`. -/
def minimalDXILCode : List BYTE :=
  [0x42, 0x43, 0xC0, 0xDE, 0x21, 0x0C, 0x00, 0x00, 0x02, 0x00, 0x00, 0x00,
    0x01, 0x00, 0x00, 0x00, 0x3C, 0x00, 0x00, 0x00] ++ List.replicate 60 0

/-- The loop `typeHash = typeHash * 31 + static_cast<UINT32>(*p)` over the
characters of `shaderType`, in 32-bit arithmetic; the three names the code
passes are ASCII. -/
def typeHash (shaderType : String) : Nat :=
  shaderType.toList.foldl (fun typeHash p => (typeHash * 31 + p.toNat) % 4294967296) 0

/-- The lambda `createDXILContainer` of `CreatePlaceholderShaders`.  The code
grows the vector by `resize` and fills each new tail with `memcpy`; the result
is the concatenation of the pieces written. -/
def createDXILContainer (shaderType : String) : List BYTE :=
  let DXIL_FOURCC_DXBC := 0x43425844
  let DXIL_FOURCC_DXIL := 0x4C495844
  let DXIL_FOURCC_HASH := 0x48534148
  let dxilPartSize := minimalDXILCode.length
  let totalPartCount := 2
  let headerSize := 32
  let partOffsetsSize := totalPartCount * 4
  let dxilHeaderSize := 8
  let hashHeaderSize := 8
  let totalSize :=
    headerSize + partOffsetsSize + dxilHeaderSize + dxilPartSize + hashHeaderSize + 16
  let typeHash := typeHash shaderType
  let notTypeHash := 4294967295 - typeHash
  let hash :=
    bytesOfUINT32 typeHash ++ bytesOfUINT32 notTypeHash ++
      bytesOfUINT32 (typeHash ^^^ 0xABCDEF00) ++ bytesOfUINT32 (notTypeHash ^^^ 0x12345678)
  let containerHeader :=
    bytesOfUINT32 DXIL_FOURCC_DXBC ++ hash ++ bytesOfUINT32 1 ++ bytesOfUINT32 totalSize ++
      bytesOfUINT32 totalPartCount
  let currentOffset := headerSize + partOffsetsSize
  let dxilPartOffset := currentOffset
  let currentOffset := currentOffset + (dxilHeaderSize + dxilPartSize)
  let hashPartOffset := currentOffset
  let partOffsets := bytesOfUINT32 dxilPartOffset ++ bytesOfUINT32 hashPartOffset
  let dxilHeader := bytesOfUINT32 DXIL_FOURCC_DXIL ++ bytesOfUINT32 dxilPartSize
  let hashHeader := bytesOfUINT32 DXIL_FOURCC_HASH ++ bytesOfUINT32 16
  containerHeader ++ partOffsets ++ dxilHeader ++ minimalDXILCode ++ hashHeader ++ hash

/-- `CCompiler::CreatePlaceholderShaders()`. -/
def CreatePlaceholderShaders (c : CCompiler) : CCompiler :=
  let c :=
    if c.m_rayGenShaderBytecode.isEmpty then
      { c with m_rayGenShaderBytecode := createDXILContainer "RayGeneration" }
    else c
  let c :=
    if c.m_missShaderBytecode.isEmpty then
      { c with m_missShaderBytecode := createDXILContainer "Miss" }
    else c
  if c.m_closestHitShaderBytecode.isEmpty then
    { c with m_closestHitShaderBytecode := createDXILContainer "ClosestHit" }
  else c

/-- What the shader compiler and the file system do in one call of
`CompileRayTracingShaders`: the result of `CompileRayTracingShadersFromSource`
and of `LoadPrecompiledShaders`, with the buffers each leaves behind. -/
structure CompileEnv where
  compileFromSource : CCompiler → Bool × CCompiler
  loadPrecompiled : CCompiler → Bool × CCompiler

/-- `CCompiler::CompileRayTracingShaders()`: the result and the compiler
afterwards. -/
def CompileRayTracingShaders (c : CCompiler) (env : CompileEnv) : Bool × CCompiler :=
  let compiled := env.compileFromSource c
  let compiledFromSource := compiled.1
  let c := compiled.2
  let c :=
    if !compiledFromSource then
      let loaded := env.loadPrecompiled c
      let precompiledLoaded := loaded.1
      let c := loaded.2
      if !precompiledLoaded then c.CreatePlaceholderShaders else c
    else c
  if !c.ValidateShaderBytecode then (false, c)
  else (true, c.CreateShaderBytecode)

end CCompiler

/-! ## Selector -/

section Selector

variable {F : Type} [FloatOps F]

/-- One step of the stable sort: `a`, which stood before every element of the
sorted list, goes in front of the first element that is not less than it. -/
def insertStable {α : Type} (less : α → α → Bool) (a : α) : List α → List α
  | [] => [a]
  | b :: l => if less b a then b :: insertStable less a l else a :: b :: l

/-- The library call `std::stable_sort(first, last, less)`: the elements in
non-descending order of `less`, equivalent elements in their original order.
The library asks for a comparator that is a strict weak order on the elements;
the theorems about the sort assume as much. -/
def stable_sort {α : Type} (less : α → α → Bool) : List α → List α
  | [] => []
  | a :: l => insertStable less a (stable_sort less l)

/-- The quantity the comparator of `RT_SortKeepNearest` computes for a record:
`1e30f` for an empty vertex list, else the squared length of
`vertices[0] - camPos`. -/
def sortDistance (camPos : Vec3 F) (a : SafeGeometryData F) : F :=
  match a.vertices with
  | [] => FloatOps.c1e30
  | v0 :: _ => (v0.sub camPos).GetLengthSquared

/-- The distance of a record in the words of the specification: the squared
distance from the viewpoint to the nearest vertex of the record (`1e30f` for a
record without vertices).  The code does not compute it; `sortDistance` is what
the code computes. -/
def nearestVertexDistance (camPos : Vec3 F) (a : SafeGeometryData F) : F :=
  a.vertices.foldl
    (fun best v =>
      if FloatOps.lt (v.sub camPos).GetLengthSquared best then (v.sub camPos).GetLengthSquared
      else best)
    FloatOps.c1e30

/-- Two records are equivalent for the comparator of `RT_SortKeepNearest`:
neither is less than the other. -/
def sameDistance (camPos : Vec3 F) (a b : SafeGeometryData F) : Bool :=
  !FloatOps.lt (sortDistance camPos a) (sortDistance camPos b) &&
    !FloatOps.lt (sortDistance camPos b) (sortDistance camPos a)

/-- `RT_SortKeepNearest(geo, camPos, maxKeep)`: the value of `geo` afterwards. -/
def RT_SortKeepNearest (geo : List (SafeGeometryData F)) (camPos : Vec3 F) (maxKeep : Nat) :
    List (SafeGeometryData F) :=
  let geo := stable_sort
    (fun a b => FloatOps.lt (sortDistance camPos a) (sortDistance camPos b)) geo
  if geo.length > maxKeep then geo.take maxKeep else geo

/-- The part of `CCamera` the selector reads. -/
structure CCamera (F : Type) where
  position : Vec3 F
  viewdir : Vec3 F

/-- `RT_InsertCameraDebugQuad(geo, cam)`: the value of `geo` afterwards. -/
def RT_InsertCameraDebugQuad (geo : List (SafeGeometryData F)) (cam : CCamera F) :
    List (SafeGeometryData F) :=
  let c0 : F := FloatOps.c0
  let c1 : F := FloatOps.c1
  let camPos := cam.position
  let fwd := cam.viewdir.GetNormalizedSafe ⟨c0, c1, c0⟩
  let right := (fwd.Cross ⟨c0, c0, c1⟩).GetNormalizedSafe ⟨c1, c0, c0⟩
  let up := (right.Cross fwd).GetNormalizedSafe ⟨c0, c0, c1⟩
  let half : F := FloatOps.c25
  let dist : F := FloatOps.c5
  let center := camPos.add (fwd.scale dist)
  let q : SafeGeometryData F :=
    { debugName := "DebugQuadNearCam"
      vertices :=
        [ center.add ((right.neg.scale half).sub (up.scale half)),
          center.add ((right.scale half).sub (up.scale half)),
          center.add ((right.scale half).add (up.scale half)),
          center.add ((right.neg.scale half).add (up.scale half)) ]
      indices := [0, 1, 2, 0, 2, 3]
      worldTransform := Matrix34.CreateIdentity }
  if q.vertices.length ≥ 3 ∧ q.indices.length = 6 then geo ++ [q] else geo

/-- The loop of `CreateLevelGeometryBLASAndTLAS` that sets `hasNear`: some
record has a first vertex at squared distance below `200.0f * 200.0f` from the
camera. -/
def hasNearGeometry (levelGeometry : List (SafeGeometryData F)) (camPos : Vec3 F) : Bool :=
  levelGeometry.any fun g =>
    match g.vertices with
    | [] => false
    | v0 :: _ =>
      FloatOps.lt (v0.sub camPos).GetLengthSquared
        ((FloatOps.c200 : F) * (FloatOps.c200 : F))

/-- `RT_AppendTerrainPatch(outGeometry)`.  The grid mesh it generates around
the camera from the engine's terrain elevation is the argument `mesh` (`none`
when `gEnv` or `gEnv->pSystem` is missing); it is appended when it passes
`ValidateMeshData`. -/
def RT_AppendTerrainPatch (outGeometry : List (SafeGeometryData F))
    (mesh : Option (SafeGeometryData F)) : List (SafeGeometryData F) :=
  match mesh with
  | none => outGeometry
  | some mesh =>
    match ValidateMeshData mesh "" with
    | some (true, _) => outGeometry ++ [mesh]
    | _ => outGeometry

/-- The selection stage of `CreateLevelGeometryBLASAndTLAS`, from the
extraction to the call of `RT_SortKeepNearest`: `none` is the early return
`E_FAIL` on an empty list, else the list handed to the BLAS build loop. -/
def selectLevelGeometry (extracted : List (SafeGeometryData F))
    (terrain : Option (SafeGeometryData F)) (cam : CCamera F) :
    Option (List (SafeGeometryData F)) :=
  let levelGeometry := extracted
  let levelGeometry := RT_AppendTerrainPatch levelGeometry terrain
  if levelGeometry.isEmpty then none
  else
    let camPos := cam.position
    let hasNear := hasNearGeometry levelGeometry camPos
    let levelGeometry :=
      if !hasNear then RT_InsertCameraDebugQuad levelGeometry cam else levelGeometry
    some (RT_SortKeepNearest levelGeometry camPos 8)

end Selector

/-! ## State of the stage -/

/-- Pointers; `0` is `nullptr`. -/
abbrev Ptr := Nat

/-- `HRESULT` values. -/
abbrev HRESULT := Int

def S_OK : HRESULT := 0

def S_FALSE : HRESULT := 1

def E_FAIL : HRESULT := -2147467259

def E_PENDING : HRESULT := -2147483638

def E_INVALIDARG : HRESULT := -2147024809

/-- The macro `FAILED(hr)`. -/
def FAILED (hr : HRESULT) : Bool := decide (hr < 0)

/-- The macro `SUCCEEDED(hr)`. -/
def SUCCEEDED (hr : HRESULT) : Bool := decide (0 ≤ hr)

def DXGI_FORMAT_R32G32B32_FLOAT : Nat := 6

def DXGI_FORMAT_R32_UINT : Nat := 42

def DXGI_FORMAT_R16_UINT : Nat := 57

def D3D12_RESOURCE_STATE_COMMON : Nat := 0

def D3D12_RESOURCE_STATE_UNORDERED_ACCESS : Nat := 8

def D3D12_RESOURCE_STATE_NON_PIXEL_SHADER_RESOURCE : Nat := 64

def D3D12_RESOURCE_STATE_PIXEL_SHADER_RESOURCE : Nat := 128

/-- `RT_DeferredRelease`. -/
structure RT_DeferredRelease where
  fenceValue : Nat := 0
  resources : List Ptr := []
  deriving DecidableEq, Repr

/-- `CD3D_RT::RT_FrameContext`. -/
structure RT_FrameContext where
  pAllocator : Ptr := 0
  fenceValue : Nat := 0
  usedOnce : Bool := false
  deriving DecidableEq, Repr

/-- `CD3D_RT::RetiredAllocator`. -/
structure RetiredAllocator where
  pAlloc : Ptr := 0
  fenceValue : Nat := 0
  deriving DecidableEq, Repr

/-- `RT_RetiredHeap`. -/
structure RT_RetiredHeap where
  heap : Ptr
  fence : Nat
  deriving DecidableEq, Repr

/-- `CD3D_RT::AccelerationStructureBuffers`. -/
structure AccelerationStructureBuffers where
  pScratch : Ptr := 0
  pResult : Ptr := 0
  pInstanceDesc : Ptr := 0
  resultVA : Nat := 0
  deriving DecidableEq, Repr

/-- `CD3D_RT::UploadBufferKeepAlive`. -/
structure UploadBufferKeepAlive where
  pVertexBuffer : Ptr := 0
  pIndexBuffer : Ptr := 0
  pVertexUpload : Ptr := 0
  pIndexUpload : Ptr := 0
  debugName : String := ""
  deriving DecidableEq, Repr

/-- `D3D12_RAYTRACING_INSTANCE_DESC`, the transform as its twelve entries. -/
structure InstanceDesc where
  Transform : List Nat
  InstanceID : Nat
  InstanceMask : Nat
  InstanceContributionToHitGroupIndex : Nat
  Flags : Nat
  AccelerationStructure : Nat
  deriving DecidableEq, Repr

/-- Calls that leave the process, as recorded in the trace. -/
inductive Event where
  /-- `r->Release()` on a resource, outside the drain of the deferred queue,
  with the completed value of the frame fence at that moment. -/
  | release (r : Ptr) (completed : Nat)
  /-- `Release` of a resource held by a deferred-queue entry with key `key`,
  called when the completed value read for the drain was `done`. -/
  | deferredRelease (r : Ptr) (key : Nat) (done : Nat)
  /-- `ctx.pAllocator->Reset()` on frame context `slot`, with the fence value
  stamped on the context and the completed value of the frame fence. -/
  | allocatorReset (slot : Nat) (fenceValue : Nat) (completed : Nat)
  /-- `Release` of a command allocator, a descriptor heap, a pipeline state
  object, a fence or the device. -/
  | objectRelease (p : Ptr)
  /-- `m_pCommandQueue->Signal(m_frameFence, value)`. -/
  | signalFrameFence (value : Nat)
  /-- `m_pCommandQueue->Signal(fence, value)` on a fence local to a build. -/
  | signalBuildFence (value : Nat)
  /-- `BuildRaytracingAccelerationStructure` recorded on a command list. -/
  | buildAS (cmdList : Ptr) (topLevel : Bool) (numDescs : Nat) (dest : Nat)
  /-- The instance array written by `BuildTopLevelAS`. -/
  | instanceDescs (descs : List InstanceDesc)
  /-- `m_pCommandQueue->ExecuteCommandLists` of one list. -/
  | executeCommandLists (cmdList : Ptr)
  /-- The transition barrier `RT_TransitionTracked` records on a command list. -/
  | transition (cmdList : Ptr) (res : Ptr) (StateBefore StateAfter : Nat)
  /-- The copy of the frame constants into the mapped constants buffer, with the
  fields `ScreenWidth` and `ScreenHeight` of the copy. -/
  | uploadConstants (ScreenWidth ScreenHeight : Nat)
  /-- `DispatchRays` recorded on a command list, with the three extents of its
  descriptor. -/
  | dispatchRays (cmdList : Ptr) (Width Height Depth : Nat)
  /-- `DrawInstanced(3, 1, 0, 0)`, the fullscreen draw of the compose pass,
  recorded on a command list. -/
  | drawInstanced (cmdList : Ptr)
  deriving DecidableEq, Repr

/-- The ring size `kRT_FrameContextCount`. -/
def kRT_FrameContextCount : Nat := 15

/-- The members of `CD3D_RT` and the file-level statics the embedded functions
use, with the GPU side of the frame fence and the trace. -/
structure CD3D_RT where
  m_pDevice : Ptr := 0
  m_pCommandQueue : Ptr := 0
  m_frameFence : Ptr := 0
  m_lastSignaledFence : Nat := 0
  m_lastDispatchFence : Nat := 0
  m_lastASBuildFence : Nat := 0
  m_frameIndex : Nat := 0
  m_frameRecordedWork : Bool := false
  m_frameCtx : Fin 15 → RT_FrameContext := fun _ => {}
  m_deferred : List RT_DeferredRelease := []
  m_retiredAllocators : List RetiredAllocator := []
  g_RT_RetiredHeaps : List RT_RetiredHeap := []
  g_RT_TempUploads : List Ptr := []
  m_pTopLevelAS : Ptr := 0
  m_tlasBuffers : AccelerationStructureBuffers := {}
  m_blasBuffers : AccelerationStructureBuffers := {}
  m_sceneBLAS : List AccelerationStructureBuffers := []
  m_sceneBLASResults : List Ptr := []
  m_keepAliveUploads : List UploadBufferKeepAlive := []
  /-- The static `frameCounter` of `UpdateAccelerationStructures` (`uint32_t`). -/
  frameCounter : Nat := 0
  /-- The statics of `Shutdown`. -/
  s_shutdownInProgress : Bool := false
  s_shutdownCompleted : Bool := false
  m_pRaytracingPSO : Ptr := 0
  m_shadersCompiled : Bool := false
  m_pDescriptorHeap : Ptr := 0
  m_pRaytracingOutput : Ptr := 0
  m_pReflectionOutput : Ptr := 0
  m_pConstantsBuffer : Ptr := 0
  m_outputWidth : Nat := 0
  m_outputHeight : Nat := 0
  /-- The file-level statics for the ambient-occlusion output. -/
  g_pRT_AOOutput : Ptr := 0
  g_RT_AOOutputOwned : Bool := false
  /-- The tracked resource states of the three outputs
  (`D3D12_RESOURCE_STATES`). -/
  g_RT_GIState : Nat := 0
  g_RT_ReflState : Nat := 0
  g_RT_AOState : Nat := 0
  /-- The statics of `Execute` (`s_executeCallCount` is a `uint32_t`). -/
  s_deviceStabilityFailure : Bool := false
  s_executeCallCount : Nat := 0
  s_wasLevelLoading : Bool := false
  s_geometryBuilt : Bool := false
  /-- What `m_frameFence->GetCompletedValue()` returned last. -/
  fenceCompleted : Nat := 0
  /-- Progress the GPU makes up to each coming read of, or wait on, the fence. -/
  gpuTape : List Nat := []
  /-- The calls made so far, oldest first. -/
  trace : List Event := []

namespace CD3D_RT

/-- Append an event to the trace. -/
def emit (s : CD3D_RT) (e : Event) : CD3D_RT := { s with trace := s.trace ++ [e] }

/-- Let the GPU run up to the next observation of the frame fence: the fence
advances by the head of the tape (by nothing once the tape is used up). -/
def advance (s : CD3D_RT) : CD3D_RT :=
  { s with fenceCompleted := s.fenceCompleted + s.gpuTape.headD 0, gpuTape := s.gpuTape.tail }

/-- `m_frameFence->GetCompletedValue()`. -/
def GetCompletedValue (s : CD3D_RT) : Nat × CD3D_RT :=
  let s := s.advance
  (s.fenceCompleted, s)

/-- `SetEventOnCompletion` followed by `WaitForSingleObject` with a timeout:
the wait ends when the fence reaches the value or when the time is up. -/
def WaitForSingleObject (s : CD3D_RT) : CD3D_RT := s.advance

/-- `r->Release()` on a resource. -/
def Release (s : CD3D_RT) (r : Ptr) : CD3D_RT := s.emit (Event.release r s.fenceCompleted)

/-- The macro `SAFE_RELEASE(p)` on a resource. -/
def SAFE_RELEASE (s : CD3D_RT) (r : Ptr) : CD3D_RT := if r ≠ 0 then s.Release r else s

/-- The state with the members cleared that releases, waits and reclaim passes
write (the deferred queue, the keep-alive and retired lists, the GPU side and
the trace): two states with the same `core` agree on every other member. -/
def core (s : CD3D_RT) : CD3D_RT :=
  { s with
    m_deferred := []
    m_retiredAllocators := []
    g_RT_RetiredHeaps := []
    g_RT_TempUploads := []
    m_keepAliveUploads := []
    fenceCompleted := 0
    gpuTape := []
    trace := [] }

/-- An event that is no release out of the deferred queue, or is one made when
the completed value read for it had reached the key of its entry. -/
def keyReached (e : Event) : Prop :=
  ∀ r key done, e = Event.deferredRelease r key done → key ≤ done

/-- The trace of `s'` is the trace of `s` followed by events that satisfy `P`. -/
def TraceExt (P : Event → Prop) (s s' : CD3D_RT) : Prop :=
  ∃ l, s'.trace = s.trace ++ l ∧ ∀ e ∈ l, P e

/-- The deferred queue of `s'` is the one of `s` followed by further entries. -/
def DeferredExt (s s' : CD3D_RT) : Prop :=
  ∃ q, s'.m_deferred = s.m_deferred ++ q

/-- Between `s` and `s'` the resource `r` was handed to the release path:
`Release` was called on it (outside the drain of the queue) or an entry holding
it was appended to the deferred queue. -/
def HandedOver (r : Ptr) (s s' : CD3D_RT) : Prop :=
  ∃ added q, s'.trace = s.trace ++ added ∧ s'.m_deferred = s.m_deferred ++ q ∧
    ((∃ c, Event.release r c ∈ added) ∨ ∃ d ∈ q, r ∈ d.resources)

/-- The event records a bottom-level build. -/
def isBlasBuild : Event → Bool
  | Event.buildAS _ false _ _ => true
  | _ => false

/-- The number of instances of the top-level structure an event is about (the
length of the instance array written, the count handed to the build); `0` for
the other events. -/
def tlasInstances : Event → Nat
  | Event.buildAS _ true numDescs _ => numDescs
  | Event.instanceDescs descs => descs.length
  | _ => 0

/-- Between `s` and `s'` at most `k` bottom-level builds were recorded and
every top-level structure written or built has at most 8 instances. -/
def BuildsWithin (k : Nat) (s s' : CD3D_RT) : Prop :=
  ∃ added, s'.trace = s.trace ++ added ∧ added.countP isBlasBuild ≤ k ∧
    ∀ e ∈ added, tlasInstances e ≤ 8

/-- The destination address of the build, for an event that records a
bottom-level build. -/
def blasDest : Event → Option Nat
  | Event.buildAS _ false _ dest => some dest
  | _ => none

/-- The value an event hands to a queue `Signal` out of the counter
`m_lastSignaledFence`, if it is such a call. -/
def signalValue : Event → Option Nat
  | Event.signalFrameFence value => some value
  | Event.signalBuildFence value => some value
  | _ => none

/-- The values handed to `Signal` out of the counter by a list of events, in
order. -/
def signals (l : List Event) : List Nat := l.filterMap signalValue

/-- A deferred-queue entry that holds exactly one resource, a non-null one. -/
def holdsOne (d : RT_DeferredRelease) : Prop := d.resources.length = 1 ∧ 0 ∉ d.resources

instance (d : RT_DeferredRelease) : Decidable (holdsOne d) := by
  unfold holdsOne
  infer_instance

/-- Between `s` and `s'` the deferred queue kept the property `Q` of its
entries, the counter `m_lastSignaledFence` did not go down, and the values
handed to `Signal` in between are strictly ascending, above the counter of `s`
and not above the counter of `s'`. -/
def Orderly (Q : RT_DeferredRelease → Prop) (s s' : CD3D_RT) : Prop :=
  ((∀ d ∈ s.m_deferred, Q d) → ∀ d ∈ s'.m_deferred, Q d) ∧
  s.m_lastSignaledFence ≤ s'.m_lastSignaledFence ∧
  ∃ added, s'.trace = s.trace ++ added ∧ (signals added).Pairwise (· < ·) ∧
    ∀ v ∈ signals added, s.m_lastSignaledFence < v ∧ v ≤ s'.m_lastSignaledFence

/-- Between `s` and `s'` the vector `m_sceneBLAS` grew by structures with
non-zero result addresses, the destinations of the bottom-level builds recorded
in between are these addresses in the same order, and no instance array was
written. -/
def BuiltInOrder (s s' : CD3D_RT) : Prop :=
  ∃ added built, s'.trace = s.trace ++ added ∧ s'.m_sceneBLAS = s.m_sceneBLAS ++ built ∧
    added.filterMap blasDest = built.map (fun b => b.resultVA) ∧
    (∀ b ∈ built, b.resultVA ≠ 0) ∧ ∀ descs, Event.instanceDescs descs ∉ added

/-- The members the end of a frame goes by and writes: the frame fence, the
three fence counters, the frame index, the flag for recorded work and the
frame contexts, with `m_pTopLevelAS` and the static `s_geometryBuilt`. -/
def bookkeeping (s : CD3D_RT) :
    Ptr × Nat × Nat × Nat × Nat × Bool × (Fin 15 → RT_FrameContext) × Ptr × Bool :=
  (s.m_frameFence, s.m_lastSignaledFence, s.m_lastDispatchFence, s.m_lastASBuildFence,
    s.m_frameIndex, s.m_frameRecordedWork, s.m_frameCtx, s.m_pTopLevelAS, s.s_geometryBuilt)

/-- The event is a `Release` call on a resource or on an object. -/
def isRelease (e : Event) : Prop :=
  (∃ r completed, e = Event.release r completed) ∨ ∃ p, e = Event.objectRelease p

/-- Between `s` and `s'` the bookkeeping did not change and the only calls made
were `Release` calls. -/
def Quiet (s s' : CD3D_RT) : Prop :=
  s'.bookkeeping = s.bookkeeping ∧ TraceExt isRelease s s'

/-- The three fence counters are in order: neither `m_lastDispatchFence` nor
`m_lastASBuildFence` nor the stamp of any frame context is above
`m_lastSignaledFence`. -/
def fencesInOrder (s : CD3D_RT) : Prop :=
  s.m_lastDispatchFence ≤ s.m_lastSignaledFence ∧
  s.m_lastASBuildFence ≤ s.m_lastSignaledFence ∧
  ∀ i, (s.m_frameCtx i).fenceValue ≤ s.m_lastSignaledFence

/-- Between `s` and `s'` only a build touched the fence bookkeeping: frame
fence, `m_lastDispatchFence` and the frame contexts are the same,
`m_lastSignaledFence` did not go down, and `m_lastASBuildFence` is the same or
not above the new `m_lastSignaledFence`. -/
def Fenced (s s' : CD3D_RT) : Prop :=
  s'.m_frameFence = s.m_frameFence ∧
  s'.m_lastDispatchFence = s.m_lastDispatchFence ∧
  s'.m_frameCtx = s.m_frameCtx ∧
  s.m_lastSignaledFence ≤ s'.m_lastSignaledFence ∧
  (s'.m_lastASBuildFence = s.m_lastASBuildFence ∨
    s'.m_lastASBuildFence ≤ s'.m_lastSignaledFence)

/-- The transition barriers of a list of events fit the states of the
resources: each barrier has as `StateBefore` the state its resource is in, that
is the `StateAfter` of the barrier recorded before it for the same resource, or
the state `state` gives when there is none.  This follows the wording of the
specification; the code computes no such check. -/
def barriersConsistent (state : Ptr → Nat) : List Event → Bool
  | [] => true
  | Event.transition _ res StateBefore StateAfter :: rest =>
    decide (state res = StateBefore) &&
      barriersConsistent (Function.update state res StateAfter) rest
  | _ :: rest => barriersConsistent state rest

/-- The frame context `m_frameCtx[m_frameIndex % kRT_FrameContextCount]`. -/
def ctxIndex (s : CD3D_RT) : Fin 15 := ⟨s.m_frameIndex % 15, Nat.mod_lt _ (by decide)⟩

end CD3D_RT

namespace CD3D_RT

/-- The assignment to `m_tlasBuffers` made through the reference parameter of
`BuildTopLevelAS`. -/
def setTlasBuffers (s : CD3D_RT) (b : AccelerationStructureBuffers) : CD3D_RT :=
  { s with m_tlasBuffers := b }

/-- The assignment to `m_blasBuffers` made through the reference parameter of
`BuildBottomLevelAS`. -/
def setBlasBuffers (s : CD3D_RT) (b : AccelerationStructureBuffers) : CD3D_RT :=
  { s with m_blasBuffers := b }

/-- The assignment to `m_sceneBLAS` (`clear()`, `swap`). -/
def setSceneBLAS (s : CD3D_RT) (l : List AccelerationStructureBuffers) : CD3D_RT :=
  { s with m_sceneBLAS := l }

/-- The assignment to `m_sceneBLASResults` (`clear()`, `swap`, writes through
references to its elements). -/
def setSceneBLASResults (s : CD3D_RT) (l : List Ptr) : CD3D_RT :=
  { s with m_sceneBLASResults := l }

/-- The assignment `m_pTopLevelAS = p`. -/
def setTopLevelAS (s : CD3D_RT) (p : Ptr) : CD3D_RT := { s with m_pTopLevelAS := p }

/-- The assignment `m_pCommandQueue = q`. -/
def setCommandQueue (s : CD3D_RT) (q : Ptr) : CD3D_RT := { s with m_pCommandQueue := q }

/-- The assignment `m_frameRecordedWork = v`. -/
def setFrameRecordedWork (s : CD3D_RT) (v : Bool) : CD3D_RT := { s with m_frameRecordedWork := v }

/-- The assignment `m_lastDispatchFence = v`. -/
def setLastDispatchFence (s : CD3D_RT) (v : Nat) : CD3D_RT := { s with m_lastDispatchFence := v }

/-- The assignment `m_pRaytracingPSO = p`. -/
def setRaytracingPSO (s : CD3D_RT) (p : Ptr) : CD3D_RT := { s with m_pRaytracingPSO := p }

/-- The assignment `m_shadersCompiled = v`. -/
def setShadersCompiled (s : CD3D_RT) (v : Bool) : CD3D_RT := { s with m_shadersCompiled := v }

/-- The assignment `m_pDescriptorHeap = p`. -/
def setDescriptorHeap (s : CD3D_RT) (p : Ptr) : CD3D_RT := { s with m_pDescriptorHeap := p }

/-- The assignment `m_pRaytracingOutput = p`. -/
def setRaytracingOutput (s : CD3D_RT) (p : Ptr) : CD3D_RT := { s with m_pRaytracingOutput := p }

/-- The assignment `m_pReflectionOutput = p`. -/
def setReflectionOutput (s : CD3D_RT) (p : Ptr) : CD3D_RT := { s with m_pReflectionOutput := p }

/-- The assignment `m_pConstantsBuffer = p`. -/
def setConstantsBuffer (s : CD3D_RT) (p : Ptr) : CD3D_RT := { s with m_pConstantsBuffer := p }

/-- The assignments `m_outputWidth = w; m_outputHeight = h;`. -/
def setOutputSize (s : CD3D_RT) (w h : Nat) : CD3D_RT :=
  { s with m_outputWidth := w, m_outputHeight := h }

/-- The assignments `g_pRT_AOOutput = p; g_RT_AOOutputOwned = owned;`. -/
def setAOOutput (s : CD3D_RT) (p : Ptr) (owned : Bool) : CD3D_RT :=
  { s with g_pRT_AOOutput := p, g_RT_AOOutputOwned := owned }

/-- The assignment `g_RT_GIState = v`. -/
def setGIState (s : CD3D_RT) (v : Nat) : CD3D_RT := { s with g_RT_GIState := v }

/-- The assignment `g_RT_ReflState = v`. -/
def setReflState (s : CD3D_RT) (v : Nat) : CD3D_RT := { s with g_RT_ReflState := v }

/-- The assignment `g_RT_AOState = v`. -/
def setAOState (s : CD3D_RT) (v : Nat) : CD3D_RT := { s with g_RT_AOState := v }

/-- The assignment `s_deviceStabilityFailure = v`. -/
def setDeviceStabilityFailure (s : CD3D_RT) (v : Bool) : CD3D_RT :=
  { s with s_deviceStabilityFailure := v }

/-- The assignment to `s_executeCallCount`. -/
def setExecuteCallCount (s : CD3D_RT) (v : Nat) : CD3D_RT := { s with s_executeCallCount := v }

/-- The assignment `s_wasLevelLoading = v`. -/
def setWasLevelLoading (s : CD3D_RT) (v : Bool) : CD3D_RT := { s with s_wasLevelLoading := v }

/-- The assignment `s_geometryBuilt = v`. -/
def setGeometryBuilt (s : CD3D_RT) (v : Bool) : CD3D_RT := { s with s_geometryBuilt := v }

end CD3D_RT

/-! ## Deferred release and the frame-context ring -/

namespace CD3D_RT

/-- The opening block of `RT_SafeRelease`: when an acceleration-structure build
was fenced, read the frame fence and wait (up to ten seconds) if it is behind
`m_lastASBuildFence`. -/
def waitForLastASBuild (s : CD3D_RT) : CD3D_RT :=
  if s.m_frameFence ≠ 0 ∧ s.m_lastASBuildFence ≠ 0 then
    let (completedNow, s) := s.GetCompletedValue
    if completedNow < s.m_lastASBuildFence then s.WaitForSingleObject else s
  else s

/-- The expression
`std::max(std::max(m_lastDispatchFence, m_lastSignaledFence), m_lastASBuildFence)`. -/
def maxFence (s : CD3D_RT) : Nat :=
  max (max s.m_lastDispatchFence s.m_lastSignaledFence) s.m_lastASBuildFence

/-- `RT_SafeRelease(r, tag)`: the state afterwards and the value of the
caller's pointer `r` afterwards.  `RT_WaitForGpuIdle` waits on a fence of its
own and leaves the state as it is. -/
def RT_SafeRelease (s : CD3D_RT) (r : Ptr) : CD3D_RT × Ptr :=
  if r = 0 then (s, r)
  else
    let s := s.waitForLastASBuild
    let protectFence := s.maxFence
    let protectFence := if s.m_frameFence = 0 then 0 else protectFence
    let (canImmediate, s) :=
      if s.m_frameFence ≠ 0 ∧ protectFence ≠ 0 then
        let (completed, s) := s.GetCompletedValue
        (decide (completed ≥ protectFence), s)
      else if protectFence = 0 then (true, s)
      else (false, s)
    if canImmediate then (s.Release r, 0)
    else
      let deferFence := protectFence + 1
      let entry : RT_DeferredRelease := { fenceValue := deferFence, resources := [r] }
      let s := { s with m_deferred := s.m_deferred ++ [entry] }
      let (_, s) := s.GetCompletedValue
      (s, 0)

/-- `RT_DeferRelease(r)`. -/
def RT_DeferRelease (s : CD3D_RT) (r : Ptr) : CD3D_RT :=
  if r = 0 then s
  else
    let fenceForRelease := if s.m_lastSignaledFence ≠ 0 then s.m_lastSignaledFence else 1
    let deferred :=
      match s.m_deferred.getLast? with
      | some back =>
        if back.fenceValue ≠ fenceForRelease then
          s.m_deferred ++ [({ fenceValue := fenceForRelease } : RT_DeferredRelease)]
        else s.m_deferred
      | none => s.m_deferred ++ [({ fenceValue := fenceForRelease } : RT_DeferredRelease)]
    let deferred :=
      match deferred.getLast? with
      | some back => deferred.dropLast ++ [{ back with resources := back.resources ++ [r] }]
      | none => deferred
    { s with m_deferred := deferred }

/-- `RT_ReleaseASBuffers(b, tag)`: the state and the value of `b` afterwards. -/
def RT_ReleaseASBuffers (s : CD3D_RT) (b : AccelerationStructureBuffers) :
    CD3D_RT × AccelerationStructureBuffers :=
  let (s, b) :=
    if b.pScratch ≠ 0 then
      let (s, p) := s.RT_SafeRelease b.pScratch
      (s, { b with pScratch := p })
    else (s, b)
  let (s, b) :=
    if b.pResult ≠ 0 then
      let (s, p) := s.RT_SafeRelease b.pResult
      (s, { b with pResult := p })
    else (s, b)
  let (s, b) :=
    if b.pInstanceDesc ≠ 0 then
      let (s, p) := s.RT_SafeRelease b.pInstanceDesc
      (s, { b with pInstanceDesc := p })
    else (s, b)
  (s, { b with resultVA := 0 })

/-- `RT_ReleaseASBuffers` on every element of a vector, in order. -/
def releaseEachASBuffers (s : CD3D_RT) :
    List AccelerationStructureBuffers → CD3D_RT × List AccelerationStructureBuffers
  | [] => (s, [])
  | b :: rest =>
    let (s, b) := s.RT_ReleaseASBuffers b
    let (s, rest) := releaseEachASBuffers s rest
    (s, b :: rest)

/-- `RT_SafeRelease` on every element of a vector of pointers, in order (a
guard `if (r)` in front of the call changes nothing, the call returns at once
on a null pointer). -/
def safeReleaseEach (s : CD3D_RT) : List Ptr → CD3D_RT × List Ptr
  | [] => (s, [])
  | r :: rest =>
    let (s, r) := s.RT_SafeRelease r
    let (s, rest) := safeReleaseEach s rest
    (s, r :: rest)

/-- The body of the loop of `ClearKeepAliveUploads` for one element. -/
def releaseKeepAlive (s : CD3D_RT) (k : UploadBufferKeepAlive) : CD3D_RT :=
  let s := if k.pVertexBuffer ≠ 0 then (s.RT_SafeRelease k.pVertexBuffer).1 else s
  let s := if k.pIndexBuffer ≠ 0 then (s.RT_SafeRelease k.pIndexBuffer).1 else s
  let s := if k.pVertexUpload ≠ 0 then (s.RT_SafeRelease k.pVertexUpload).1 else s
  let s := if k.pIndexUpload ≠ 0 then (s.RT_SafeRelease k.pIndexUpload).1 else s
  s

/-- `ClearKeepAliveUploads()`. -/
def ClearKeepAliveUploads (s : CD3D_RT) : CD3D_RT :=
  let s := s.m_keepAliveUploads.foldl releaseKeepAlive s
  { s with m_keepAliveUploads := [] }

/-- The first loop of `RT_ReclaimRetiredAllocators`: the entries kept. -/
def reclaimAllocators (completed : Nat) :
    List RetiredAllocator → CD3D_RT → List RetiredAllocator × CD3D_RT
  | [], s => ([], s)
  | r :: rest, s =>
    if r.pAlloc = 0 then reclaimAllocators completed rest s
    else if r.fenceValue ≠ 0 ∧ completed ≥ r.fenceValue then
      reclaimAllocators completed rest (s.emit (Event.objectRelease r.pAlloc))
    else
      let (kept, s) := reclaimAllocators completed rest s
      (r :: kept, s)

/-- The second loop of `RT_ReclaimRetiredAllocators`: the entries kept. -/
def reclaimHeaps (done : Nat) : List RT_RetiredHeap → CD3D_RT → List RT_RetiredHeap × CD3D_RT
  | [], s => ([], s)
  | h :: rest, s =>
    if done ≥ h.fence then
      reclaimHeaps done rest (if h.heap ≠ 0 then s.emit (Event.objectRelease h.heap) else s)
    else
      let (kept, s) := reclaimHeaps done rest s
      (h :: kept, s)

/-- `RT_ReclaimRetiredAllocators()`. -/
def RT_ReclaimRetiredAllocators (s : CD3D_RT) : CD3D_RT :=
  let s :=
    if s.m_frameFence ≠ 0 ∧ !s.m_retiredAllocators.isEmpty then
      let (completed, s) := s.GetCompletedValue
      let (kept, s) := reclaimAllocators completed s.m_retiredAllocators s
      { s with m_retiredAllocators := kept }
    else s
  if s.m_frameFence ≠ 0 ∧ !s.g_RT_RetiredHeaps.isEmpty then
    let (done, s) := s.GetCompletedValue
    let (kept, s) := reclaimHeaps done s.g_RT_RetiredHeaps s
    { s with g_RT_RetiredHeaps := kept }
  else s

/-- What the device answers to `RT_InitFrameContexts`: the fence (`none` on a
failed `CreateFence`) and, per context, the allocator (`none` on failure). -/
structure InitFrameEnv where
  fence : Option Ptr
  allocators : Fin 15 → Option Ptr

/-- `RT_InitFrameContexts()`. -/
def RT_InitFrameContexts (s : CD3D_RT) (env : InitFrameEnv) : CD3D_RT :=
  if s.m_frameFence ≠ 0 then s
  else
    let s := { s with m_frameIndex := 0 }
    match env.fence with
    | none => s
    | some fence =>
      { s with
        m_frameFence := fence
        fenceCompleted := 0
        m_frameCtx := fun i =>
          match env.allocators i with
          | none => { s.m_frameCtx i with pAllocator := 0 }
          | some tmp => { s.m_frameCtx i with pAllocator := tmp } }

/-- What the device answers to `RT_BeginFrameAllocator`. -/
structure BeginFrameEnv where
  init : InitFrameEnv
  /-- `CreateCommandAllocator` for a context without allocator. -/
  createHr : HRESULT
  created : Ptr
  /-- `ctx.pAllocator->Reset()`. -/
  resetHr : HRESULT

/-- The block `if (ctx.fenceValue) { ... }` of `RT_BeginFrameAllocator`: read
the frame fence and, when it is behind the value stamped on the context, wait
on it for at most ten seconds.  Nothing is kept of the outcome of the wait. -/
def waitForFrameContext (s : CD3D_RT) (fenceValue : Nat) : CD3D_RT :=
  if fenceValue ≠ 0 then
    let read := if s.m_frameFence ≠ 0 then s.GetCompletedValue else (fenceValue, s)
    if read.2.m_frameFence ≠ 0 ∧ read.1 < fenceValue then read.2.WaitForSingleObject else read.2
  else s

/-- `RT_BeginFrameAllocator(ppAlloc)`: the value of `*ppAlloc` and the state
afterwards. -/
def RT_BeginFrameAllocator (s : CD3D_RT) (env : BeginFrameEnv) : Ptr × CD3D_RT :=
  if s.m_pDevice = 0 ∨ s.m_pCommandQueue = 0 then (0, s)
  else
    let s := if s.m_frameFence = 0 then s.RT_InitFrameContexts env.init else s
    let slot := s.ctxIndex
    let ctx := s.m_frameCtx slot
    if ctx.pAllocator = 0 then
      let ctx := { ctx with pAllocator := env.created }
      let s := { s with m_frameCtx := Function.update s.m_frameCtx slot ctx }
      if FAILED env.createHr ∨ ctx.pAllocator = 0 then (0, s)
      else (ctx.pAllocator, s)
    else
      let s := s.waitForFrameContext ctx.fenceValue
      let s := s.emit (Event.allocatorReset slot.val ctx.fenceValue s.fenceCompleted)
      let rhr := env.resetHr
      let ctx := if FAILED rhr then { ctx with fenceValue := 0 } else ctx
      let ctx := { ctx with usedOnce := false }
      let s := { s with m_frameCtx := Function.update s.m_frameCtx slot ctx }
      (ctx.pAllocator, s)

/-- The branch `if (m_frameRecordedWork)` of `RT_EndFrameAndSignal`: signal the
frame fence with `++m_lastSignaledFence` and stamp the context of this frame. -/
def signalAndStamp (s : CD3D_RT) : CD3D_RT :=
  let s := { s with m_lastSignaledFence := s.m_lastSignaledFence + 1 }
  let signalValue := s.m_lastSignaledFence
  let s := s.emit (Event.signalFrameFence signalValue)
  let slot := s.ctxIndex
  let ctx := s.m_frameCtx slot
  let s :=
    if ctx.pAllocator ≠ 0 then
      { s with
        m_frameCtx := Function.update s.m_frameCtx slot
          { ctx with fenceValue := signalValue, usedOnce := true } }
    else s
  { s with m_lastDispatchFence := signalValue }

/-- `RT_EndFrameAndSignal()`. -/
def RT_EndFrameAndSignal (s : CD3D_RT) : CD3D_RT :=
  if s.m_frameFence = 0 then
    { s with m_frameIndex := s.m_frameIndex + 1, m_frameRecordedWork := false }
  else
    let s := if s.m_frameRecordedWork then s.signalAndStamp else s
    let s := s.RT_ReclaimRetiredAllocators
    { s with m_frameRecordedWork := false, m_frameIndex := s.m_frameIndex + 1 }

/-- `RT_WaitForLastDispatch(reason)`. -/
def RT_WaitForLastDispatch (s : CD3D_RT) : CD3D_RT :=
  if s.m_frameFence = 0 ∨ s.m_lastDispatchFence = 0 then s
  else
    let needed := s.m_lastDispatchFence
    let (done, s) := s.GetCompletedValue
    if done ≥ needed then s else s.WaitForSingleObject

/-- `SAFE_RELEASE(fc.pAllocator)` for the contexts from `i` up. -/
def releaseFrameAllocators (s : CD3D_RT) : List (Fin 15) → CD3D_RT
  | [] => s
  | i :: rest =>
    let fc := s.m_frameCtx i
    let s :=
      if fc.pAllocator ≠ 0 then
        { s.emit (Event.objectRelease fc.pAllocator) with
          m_frameCtx := Function.update s.m_frameCtx i { fc with pAllocator := 0 } }
      else s
    releaseFrameAllocators s rest

/-- `RT_ShutdownFrameContexts()`.  The first component is `true` when the call
`m_pCommandQueue->Signal` goes through a null queue pointer, which ends the
function with an access violation. -/
def RT_ShutdownFrameContexts (s : CD3D_RT) : Bool × CD3D_RT :=
  if s.m_frameFence ≠ 0 ∧ s.m_pCommandQueue = 0 then
    (true, { s with m_lastSignaledFence := s.m_lastSignaledFence + 1 })
  else
    let s :=
      if s.m_frameFence ≠ 0 then
        let s := { s with m_lastSignaledFence := s.m_lastSignaledFence + 1 }
        let s := s.emit (Event.signalFrameFence s.m_lastSignaledFence)
        let (completed, s) := s.GetCompletedValue
        if completed < s.m_lastSignaledFence then s.WaitForSingleObject else s
      else s
    let s := releaseFrameAllocators s (List.finRange 15)
    let s := if s.m_frameFence ≠ 0 then s.emit (Event.objectRelease s.m_frameFence) else s
    (false, { s with m_frameFence := 0 })

end CD3D_RT

/-! ## Acceleration-structure build -/

/-- What the device answers to one call of `BuildBottomLevelAS`. -/
structure BlasEnv where
  deviceRemovedHr : HRESULT := 0
  resultDataMaxSizeInBytes : Nat := 0
  scratchDataSizeInBytes : Nat := 0
  scratchHr : HRESULT := 0
  scratch : Ptr := 0
  resultHr : HRESULT := 0
  result : Ptr := 0
  /-- `outBLAS.pResult->GetGPUVirtualAddress()`. -/
  resultVA : Nat := 0

/-- What the device answers to one call of `BuildTopLevelAS`. -/
structure TlasEnv where
  deviceRemovedHr : HRESULT := 0
  /-- `CreateUploadBuffer` for the instance array. -/
  uploadHr : HRESULT := 0
  upload : Ptr := 0
  /-- `pInstUpload->Map`: the result and whether the mapped pointer is non-null. -/
  mapHr : HRESULT := 0
  mapped : Bool := false
  instanceDescHr : HRESULT := 0
  instanceDesc : Ptr := 0
  resultDataMaxSizeInBytes : Nat := 0
  scratchDataSizeInBytes : Nat := 0
  scratchHr : HRESULT := 0
  scratch : Ptr := 0
  resultHr : HRESULT := 0
  result : Ptr := 0
  resultVA : Nat := 0

/-- What the device answers for one record of the BLAS loop of
`CreateLevelGeometryBLASAndTLAS`. -/
structure RecordBuildEnv where
  /-- `CreateDefaultBufferFromData` for the vertices: `none` on failure, else
  the default and the upload buffer. -/
  vb : Option (Ptr × Ptr) := none
  /-- The same for the indices. -/
  ib : Option (Ptr × Ptr) := none
  /-- `vbDef->GetGPUVirtualAddress()`. -/
  vbVA : Nat := 0
  /-- `ibDef->GetGPUVirtualAddress()`. -/
  ibVA : Nat := 0
  blas : BlasEnv := {}
  /-- The address read again when `blas.resultVA` is `0`. -/
  resultVA2 : Nat := 0

/-- What the engine and the device answer to one call of
`CreateLevelGeometryBLASAndTLAS`. -/
structure LevelBuildEnv (F : Type) where
  /-- `RT_IsLevelStreamingBusy()`. -/
  streamingBusy : Bool
  /-- The lambda `refreshQueue`: `none` when it returns before the assignment,
  else the queue it assigns to `m_pCommandQueue`. -/
  refreshQueue : Option Ptr
  deviceRemovedHr : HRESULT
  /-- The records `ExtractLevelGeometry` delivers. -/
  extracted : List (SafeGeometryData F)
  /-- The mesh `RT_AppendTerrainPatch` generates. -/
  terrain : Option (SafeGeometryData F)
  cam : CCamera F
  /-- `CreateCommandAllocator`: `none` on failure. -/
  allocator : Option Ptr
  /-- `CreateCommandList`: `none` on failure. -/
  commandList : Option Ptr
  /-- The answers for the record at each position of the build loop. -/
  records : Nat → RecordBuildEnv
  tlas : TlasEnv
  closeHr : HRESULT
  /-- `CreateFence` for the build fence succeeded. -/
  fenceCreated : Bool
  signalHr : HRESULT

/-- What the engine and the device answer to one call of
`CreateTestSceneWithEnhancedSafety`. -/
structure TestSceneEnv where
  deviceRemovedHr : HRESULT
  /-- The queue the renderer hands out when `m_pCommandQueue` is null. -/
  queue : Ptr
  allocator : Option Ptr
  commandList : Option Ptr
  vb : Option (Ptr × Ptr)
  ib : Option (Ptr × Ptr)
  vbVA : Nat
  ibVA : Nat
  blas : BlasEnv
  resultVA2 : Nat
  tlas : TlasEnv
  closeHr : HRESULT
  fenceCreated : Bool
  signalHr : HRESULT

/-- `CreateDefaultBufferFromData(srcData, byteSize, ...)`: `E_INVALIDARG` on an
empty source, else what the device answers (`none` on failure, else the default
and the upload buffer). -/
def CreateDefaultBufferFromData (byteSize : Nat) (answer : Option (Ptr × Ptr)) :
    Option (Ptr × Ptr) :=
  if byteSize = 0 then none else answer

namespace CD3D_RT

/-- `AccelerationStructureBuffers::Release()`. -/
def releaseASBuffersNow (s : CD3D_RT) (b : AccelerationStructureBuffers) :
    CD3D_RT × AccelerationStructureBuffers :=
  let s := if b.pScratch ≠ 0 then s.Release b.pScratch else s
  let s := if b.pResult ≠ 0 then s.Release b.pResult else s
  let s := if b.pInstanceDesc ≠ 0 then s.Release b.pInstanceDesc else s
  (s, {})

/-- `BuildBottomLevelAS(...)`: the result, the state and `outBLAS` afterwards. -/
def BuildBottomLevelAS (s : CD3D_RT) (env : BlasEnv) (pCmdList : Ptr)
    (vertexBufferAddress vertexCount _vertexStride vertexFormat : Nat)
    (indexBufferAddress indexCount indexFormat : Nat)
    (outBLAS : AccelerationStructureBuffers) :
    HRESULT × CD3D_RT × AccelerationStructureBuffers :=
  if s.m_pDevice = 0 ∨ pCmdList = 0 then (E_INVALIDARG, s, outBLAS)
  else if vertexBufferAddress = 0 ∨ vertexCount = 0 ∨ vertexCount > 1000000 then
    (E_INVALIDARG, s, outBLAS)
  else if indexBufferAddress = 0 ∨ indexCount = 0 ∨ indexCount > 3000000 ∨ indexCount % 3 ≠ 0 then
    (E_INVALIDARG, s, outBLAS)
  else if vertexFormat ≠ DXGI_FORMAT_R32G32B32_FLOAT then (E_INVALIDARG, s, outBLAS)
  else if indexFormat ≠ DXGI_FORMAT_R32_UINT ∧ indexFormat ≠ DXGI_FORMAT_R16_UINT then
    (E_INVALIDARG, s, outBLAS)
  else if FAILED env.deviceRemovedHr then (env.deviceRemovedHr, s, outBLAS)
  else
    let released := s.RT_ReleaseASBuffers outBLAS
    let s := released.1
    let outBLAS := released.2
    if env.resultDataMaxSizeInBytes = 0 ∨ env.scratchDataSizeInBytes = 0 then (E_FAIL, s, outBLAS)
    else
      let outBLAS := { outBLAS with pScratch := env.scratch }
      if FAILED env.scratchHr then (env.scratchHr, s, outBLAS)
      else
        let outBLAS := { outBLAS with pResult := env.result }
        if FAILED env.resultHr then
          (env.resultHr, (s.releaseASBuffersNow outBLAS).1, (s.releaseASBuffersNow outBLAS).2)
        else
          let s := s.emit (Event.buildAS pCmdList false 1 env.resultVA)
          let outBLAS :=
            { outBLAS with resultVA := if outBLAS.pResult ≠ 0 then env.resultVA else 0 }
          (S_OK, s, outBLAS)

/-- The instance array `BuildTopLevelAS` writes for the given addresses. -/
def instanceDescsFor (blasGpuVAs : List Nat) : List InstanceDesc :=
  blasGpuVAs.enum.map fun (i, va) =>
    { Transform := [1, 0, 0, 0, 0, 1, 0, 0, 0, 0, 1, 0]
      InstanceID := i
      InstanceMask := 255
      InstanceContributionToHitGroupIndex := 0
      Flags := 0
      AccelerationStructure := va }

/-- `BuildTopLevelAS(pCmdList, blasGpuVAs, outTLAS)`: the result, the state and
`outTLAS` afterwards. -/
def BuildTopLevelAS (s : CD3D_RT) (env : TlasEnv) (pCmdList : Ptr) (blasGpuVAs : List Nat)
    (outTLAS : AccelerationStructureBuffers) :
    HRESULT × CD3D_RT × AccelerationStructureBuffers :=
  if s.m_pDevice = 0 ∨ pCmdList = 0 then (E_INVALIDARG, s, outTLAS)
  else if blasGpuVAs.isEmpty ∨ blasGpuVAs.length > 100000 then (E_INVALIDARG, s, outTLAS)
  else if blasGpuVAs.any (fun va => va = 0) then (E_INVALIDARG, s, outTLAS)
  else if FAILED env.deviceRemovedHr then (env.deviceRemovedHr, s, outTLAS)
  else
    let released := s.RT_ReleaseASBuffers outTLAS
    let s := released.1
    let outTLAS := released.2
    let numInstances := blasGpuVAs.length % 4294967296
    let pInstUpload := env.upload
    if FAILED env.uploadHr ∨ pInstUpload = 0 then
      (if FAILED env.uploadHr then env.uploadHr else E_FAIL, s, outTLAS)
    else if FAILED env.mapHr ∨ !env.mapped then
      let s := s.Release pInstUpload
      (if FAILED env.mapHr then env.mapHr else E_FAIL, s, outTLAS)
    else
      let s := s.emit (Event.instanceDescs ((instanceDescsFor blasGpuVAs).take numInstances))
      let outTLAS := { outTLAS with pInstanceDesc := env.instanceDesc }
      if FAILED env.instanceDescHr then
        let s := s.Release pInstUpload
        (env.instanceDescHr, s, outTLAS)
      else
        let s := { s with g_RT_TempUploads := s.g_RT_TempUploads ++ [pInstUpload] }
        if env.resultDataMaxSizeInBytes = 0 ∨ env.scratchDataSizeInBytes = 0 then
          (E_FAIL, s, outTLAS)
        else
          let outTLAS := { outTLAS with pScratch := env.scratch }
          if FAILED env.scratchHr then (env.scratchHr, s, outTLAS)
          else
            let outTLAS := { outTLAS with pResult := env.result }
            if FAILED env.resultHr then (env.resultHr, s, outTLAS)
            else
              let s := s.emit (Event.buildAS pCmdList true numInstances env.resultVA)
              let outTLAS :=
                { outTLAS with resultVA := if outTLAS.pResult ≠ 0 then env.resultVA else 0 }
              (S_OK, s, outTLAS)

/-- The submission block shared by the two scene builds: `ExecuteCommandLists`,
then a fence local to the build is signalled with `++m_lastSignaledFence` and
waited on.  `noFenceFallback` is the `else` branch the test scene has for a
failed `CreateFence`. -/
def submitBuild (s : CD3D_RT) (pCL : Ptr) (fenceCreated : Bool) (signalHr : HRESULT)
    (noFenceFallback : Bool) : CD3D_RT :=
  let s := s.emit (Event.executeCommandLists pCL)
  if fenceCreated then
    let s := { s with m_lastSignaledFence := s.m_lastSignaledFence + 1 }
    let fv := s.m_lastSignaledFence
    let s := s.emit (Event.signalBuildFence fv)
    if SUCCEEDED signalHr then { s with m_lastASBuildFence := fv } else s
  else if noFenceFallback then
    let s := { s with m_lastSignaledFence := s.m_lastSignaledFence + 1 }
    { s with m_lastASBuildFence := s.m_lastSignaledFence }
  else s

section Level

variable {F : Type} [FloatOps F]

/-- The body of `if (SUCCEEDED(BuildBottomLevelAS(...)))` in the BLAS loop: read
the result address again when it is `0`, append the structure to `m_sceneBLAS`
and its result, when non-null, to `m_sceneBLASResults`. -/
def pushSceneBLAS (s : CD3D_RT) (blas : AccelerationStructureBuffers) (resultVA2 : Nat) :
    CD3D_RT :=
  let blas :=
    if blas.resultVA = 0 ∧ blas.pResult ≠ 0 then { blas with resultVA := resultVA2 } else blas
  let s := { s with m_sceneBLAS := s.m_sceneBLAS ++ [blas] }
  if blas.pResult ≠ 0 then
    { s with m_sceneBLASResults := s.m_sceneBLASResults ++ [blas.pResult] }
  else s

/-- `m_keepAliveUploads.emplace_back(...)`. -/
def pushKeepAlive (s : CD3D_RT) (k : UploadBufferKeepAlive) : CD3D_RT :=
  { s with m_keepAliveUploads := s.m_keepAliveUploads ++ [k] }

/-- The BLAS loop of `CreateLevelGeometryBLASAndTLAS` from position `i` on. -/
def buildLevelBLAS (records : Nat → RecordBuildEnv) (pCL : Ptr) :
    Nat → List (SafeGeometryData F) → CD3D_RT → CD3D_RT
  | _, [], s => s
  | i, geom :: rest, s =>
    let e := records i
    match CreateDefaultBufferFromData (geom.vertices.length * 12) e.vb with
    | none => buildLevelBLAS records pCL (i + 1) rest s
    | some (vbDef, vbUp) =>
      match CreateDefaultBufferFromData (geom.indices.length * 4) e.ib with
      | none =>
        let s := (s.Release vbDef).Release vbUp
        buildLevelBLAS records pCL (i + 1) rest s
      | some (ibDef, ibUp) =>
        let s := s.pushKeepAlive (UploadBufferKeepAlive.mk vbDef ibDef vbUp ibUp geom.debugName)
        let built :=
          s.BuildBottomLevelAS e.blas pCL
            e.vbVA (geom.vertices.length % 4294967296) 12 DXGI_FORMAT_R32G32B32_FLOAT
            e.ibVA (geom.indices.length % 4294967296) DXGI_FORMAT_R32_UINT {}
        let s := if SUCCEEDED built.1 then built.2.1.pushSceneBLAS built.2.2 e.resultVA2 else built.2.1
        buildLevelBLAS records pCL (i + 1) rest s

/-- The block `// Clear previous` of `CreateLevelGeometryBLASAndTLAS`. -/
def clearPrevious (s : CD3D_RT) : CD3D_RT :=
  let s := (s.releaseEachASBuffers s.m_sceneBLAS).1.setSceneBLAS []
  let s := (s.safeReleaseEach s.m_sceneBLASResults).1.setSceneBLASResults []
  let s := s.ClearKeepAliveUploads
  let released := s.RT_ReleaseASBuffers s.m_tlasBuffers
  (released.1.setTlasBuffers released.2).setTopLevelAS 0

/-- The list `vaList` of `CreateLevelGeometryBLASAndTLAS`: the non-zero result
addresses of `m_sceneBLAS`, in order. -/
def blasVaList (s : CD3D_RT) : List Nat :=
  (s.m_sceneBLAS.filter fun b => b.resultVA ≠ 0).map fun b => b.resultVA

/-- `CreateLevelGeometryBLASAndTLAS` after its BLAS loop: the TLAS build, the
install of `m_pTopLevelAS`, `Close` and the submission. -/
def finishLevelBuild (s : CD3D_RT) (tlasEnv : TlasEnv) (pCL : Ptr) (closeHr : HRESULT)
    (fenceCreated : Bool) (signalHr : HRESULT) : HRESULT × CD3D_RT :=
  if s.m_sceneBLASResults.isEmpty then (E_FAIL, s)
  else
    -- Build TLAS
    let vaList := s.blasVaList
    if vaList.isEmpty then (E_FAIL, s)
    else
      let built := s.BuildTopLevelAS tlasEnv pCL vaList s.m_tlasBuffers
      let s := built.2.1.setTlasBuffers built.2.2
      if FAILED built.1 ∨ s.m_tlasBuffers.pResult = 0 then (E_FAIL, s)
      else
        let s := s.setTopLevelAS s.m_tlasBuffers.pResult
        if FAILED closeHr then (E_FAIL, s)
        else (S_OK, s.submitBuild pCL fenceCreated signalHr false)

/-- `CreateLevelGeometryBLASAndTLAS()`: the result and the state afterwards. -/
def CreateLevelGeometryBLASAndTLAS (s : CD3D_RT) (env : LevelBuildEnv F) : HRESULT × CD3D_RT :=
  if s.m_pDevice = 0 then (E_FAIL, s)
  else if env.streamingBusy then (E_PENDING, s)
  else
    match env.refreshQueue with
    | none => (E_FAIL, s)
    | some queue =>
      let s := s.setCommandQueue queue
      if s.m_pCommandQueue = 0 then (E_FAIL, s)
      else if FAILED env.deviceRemovedHr then (env.deviceRemovedHr, s)
      else
        match selectLevelGeometry env.extracted env.terrain env.cam with
        | none => (E_FAIL, s)
        | some levelGeometry =>
          match env.allocator with
          | none => (E_FAIL, s)
          | some _ =>
            match env.commandList with
            | none => (E_FAIL, s)
            | some pCL =>
              let s := s.clearPrevious
              -- Build BLAS
              let s := buildLevelBLAS env.records pCL 0 levelGeometry s
              s.finishLevelBuild env.tlas pCL env.closeHr env.fenceCreated env.signalHr

/-- The call of `CreateLevelGeometryBLASAndTLAS` gets to the creation of its
command list: the device is there, streaming is idle, the queue was refreshed
to a non-null queue, the device is not removed, the candidate list is not
empty and the allocator and the command list were created. -/
def reachesCommandList (s : CD3D_RT) (env : LevelBuildEnv F) : Bool :=
  decide (s.m_pDevice ≠ 0) && !env.streamingBusy &&
    (match env.refreshQueue with
      | some queue => decide (queue ≠ 0)
      | none => false) &&
    !FAILED env.deviceRemovedHr &&
    (selectLevelGeometry env.extracted env.terrain env.cam).isSome &&
    env.allocator.isSome && env.commandList.isSome

/-- `CreateSceneBLASAndTLASFromView()`. -/
def CreateSceneBLASAndTLASFromView (s : CD3D_RT) (env : LevelBuildEnv F) : HRESULT × CD3D_RT :=
  s.CreateLevelGeometryBLASAndTLAS env

end Level

end CD3D_RT

namespace CD3D_RT

section Scene

variable (F : Type) [FloatOps F]

/-- The triangle `tri` that `CreateTestSceneWithEnhancedSafety` validates; its
transform is left default-constructed. -/
def testTriangle : SafeGeometryData F :=
  let o : F := FloatOps.c0
  let h : F := FloatOps.c0_5
  { debugName := "TestTriangle"
    vertices := [⟨o, h, o⟩, ⟨h, -h, o⟩, ⟨-h, -h, o⟩]
    indices := [0, 1, 2]
    worldTransform := ⟨[]⟩ }

/-- The four `Release` calls on the geometry buffers that the failure paths of
`CreateTestSceneWithEnhancedSafety` make. -/
def releaseTestBuffers (s : CD3D_RT) (vbDef vbUp ibDef ibUp : Ptr) : CD3D_RT :=
  (((s.Release vbDef).Release vbUp).Release ibDef).Release ibUp

/-- The block `// Clear old AS` of `CreateTestSceneWithEnhancedSafety`. -/
def clearOldAS (s : CD3D_RT) : CD3D_RT :=
  let released := s.RT_ReleaseASBuffers s.m_tlasBuffers
  let s := released.1.setTlasBuffers released.2
  let released := s.RT_ReleaseASBuffers s.m_blasBuffers
  (released.1.setBlasBuffers released.2).setTopLevelAS 0

/-- `CreateTestSceneWithEnhancedSafety` after the block `// Clear old AS`: the
BLAS and TLAS builds, the install of `m_pTopLevelAS`, `Close` and the
submission. -/
def buildTestScene (s : CD3D_RT) (env : TestSceneEnv) (pCL vbDef vbUp ibDef ibUp : Ptr) :
    HRESULT × CD3D_RT :=
  let built :=
    s.BuildBottomLevelAS env.blas pCL env.vbVA 3 12 DXGI_FORMAT_R32G32B32_FLOAT
      env.ibVA 3 DXGI_FORMAT_R32_UINT s.m_blasBuffers
  let s := built.2.1.setBlasBuffers built.2.2
  if FAILED built.1 then (E_FAIL, s.releaseTestBuffers vbDef vbUp ibDef ibUp)
  else
    let s :=
      if s.m_blasBuffers.resultVA = 0 ∧ s.m_blasBuffers.pResult ≠ 0 then
        s.setBlasBuffers { s.m_blasBuffers with resultVA := env.resultVA2 }
      else s
    if s.m_blasBuffers.resultVA = 0 then
      let released := s.RT_ReleaseASBuffers s.m_blasBuffers
      let s := released.1.setBlasBuffers released.2
      (E_FAIL, s.releaseTestBuffers vbDef vbUp ibDef ibUp)
    else
      -- TLAS build
      let va := [s.m_blasBuffers.resultVA]
      let built := s.BuildTopLevelAS env.tlas pCL va s.m_tlasBuffers
      let s := built.2.1.setTlasBuffers built.2.2
      if FAILED built.1 ∨ s.m_tlasBuffers.pResult = 0 then
        (E_FAIL, s.releaseTestBuffers vbDef vbUp ibDef ibUp)
      else
        let s := s.setTopLevelAS s.m_tlasBuffers.pResult
        if FAILED env.closeHr then (E_FAIL, s.releaseTestBuffers vbDef vbUp ibDef ibUp)
        else (S_OK, s.submitBuild pCL env.fenceCreated env.signalHr true)

/-- `CreateTestSceneWithEnhancedSafety()`: the result and the state afterwards. -/
def CreateTestSceneWithEnhancedSafety (s : CD3D_RT) (env : TestSceneEnv) : HRESULT × CD3D_RT :=
  if s.m_pDevice = 0 then (E_FAIL, s)
  else if FAILED env.deviceRemovedHr then (env.deviceRemovedHr, s)
  else
    let s := if s.m_pCommandQueue = 0 then s.setCommandQueue env.queue else s
    if s.m_pCommandQueue = 0 then (E_FAIL, s)
    else
      match env.allocator with
      | none => (E_FAIL, s)
      | some _ =>
        match env.commandList with
        | none => (E_FAIL, s)
        | some pCL =>
          match ValidateMeshData (testTriangle F) "" with
          | some (true, _) =>
            match CreateDefaultBufferFromData 36 env.vb with
            | none => (E_FAIL, s)
            | some (vbDef, vbUp) =>
              match CreateDefaultBufferFromData 12 env.ib with
              | none => (E_FAIL, (s.Release vbDef).Release vbUp)
              | some (ibDef, ibUp) =>
                (s.clearOldAS.buildTestScene env pCL vbDef vbUp ibDef ibUp)
          | _ => (E_FAIL, s)

end Scene

section Update

variable {F : Type} [FloatOps F]

/-- The lambda `DeferASBuffers` of `UpdateAccelerationStructures`, which has
the body of `RT_ReleaseASBuffers`. -/
def DeferASBuffers (s : CD3D_RT) (b : AccelerationStructureBuffers) :
    CD3D_RT × AccelerationStructureBuffers :=
  s.RT_ReleaseASBuffers b

/-- `DeferASBuffers` on every element of a vector, in order. -/
def deferEachASBuffers (s : CD3D_RT) : List AccelerationStructureBuffers → CD3D_RT
  | [] => s
  | b :: rest => deferEachASBuffers (s.DeferASBuffers b).1 rest

/-- The two `swap` calls of `UpdateAccelerationStructures` that move
`m_sceneBLAS` and `m_sceneBLASResults` out into locals. -/
def detachScene (s : CD3D_RT) : CD3D_RT :=
  (s.setSceneBLAS []).setSceneBLASResults []

/-- What the engine and the device answer to one call of
`UpdateAccelerationStructures`. -/
structure UpdateEnv (F : Type) where
  /-- `RT_IsLevelStreamingBusy()` at the head of the function. -/
  streamingBusy : Bool
  level : LevelBuildEnv F
  test : TestSceneEnv

/-- `UpdateAccelerationStructures()`. -/
def UpdateAccelerationStructures (s : CD3D_RT) (env : UpdateEnv F) : CD3D_RT :=
  let s := { s with frameCounter := (s.frameCounter + 1) % 4294967296 }
  let rebuildInterval := 3600
  if s.frameCounter % rebuildInterval ≠ 0 then s
  else if env.streamingBusy then s
  else
    let s := s.RT_WaitForLastDispatch
    let oldTLAS := s.m_tlasBuffers
    let oldLegacyBLAS := s.m_blasBuffers
    let oldSceneBLAS := s.m_sceneBLAS
    let oldSceneResults := s.m_sceneBLASResults
    let s := s.detachScene.ClearKeepAliveUploads
    let s := ((s.setTopLevelAS 0).setTlasBuffers {}).setBlasBuffers {}
    let built := s.CreateSceneBLASAndTLASFromView env.level
    let s :=
      if FAILED built.1 ∨ built.2.m_pTopLevelAS = 0 then
        (built.2.CreateTestSceneWithEnhancedSafety F env.test).2
      else built.2
    -- Defer release of old AS resources
    let s := (s.DeferASBuffers oldTLAS).1
    let s := (s.DeferASBuffers oldLegacyBLAS).1
    let s := s.deferEachASBuffers oldSceneBLAS
    (s.safeReleaseEach oldSceneResults).1

end Update

/-- The inner loop of the drain in `Shutdown`: `SAFE_RELEASE(r)` for the
resources of one entry. -/
def drainResources (key done : Nat) : List Ptr → CD3D_RT → CD3D_RT
  | [], s => s
  | r :: rest, s =>
    drainResources key done rest (if r ≠ 0 then s.emit (Event.deferredRelease r key done) else s)

/-- The loop of the drain in `Shutdown`. -/
def drainDeferred (done : Nat) : List RT_DeferredRelease → CD3D_RT → CD3D_RT
  | [], s => s
  | d :: rest, s =>
    drainDeferred done rest
      (if done ≥ d.fenceValue then drainResources d.fenceValue done d.resources s else s)

/-- The file-level statics `Shutdown` hands to `RT_SafeRelease`, those apart
that the state holds. -/
structure ShutdownEnv where
  g_pRT_NullSrvTex2D : Ptr
  g_pRT_IrradianceCube : Ptr

/-- `Shutdown`, the block `// Final frame fence signal if frame contexts alive`. -/
def shutdownSignal (s : CD3D_RT) : CD3D_RT :=
  if s.m_frameFence ≠ 0 ∧ s.m_pCommandQueue ≠ 0 then
    let s := { s with m_lastSignaledFence := s.m_lastSignaledFence + 1 }
    s.emit (Event.signalFrameFence s.m_lastSignaledFence)
  else s

/-- `Shutdown`, the block `// Drain deferred`. -/
def drainQueue (s : CD3D_RT) : CD3D_RT :=
  if s.m_frameFence ≠ 0 then
    let s := s.advance
    let done := s.fenceCompleted
    let s := drainDeferred done s.m_deferred s
    { s with m_deferred := [] }
  else s

/-- `Shutdown`, from `m_pTopLevelAS = nullptr` to `ClearKeepAliveUploads()`. -/
def releaseScene (s : CD3D_RT) : CD3D_RT :=
  let s := s.setTopLevelAS 0
  let released := s.RT_ReleaseASBuffers s.m_tlasBuffers
  let s := released.1.setTlasBuffers released.2
  let released := s.RT_ReleaseASBuffers s.m_blasBuffers
  let s := released.1.setBlasBuffers released.2
  let released := s.safeReleaseEach s.m_sceneBLASResults
  let s := released.1.setSceneBLASResults released.2
  let s := (s.releaseEachASBuffers s.m_sceneBLAS).1.setSceneBLAS []
  s.ClearKeepAliveUploads

/-- `Shutdown`, from the release of the pipeline objects to
`m_shadersCompiled = false`: the members of the state are reset and the three
file-level statics go to `RT_SafeRelease`.  The root signature, the shader
tables, the compose objects and the engine textures are not part of the
state. -/
def releaseGlobals (s : CD3D_RT) (env : ShutdownEnv) : CD3D_RT :=
  let s : CD3D_RT :=
    if s.m_pRaytracingPSO ≠ 0 then
      (s.emit (Event.objectRelease s.m_pRaytracingPSO)).setRaytracingPSO 0
    else s
  let s := (s.setRaytracingOutput 0).setReflectionOutput 0
  let s := if s.g_RT_AOOutputOwned then (s.RT_SafeRelease s.g_pRT_AOOutput).1 else s
  let s := s.setAOOutput 0 false
  let s : CD3D_RT :=
    if s.m_pDescriptorHeap ≠ 0 then
      (s.emit (Event.objectRelease s.m_pDescriptorHeap)).setDescriptorHeap 0
    else s
  let s : CD3D_RT :=
    if s.m_pConstantsBuffer ≠ 0 then (s.Release s.m_pConstantsBuffer).setConstantsBuffer 0
    else s
  let s := (s.RT_SafeRelease env.g_pRT_NullSrvTex2D).1
  let s := (s.RT_SafeRelease env.g_pRT_IrradianceCube).1
  (s.setOutputSize 0 0).setShadersCompiled false

/-- `Shutdown`, the release of the device and the reset of the queue pointer. -/
def releaseDevice (s : CD3D_RT) : CD3D_RT :=
  let s :=
    if s.m_pDevice ≠ 0 then { s.emit (Event.objectRelease s.m_pDevice) with m_pDevice := 0 }
    else s
  s.setCommandQueue 0

/-- `Shutdown()`.  The engine flushes and `RT_WaitForGpuIdle` wait on fences
other than the frame fence.
An access violation inside the `__try` block ends in the `__except` handler,
which sets `s_shutdownCompleted` as the normal path does. -/
def Shutdown (s : CD3D_RT) (env : ShutdownEnv) : CD3D_RT :=
  if s.s_shutdownCompleted then s
  else if s.s_shutdownInProgress then s
  else
    let s := { s with s_shutdownInProgress := true }
    let s := s.shutdownSignal
    let s := s.drainQueue
    let s := s.releaseScene
    let s := s.releaseGlobals env
    let s := s.releaseDevice
    let s := s.RT_ShutdownFrameContexts.2
    { s with s_shutdownCompleted := true, s_shutdownInProgress := false }

/-- The two assignments of `Execute` after the dispatch was recorded:
`m_frameRecordedWork = true; m_lastDispatchFence = m_lastSignaledFence + 1;`. -/
def recordWork (s : CD3D_RT) : CD3D_RT :=
  { s with m_frameRecordedWork := true, m_lastDispatchFence := s.m_lastSignaledFence + 1 }

end CD3D_RT

/-! ## The frame -/

/-- What the engine and the device answer to one call of
`CreateRayTracingResources`. -/
structure ResourcesEnv where
  deviceRemovedHr : HRESULT := 0
  /-- `Width` (`UINT64`) and `Height` (`UINT`) of the compose target, the native
  resource of the scene target or else of the HDR target; `none` when neither
  has one. -/
  composeDesc : Option (Nat × Nat) := none
  /-- `CreateDescriptorHeap` for `m_pDescriptorHeap`. -/
  heapHr : HRESULT := 0
  heap : Ptr := 0
  /-- The heap created has the flag `SHADER_VISIBLE`. -/
  heapShaderVisible : Bool := true
  /-- The native resource of `m_pTexDXR_AO` after `RT_CreateOrResizeDXROutFmt`;
  `none` when the texture is null. -/
  aoTexture : Option Ptr := none
  /-- The same for `m_pTexDXR_GI`. -/
  giTexture : Option Ptr := none
  /-- The same for `m_pTexDXR_Refl`. -/
  reflTexture : Option Ptr := none
  /-- The constants buffer at hand is narrower than `cbRequired`. -/
  constantsTooSmall : Bool := false
  /-- The pointer `CreateCommittedResource` writes to `m_pConstantsBuffer`. -/
  constants : Ptr := 0
  /-- `CreateCommittedResource` for an ambient-occlusion output of its own:
  `none` on failure. -/
  aoFallback : Option Ptr := none

/-- What the device answers to one call of `ExecuteRayTracingWithDebug`. -/
structure RaysEnv where
  /-- `m_pRaytracingOutput->GetDesc().Width`, a `UINT64`. -/
  giWidth : Nat := 0
  /-- `m_pRaytracingOutput->GetDesc().Height`, a `UINT`. -/
  giHeight : Nat := 0
  /-- `m_pTopLevelAS->GetGPUVirtualAddress()`. -/
  tlasVA : Nat := 0
  /-- `m_pConstantsBuffer->Map` succeeded and gave a non-null pointer. -/
  constantsMapped : Bool := false
  /-- The value of the console variable `r_DXR_NoDispatch`, `0` when the console
  or the variable is missing. -/
  noDispatch : Int := 0

/-- What the engine and the device answer to one call of
`ComposeToHDROneShot`. -/
structure ComposeEnv where
  deviceRemovedHr : HRESULT := 0
  /-- The HDR target or else the scene target is there. -/
  hasTarget : Bool := false
  /-- `RT_GetNativeFromCTexture(pDstTex)`. -/
  pDst : Ptr := 0
  /-- The test `!m_pTexDXR_GI || ...` that compares the size of the GI texture
  with the size of the destination. -/
  sizeMismatch : Bool := false
  resources : ResourcesEnv := {}
  rootSigHr : HRESULT := 0
  /-- `rtvFmt != DXGI_FORMAT_UNKNOWN`. -/
  rtvFormatKnown : Bool := true
  psoHr : HRESULT := 0
  srvHeapHr : HRESULT := 0
  rtvHeapHr : HRESULT := 0
  allocatorHr : HRESULT := 0
  commandListHr : HRESULT := 0
  pCL : Ptr := 0
  /-- The list as `ID3D12GraphicsCommandList4`, `0` when `QueryInterface`
  fails. -/
  cl4 : Ptr := 0
  cbHr : HRESULT := 0
  closeHr : HRESULT := 0

namespace CD3D_RT

/-- `RT_TransitionTracked(cl, res, trackedState, newState)`: the state and the
value of `trackedState` afterwards. -/
def RT_TransitionTracked (s : CD3D_RT) (cl res : Ptr) (trackedState newState : Nat) :
    CD3D_RT × Nat :=
  if cl = 0 ∨ res = 0 then (s, trackedState)
  else if trackedState = newState then (s, trackedState)
  else (s.emit (Event.transition cl res trackedState newState), newState)

/-- The three calls of `RT_TransitionTracked` on the outputs, as
`ExecuteRayTracingWithDebug` makes them before and after the dispatch. -/
def transitionOutputs (s : CD3D_RT) (cl : Ptr) (newState : Nat) : CD3D_RT :=
  let t := s.RT_TransitionTracked cl s.m_pRaytracingOutput s.g_RT_GIState newState
  let s := t.1.setGIState t.2
  let s :=
    if s.m_pReflectionOutput ≠ 0 then
      let t := s.RT_TransitionTracked cl s.m_pReflectionOutput s.g_RT_ReflState newState
      t.1.setReflState t.2
    else s
  if s.g_pRT_AOOutput ≠ 0 then
    let t := s.RT_TransitionTracked cl s.g_pRT_AOOutput s.g_RT_AOState newState
    t.1.setAOState t.2
  else s

/-- `UpdateRayTracingConstants(width, height, frameNumber)`: of the constants
it fills in, `ScreenWidth` and `ScreenHeight` are kept. -/
def UpdateRayTracingConstants (s : CD3D_RT) (mapped : Bool) (width height _frameNumber : Nat) :
    CD3D_RT :=
  if s.m_pConstantsBuffer = 0 then s
  else
    let ScreenWidth := width
    let ScreenHeight := height
    if mapped then s.emit (Event.uploadConstants ScreenWidth ScreenHeight) else s

/-- `ExecuteRayTracingWithDebug(pCommandList, width, height)`.  The arguments
`width` and `height` are compared with the dispatch size for a log line and
used nowhere else.  Of the commands recorded, the tracked transitions and the
dispatch are kept; descriptor writes, clears, UAV barriers, bindings and the
ray statistics are left out. -/
def ExecuteRayTracingWithDebug (s : CD3D_RT) (env : RaysEnv) (pCommandList : Ptr)
    (_width _height : Nat) : CD3D_RT :=
  if pCommandList = 0 ∨ s.m_pDevice = 0 ∨ s.m_pDescriptorHeap = 0 ∨ s.m_pRaytracingOutput = 0 then s
  else if s.m_pRaytracingPSO = 0 then s
  else if s.m_pTopLevelAS = 0 then s
  else
    let dispatchW := (min env.giWidth 0xFFFFFFFF) % 4294967296
    let dispatchH := if env.giHeight ≠ 0 then env.giHeight else 1
    if dispatchW = 0 ∨ dispatchH = 0 then s
    else
      let tlasVA := env.tlasVA
      if tlasVA = 0 then s
      else
        let s := s.transitionOutputs pCommandList D3D12_RESOURCE_STATE_UNORDERED_ACCESS
        let s := s.UpdateRayTracingConstants env.constantsMapped dispatchW dispatchH 0
        let noDispatch := env.noDispatch
        let s :=
          if noDispatch = 0 then s.emit (Event.dispatchRays pCommandList dispatchW dispatchH 1)
          else s
        let kSRV :=
          D3D12_RESOURCE_STATE_NON_PIXEL_SHADER_RESOURCE ||| D3D12_RESOURCE_STATE_PIXEL_SHADER_RESOURCE
        s.transitionOutputs pCommandList kSRV

/-- `CreateRayTracingResources`, the block `if (!m_pDescriptorHeap)`: the result
to return at once, if any, and the state. -/
def createDescriptorHeap (s : CD3D_RT) (env : ResourcesEnv) : Option HRESULT × CD3D_RT :=
  if s.m_pDescriptorHeap = 0 then
    let hrHeap := env.heapHr
    let s := s.setDescriptorHeap env.heap
    if FAILED hrHeap ∨ s.m_pDescriptorHeap = 0 then (some (if hrHeap ≠ 0 then hrHeap else E_FAIL), s)
    else if !env.heapShaderVisible then
      (some E_FAIL, (s.emit (Event.objectRelease s.m_pDescriptorHeap)).setDescriptorHeap 0)
    else (none, s)
  else (none, s)

/-- `CreateRayTracingResources`, the binding of `m_pRaytracingOutput` to the
native resource `gi` of the GI texture and of `m_pReflectionOutput` to the one
of the reflection texture, or to the GI output when there is none. -/
def bindOutputs (s : CD3D_RT) (env : ResourcesEnv) (gi : Ptr) : CD3D_RT :=
  let s := s.setRaytracingOutput gi
  s.setReflectionOutput
    (match env.reflTexture with
      | some refl => refl
      | none => s.m_pRaytracingOutput)

/-- `CreateRayTracingResources` from the constants buffer on: the buffer is
created anew when missing or too small, the output size and the tracked states
are written and, no ambient-occlusion output bound, one is created. -/
def finishResources (s : CD3D_RT) (env : ResourcesEnv) (outW outH : Nat) : CD3D_RT :=
  let s :=
    if s.m_pConstantsBuffer = 0 ∨ env.constantsTooSmall then
      (s.SAFE_RELEASE s.m_pConstantsBuffer).setConstantsBuffer env.constants
    else s
  let s := s.setOutputSize outW outH
  let s := s.setGIState D3D12_RESOURCE_STATE_COMMON
  let s := s.setReflState D3D12_RESOURCE_STATE_COMMON
  let s := s.setAOState D3D12_RESOURCE_STATE_COMMON
  let s :=
    if s.m_pReflectionOutput = s.m_pRaytracingOutput then s.setReflState s.g_RT_GIState
    else s
  if s.g_pRT_AOOutput = 0 then
    match env.aoFallback with
    | some created => s.setAOOutput created true
    | none => s
  else s

/-- `CreateRayTracingResources`, the outputs: the ambient-occlusion output is
bound when its texture has a native resource, then the other two; `none` when
the GI texture has no native resource. -/
def bindTextures (s : CD3D_RT) (env : ResourcesEnv) : Bool × CD3D_RT :=
  let s :=
    match env.aoTexture with
    | some native => s.setAOOutput native false
    | none => s
  match env.giTexture with
  | none => (false, s)
  | some gi => (true, s.bindOutputs env gi)

/-- `CreateRayTracingResources()`: the result and the state afterwards.  The
clear heap, the null texture, the ray statistics buffer and the descriptors
written at the end are not part of the state. -/
def CreateRayTracingResources (s : CD3D_RT) (env : ResourcesEnv) : HRESULT × CD3D_RT :=
  if s.m_pDevice = 0 then (E_FAIL, s)
  else if FAILED env.deviceRemovedHr then (env.deviceRemovedHr, s)
  else
    match env.composeDesc with
    | none => (E_FAIL, s)
    | some (composeWidth, composeHeight) =>
      let outW := min (composeWidth % 4294967296) 4096
      let outH := min composeHeight 4096
      let heap := s.createDescriptorHeap env
      match heap.1 with
      | some hr => (hr, heap.2)
      | none =>
        let bound := heap.2.bindTextures env
        if !bound.1 then (E_FAIL, bound.2)
        else if bound.2.m_pRaytracingOutput = 0 then (E_FAIL, bound.2)
        else (S_OK, bound.2.finishResources env outW outH)

/-- The three calls of `RT_TransitionTracked` in `ComposeToHDROneShot`. -/
def transitionForCompose (s : CD3D_RT) (cl4 pGI pRefl pAO : Ptr) : CD3D_RT :=
  let kSRV :=
    D3D12_RESOURCE_STATE_NON_PIXEL_SHADER_RESOURCE ||| D3D12_RESOURCE_STATE_PIXEL_SHADER_RESOURCE
  let t := s.RT_TransitionTracked cl4 pGI s.g_RT_GIState kSRV
  let s := t.1.setGIState t.2
  let s :=
    if pRefl ≠ 0 then
      let t := s.RT_TransitionTracked cl4 pRefl s.g_RT_ReflState kSRV
      t.1.setReflState t.2
    else s
  if pAO ≠ 0 then
    let t := s.RT_TransitionTracked cl4 pAO s.g_RT_AOState kSRV
    t.1.setAOState t.2
  else s

/-- `ComposeToHDROneShot` from `RT_EnsureComposeRootSig` on: the compose objects,
the command list with the transitions of the outputs and the draw, and its
submission.  The fence it waits on is its own and is signalled with the
constant `1`. -/
def composeDraw (s : CD3D_RT) (env : ComposeEnv) (pGI pRefl pAO : Ptr) : HRESULT × CD3D_RT :=
  if FAILED env.rootSigHr then (env.rootSigHr, s)
  else if !env.rtvFormatKnown then (E_INVALIDARG, s)
  else if FAILED env.psoHr then (env.psoHr, s)
  else if FAILED env.srvHeapHr then (E_FAIL, s)
  else if FAILED env.rtvHeapHr then (E_FAIL, s)
  else if FAILED env.allocatorHr then (env.allocatorHr, s)
  else if FAILED env.commandListHr then (env.commandListHr, s)
  else
    let s := if env.cl4 ≠ 0 then s.transitionForCompose env.cl4 pGI pRefl pAO else s
    if FAILED env.cbHr then (env.cbHr, s)
    else
      let s := s.emit (Event.drawInstanced env.pCL)
      if FAILED env.closeHr then (env.closeHr, s)
      else (S_OK, s.emit (Event.executeCommandLists env.pCL))

/-- `ComposeToHDROneShot()`: the result and the state afterwards. -/
def ComposeToHDROneShot (s : CD3D_RT) (env : ComposeEnv) : HRESULT × CD3D_RT :=
  if s.m_pDevice = 0 ∨ s.m_pCommandQueue = 0 then (E_FAIL, s)
  else if s.m_pRaytracingOutput = 0 then (S_FALSE, s)
  else if FAILED env.deviceRemovedHr then (E_FAIL, s)
  else
    let s := s.RT_WaitForLastDispatch
    if !env.hasTarget then (S_FALSE, s)
    else
      let pDst := env.pDst
      let pGI := s.m_pRaytracingOutput
      let pRefl := if s.m_pReflectionOutput ≠ 0 then s.m_pReflectionOutput else s.m_pRaytracingOutput
      let pAO := s.g_pRT_AOOutput
      if pDst = 0 ∨ pGI = 0 then (E_FAIL, s)
      else if env.sizeMismatch then
        let created := s.CreateRayTracingResources env.resources
        let s := created.2
        if FAILED created.1 then (S_FALSE, s)
        else
          let pGI := s.m_pRaytracingOutput
          let pRefl :=
            if s.m_pReflectionOutput ≠ 0 then s.m_pReflectionOutput else s.m_pRaytracingOutput
          let pAO := s.g_pRT_AOOutput
          s.composeDraw env pGI pRefl pAO
      else s.composeDraw env pGI pRefl pAO

end CD3D_RT

/-- The `return` statement of `Execute` a call ends at. -/
inductive ExecuteExit where
  /-- The latch `s_deviceStabilityFailure` is set. -/
  | latched
  /-- The engine is loading a level. -/
  | levelLoading
  /-- `GetDeviceRemovedReason` failed. -/
  | deviceRemoved
  /-- Device, queue, pipeline state or shaders are missing. -/
  | notReady
  /-- `CreateRayTracingResources` failed or left no output. -/
  | noResources
  /-- `CreateLevelGeometryBLASAndTLAS` failed. -/
  | geometryFailed
  /-- The branch `if (!m_pTopLevelAS)`. -/
  | noTopLevelAS
  /-- `RT_BeginFrameAllocator` handed out no allocator. -/
  | noAllocator
  /-- `CreateCommandList` failed. -/
  | noCommandList
  /-- `Close` failed on the recorded list. -/
  | closeFailed
  /-- The end of the function. -/
  | done
  deriving DecidableEq, Repr

/-- What the engine and the device answer to one call of `Execute`. -/
structure ExecuteEnv (F : Type) where
  /-- The local `isLevelLoading` once the engine's global state, the renderer
  flags and the terrain were looked at. -/
  isLevelLoading : Bool
  deviceRemovedHr : HRESULT
  resources : ResourcesEnv
  level : LevelBuildEnv F
  beginFrame : CD3D_RT.BeginFrameEnv
  /-- `CreateCommandList`. -/
  commandListHr : HRESULT
  commandList : Ptr
  rays : RaysEnv
  closeHr : HRESULT
  compose : ComposeEnv

namespace CD3D_RT

section Frame

variable {F : Type} [FloatOps F]

/-- `Execute`, from `RT_BeginFrameAllocator` on: the frame that records a
dispatch. -/
def executeDispatch (s : CD3D_RT) (env : ExecuteEnv F) : ExecuteExit × CD3D_RT :=
  let begun := s.RT_BeginFrameAllocator env.beginFrame
  let pAllocator := begun.1
  let s := begun.2
  if pAllocator = 0 then (ExecuteExit.noAllocator, s.RT_EndFrameAndSignal)
  else
    let pCommandList := env.commandList
    if FAILED env.commandListHr ∨ pCommandList = 0 then
      (ExecuteExit.noCommandList, s.RT_EndFrameAndSignal)
    else
      let s := s.ExecuteRayTracingWithDebug env.rays pCommandList s.m_outputWidth s.m_outputHeight
      let s := s.setFrameRecordedWork true
      let s := s.setLastDispatchFence (s.m_lastSignaledFence + 1)
      if FAILED env.closeHr then
        let s := s.setDeviceStabilityFailure true
        (ExecuteExit.closeFailed, s.RT_EndFrameAndSignal)
      else
        let s := s.emit (Event.executeCommandLists pCommandList)
        let s := s.RT_EndFrameAndSignal
        (ExecuteExit.done, (s.ComposeToHDROneShot env.compose).2)

/-- `Execute`, the block `if (!m_pRaytracingOutput || !m_pDescriptorHeap)`:
whether the frame is given up for missing outputs, and the state. -/
def ensureOutputs (s : CD3D_RT) (env : ResourcesEnv) : Bool × CD3D_RT :=
  if s.m_pRaytracingOutput = 0 ∨ s.m_pDescriptorHeap = 0 then
    let cr := s.CreateRayTracingResources env
    (decide (FAILED cr.1 = true ∨ cr.2.m_pRaytracingOutput = 0 ∨ cr.2.m_pDescriptorHeap = 0), cr.2)
  else (false, s)

/-- `Execute`, the block `if (!s_geometryBuilt.load())`: whether the frame is
given up for a failed geometry build, and the state. -/
def ensureGeometry (s : CD3D_RT) (env : LevelBuildEnv F) : Bool × CD3D_RT :=
  if !s.s_geometryBuilt then
    let built := s.CreateLevelGeometryBLASAndTLAS env
    if SUCCEEDED built.1 then (false, built.2.setGeometryBuilt true) else (true, built.2)
  else (false, s)

/-- `Execute`, from the test of the outputs on: the resources, the first
geometry build and the test of `m_pTopLevelAS`. -/
def executeScene (s : CD3D_RT) (env : ExecuteEnv F) : ExecuteExit × CD3D_RT :=
  let outputs := s.ensureOutputs env.resources
  if outputs.1 then (ExecuteExit.noResources, outputs.2.RT_EndFrameAndSignal)
  else
    let geometry := outputs.2.ensureGeometry env.level
    if geometry.1 then (ExecuteExit.geometryFailed, geometry.2.RT_EndFrameAndSignal)
    else if geometry.2.m_pTopLevelAS = 0 then
      (ExecuteExit.noTopLevelAS, geometry.2.RT_EndFrameAndSignal)
    else geometry.2.executeDispatch env

/-- `Execute()`: the `return` reached and the state afterwards.  The clamps of
two console variables and the log lines are left out. -/
def Execute (s : CD3D_RT) (env : ExecuteEnv F) : ExecuteExit × CD3D_RT :=
  let s := s.setExecuteCallCount ((s.s_executeCallCount + 1) % 4294967296)
  if s.s_deviceStabilityFailure then (ExecuteExit.latched, s.RT_EndFrameAndSignal)
  else
    let isLevelLoading := env.isLevelLoading
    if isLevelLoading then
      let s := if !s.s_wasLevelLoading then s.setWasLevelLoading true else s
      let s := s.setFrameRecordedWork false
      (ExecuteExit.levelLoading, s.RT_EndFrameAndSignal)
    else
      let s := if s.s_wasLevelLoading then s.setWasLevelLoading false else s
      if s.m_pDevice ≠ 0 ∧ FAILED env.deviceRemovedHr then
        let s := s.setDeviceStabilityFailure true
        (ExecuteExit.deviceRemoved, s.RT_EndFrameAndSignal)
      else
        let s := s.setFrameRecordedWork false
        if s.m_pDevice = 0 ∨ s.m_pCommandQueue = 0 ∨ s.m_pRaytracingPSO = 0 ∨ !s.m_shadersCompiled then
          (ExecuteExit.notReady, s.RT_EndFrameAndSignal)
        else s.executeScene env

/-- A run of `Execute` calls, one per frame. -/
def executeAll (s : CD3D_RT) (envs : List (ExecuteEnv F)) : CD3D_RT :=
  envs.foldl (fun s env => (s.Execute env).2) s

end Frame

/-- The argument `InitialResourceState` of the `CreateCommittedResource` call
that creates the stand-alone ambient-occlusion output in
`CreateRayTracingResources`. -/
def aoFallbackInitialState : Nat := D3D12_RESOURCE_STATE_UNORDERED_ACCESS

/-- `CompileAndLoadShaders()`: the result, the state and the shader compiler
`m_shaderCompiler` afterwards. -/
def CompileAndLoadShaders (s : CD3D_RT) (m_shaderCompiler : CCompiler)
    (env : CCompiler.CompileEnv) : HRESULT × CD3D_RT × CCompiler :=
  if s.m_shadersCompiled then (S_OK, s, m_shaderCompiler)
  else
    let compiled := m_shaderCompiler.CompileRayTracingShaders env
    let success := compiled.1
    let m_shaderCompiler := compiled.2
    if !success then (E_FAIL, s, m_shaderCompiler)
    else if !ValidateCompiledShaders m_shaderCompiler.getBytecode then (E_FAIL, s, m_shaderCompiler)
    else (S_OK, s.setShadersCompiled true, m_shaderCompiler)

end CD3D_RT

/-! ## Runs of the stage -/

/-- The calls that write the fence counters, the frame contexts or the deferred
queue, or release a resource.  A frame of `Execute` is a sequence of
`buildLevel` (until the first build succeeds), `beginFrame`, `recordWork`,
`endFrame` and `waitForLastDispatch` (inside the compose step); a rebuild is
`update`; the rest of `Execute` and the compose step leave these members and
the resources alone.  `deferRelease` is `RT_DeferRelease`, a member function
that no code of the stage calls. -/
inductive Op (F : Type) where
  | safeRelease (r : Ptr)
  | deferRelease (r : Ptr)
  | releaseASBuffers (b : AccelerationStructureBuffers)
  | clearKeepAliveUploads
  | beginFrame (env : CD3D_RT.BeginFrameEnv)
  | recordWork
  | endFrame
  | waitForLastDispatch
  | buildLevel (env : LevelBuildEnv F)
  | buildTestScene (env : TestSceneEnv)
  | update (env : CD3D_RT.UpdateEnv F)
  | shutdown (env : CD3D_RT.ShutdownEnv)

/-- The operation is a call of `RT_DeferRelease`. -/
def Op.isDeferRelease {F : Type} : Op F → Bool
  | Op.deferRelease _ => true
  | _ => false

/-- The operation is a call of `Shutdown`. -/
def Op.isShutdown {F : Type} : Op F → Bool
  | Op.shutdown _ => true
  | _ => false

namespace CD3D_RT

section Run

variable {F : Type} [FloatOps F]

/-- The state after one operation. -/
def step (s : CD3D_RT) : Op F → CD3D_RT
  | Op.safeRelease r => (s.RT_SafeRelease r).1
  | Op.deferRelease r => s.RT_DeferRelease r
  | Op.releaseASBuffers b => (s.RT_ReleaseASBuffers b).1
  | Op.clearKeepAliveUploads => s.ClearKeepAliveUploads
  | Op.beginFrame env => (s.RT_BeginFrameAllocator env).2
  | Op.recordWork => s.recordWork
  | Op.endFrame => s.RT_EndFrameAndSignal
  | Op.waitForLastDispatch => s.RT_WaitForLastDispatch
  | Op.buildLevel env => (s.CreateLevelGeometryBLASAndTLAS env).2
  | Op.buildTestScene env => (s.CreateTestSceneWithEnhancedSafety F env).2
  | Op.update env => s.UpdateAccelerationStructures env
  | Op.shutdown env => s.Shutdown env

/-- The state after a sequence of operations. -/
def run (s : CD3D_RT) (ops : List (Op F)) : CD3D_RT := ops.foldl step s

end Run

end CD3D_RT

/-! ## Concrete inputs -/

/-- The vector with integer coordinates `(x, y, z)`. -/
def vec (x y z : Int) : Vec3 Dec := ⟨Dec.ofInt x, Dec.ofInt y, Dec.ofInt z⟩

/-- A camera at the origin that looks along the y axis. -/
def originCam : CCamera Dec := { position := vec 0 0 0, viewdir := vec 0 1 0 }

/-- A triangle whose first vertex is `(x, 0, 0)`. -/
def triangleAt (name : String) (x : Int) : SafeGeometryData Dec :=
  { vertices := [vec x 0 0, vec (x + 1) 0 0, vec x 1 0]
    indices := [0, 1, 2]
    worldTransform := Matrix34.CreateIdentity
    debugName := name }

/-- A triangle whose first vertex is at distance 10 from the origin and whose
second vertex is at distance 1. -/
def farFirstVertex : SafeGeometryData Dec :=
  { vertices := [vec 10 0 0, vec 1 0 0, vec 10 1 0]
    indices := [0, 1, 2]
    worldTransform := Matrix34.CreateIdentity
    debugName := "farFirstVertex" }

/-- Three candidates: one far away, then two at the same distance. -/
def threeTriangles : List (SafeGeometryData Dec) :=
  [triangleAt "c" 300, triangleAt "a" 1, triangleAt "b" 1]

/-- A triangle whose last index is the vertex count. -/
def indexPastEnd : SafeGeometryData Dec :=
  { vertices := [vec 0 0 0, vec 1 0 0, vec 0 1 0]
    indices := [0, 1, 3]
    worldTransform := Matrix34.CreateIdentity
    debugName := "indexPastEnd" }

/-- A container of 32 bytes: the signature `DXBC`, twenty zero bytes, the size
`32` and the part count `1`. -/
def smallContainer : List BYTE :=
  [0x44, 0x58, 0x42, 0x43] ++ List.replicate 20 0 ++ [32, 0, 0, 0] ++ [1, 0, 0, 0]

/-- A triangle over the first three of 1,000,001 vertices. -/
def manyVertices : SafeGeometryData Dec :=
  { vertices := [vec 0 0 0, vec 1 0 0, vec 0 1 0] ++ List.replicate 999998 (vec 0 0 0)
    indices := [0, 1, 2]
    worldTransform := Matrix34.CreateIdentity
    debugName := "manyVertices" }

/-- A machine on which neither the compilation from source nor the load of
precompiled shaders succeeds, and neither writes a buffer. -/
def noShaderFiles : CCompiler.CompileEnv :=
  { compileFromSource := fun c => (false, c)
    loadPrecompiled := fun c => (false, c) }

namespace CD3D_RT

/-- A stage whose frame fence has signalled 2 while the GPU has completed
nothing yet; the GPU completes 1 up to the next read of the fence and 4 more up
to the one after. -/
def fenceBehind : CD3D_RT :=
  { m_pCommandQueue := 2, m_frameFence := 1, m_lastSignaledFence := 2, gpuTape := [1, 4] }

/-- A shutdown with no file-level resource left to release. -/
def nothingToRelease : ShutdownEnv :=
  { g_pRT_NullSrvTex2D := 0
    g_pRT_IrradianceCube := 0 }

/-- Resource `7` is handed to `RT_SafeRelease`, then the stage shuts down. -/
def releaseThenShutdown : List (Op Dec) := [Op.safeRelease 7, Op.shutdown nothingToRelease]

/-- A stage with device and queue, before its first frame. -/
def deviceReady : CD3D_RT := { m_pDevice := 1, m_pCommandQueue := 2 }

/-- A device that creates the frame fence `3` and no allocator up front, then
creates allocator `4` on demand; every `Reset` succeeds. -/
def beginEnv0 : BeginFrameEnv :=
  { init := { fence := some 3, allocators := fun _ => none }
    createHr := S_OK
    created := 4
    resetHr := S_OK }

/-- One frame of `Execute` that records work. -/
def oneFrame : List (Op Dec) := [Op.beginFrame beginEnv0, Op.recordWork, Op.endFrame]

/-- Fifteen such frames: the ring of frame contexts is gone through once. -/
def fifteenFrames : List (Op Dec) := (List.replicate 15 oneFrame).flatten

/-- A stage with an installed scene: a top-level structure whose result buffer
is `10`, built over one bottom-level structure whose result buffer is `20`. -/
def installedScene : CD3D_RT :=
  { m_pDevice := 1
    m_pCommandQueue := 2
    m_pTopLevelAS := 10
    m_tlasBuffers := { pScratch := 11, pResult := 10, pInstanceDesc := 12, resultVA := 1000 }
    m_sceneBLAS := [{ pScratch := 21, pResult := 20, pInstanceDesc := 0, resultVA := 2000 }]
    m_sceneBLASResults := [20] }

/-- A rebuild of one near triangle in which the allocation of the vertex buffer
fails. -/
def allocationFails : LevelBuildEnv Dec :=
  { streamingBusy := false
    refreshQueue := some 2
    deviceRemovedHr := S_OK
    extracted := [triangleAt "near" 1]
    terrain := none
    cam := originCam
    allocator := some 30
    commandList := some 31
    records := fun _ => {}
    tlas := {}
    closeHr := S_OK
    fenceCreated := true
    signalHr := S_OK }

/-- A device that builds every structure asked for, at addresses counted from
`base`: buffers `base + 40` to `base + 43` for the geometry, a bottom-level
structure with scratch `base + 44` and result `base + 45`, a top-level
structure with instance buffer `base + 51`, scratch `base + 52` and result
`base + 53`. -/
def buildAt (base : Nat) : LevelBuildEnv Dec :=
  { streamingBusy := false
    refreshQueue := some 2
    deviceRemovedHr := S_OK
    extracted := [triangleAt "near" 1]
    terrain := none
    cam := originCam
    allocator := some 30
    commandList := some 31
    records := fun _ =>
      { vb := some (base + 40, base + 41)
        ib := some (base + 42, base + 43)
        vbVA := 4000
        ibVA := 4200
        blas :=
          { resultDataMaxSizeInBytes := 64
            scratchDataSizeInBytes := 64
            scratch := base + 44
            result := base + 45
            resultVA := 100 * base + 4500 } }
    tlas :=
      { upload := base + 50
        mapped := true
        instanceDesc := base + 51
        resultDataMaxSizeInBytes := 64
        scratchDataSizeInBytes := 64
        scratch := base + 52
        result := base + 53
        resultVA := 100 * base + 5300 }
    closeHr := S_OK
    fenceCreated := true
    signalHr := S_OK }

/-- The first build of a level of one triangle. -/
def oneTriangleBuild : LevelBuildEnv Dec := buildAt 0

/-- The same build, but `Close` fails on the command list. -/
def closeFails : LevelBuildEnv Dec := { oneTriangleBuild with closeHr := E_FAIL }

/-- The same build, but the fence for the wait cannot be created. -/
def noBuildFence : LevelBuildEnv Dec := { oneTriangleBuild with fenceCreated := false }

/-- A test-scene build in which every allocation succeeds and `Close` fails. -/
def testSceneCloseFails : TestSceneEnv :=
  { deviceRemovedHr := S_OK
    queue := 2
    allocator := some 30
    commandList := some 31
    vb := some (40, 41)
    ib := some (42, 43)
    vbVA := 4000
    ibVA := 4200
    blas :=
      { resultDataMaxSizeInBytes := 64
        scratchDataSizeInBytes := 64
        scratch := 44
        result := 45
        resultVA := 4500 }
    resultVA2 := 0
    tlas :=
      { upload := 50
        mapped := true
        instanceDesc := 51
        resultDataMaxSizeInBytes := 64
        scratchDataSizeInBytes := 64
        scratch := 52
        result := 53
        resultVA := 5300 }
    closeHr := E_FAIL
    fenceCreated := true
    signalHr := S_OK }

/-- A rebuild in which the level build and the test-scene build both go
through. -/
def rebuildEnv : UpdateEnv Dec :=
  { streamingBusy := false
    level := buildAt 100
    test := { testSceneCloseFails with closeHr := S_OK } }

/-- A stage with device and queue whose GPU completes, up to the first read of
the frame fence, the value `2`, and nothing after that. -/
def healthyGpu : CD3D_RT := { m_pDevice := 1, m_pCommandQueue := 2, gpuTape := [2] }

/-- The first build of the level geometry followed by one frame with recorded
work: the frame fence is created and signalled with the value `2`. -/
def firstFrame : List (Op Dec) :=
  [Op.buildLevel oneTriangleBuild, Op.beginFrame beginEnv0, Op.recordWork, Op.endFrame]

/-- The first frame followed by 3600 calls of `UpdateAccelerationStructures`,
the last of which is due for a rebuild. -/
def untilRebuild : List (Op Dec) :=
  firstFrame ++ List.replicate 3599 (Op.update rebuildEnv) ++ [Op.update rebuildEnv]

/-- A stage with a frame fence that has completed `5`, no retired allocator,
and a deferred-queue entry with key `1` that holds resource `7`. -/
def dueEntry : CD3D_RT :=
  { m_pDevice := 1
    m_pCommandQueue := 2
    m_frameFence := 3
    m_lastSignaledFence := 5
    fenceCompleted := 5
    m_deferred := [{ fenceValue := 1, resources := [7] }] }

/-- A stage with pipeline state, shaders, descriptor heap and outputs whose
geometry was built in an earlier frame and whose top-level structure is not
installed. -/
def sceneLost : CD3D_RT :=
  { m_pDevice := 1
    m_pCommandQueue := 2
    m_frameFence := 3
    m_lastSignaledFence := 5
    m_lastDispatchFence := 5
    m_frameIndex := 4
    m_pRaytracingPSO := 60
    m_shadersCompiled := true
    m_pDescriptorHeap := 61
    m_pRaytracingOutput := 62
    m_pConstantsBuffer := 63
    s_geometryBuilt := true }

/-- A frame in which the engine is not loading and every call succeeds. -/
def calmFrame : ExecuteEnv Dec :=
  { isLevelLoading := false
    deviceRemovedHr := S_OK
    resources := {}
    level := oneTriangleBuild
    beginFrame := beginEnv0
    commandListHr := S_OK
    commandList := 31
    rays := {}
    closeHr := S_OK
    compose := {} }

/-- The same stage with the top-level structure `53` installed. -/
def sceneInstalled : CD3D_RT := { sceneLost with m_pTopLevelAS := 53 }

/-- An output image 4 wide and 3 high. -/
def output4x3 : RaysEnv :=
  { giWidth := 4, giHeight := 3, tlasVA := 5300, constantsMapped := true, noDispatch := 0 }

/-- An output image 4 wide whose description gives the height `0`. -/
def output4x0 : RaysEnv := { output4x3 with giHeight := 0 }

/-- An installed scene whose next call of `UpdateAccelerationStructures` is the
3600th. -/
def rebuildDue : CD3D_RT := { installedScene with frameCounter := 3599 }

/-- A rebuild asked for while streaming is busy. -/
def busyEnv : UpdateEnv Dec := { rebuildEnv with streamingBusy := true }

/-- A stage whose frame contexts all hold allocator `4`, stamped with the
fence value `7`, which the GPU has completed. -/
def stampedContexts : CD3D_RT :=
  { m_pDevice := 1
    m_pCommandQueue := 2
    m_frameFence := 3
    m_lastSignaledFence := 7
    m_lastDispatchFence := 7
    fenceCompleted := 7
    m_frameCtx := fun _ => { pAllocator := 4, fenceValue := 7, usedOnce := true } }

/-- A stage with pipeline state, shaders and an installed top-level structure,
before its outputs are created. -/
def readyForOutputs : CD3D_RT :=
  { m_pDevice := 1
    m_pCommandQueue := 2
    m_frameFence := 3
    m_pRaytracingPSO := 60
    m_shadersCompiled := true
    m_pTopLevelAS := 53
    s_geometryBuilt := true }

/-- An engine that has a compose target of 4 by 3 and creates the descriptor
heap `61`, the constants buffer `65` and the three output textures, with the
native resources `64` (ambient occlusion), `62` (GI) and `63` (reflections). -/
def outputsEnv : ResourcesEnv :=
  { composeDesc := some (4, 3)
    heap := 61
    aoTexture := some 64
    giTexture := some 62
    reflTexture := some 63
    constants := 65 }

/-- The same engine, but the reflection texture cannot be created. -/
def noReflTexture : ResourcesEnv := { outputsEnv with reflTexture := none }

/-- The same engine, but the ambient-occlusion texture cannot be created and
the device creates the stand-alone output `70` instead. -/
def noAOTexture : ResourcesEnv := { outputsEnv with aoTexture := none, aoFallback := some 70 }

/-- A frame in which `GetDeviceRemovedReason` fails. -/
def deviceLost : ExecuteEnv Dec := { calmFrame with deviceRemovedHr := E_FAIL }

/-- A frame that traces an output of 4 by 3 and in which `Close` fails. -/
def closeFailsFrame : ExecuteEnv Dec := { calmFrame with rays := output4x3, closeHr := E_FAIL }

/-- A compose pass with a destination image `80` of the size of the outputs, in
which every call succeeds; the command list is `81`. -/
def composeReady : ComposeEnv := { hasTarget := true, pDst := 80, pCL := 81, cl4 := 81 }

/-- An output image whose description gives the width `0` and the height `3`. -/
def output0x3 : RaysEnv := { output4x3 with giWidth := 0 }

/-- A device on which `CreateFence` fails for the frame fence; allocators are
created on demand. -/
def noFrameFence : BeginFrameEnv :=
  { beginEnv0 with init := { fence := none, allocators := fun _ => none } }

/-- A stage ready to trace, with an installed top-level structure, that has no
frame fence yet and whose fence counters are all `0`. -/
def beforeFirstFrame : CD3D_RT :=
  { m_pDevice := 1
    m_pCommandQueue := 2
    m_pRaytracingPSO := 60
    m_shadersCompiled := true
    m_pDescriptorHeap := 61
    m_pRaytracingOutput := 62
    m_pConstantsBuffer := 63
    m_pTopLevelAS := 53
    s_geometryBuilt := true }

/-- A frame that traces an output image of 4 by 3. -/
def tracingFrame : ExecuteEnv Dec := { calmFrame with rays := output4x3 }

/-- A frame whose output image is `0` wide. -/
def zeroWidthFrame : ExecuteEnv Dec := { calmFrame with rays := output0x3 }

/-- A frame whose output image is 4 wide and `0` high. -/
def zeroHeightFrame : ExecuteEnv Dec := { calmFrame with rays := output4x0 }

/-- A frame that traces an output image of 4 by 3 on a device on which
`CreateFence` fails for the frame fence. -/
def unfencedFrame : ExecuteEnv Dec := { tracingFrame with beginFrame := noFrameFence }

/-- A stage with device and queue whose GPU completes nothing up to the first
sixteen reads of the frame fence and the value `3` up to the seventeenth. -/
def lateGpu : CD3D_RT :=
  { m_pDevice := 1, m_pCommandQueue := 2, gpuTape := List.replicate 16 0 ++ [3] }

/-- The first part of `Shutdown` on a stage that was not shut down before, up to
and including the loop `for (auto* r : m_sceneBLASResults) RT_SafeRelease(r)`:
what follows is the loop over `m_sceneBLAS`. -/
def shutdownUpToSceneResults (s : CD3D_RT) : CD3D_RT :=
  let s := { s with s_shutdownInProgress := true }
  let s := s.shutdownSignal
  let s := s.drainQueue
  let s := s.setTopLevelAS 0
  let released := s.RT_ReleaseASBuffers s.m_tlasBuffers
  let s := released.1.setTlasBuffers released.2
  let released := s.RT_ReleaseASBuffers s.m_blasBuffers
  let s := released.1.setBlasBuffers released.2
  let released := s.safeReleaseEach s.m_sceneBLASResults
  released.1.setSceneBLASResults released.2

end CD3D_RT
/-! ## Theorems -/

section ValidateThms

variable {F : Type} [FloatOps F]

theorem maxIndex_foldl_ge (l : List Nat) (acc : Nat) :
    acc ≤ l.foldl (fun maxIdx idx => if idx > maxIdx then idx else maxIdx) acc ∧
    ∀ x ∈ l, x ≤ l.foldl (fun maxIdx idx => if idx > maxIdx then idx else maxIdx) acc := by
  induction l generalizing acc with
  | nil => simp
  | cons a l ih =>
    simp only [List.foldl_cons, List.mem_cons, forall_eq_or_imp]
    have h := ih (if a > acc then a else acc)
    refine ⟨?_, ?_, h.2⟩
    · have : acc ≤ (if a > acc then a else acc) := by split <;> omega
      exact le_trans this h.1
    · have : a ≤ (if a > acc then a else acc) := by split <;> omega
      exact le_trans this h.1

theorem maxIndex_foldl_mem (l : List Nat) (acc : Nat) :
    l.foldl (fun maxIdx idx => if idx > maxIdx then idx else maxIdx) acc = acc ∨
    l.foldl (fun maxIdx idx => if idx > maxIdx then idx else maxIdx) acc ∈ l := by
  induction l generalizing acc with
  | nil => simp
  | cons a l ih =>
    simp only [List.foldl_cons, List.mem_cons]
    rcases ih (if a > acc then a else acc) with h | h
    · rw [h]
      by_cases hc : a > acc
      · simp [hc]
      · simp [hc]
    · exact Or.inr (Or.inr h)

theorem maxIndex_lt_iff (l : List Nat) (v : Nat) (hv : 0 < v) :
    maxIndex l < v ↔ ∀ idx ∈ l, idx < v := by
  unfold maxIndex
  constructor
  · intro h x hx
    exact lt_of_le_of_lt ((maxIndex_foldl_ge l 0).2 x hx) h
  · intro h
    rcases maxIndex_foldl_mem l 0 with h0 | h0
    · rw [h0]; exact hv
    · exact h _ h0

theorem triangleLoop_spec (m : SafeGeometryData F)
    (hidx : ∀ idx ∈ m.indices, idx < m.vertices.length) (fuel j : Nat)
    (hf : 100 < fuel + j) (hj : j ≤ 100) :
    ∃ d, triangleLoop m m.indices.length fuel (3 * j) = some d ∧
      (d = true ↔ ∃ k, j ≤ k ∧ k < 100 ∧ triangleDegenerate m k) := by
  induction fuel generalizing j with
  | zero => omega
  | succ fuel ih =>
    unfold triangleLoop
    by_cases hc : 3 * j + 2 < m.indices.length ∧ 3 * j < 300
    · rw [if_pos hc]
      obtain ⟨hc1, hc2⟩ := hc
      have h0 : 3 * j + 0 < m.indices.length := by omega
      have h1 : 3 * j + 1 < m.indices.length := by omega
      have hv0 := hidx _ (List.getElem_mem h0)
      have hv1 := hidx _ (List.getElem_mem h1)
      have hv2 := hidx _ (List.getElem_mem hc1)
      simp only [List.getElem?_eq_getElem h0, List.getElem?_eq_getElem h1,
        List.getElem?_eq_getElem hc1, List.getElem?_eq_getElem hv0,
        List.getElem?_eq_getElem hv1, List.getElem?_eq_getElem hv2, Option.bind_eq_bind,
        Option.some_bind]
      by_cases hd : isDegenerate (m.vertices[m.indices[3 * j + 0]]) (m.vertices[m.indices[3 * j + 1]])
          (m.vertices[m.indices[3 * j + 2]]) = true
      · rw [if_pos hd]
        refine ⟨true, rfl, ?_⟩
        simp only [true_iff]
        refine ⟨j, le_refl _, by omega, ?_⟩
        exact ⟨_, _, _, _, _, _, List.getElem?_eq_getElem h0, List.getElem?_eq_getElem h1,
          List.getElem?_eq_getElem hc1, List.getElem?_eq_getElem hv0,
          List.getElem?_eq_getElem hv1, List.getElem?_eq_getElem hv2, hd⟩
      · rw [if_neg hd]
        obtain ⟨d, hd1, hd2⟩ := ih (j + 1) (by omega) (by omega)
        have e3 : 3 * (j + 1) = 3 * j + 3 := by ring
        rw [e3] at hd1
        refine ⟨d, hd1, ?_⟩
        rw [hd2]
        constructor
        · rintro ⟨k, hk1, hk2, hk3⟩
          exact ⟨k, by omega, hk2, hk3⟩
        · rintro ⟨k, hk1, hk2, hk3⟩
          rcases Nat.eq_or_lt_of_le hk1 with hk | hk
          · subst hk
            exfalso
            obtain ⟨i0, i1, i2, a, b, c, e0, e1, e2, ea, eb, ec, hdeg⟩ := hk3
            have e0 : m.indices[3 * j + 0]? = some i0 := e0
            rw [List.getElem?_eq_getElem h0] at e0
            rw [List.getElem?_eq_getElem h1] at e1
            rw [List.getElem?_eq_getElem hc1] at e2
            cases e0; cases e1; cases e2
            rw [List.getElem?_eq_getElem hv0] at ea
            rw [List.getElem?_eq_getElem hv1] at eb
            rw [List.getElem?_eq_getElem hv2] at ec
            cases ea; cases eb; cases ec
            exact hd hdeg
          · exact ⟨k, by omega, hk2, hk3⟩
    · rw [if_neg hc]
      refine ⟨false, rfl, ?_⟩
      simp only [Bool.false_eq_true, false_iff, not_exists, not_and]
      intro k hk1 hk2 hk3
      obtain ⟨i0, i1, i2, a, b, c, e0, e1, e2, -⟩ := hk3
      have : 3 * k + 2 < m.indices.length := by
        by_contra hcon
        rw [List.getElem?_eq_none (by omega)] at e2
        cases e2
      apply hc
      omega

/-- C1: `ValidateMeshData` returns a verdict for every record, and the verdict
is `true` exactly when the record has at least 3 vertices, its index count is at
least 3, a multiple of 3 and at most 30,000,000, every index is below the vertex
count, every vertex coordinate is finite, and none of the first 100 triangles
has a squared cross-product magnitude below `1e-20f`. -/
theorem C1_ValidateMeshData_iff (m : SafeGeometryData F) (why : String) :
    ∃ b w, ValidateMeshData m why = some (b, w) ∧
      (b = true ↔
        (3 ≤ m.vertices.length ∧
         3 ≤ m.indices.length ∧ m.indices.length % 3 = 0 ∧ m.indices.length ≤ 30000000 ∧
         (∀ idx ∈ m.indices, idx < m.vertices.length) ∧
         (∀ p ∈ m.vertices, FloatOps.isfinite p.x = true ∧ FloatOps.isfinite p.y = true ∧
            FloatOps.isfinite p.z = true) ∧
         ∀ k, k < 100 → ¬ triangleDegenerate m k)) := by
  unfold ValidateMeshData
  simp only
  by_cases h1 : m.vertices.length < 3
  · rw [if_pos h1]
    exact ⟨false, _, rfl, by simp; omega⟩
  rw [if_neg h1]
  by_cases h2 : m.indices.length < 3 ∨ m.indices.length % 3 ≠ 0
  · rw [if_pos h2]
    refine ⟨false, _, rfl, ?_⟩
    simp only [Bool.false_eq_true, false_iff]
    rintro ⟨-, h3, h4, -⟩
    omega
  rw [if_neg h2]
  by_cases h3 : m.indices.length > 30000000
  · rw [if_pos h3]
    refine ⟨false, _, rfl, ?_⟩
    simp only [Bool.false_eq_true, false_iff]
    rintro ⟨-, -, -, h4, -⟩
    omega
  rw [if_neg h3]
  have hmax := maxIndex_lt_iff m.indices m.vertices.length (by omega)
  by_cases h4 : maxIndex m.indices ≥ m.vertices.length
  · rw [if_pos h4]
    refine ⟨false, _, rfl, ?_⟩
    simp only [Bool.false_eq_true, false_iff]
    rintro ⟨-, -, -, -, h5, -⟩
    have := hmax.2 h5
    omega
  rw [if_neg h4]
  have hidx := hmax.1 (by omega)
  by_cases h5 : m.vertices.any hasNonFinite = true
  · rw [if_pos h5]
    refine ⟨false, _, rfl, ?_⟩
    simp only [Bool.false_eq_true, false_iff]
    rintro ⟨-, -, -, -, -, h6, -⟩
    rw [List.any_eq_true] at h5
    obtain ⟨p, hp, hnf⟩ := h5
    obtain ⟨fx, fy, fz⟩ := h6 p hp
    simp [hasNonFinite, fx, fy, fz] at hnf
  rw [if_neg h5]
  have hfin : ∀ p ∈ m.vertices, FloatOps.isfinite p.x = true ∧ FloatOps.isfinite p.y = true ∧
      FloatOps.isfinite p.z = true := by
    intro p hp
    have : hasNonFinite p = false := by
      by_contra hcon
      apply h5
      rw [List.any_eq_true]
      exact ⟨p, hp, by simpa using hcon⟩
    simp only [hasNonFinite, Bool.or_eq_false_iff, Bool.not_eq_false'] at this
    exact ⟨this.1.1, this.1.2, this.2⟩
  obtain ⟨d, hd1, hd2⟩ := triangleLoop_spec m hidx 101 0 (by omega) (by omega)
  rw [Nat.mul_zero] at hd1
  rw [hd1]
  cases d with
  | true =>
    refine ⟨false, _, rfl, ?_⟩
    simp only [Bool.false_eq_true, false_iff]
    rintro ⟨-, -, -, -, -, -, h7⟩
    obtain ⟨k, -, hk, hdeg⟩ := hd2.1 rfl
    exact h7 k hk hdeg
  | false =>
    refine ⟨true, _, rfl, ?_⟩
    simp only [true_iff]
    refine ⟨by omega, by omega, by omega, by omega, hidx, hfin, ?_⟩
    intro k hk hdeg
    have := hd2.2 ⟨k, Nat.zero_le _, hk, hdeg⟩
    cases this

end ValidateThms

section SortLemmas

variable {α : Type} (less : α → α → Bool)

theorem insertStable_perm (a : α) (l : List α) : (insertStable less a l).Perm (a :: l) := by
  induction l with
  | nil => exact List.Perm.refl _
  | cons b l ih =>
    unfold insertStable
    split
    · exact ((List.Perm.cons b ih).trans (List.Perm.swap a b l))
    · exact List.Perm.refl _

theorem stable_sort_perm (l : List α) : (stable_sort less l).Perm l := by
  induction l with
  | nil => exact List.Perm.refl _
  | cons a l ih =>
    unfold stable_sort
    exact (insertStable_perm less a _).trans (List.Perm.cons a ih)

theorem insertStable_sorted (S : α → Prop)
    (hasym : ∀ a b, S a → S b → less a b = true → less b a = false)
    (hneg : ∀ a b c, S a → S b → S c → less a b = false → less b c = false → less a c = false)
    (a : α) (ha : S a) (l : List α) (hl : ∀ x ∈ l, S x)
    (hs : l.Pairwise (fun x y => less y x = false)) :
    (insertStable less a l).Pairwise (fun x y => less y x = false) := by
  induction l with
  | nil => exact List.pairwise_singleton _ _
  | cons b l ih =>
    have hb : S b := hl b (List.mem_cons_self _ _)
    have hl' : ∀ x ∈ l, S x := fun x hx => hl x (List.mem_cons_of_mem _ hx)
    rw [List.pairwise_cons] at hs
    unfold insertStable
    split
    · rename_i hba
      rw [List.pairwise_cons]
      refine ⟨?_, ih hl' hs.2⟩
      intro y hy
      rw [List.Perm.mem_iff (insertStable_perm less a l), List.mem_cons] at hy
      rcases hy with rfl | hy'
      · exact hasym b y hb ha hba
      · exact hs.1 _ hy'
    · rename_i hba
      have hba' : less b a = false := by simpa using hba
      rw [List.pairwise_cons]
      refine ⟨?_, List.pairwise_cons.2 hs⟩
      intro y hy
      rcases List.mem_cons.1 hy with rfl | hy'
      · exact hba'
      · exact hneg y _ a (hl' y hy') hb ha (hs.1 y hy') hba'

theorem stable_sort_sorted (S : α → Prop)
    (hasym : ∀ a b, S a → S b → less a b = true → less b a = false)
    (hneg : ∀ a b c, S a → S b → S c → less a b = false → less b c = false → less a c = false)
    (l : List α) (hl : ∀ x ∈ l, S x) :
    (stable_sort less l).Pairwise (fun x y => less y x = false) := by
  induction l with
  | nil => exact List.Pairwise.nil
  | cons a l ih =>
    unfold stable_sort
    have hl' : ∀ x ∈ l, S x := fun x hx => hl x (List.mem_cons_of_mem _ hx)
    refine insertStable_sorted less S hasym hneg a (hl a (List.mem_cons_self _ _)) _ ?_ (ih hl')
    intro x hx
    exact hl' x ((List.Perm.mem_iff (stable_sort_perm less l)).1 hx)

theorem insertStable_filter (S : α → Prop)
    (hneg : ∀ a b c, S a → S b → S c → less a b = false → less b c = false → less a c = false)
    (x : α) (hx : S x) (a : α) (ha : S a) (l : List α) (hl : ∀ y ∈ l, S y) :
    (insertStable less a l).filter (fun y => !less x y && !less y x) =
      (a :: l).filter (fun y => !less x y && !less y x) := by
  induction l with
  | nil => rfl
  | cons b l ih =>
    have hb : S b := hl b (List.mem_cons_self _ _)
    have hl' : ∀ y ∈ l, S y := fun y hy => hl y (List.mem_cons_of_mem _ hy)
    unfold insertStable
    split
    · rename_i hba
      rw [List.filter_cons, ih hl']
      by_cases hxa : (!less x a && !less a x) = true
      · by_cases hxb : (!less x b && !less b x) = true
        · exfalso
          simp only [Bool.and_eq_true, Bool.not_eq_true'] at hxa hxb
          have := hneg b x a hb hx ha hxb.2 hxa.1
          rw [this] at hba
          exact Bool.false_ne_true hba
        · simp only [hxb, List.filter_cons]
          simp
      · simp only [List.filter_cons, hxa]
        simp
    · rfl

theorem stable_sort_filter (S : α → Prop)
    (hneg : ∀ a b c, S a → S b → S c → less a b = false → less b c = false → less a c = false)
    (x : α) (hx : S x) (l : List α) (hl : ∀ y ∈ l, S y) :
    (stable_sort less l).filter (fun y => !less x y && !less y x) =
      l.filter (fun y => !less x y && !less y x) := by
  induction l with
  | nil => rfl
  | cons a l ih =>
    have hl' : ∀ y ∈ l, S y := fun y hy => hl y (List.mem_cons_of_mem _ hy)
    unfold stable_sort
    rw [insertStable_filter less S hneg x hx a (hl a (List.mem_cons_self _ _)) _
      (fun y hy => hl' y ((List.Perm.mem_iff (stable_sort_perm less l)).1 hy))]
    rw [List.filter_cons, List.filter_cons, ih hl']

end SortLemmas

section SelectorThms

variable {F : Type} [FloatOps F]

theorem RT_SortKeepNearest_eq (geo : List (SafeGeometryData F)) (camPos : Vec3 F)
    (maxKeep : Nat) :
    RT_SortKeepNearest geo camPos maxKeep =
      (stable_sort (fun a b => FloatOps.lt (sortDistance camPos a) (sortDistance camPos b))
        geo).take maxKeep := by
  unfold RT_SortKeepNearest
  simp only
  split
  · rfl
  · rename_i h
    rw [List.take_of_length_le (by omega)]

theorem RT_SortKeepNearest_length (geo : List (SafeGeometryData F)) (camPos : Vec3 F)
    (maxKeep : Nat) :
    (RT_SortKeepNearest geo camPos maxKeep).length = min geo.length maxKeep := by
  rw [RT_SortKeepNearest_eq, List.length_take, (stable_sort_perm _ geo).length_eq, Nat.min_comm]

/-- C7 (as amended): when the candidate list is longer than `maxKeep`,
`RT_SortKeepNearest` keeps `maxKeep` records and drops the others, the kept and
the dropped records together being the input records (each as often as it
occurs there), and the key of a kept record is never greater than the key of a
dropped record.  The key of a record is the squared distance from the viewpoint
to its FIRST vertex `vertices[0]`, and `1e30f` for a record without vertices;
it is not the distance to the nearest vertex of the record.  The comparator is
assumed to be a strict weak order on the keys of the input, which
`std::stable_sort` requires. -/
theorem C7_keeps_nearest_by_first_vertex (geo : List (SafeGeometryData F)) (camPos : Vec3 F)
    (maxKeep : Nat) (hM : maxKeep < geo.length)
    (hasym : ∀ a ∈ geo, ∀ b ∈ geo,
      FloatOps.lt (sortDistance camPos a) (sortDistance camPos b) = true →
        FloatOps.lt (sortDistance camPos b) (sortDistance camPos a) = false)
    (hneg : ∀ a ∈ geo, ∀ b ∈ geo, ∀ c ∈ geo,
      FloatOps.lt (sortDistance camPos a) (sortDistance camPos b) = false →
        FloatOps.lt (sortDistance camPos b) (sortDistance camPos c) = false →
          FloatOps.lt (sortDistance camPos a) (sortDistance camPos c) = false) :
    (∃ dropped : List (SafeGeometryData F),
      (RT_SortKeepNearest geo camPos maxKeep ++ dropped).Perm geo ∧
      (RT_SortKeepNearest geo camPos maxKeep).length = maxKeep ∧
      (∀ k ∈ RT_SortKeepNearest geo camPos maxKeep, ∀ d ∈ dropped,
        FloatOps.lt (sortDistance camPos d) (sortDistance camPos k) = false) ∧
      (∀ k ∈ RT_SortKeepNearest geo camPos maxKeep, ∀ d ∈ dropped,
        ∀ (vk vd : Vec3 F) (rk rd : List (Vec3 F)),
          k.vertices = vk :: rk → d.vertices = vd :: rd →
            FloatOps.lt (vd.sub camPos).GetLengthSquared (vk.sub camPos).GetLengthSquared
              = false) ∧
      (∀ k ∈ RT_SortKeepNearest geo camPos maxKeep, ∀ d ∈ dropped,
        ∀ (vk : Vec3 F) (rk : List (Vec3 F)), k.vertices = vk :: rk → d.vertices = [] →
          FloatOps.lt FloatOps.c1e30 (vk.sub camPos).GetLengthSquared = false) ∧
      (∀ k ∈ RT_SortKeepNearest geo camPos maxKeep, ∀ d ∈ dropped,
        ∀ (vd : Vec3 F) (rd : List (Vec3 F)), k.vertices = [] → d.vertices = vd :: rd →
          FloatOps.lt (vd.sub camPos).GetLengthSquared FloatOps.c1e30 = false)) ∧
    (∀ (a : SafeGeometryData F) (v0 : Vec3 F) (rest : List (Vec3 F)),
      a.vertices = v0 :: rest → sortDistance camPos a = (v0.sub camPos).GetLengthSquared) ∧
    (∀ a : SafeGeometryData F, a.vertices = [] → sortDistance camPos a = FloatOps.c1e30) := by
  have key1 : ∀ (a : SafeGeometryData F) (v0 : Vec3 F) (rest : List (Vec3 F)),
      a.vertices = v0 :: rest → sortDistance camPos a = (v0.sub camPos).GetLengthSquared := by
    intro a v0 rest h
    unfold sortDistance
    rw [h]
  have key0 : ∀ a : SafeGeometryData F, a.vertices = [] →
      sortDistance camPos a = FloatOps.c1e30 := by
    intro a h
    unfold sortDistance
    rw [h]
  have hs := stable_sort_sorted
    (fun a b => FloatOps.lt (sortDistance camPos a) (sortDistance camPos b)) (fun x => x ∈ geo)
    (fun a b ha hb => hasym a ha b hb) (fun a b c ha hb hc => hneg a ha b hb c hc) geo
    (fun x hx => hx)
  rw [← List.take_append_drop maxKeep (stable_sort _ geo), List.pairwise_append] at hs
  have hkd : ∀ k ∈ RT_SortKeepNearest geo camPos maxKeep,
      ∀ d ∈ (stable_sort (fun a b => FloatOps.lt (sortDistance camPos a)
        (sortDistance camPos b)) geo).drop maxKeep,
        FloatOps.lt (sortDistance camPos d) (sortDistance camPos k) = false := by
    rw [RT_SortKeepNearest_eq]
    exact hs.2.2
  refine ⟨⟨(stable_sort (fun a b => FloatOps.lt (sortDistance camPos a) (sortDistance camPos b))
    geo).drop maxKeep, ?_, ?_, hkd, ?_, ?_, ?_⟩, key1, key0⟩
  · rw [RT_SortKeepNearest_eq, List.take_append_drop]
    exact stable_sort_perm _ geo
  · rw [RT_SortKeepNearest_length]
    omega
  · intro k hk d hd vk vd rk rd ek ed
    have h := hkd k hk d hd
    rw [key1 k vk rk ek, key1 d vd rd ed] at h
    exact h
  · intro k hk d hd vk rk ek ed
    have h := hkd k hk d hd
    rw [key1 k vk rk ek, key0 d ed] at h
    exact h
  · intro k hk d hd vd rd ek ed
    have h := hkd k hk d hd
    rw [key0 k ek, key1 d vd rd ed] at h
    exact h

/-- C9 (amended): the output of `RT_SortKeepNearest` is in non-decreasing order
of the squared distance from the viewpoint to the FIRST vertex of each record
(`sortDistance`), and the sort is stable: the output records the comparator
holds equivalent to a given input record are, in the input order, the first
ones of the input that are so.  The comparator is assumed to be a strict weak
order on the distances of the input. -/
theorem C9_sorted_by_first_vertex_stable (geo : List (SafeGeometryData F)) (camPos : Vec3 F)
    (maxKeep : Nat)
    (hasym : ∀ a ∈ geo, ∀ b ∈ geo,
      FloatOps.lt (sortDistance camPos a) (sortDistance camPos b) = true →
        FloatOps.lt (sortDistance camPos b) (sortDistance camPos a) = false)
    (hneg : ∀ a ∈ geo, ∀ b ∈ geo, ∀ c ∈ geo,
      FloatOps.lt (sortDistance camPos a) (sortDistance camPos b) = false →
        FloatOps.lt (sortDistance camPos b) (sortDistance camPos c) = false →
          FloatOps.lt (sortDistance camPos a) (sortDistance camPos c) = false) :
    (RT_SortKeepNearest geo camPos maxKeep).Pairwise
        (fun a b => FloatOps.lt (sortDistance camPos b) (sortDistance camPos a) = false) ∧
      ∀ x ∈ geo,
        ((RT_SortKeepNearest geo camPos maxKeep).filter (sameDistance camPos x)) <+:
          (geo.filter (sameDistance camPos x)) := by
  have hs := stable_sort_sorted
    (fun a b => FloatOps.lt (sortDistance camPos a) (sortDistance camPos b)) (fun x => x ∈ geo)
    (fun a b ha hb => hasym a ha b hb) (fun a b c ha hb hc => hneg a ha b hb c hc) geo
    (fun x hx => hx)
  refine ⟨?_, ?_⟩
  · rw [RT_SortKeepNearest_eq]
    exact hs.sublist (List.take_sublist _ _)
  · intro x hx
    have hf := stable_sort_filter
      (fun a b => FloatOps.lt (sortDistance camPos a) (sortDistance camPos b)) (fun x => x ∈ geo)
      (fun a b c ha hb hc => hneg a ha b hb c hc) x hx geo (fun y hy => hy)
    rw [RT_SortKeepNearest_eq]
    have hp := List.IsPrefix.filter (sameDistance camPos x)
      (List.take_prefix maxKeep (stable_sort
        (fun a b => FloatOps.lt (sortDistance camPos a) (sortDistance camPos b)) geo))
    have he : (stable_sort (fun a b => FloatOps.lt (sortDistance camPos a)
        (sortDistance camPos b)) geo).filter (sameDistance camPos x) =
        geo.filter (sameDistance camPos x) := hf
    rw [he] at hp
    exact hp

end SelectorThms

section SelectorThms2

variable {F : Type} [FloatOps F]

theorem RT_InsertCameraDebugQuad_spec (geo : List (SafeGeometryData F)) (cam : CCamera F) :
    ∃ q : SafeGeometryData F, q.vertices.length = 4 ∧ q.indices = [0, 1, 2, 0, 2, 3] ∧
      q.worldTransform = Matrix34.CreateIdentity ∧
      RT_InsertCameraDebugQuad geo cam = geo ++ [q] := by
  unfold RT_InsertCameraDebugQuad
  simp only
  refine ⟨_, ?_, ?_, ?_, if_pos ?_⟩
  · rfl
  · rfl
  · rfl
  · exact ⟨(by omega : 4 ≥ 3), rfl⟩

theorem RT_SortKeepNearest_ne_nil (geo : List (SafeGeometryData F)) (camPos : Vec3 F)
    (h : geo ≠ []) : RT_SortKeepNearest geo camPos 8 ≠ [] := by
  intro h0
  have hl := RT_SortKeepNearest_length geo camPos 8
  rw [h0] at hl
  have : 0 < geo.length := List.length_pos.2 h
  simp only [List.length_nil] at hl
  omega

theorem selectLevelGeometry_length (extracted : List (SafeGeometryData F))
    (terrain : Option (SafeGeometryData F)) (cam : CCamera F) (l : List (SafeGeometryData F))
    (h : selectLevelGeometry extracted terrain cam = some l) : l.length ≤ 8 := by
  unfold selectLevelGeometry at h
  simp only at h
  split at h
  · exact absurd h (by simp)
  · rw [Option.some.injEq] at h
    rw [← h, RT_SortKeepNearest_length]
    exact Nat.min_le_right _ _

/-- C10 (amended): in the selection stage of `CreateLevelGeometryBLASAndTLAS`,
an empty candidate list (after the terrain patch) ends the call with `E_FAIL`
and no quad; for a non-empty candidate list, when no record has its first
vertex at squared distance below `200 * 200` from the viewpoint exactly one
quad (4 vertices, indices 0,1,2,0,2,3, identity transform) is appended before
the sort, otherwise the list is sorted as it is; in both cases the build goes
on with a non-empty list. -/
theorem C10_fallback_quad (extracted : List (SafeGeometryData F))
    (terrain : Option (SafeGeometryData F)) (cam : CCamera F) :
    (RT_AppendTerrainPatch extracted terrain = [] →
      selectLevelGeometry extracted terrain cam = none) ∧
    (RT_AppendTerrainPatch extracted terrain ≠ [] →
      (hasNearGeometry (RT_AppendTerrainPatch extracted terrain) cam.position = false →
        ∃ q : SafeGeometryData F, q.vertices.length = 4 ∧ q.indices = [0, 1, 2, 0, 2, 3] ∧
          q.worldTransform = Matrix34.CreateIdentity ∧
          selectLevelGeometry extracted terrain cam =
            some (RT_SortKeepNearest (RT_AppendTerrainPatch extracted terrain ++ [q])
              cam.position 8)) ∧
      (hasNearGeometry (RT_AppendTerrainPatch extracted terrain) cam.position = true →
        selectLevelGeometry extracted terrain cam =
          some (RT_SortKeepNearest (RT_AppendTerrainPatch extracted terrain) cam.position 8)) ∧
      ∃ l, selectLevelGeometry extracted terrain cam = some l ∧ l ≠ []) := by
  unfold selectLevelGeometry
  simp only
  generalize RT_AppendTerrainPatch extracted terrain = cand
  refine ⟨?_, ?_⟩
  · intro h
    rw [h]
    rfl
  · intro h
    have he : cand.isEmpty = false := by
      cases cand with
      | nil => exact absurd rfl h
      | cons a l => rfl
    rw [he]
    simp only [Bool.false_eq_true, if_false]
    obtain ⟨q, hq1, hq2, hq3, hq4⟩ := RT_InsertCameraDebugQuad_spec cand cam
    refine ⟨?_, ?_, ?_⟩
    · intro hn
      refine ⟨q, hq1, hq2, hq3, ?_⟩
      rw [hn, ← hq4]
      rfl
    · intro hn
      rw [hn]
      rfl
    · cases hn : hasNearGeometry cand cam.position
      · refine ⟨_, rfl, ?_⟩
        apply RT_SortKeepNearest_ne_nil
        simp only [Bool.not_false, if_true]
        rw [hq4]
        simp
      · refine ⟨_, rfl, ?_⟩
        apply RT_SortKeepNearest_ne_nil
        simpa using h

end SelectorThms2

namespace CD3D_RT

/-! ### Frame lemmas -/

theorem emit_trace (s : CD3D_RT) (e : Event) : (s.emit e).trace = s.trace ++ [e] := rfl

theorem advance_trace (s : CD3D_RT) : s.advance.trace = s.trace := rfl

theorem emit_m_deferred (s : CD3D_RT) (e : Event) : (s.emit e).m_deferred = s.m_deferred := rfl

theorem advance_m_deferred (s : CD3D_RT) : s.advance.m_deferred = s.m_deferred := rfl

theorem emit_m_lastSignaledFence (s : CD3D_RT) (e : Event) :
    (s.emit e).m_lastSignaledFence = s.m_lastSignaledFence := rfl

theorem advance_m_lastSignaledFence (s : CD3D_RT) :
    s.advance.m_lastSignaledFence = s.m_lastSignaledFence := rfl

theorem TraceExt.reflT (P : Event → Prop) (s : CD3D_RT) : TraceExt P s s :=
  ⟨[], by simp, by simp⟩

theorem TraceExt.of_eqT {P : Event → Prop} {s s' : CD3D_RT} (h : s'.trace = s.trace) :
    TraceExt P s s' :=
  ⟨[], by simp [h], by simp⟩

theorem TraceExt.transT {P : Event → Prop} {s s' s'' : CD3D_RT} (h1 : TraceExt P s s')
    (h2 : TraceExt P s' s'') : TraceExt P s s'' := by
  obtain ⟨l1, e1, p1⟩ := h1
  obtain ⟨l2, e2, p2⟩ := h2
  refine ⟨l1 ++ l2, by rw [e2, e1, List.append_assoc], ?_⟩
  intro e he
  rcases List.mem_append.1 he with h | h
  · exact p1 e h
  · exact p2 e h

theorem TraceExt.monoT {P Q : Event → Prop} {s s' : CD3D_RT} (h : TraceExt P s s')
    (hPQ : ∀ e, P e → Q e) : TraceExt Q s s' := by
  obtain ⟨l, e1, p1⟩ := h
  exact ⟨l, e1, fun e he => hPQ e (p1 e he)⟩

theorem TraceExt.emit {P : Event → Prop} (s : CD3D_RT) (e : Event) (h : P e) :
    TraceExt P s (s.emit e) :=
  ⟨[e], rfl, by simpa using h⟩

theorem TraceExt.mem {P : Event → Prop} {s s' : CD3D_RT} (h : TraceExt P s s') {e : Event}
    (he : e ∈ s'.trace) : e ∈ s.trace ∨ P e := by
  obtain ⟨l, e1, p1⟩ := h
  rw [e1] at he
  rcases List.mem_append.1 he with h | h
  · exact Or.inl h
  · exact Or.inr (p1 e h)

theorem TraceExt.subset {P : Event → Prop} {s s' : CD3D_RT} (h : TraceExt P s s') {e : Event}
    (he : e ∈ s.trace) : e ∈ s'.trace := by
  obtain ⟨l, e1, -⟩ := h
  rw [e1]
  exact List.mem_append_left _ he

theorem core_m_pDevice {a b : CD3D_RT} (h : a.core = b.core) : a.m_pDevice = b.m_pDevice := by
  have h1 := congrArg CD3D_RT.m_pDevice h
  exact h1

theorem core_m_pCommandQueue {a b : CD3D_RT} (h : a.core = b.core) : a.m_pCommandQueue = b.m_pCommandQueue := by
  have h1 := congrArg CD3D_RT.m_pCommandQueue h
  exact h1

theorem core_m_frameFence {a b : CD3D_RT} (h : a.core = b.core) : a.m_frameFence = b.m_frameFence := by
  have h1 := congrArg CD3D_RT.m_frameFence h
  exact h1

theorem core_m_lastSignaledFence {a b : CD3D_RT} (h : a.core = b.core) : a.m_lastSignaledFence = b.m_lastSignaledFence := by
  have h1 := congrArg CD3D_RT.m_lastSignaledFence h
  exact h1

theorem core_m_lastDispatchFence {a b : CD3D_RT} (h : a.core = b.core) : a.m_lastDispatchFence = b.m_lastDispatchFence := by
  have h1 := congrArg CD3D_RT.m_lastDispatchFence h
  exact h1

theorem core_m_lastASBuildFence {a b : CD3D_RT} (h : a.core = b.core) : a.m_lastASBuildFence = b.m_lastASBuildFence := by
  have h1 := congrArg CD3D_RT.m_lastASBuildFence h
  exact h1

theorem core_m_frameIndex {a b : CD3D_RT} (h : a.core = b.core) : a.m_frameIndex = b.m_frameIndex := by
  have h1 := congrArg CD3D_RT.m_frameIndex h
  exact h1

theorem core_m_frameRecordedWork {a b : CD3D_RT} (h : a.core = b.core) : a.m_frameRecordedWork = b.m_frameRecordedWork := by
  have h1 := congrArg CD3D_RT.m_frameRecordedWork h
  exact h1

theorem core_m_frameCtx {a b : CD3D_RT} (h : a.core = b.core) : a.m_frameCtx = b.m_frameCtx := by
  have h1 := congrArg CD3D_RT.m_frameCtx h
  exact h1

theorem core_m_pTopLevelAS {a b : CD3D_RT} (h : a.core = b.core) : a.m_pTopLevelAS = b.m_pTopLevelAS := by
  have h1 := congrArg CD3D_RT.m_pTopLevelAS h
  exact h1

theorem core_m_tlasBuffers {a b : CD3D_RT} (h : a.core = b.core) : a.m_tlasBuffers = b.m_tlasBuffers := by
  have h1 := congrArg CD3D_RT.m_tlasBuffers h
  exact h1

theorem core_m_blasBuffers {a b : CD3D_RT} (h : a.core = b.core) : a.m_blasBuffers = b.m_blasBuffers := by
  have h1 := congrArg CD3D_RT.m_blasBuffers h
  exact h1

theorem core_m_sceneBLAS {a b : CD3D_RT} (h : a.core = b.core) : a.m_sceneBLAS = b.m_sceneBLAS := by
  have h1 := congrArg CD3D_RT.m_sceneBLAS h
  exact h1

theorem core_m_sceneBLASResults {a b : CD3D_RT} (h : a.core = b.core) : a.m_sceneBLASResults = b.m_sceneBLASResults := by
  have h1 := congrArg CD3D_RT.m_sceneBLASResults h
  exact h1

theorem core_frameCounter {a b : CD3D_RT} (h : a.core = b.core) : a.frameCounter = b.frameCounter := by
  have h1 := congrArg CD3D_RT.frameCounter h
  exact h1

theorem core_s_shutdownInProgress {a b : CD3D_RT} (h : a.core = b.core) : a.s_shutdownInProgress = b.s_shutdownInProgress := by
  have h1 := congrArg CD3D_RT.s_shutdownInProgress h
  exact h1

theorem core_s_shutdownCompleted {a b : CD3D_RT} (h : a.core = b.core) : a.s_shutdownCompleted = b.s_shutdownCompleted := by
  have h1 := congrArg CD3D_RT.s_shutdownCompleted h
  exact h1

theorem core_maxFence {a b : CD3D_RT} (h : a.core = b.core) : a.maxFence = b.maxFence := by
  unfold maxFence
  rw [core_m_lastDispatchFence h, core_m_lastSignaledFence h, core_m_lastASBuildFence h]

theorem core_ctxIndex {a b : CD3D_RT} (h : a.core = b.core) : a.ctxIndex = b.ctxIndex := by
  unfold ctxIndex
  simp only [core_m_frameIndex h]

@[simp] theorem core_advance (s : CD3D_RT) : s.advance.core = s.core := rfl

@[simp] theorem core_emit (s : CD3D_RT) (e : Event) : (s.emit e).core = s.core := rfl

@[simp] theorem core_GetCompletedValue (s : CD3D_RT) : s.GetCompletedValue.2.core = s.core := rfl

@[simp] theorem core_WaitForSingleObject (s : CD3D_RT) : s.WaitForSingleObject.core = s.core := rfl

@[simp] theorem core_Release (s : CD3D_RT) (r : Ptr) : (s.Release r).core = s.core := rfl

@[simp] theorem core_waitForLastASBuild (s : CD3D_RT) : s.waitForLastASBuild.core = s.core := by
  unfold waitForLastASBuild
  split
  · simp only
    split <;> rfl
  · rfl

theorem traceExt_waitForLastASBuild (P : Event → Prop) (s : CD3D_RT) :
    TraceExt P s s.waitForLastASBuild := by
  apply TraceExt.of_eqT
  unfold waitForLastASBuild
  split
  · simp only
    split <;> rfl
  · rfl


theorem waitForLastASBuild_fields (s : CD3D_RT) :
    ∃ c t, s.waitForLastASBuild = { s with fenceCompleted := c, gpuTape := t } ∧
      s.fenceCompleted ≤ c := by
  unfold waitForLastASBuild
  split
  · simp only [GetCompletedValue, WaitForSingleObject, advance]
    split
    · exact ⟨_, _, rfl, by omega⟩
    · exact ⟨_, _, rfl, by omega⟩
  · exact ⟨_, _, rfl, le_refl _⟩

theorem RT_SafeRelease_immediate (s : CD3D_RT) (r : Ptr) (hr : r ≠ 0)
    (hf : s.m_frameFence ≠ 0) (hp : s.maxFence ≠ 0)
    (hc : s.waitForLastASBuild.GetCompletedValue.1 ≥ s.maxFence) :
    s.RT_SafeRelease r =
      (s.waitForLastASBuild.advance.emit
        (Event.release r s.waitForLastASBuild.GetCompletedValue.1), 0) := by
  obtain ⟨c, t, hw, -⟩ := waitForLastASBuild_fields s
  have hmax : s.waitForLastASBuild.maxFence = s.maxFence := by rw [hw]; rfl
  have hfence : s.waitForLastASBuild.m_frameFence = s.m_frameFence := by rw [hw]
  unfold RT_SafeRelease
  rw [if_neg hr]
  simp only [hmax, hfence, hf, hp, ne_eq, not_false_eq_true, and_self, if_true, if_false,
    decide_eq_true hc]
  rfl

theorem RT_SafeRelease_deferred (s : CD3D_RT) (r : Ptr) (hr : r ≠ 0)
    (hf : s.m_frameFence ≠ 0) (hp : s.maxFence ≠ 0)
    (hc : s.waitForLastASBuild.GetCompletedValue.1 < s.maxFence) :
    s.RT_SafeRelease r =
      (({ s.waitForLastASBuild.advance with
          m_deferred := s.waitForLastASBuild.advance.m_deferred ++
            [{ fenceValue := s.maxFence + 1, resources := [r] }] } : CD3D_RT).advance, 0) := by
  obtain ⟨c, t, hw, -⟩ := waitForLastASBuild_fields s
  have hmax : s.waitForLastASBuild.maxFence = s.maxFence := by rw [hw]; rfl
  have hfence : s.waitForLastASBuild.m_frameFence = s.m_frameFence := by rw [hw]
  have hc' : ¬ (s.waitForLastASBuild.GetCompletedValue.1 ≥ s.maxFence) := by omega
  unfold RT_SafeRelease
  rw [if_neg hr]
  simp only [hmax, hfence, hf, hp, ne_eq, not_false_eq_true, and_self, if_true, if_false,
    decide_eq_false hc', Bool.false_eq_true]
  rfl

theorem RT_SafeRelease_unfenced (s : CD3D_RT) (r : Ptr) (hr : r ≠ 0)
    (h : s.m_frameFence = 0 ∨ s.maxFence = 0) :
    s.RT_SafeRelease r =
      (s.waitForLastASBuild.emit (Event.release r s.waitForLastASBuild.fenceCompleted), 0) := by
  obtain ⟨c, t, hw, -⟩ := waitForLastASBuild_fields s
  have hmax : s.waitForLastASBuild.maxFence = s.maxFence := by rw [hw]; rfl
  have hfence : s.waitForLastASBuild.m_frameFence = s.m_frameFence := by rw [hw]
  unfold RT_SafeRelease
  rw [if_neg hr]
  simp only [hmax, hfence]
  by_cases hf : s.m_frameFence = 0
  · simp only [hf, if_true, ne_eq, not_true_eq_false, false_and, if_false]
    rfl
  · have hp : s.maxFence = 0 := by tauto
    simp only [hf, if_false, hp, ne_eq, not_true_eq_false, and_false, if_true]
    rfl


theorem RT_SafeRelease_cases (s : CD3D_RT) (r : Ptr) (hr : r ≠ 0) :
    s.RT_SafeRelease r =
      (s.waitForLastASBuild.advance.emit
        (Event.release r s.waitForLastASBuild.GetCompletedValue.1), 0) ∨
    s.RT_SafeRelease r =
      (({ s.waitForLastASBuild.advance with
          m_deferred := s.waitForLastASBuild.advance.m_deferred ++
            [{ fenceValue := s.maxFence + 1, resources := [r] }] } : CD3D_RT).advance, 0) ∨
    s.RT_SafeRelease r =
      (s.waitForLastASBuild.emit (Event.release r s.waitForLastASBuild.fenceCompleted), 0) := by
  by_cases h : s.m_frameFence = 0 ∨ s.maxFence = 0
  · exact Or.inr (Or.inr (RT_SafeRelease_unfenced s r hr h))
  · have hf : s.m_frameFence ≠ 0 := fun h0 => h (Or.inl h0)
    have hp : s.maxFence ≠ 0 := fun h0 => h (Or.inr h0)
    by_cases hc : s.waitForLastASBuild.GetCompletedValue.1 ≥ s.maxFence
    · exact Or.inl (RT_SafeRelease_immediate s r hr hf hp hc)
    · exact Or.inr (Or.inl (RT_SafeRelease_deferred s r hr hf hp (by omega)))

@[simp] theorem RT_SafeRelease_null (s : CD3D_RT) : s.RT_SafeRelease 0 = (s, 0) := by
  simp [RT_SafeRelease]

@[simp] theorem RT_SafeRelease_snd (s : CD3D_RT) (r : Ptr) : (s.RT_SafeRelease r).2 = 0 := by
  by_cases hr : r = 0
  · subst hr; simp
  · rcases RT_SafeRelease_cases s r hr with h | h | h <;> rw [h]

@[simp] theorem core_RT_SafeRelease (s : CD3D_RT) (r : Ptr) :
    (s.RT_SafeRelease r).1.core = s.core := by
  by_cases hr : r = 0
  · subst hr; simp
  · have hw := core_waitForLastASBuild s
    have hd : ∀ (x : CD3D_RT) (d : List RT_DeferredRelease),
        ({ x with m_deferred := d } : CD3D_RT).core = x.core := fun _ _ => rfl
    rcases RT_SafeRelease_cases s r hr with h | h | h
    · rw [h]; exact (core_emit _ _).trans ((core_advance _).trans hw)
    · rw [h]; exact (core_advance _).trans ((hd _ _).trans ((core_advance _).trans hw))
    · rw [h]; exact (core_emit _ _).trans hw

theorem traceExt_RT_SafeRelease {P : Event → Prop} (hP : ∀ r c, P (Event.release r c))
    (s : CD3D_RT) (r : Ptr) : TraceExt P s (s.RT_SafeRelease r).1 := by
  by_cases hr : r = 0
  · subst hr; simp [TraceExt.reflT]
  · have hw := traceExt_waitForLastASBuild P s
    rcases RT_SafeRelease_cases s r hr with h | h | h <;> rw [h]
    · exact hw.transT ((TraceExt.of_eqT (advance_trace _)).transT (TraceExt.emit _ _ (hP _ _)))
    · exact hw.transT (TraceExt.of_eqT ((advance_trace _).trans
        ((show ∀ (x : CD3D_RT) (d : List RT_DeferredRelease),
            ({ x with m_deferred := d } : CD3D_RT).trace = x.trace from fun _ _ => rfl) _ _)))
    · exact hw.transT (TraceExt.emit _ _ (hP _ _))

/-- C3: `RT_SafeRelease` on a null pointer changes nothing.  On a non-null
resource, with a frame fence and `protect = max(m_lastDispatchFence,
m_lastSignaledFence, m_lastASBuildFence) > 0`, let `c` be the completed value it
reads for its decision (after the wait for the last build): if `c >= protect` it
calls `Release` on the resource and leaves the deferred queue as it was, else it
makes no call and appends the single entry `(protect + 1, [r])`.  In both cases
the caller's pointer is null afterwards. -/
theorem C3_RT_SafeRelease (s : CD3D_RT) :
    s.RT_SafeRelease 0 = (s, 0) ∧
    ∀ r : Ptr, r ≠ 0 → s.m_frameFence ≠ 0 → 0 < s.maxFence →
      (s.RT_SafeRelease r).2 = 0 ∧
      (s.waitForLastASBuild.GetCompletedValue.1 ≥ s.maxFence →
        (s.RT_SafeRelease r).1.trace =
          s.trace ++ [Event.release r s.waitForLastASBuild.GetCompletedValue.1] ∧
        (s.RT_SafeRelease r).1.m_deferred = s.m_deferred) ∧
      (s.waitForLastASBuild.GetCompletedValue.1 < s.maxFence →
        (s.RT_SafeRelease r).1.trace = s.trace ∧
        (s.RT_SafeRelease r).1.m_deferred =
          s.m_deferred ++ [{ fenceValue := s.maxFence + 1, resources := [r] }]) := by
  refine ⟨by simp [RT_SafeRelease], ?_⟩
  intro r hr hf hp
  obtain ⟨c, t, hw, -⟩ := waitForLastASBuild_fields s
  have htrace : s.waitForLastASBuild.trace = s.trace := by rw [hw]
  have hdef : s.waitForLastASBuild.m_deferred = s.m_deferred := by rw [hw]
  have hp' : s.maxFence ≠ 0 := by omega
  refine ⟨?_, ?_, ?_⟩
  · by_cases hc : s.waitForLastASBuild.GetCompletedValue.1 ≥ s.maxFence
    · rw [RT_SafeRelease_immediate s r hr hf hp' hc]
    · rw [RT_SafeRelease_deferred s r hr hf hp' (by omega)]
  · intro hc
    rw [RT_SafeRelease_immediate s r hr hf hp' hc]
    exact ⟨by show s.waitForLastASBuild.trace ++ _ = _; rw [htrace], hdef⟩
  · intro hc
    rw [RT_SafeRelease_deferred s r hr hf hp' hc]
    exact ⟨htrace, by show s.waitForLastASBuild.m_deferred ++ _ = _; rw [hdef]⟩


@[simp] theorem core_RT_ReleaseASBuffers (s : CD3D_RT) (b : AccelerationStructureBuffers) :
    (s.RT_ReleaseASBuffers b).1.core = s.core := by
  unfold RT_ReleaseASBuffers
  simp only
  split <;> split <;> split <;> simp

@[simp] theorem RT_ReleaseASBuffers_snd (s : CD3D_RT) (b : AccelerationStructureBuffers) :
    (s.RT_ReleaseASBuffers b).2 = {} := by
  unfold RT_ReleaseASBuffers
  simp only
  cases b with
  | mk p1 p2 p3 va =>
    simp only
    split <;> split <;> split <;> simp_all

theorem traceExt_RT_ReleaseASBuffers {P : Event → Prop} (hP : ∀ r c, P (Event.release r c))
    (s : CD3D_RT) (b : AccelerationStructureBuffers) :
    TraceExt P s (s.RT_ReleaseASBuffers b).1 := by
  unfold RT_ReleaseASBuffers
  simp only
  have h := fun s r => traceExt_RT_SafeRelease hP s r
  split <;> split <;> split <;> simp only <;>
    first
    | exact TraceExt.reflT _ _
    | exact h _ _
    | exact (h _ _).transT (h _ _)
    | exact ((h _ _).transT (h _ _)).transT (h _ _)


@[simp] theorem core_releaseEachASBuffers (l : List AccelerationStructureBuffers) (s : CD3D_RT) :
    (s.releaseEachASBuffers l).1.core = s.core := by
  induction l generalizing s with
  | nil => rfl
  | cons b rest ih => simp [releaseEachASBuffers, ih]

theorem traceExt_releaseEachASBuffers {P : Event → Prop} (hP : ∀ r c, P (Event.release r c))
    (l : List AccelerationStructureBuffers) (s : CD3D_RT) :
    TraceExt P s (s.releaseEachASBuffers l).1 := by
  induction l generalizing s with
  | nil => exact TraceExt.reflT _ _
  | cons b rest ih =>
    simp only [releaseEachASBuffers]
    exact (traceExt_RT_ReleaseASBuffers hP s b).transT (ih _)

@[simp] theorem core_safeReleaseEach (l : List Ptr) (s : CD3D_RT) :
    (s.safeReleaseEach l).1.core = s.core := by
  induction l generalizing s with
  | nil => rfl
  | cons b rest ih => simp [safeReleaseEach, ih]

theorem traceExt_safeReleaseEach {P : Event → Prop} (hP : ∀ r c, P (Event.release r c))
    (l : List Ptr) (s : CD3D_RT) : TraceExt P s (s.safeReleaseEach l).1 := by
  induction l generalizing s with
  | nil => exact TraceExt.reflT _ _
  | cons b rest ih =>
    simp only [safeReleaseEach]
    exact (traceExt_RT_SafeRelease hP s b).transT (ih _)

@[simp] theorem core_releaseKeepAlive (s : CD3D_RT) (k : UploadBufferKeepAlive) :
    (s.releaseKeepAlive k).core = s.core := by
  unfold releaseKeepAlive
  simp only
  split <;> split <;> split <;> split <;> simp

theorem traceExt_releaseKeepAlive {P : Event → Prop} (hP : ∀ r c, P (Event.release r c))
    (s : CD3D_RT) (k : UploadBufferKeepAlive) : TraceExt P s (s.releaseKeepAlive k) := by
  unfold releaseKeepAlive
  simp only
  have h := fun s r => traceExt_RT_SafeRelease hP s r
  have step : ∀ (c : Prop) [Decidable c] (s : CD3D_RT) (r : Ptr),
      TraceExt P s (if c then (s.RT_SafeRelease r).1 else s) := by
    intro c _ s r
    split
    · exact h _ _
    · exact TraceExt.reflT _ _
  exact (((step _ _ _).transT (step _ _ _)).transT (step _ _ _)).transT (step _ _ _)

theorem core_foldl_releaseKeepAlive (l : List UploadBufferKeepAlive) (s : CD3D_RT) :
    (l.foldl releaseKeepAlive s).core = s.core := by
  induction l generalizing s with
  | nil => rfl
  | cons b rest ih => simp [List.foldl_cons, ih]

theorem traceExt_foldl_releaseKeepAlive {P : Event → Prop} (hP : ∀ r c, P (Event.release r c))
    (l : List UploadBufferKeepAlive) (s : CD3D_RT) :
    TraceExt P s (l.foldl releaseKeepAlive s) := by
  induction l generalizing s with
  | nil => exact TraceExt.reflT _ _
  | cons b rest ih =>
    simp only [List.foldl_cons]
    exact (traceExt_releaseKeepAlive hP s b).transT (ih _)

@[simp] theorem core_ClearKeepAliveUploads (s : CD3D_RT) : s.ClearKeepAliveUploads.core = s.core := by
  unfold ClearKeepAliveUploads
  exact core_foldl_releaseKeepAlive _ _

theorem traceExt_ClearKeepAliveUploads {P : Event → Prop} (hP : ∀ r c, P (Event.release r c))
    (s : CD3D_RT) : TraceExt P s s.ClearKeepAliveUploads := by
  unfold ClearKeepAliveUploads
  exact (traceExt_foldl_releaseKeepAlive hP _ s).transT (TraceExt.of_eqT rfl)

@[simp] theorem core_reclaimAllocators (completed : Nat) (l : List RetiredAllocator)
    (s : CD3D_RT) : (reclaimAllocators completed l s).2.core = s.core := by
  induction l generalizing s with
  | nil => rfl
  | cons r rest ih =>
    unfold reclaimAllocators
    split
    · exact ih s
    · split
      · rw [ih]; rfl
      · exact ih s

theorem traceExt_reclaimAllocators {P : Event → Prop} (hP : ∀ p, P (Event.objectRelease p))
    (completed : Nat) (l : List RetiredAllocator) (s : CD3D_RT) :
    TraceExt P s (reclaimAllocators completed l s).2 := by
  induction l generalizing s with
  | nil => exact TraceExt.reflT _ _
  | cons r rest ih =>
    unfold reclaimAllocators
    split
    · exact ih s
    · split
      · exact (TraceExt.emit _ _ (hP _)).transT (ih _)
      · exact ih s

@[simp] theorem core_reclaimHeaps (done : Nat) (l : List RT_RetiredHeap) (s : CD3D_RT) :
    (reclaimHeaps done l s).2.core = s.core := by
  induction l generalizing s with
  | nil => rfl
  | cons r rest ih =>
    unfold reclaimHeaps
    split
    · rw [ih]; split <;> rfl
    · exact ih s

theorem traceExt_reclaimHeaps {P : Event → Prop} (hP : ∀ p, P (Event.objectRelease p))
    (done : Nat) (l : List RT_RetiredHeap) (s : CD3D_RT) :
    TraceExt P s (reclaimHeaps done l s).2 := by
  induction l generalizing s with
  | nil => exact TraceExt.reflT _ _
  | cons r rest ih =>
    unfold reclaimHeaps
    split
    · refine TraceExt.transT ?_ (ih _)
      split
      · exact TraceExt.emit _ _ (hP _)
      · exact TraceExt.reflT _ _
    · exact ih s

@[simp] theorem core_RT_ReclaimRetiredAllocators (s : CD3D_RT) :
    s.RT_ReclaimRetiredAllocators.core = s.core := by
  unfold RT_ReclaimRetiredAllocators
  simp only
  have h1 : ∀ s : CD3D_RT, core
      { (reclaimAllocators s.GetCompletedValue.1 s.GetCompletedValue.2.m_retiredAllocators
          s.GetCompletedValue.2).2 with
        m_retiredAllocators := (reclaimAllocators s.GetCompletedValue.1
          s.GetCompletedValue.2.m_retiredAllocators s.GetCompletedValue.2).1 } = s.core :=
    fun s => Eq.trans rfl (core_reclaimAllocators _ _ _)
  have h2 : ∀ s : CD3D_RT, core
      { (reclaimHeaps s.GetCompletedValue.1 s.GetCompletedValue.2.g_RT_RetiredHeaps
          s.GetCompletedValue.2).2 with
        g_RT_RetiredHeaps := (reclaimHeaps s.GetCompletedValue.1
          s.GetCompletedValue.2.g_RT_RetiredHeaps s.GetCompletedValue.2).1 } = s.core :=
    fun s => Eq.trans rfl (core_reclaimHeaps _ _ _)
  split <;> split
  · exact (h2 _).trans (h1 s)
  · exact h1 s
  · exact h2 s
  · rfl

theorem traceExt_RT_ReclaimRetiredAllocators {P : Event → Prop}
    (hP : ∀ p, P (Event.objectRelease p)) (s : CD3D_RT) :
    TraceExt P s s.RT_ReclaimRetiredAllocators := by
  unfold RT_ReclaimRetiredAllocators
  simp only
  have h1 : ∀ s : CD3D_RT, TraceExt P s
      { (reclaimAllocators s.GetCompletedValue.1 s.GetCompletedValue.2.m_retiredAllocators
          s.GetCompletedValue.2).2 with
        m_retiredAllocators := (reclaimAllocators s.GetCompletedValue.1
          s.GetCompletedValue.2.m_retiredAllocators s.GetCompletedValue.2).1 } :=
    by
      intro s
      have a : TraceExt P s s.GetCompletedValue.2 := TraceExt.of_eqT rfl
      have b := traceExt_reclaimAllocators hP s.GetCompletedValue.1
        s.GetCompletedValue.2.m_retiredAllocators s.GetCompletedValue.2
      exact a.transT (b.transT (TraceExt.of_eqT rfl))
  have h2 : ∀ s : CD3D_RT, TraceExt P s
      { (reclaimHeaps s.GetCompletedValue.1 s.GetCompletedValue.2.g_RT_RetiredHeaps
          s.GetCompletedValue.2).2 with
        g_RT_RetiredHeaps := (reclaimHeaps s.GetCompletedValue.1
          s.GetCompletedValue.2.g_RT_RetiredHeaps s.GetCompletedValue.2).1 } :=
    by
      intro s
      have a : TraceExt P s s.GetCompletedValue.2 := TraceExt.of_eqT rfl
      have b := traceExt_reclaimHeaps hP s.GetCompletedValue.1
        s.GetCompletedValue.2.g_RT_RetiredHeaps s.GetCompletedValue.2
      exact a.transT (b.transT (TraceExt.of_eqT rfl))
  split <;> split
  · exact (h1 s).transT (h2 _)
  · exact h1 s
  · exact h2 s
  · exact TraceExt.reflT _ _

@[simp] theorem core_RT_WaitForLastDispatch (s : CD3D_RT) :
    s.RT_WaitForLastDispatch.core = s.core := by
  unfold RT_WaitForLastDispatch
  split
  · rfl
  · simp only
    split <;> rfl

theorem traceExt_RT_WaitForLastDispatch (P : Event → Prop) (s : CD3D_RT) :
    TraceExt P s s.RT_WaitForLastDispatch := by
  apply TraceExt.of_eqT
  unfold RT_WaitForLastDispatch
  split
  · rfl
  · simp only
    split <;> rfl


theorem signalAndStamp_fields (s : CD3D_RT) :
    s.signalAndStamp.m_lastSignaledFence = s.m_lastSignaledFence + 1 ∧
    s.signalAndStamp.m_lastDispatchFence = s.m_lastSignaledFence + 1 ∧
    s.signalAndStamp.m_frameIndex = s.m_frameIndex ∧
    s.signalAndStamp.m_frameFence = s.m_frameFence ∧
    s.signalAndStamp.trace = s.trace ++ [Event.signalFrameFence (s.m_lastSignaledFence + 1)] ∧
    s.signalAndStamp.m_deferred = s.m_deferred ∧
    ((s.m_frameCtx s.ctxIndex).pAllocator ≠ 0 →
      s.signalAndStamp.m_frameCtx = Function.update s.m_frameCtx s.ctxIndex
        { s.m_frameCtx s.ctxIndex with
          fenceValue := s.m_lastSignaledFence + 1, usedOnce := true }) ∧
    ((s.m_frameCtx s.ctxIndex).pAllocator = 0 → s.signalAndStamp.m_frameCtx = s.m_frameCtx) := by
  by_cases h : (s.m_frameCtx s.ctxIndex).pAllocator = 0
  · have h' : (s.m_frameCtx ⟨s.m_frameIndex % 15, Nat.mod_lt _ (by decide)⟩).pAllocator = 0 := h
    simp [signalAndStamp, emit, ctxIndex, h']
  · have h' : ¬ (s.m_frameCtx ⟨s.m_frameIndex % 15, Nat.mod_lt _ (by decide)⟩).pAllocator = 0 := h
    simp [signalAndStamp, emit, ctxIndex, h']

/-- C5: `RT_EndFrameAndSignal` with a frame fence.  If work was recorded,
`m_lastSignaledFence` grows by exactly 1, that value is signalled on the frame
fence and, the just-used context `m_frameCtx[m_frameIndex % 15]` holding an
allocator, the context is stamped with it and marked used.  If no work was
recorded, `m_lastSignaledFence`, `m_lastDispatchFence` and all contexts are as
before and no signal is issued.  In both cases `m_frameRecordedWork` is cleared
and `m_frameIndex` grows by 1. -/
theorem RT_EndFrameAndSignal_effect (s : CD3D_RT) (hf : s.m_frameFence ≠ 0) :
    (s.m_frameRecordedWork = true →
      s.RT_EndFrameAndSignal.m_lastSignaledFence = s.m_lastSignaledFence + 1 ∧
      Event.signalFrameFence (s.m_lastSignaledFence + 1) ∈ s.RT_EndFrameAndSignal.trace ∧
      ((s.m_frameCtx s.ctxIndex).pAllocator ≠ 0 →
        (s.RT_EndFrameAndSignal.m_frameCtx s.ctxIndex).fenceValue = s.m_lastSignaledFence + 1 ∧
        (s.RT_EndFrameAndSignal.m_frameCtx s.ctxIndex).usedOnce = true)) ∧
    (s.m_frameRecordedWork = false →
      s.RT_EndFrameAndSignal.m_lastSignaledFence = s.m_lastSignaledFence ∧
      s.RT_EndFrameAndSignal.m_lastDispatchFence = s.m_lastDispatchFence ∧
      s.RT_EndFrameAndSignal.m_frameCtx = s.m_frameCtx ∧
      ∀ v, Event.signalFrameFence v ∈ s.RT_EndFrameAndSignal.trace →
        Event.signalFrameFence v ∈ s.trace) ∧
    s.RT_EndFrameAndSignal.m_frameRecordedWork = false ∧
    s.RT_EndFrameAndSignal.m_frameIndex = s.m_frameIndex + 1 := by
  have hcore := fun s : CD3D_RT => core_RT_ReclaimRetiredAllocators s
  have htr := fun s : CD3D_RT =>
    traceExt_RT_ReclaimRetiredAllocators (P := fun e => ∃ p, e = Event.objectRelease p)
      (fun p => ⟨p, rfl⟩) s
  obtain ⟨f1, f2, f3, f4, f5, f6, f7, f8⟩ := signalAndStamp_fields s
  unfold RT_EndFrameAndSignal
  rw [if_neg hf]
  simp only
  refine ⟨?_, ?_, trivial, ?_⟩
  · intro hw
    rw [if_pos hw]
    refine ⟨?_, ?_, ?_⟩
    · exact (core_m_lastSignaledFence (hcore s.signalAndStamp)).trans f1
    · apply (htr s.signalAndStamp).subset
      rw [f5]
      simp
    · intro hal
      have hctx : s.signalAndStamp.RT_ReclaimRetiredAllocators.m_frameCtx =
          s.signalAndStamp.m_frameCtx := core_m_frameCtx (hcore s.signalAndStamp)
      show (s.signalAndStamp.RT_ReclaimRetiredAllocators.m_frameCtx s.ctxIndex).fenceValue = _ ∧
        (s.signalAndStamp.RT_ReclaimRetiredAllocators.m_frameCtx s.ctxIndex).usedOnce = true
      rw [hctx, f7 hal]
      simp
  · intro hw
    simp only [hw, Bool.false_eq_true, if_false]
    refine ⟨core_m_lastSignaledFence (hcore s), core_m_lastDispatchFence (hcore s),
      core_m_frameCtx (hcore s), ?_⟩
    intro v hv
    rcases (htr s).mem hv with h | ⟨p, hp⟩
    · exact h
    · cases hp
  · by_cases hw : s.m_frameRecordedWork = true
    · rw [if_pos hw]
      show s.signalAndStamp.RT_ReclaimRetiredAllocators.m_frameIndex + 1 = _
      rw [core_m_frameIndex (hcore s.signalAndStamp), f3]
    · rw [if_neg hw]
      show s.RT_ReclaimRetiredAllocators.m_frameIndex + 1 = _
      rw [core_m_frameIndex (hcore s)]


theorem ite_cases {α : Type} (Q : α → Prop) (c : Prop) [Decidable c] (a b : α)
    (ha : Q a) (hb : Q b) : Q (if c then a else b) := by
  split <;> assumption

theorem traceExt_Release {P : Event → Prop} (hP : ∀ r c, P (Event.release r c))
    (s : CD3D_RT) (r : Ptr) : TraceExt P s (s.Release r) :=
  TraceExt.emit _ _ (hP _ _)

@[simp] theorem core_releaseASBuffersNow (s : CD3D_RT) (b : AccelerationStructureBuffers) :
    (s.releaseASBuffersNow b).1.core = s.core := by
  unfold releaseASBuffersNow
  simp only
  have step : ∀ (c : Prop) [Decidable c] (s : CD3D_RT) (r : Ptr),
      (if c then s.Release r else s).core = s.core := by
    intro c _ s r
    split
    · exact core_Release _ _
    · rfl
  exact ((step _ _ _).trans (step _ _ _)).trans (step _ _ _)

theorem traceExt_releaseASBuffersNow {P : Event → Prop} (hP : ∀ r c, P (Event.release r c))
    (s : CD3D_RT) (b : AccelerationStructureBuffers) :
    TraceExt P s (s.releaseASBuffersNow b).1 := by
  unfold releaseASBuffersNow
  simp only
  have step : ∀ (c : Prop) [Decidable c] (s : CD3D_RT) (r : Ptr),
      TraceExt P s (if c then s.Release r else s) := by
    intro c _ s r
    split
    · exact traceExt_Release hP _ _
    · exact TraceExt.reflT _ _
  exact ((step _ _ _).transT (step _ _ _)).transT (step _ _ _)

@[simp] theorem core_BuildBottomLevelAS (s : CD3D_RT) (env : BlasEnv) (pCmdList : Ptr)
    (a1 a2 a3 a4 a5 a6 a7 : Nat) (outBLAS : AccelerationStructureBuffers) :
    (s.BuildBottomLevelAS env pCmdList a1 a2 a3 a4 a5 a6 a7 outBLAS).2.1.core = s.core := by
  have h1 := core_RT_ReleaseASBuffers s outBLAS
  unfold BuildBottomLevelAS
  generalize s.RT_ReleaseASBuffers outBLAS = rel at h1 ⊢
  have h2 := fun b => core_releaseASBuffersNow rel.1 b
  simp only
  repeat' apply ite_cases (fun r : HRESULT × CD3D_RT × AccelerationStructureBuffers =>
    r.2.1.core = s.core)
  all_goals first
    | exact h1
    | exact (h2 _).trans h1
    | rfl

theorem traceExt_BuildBottomLevelAS {P : Event → Prop}
    (hP : ∀ e, (∀ r k d, e ≠ Event.deferredRelease r k d) → P e)
    (s : CD3D_RT) (env : BlasEnv) (pCmdList : Ptr)
    (a1 a2 a3 a4 a5 a6 a7 : Nat) (outBLAS : AccelerationStructureBuffers) :
    TraceExt P s (s.BuildBottomLevelAS env pCmdList a1 a2 a3 a4 a5 a6 a7 outBLAS).2.1 := by
  have hR : ∀ r c, P (Event.release r c) := fun r c => hP _ (by simp)
  have h1 := traceExt_RT_ReleaseASBuffers hR s outBLAS
  unfold BuildBottomLevelAS
  generalize s.RT_ReleaseASBuffers outBLAS = rel at h1 ⊢
  have h2 := fun b => traceExt_releaseASBuffersNow hR rel.1 b
  simp only
  repeat' apply ite_cases (fun r : HRESULT × CD3D_RT × AccelerationStructureBuffers =>
    TraceExt P s r.2.1)
  all_goals first
    | exact TraceExt.reflT _ _
    | exact h1
    | exact h1.transT (h2 _)
    | exact h1.transT (TraceExt.emit _ _ (hP _ (by simp)))

@[simp] theorem core_BuildTopLevelAS (s : CD3D_RT) (env : TlasEnv) (pCmdList : Ptr)
    (vas : List Nat) (outTLAS : AccelerationStructureBuffers) :
    (s.BuildTopLevelAS env pCmdList vas outTLAS).2.1.core = s.core := by
  have h1 := core_RT_ReleaseASBuffers s outTLAS
  unfold BuildTopLevelAS
  generalize s.RT_ReleaseASBuffers outTLAS = rel at h1 ⊢
  simp only
  repeat' apply ite_cases (fun r : HRESULT × CD3D_RT × AccelerationStructureBuffers =>
    r.2.1.core = s.core)
  all_goals first
    | exact h1
    | rfl

theorem traceExt_BuildTopLevelAS {P : Event → Prop}
    (hP : ∀ e, (∀ r k d, e ≠ Event.deferredRelease r k d) → P e)
    (s : CD3D_RT) (env : TlasEnv) (pCmdList : Ptr)
    (vas : List Nat) (outTLAS : AccelerationStructureBuffers) :
    TraceExt P s (s.BuildTopLevelAS env pCmdList vas outTLAS).2.1 := by
  have hR : ∀ r c, P (Event.release r c) := fun r c => hP _ (by simp)
  have hE : ∀ (s : CD3D_RT) (e : Event), (∀ r k d, e ≠ Event.deferredRelease r k d) →
      TraceExt P s (s.emit e) := fun s e h => TraceExt.emit _ _ (hP _ h)
  have h1 := traceExt_RT_ReleaseASBuffers hR s outTLAS
  unfold BuildTopLevelAS
  generalize s.RT_ReleaseASBuffers outTLAS = rel at h1 ⊢
  simp only
  repeat' apply ite_cases (fun r : HRESULT × CD3D_RT × AccelerationStructureBuffers =>
    TraceExt P s r.2.1)
  all_goals first
    | exact TraceExt.reflT _ _
    | exact h1
    | exact h1.transT (traceExt_Release hR _ _)
    | exact h1.transT ((hE _ _ (by simp)).transT (traceExt_Release hR _ _))
    | exact h1.transT ((hE _ _ (by simp)).transT (TraceExt.of_eqT rfl))
    | exact h1.transT ((hE _ _ (by simp)).transT ((TraceExt.of_eqT rfl).transT (hE _ _ (by simp))))

theorem submitBuild_fields (s : CD3D_RT) (pCL : Ptr) (fc : Bool) (hr : HRESULT) (fb : Bool) :
    (s.submitBuild pCL fc hr fb).m_sceneBLAS = s.m_sceneBLAS ∧
    (s.submitBuild pCL fc hr fb).m_sceneBLASResults = s.m_sceneBLASResults ∧
    (s.submitBuild pCL fc hr fb).m_pTopLevelAS = s.m_pTopLevelAS ∧
    (s.submitBuild pCL fc hr fb).m_tlasBuffers = s.m_tlasBuffers ∧
    (s.submitBuild pCL fc hr fb).m_deferred = s.m_deferred := by
  unfold submitBuild
  simp only
  split
  · split <;> exact ⟨rfl, rfl, rfl, rfl, rfl⟩
  · split <;> exact ⟨rfl, rfl, rfl, rfl, rfl⟩

theorem traceExt_submitBuild {P : Event → Prop}
    (hP : ∀ e, (∀ r k d, e ≠ Event.deferredRelease r k d) → P e)
    (s : CD3D_RT) (pCL : Ptr) (fc : Bool) (hr : HRESULT) (fb : Bool) :
    TraceExt P s (s.submitBuild pCL fc hr fb) := by
  have hE : ∀ (s : CD3D_RT) (e : Event), (∀ r k d, e ≠ Event.deferredRelease r k d) →
      TraceExt P s (s.emit e) := fun s e h => TraceExt.emit _ _ (hP _ h)
  unfold submitBuild
  simp only
  have h0 := hE s (Event.executeCommandLists pCL) (by simp)
  split
  · split
    · exact h0.transT ((TraceExt.of_eqT rfl).transT ((hE _ _ (by simp)).transT (TraceExt.of_eqT rfl)))
    · exact h0.transT ((TraceExt.of_eqT rfl).transT (hE _ _ (by simp)))
  · split
    · exact h0.transT (TraceExt.of_eqT rfl)
    · exact h0


/-! ### Stepwise form of the trace lemmas -/

section Steps

variable {P : Event → Prop} {s0 s : CD3D_RT}

theorem step_ite (c : Prop) [Decidable c] {a b : CD3D_RT} (ha : TraceExt P s0 a)
    (hb : TraceExt P s0 b) : TraceExt P s0 (if c then a else b) := by
  split <;> assumption

theorem step_emit (e : Event) (he : P e) (h : TraceExt P s0 s) : TraceExt P s0 (s.emit e) :=
  h.transT (TraceExt.emit _ _ he)

theorem step_advance (h : TraceExt P s0 s) : TraceExt P s0 s.advance :=
  h.transT (TraceExt.of_eqT rfl)

theorem step_setTlasBuffers (v : AccelerationStructureBuffers) (h : TraceExt P s0 s) :
    TraceExt P s0 (s.setTlasBuffers v) := h.transT (TraceExt.of_eqT rfl)

theorem step_setBlasBuffers (v : AccelerationStructureBuffers) (h : TraceExt P s0 s) :
    TraceExt P s0 (s.setBlasBuffers v) := h.transT (TraceExt.of_eqT rfl)

theorem step_setSceneBLAS (v : List AccelerationStructureBuffers) (h : TraceExt P s0 s) :
    TraceExt P s0 (s.setSceneBLAS v) := h.transT (TraceExt.of_eqT rfl)

theorem step_setSceneBLASResults (v : List Ptr) (h : TraceExt P s0 s) :
    TraceExt P s0 (s.setSceneBLASResults v) := h.transT (TraceExt.of_eqT rfl)

theorem step_setTopLevelAS (v : Ptr) (h : TraceExt P s0 s) :
    TraceExt P s0 (s.setTopLevelAS v) := h.transT (TraceExt.of_eqT rfl)

theorem step_setCommandQueue (v : Ptr) (h : TraceExt P s0 s) :
    TraceExt P s0 (s.setCommandQueue v) := h.transT (TraceExt.of_eqT rfl)

theorem step_pushKeepAlive (v : UploadBufferKeepAlive) (h : TraceExt P s0 s) :
    TraceExt P s0 (s.pushKeepAlive v) := h.transT (TraceExt.of_eqT rfl)

theorem step_recordWork (h : TraceExt P s0 s) : TraceExt P s0 s.recordWork :=
  h.transT (TraceExt.of_eqT rfl)

theorem step_pushSceneBLAS (b : AccelerationStructureBuffers) (va : Nat)
    (h : TraceExt P s0 s) : TraceExt P s0 (s.pushSceneBLAS b va) := by
  refine h.transT (TraceExt.of_eqT ?_)
  unfold pushSceneBLAS
  simp only
  split <;> split <;> rfl

theorem step_RT_WaitForLastDispatch (h : TraceExt P s0 s) :
    TraceExt P s0 s.RT_WaitForLastDispatch :=
  h.transT (traceExt_RT_WaitForLastDispatch P s)

variable (hP : ∀ e, (∀ r k d, e ≠ Event.deferredRelease r k d) → P e)
include hP

theorem step_Release (r : Ptr) (h : TraceExt P s0 s) : TraceExt P s0 (s.Release r) :=
  h.transT (TraceExt.emit _ _ (hP _ (by simp)))

theorem step_RT_SafeRelease (r : Ptr) (h : TraceExt P s0 s) :
    TraceExt P s0 (s.RT_SafeRelease r).1 :=
  h.transT (traceExt_RT_SafeRelease (fun _ _ => hP _ (by simp)) s r)

theorem step_RT_ReleaseASBuffers (b : AccelerationStructureBuffers) (h : TraceExt P s0 s) :
    TraceExt P s0 (s.RT_ReleaseASBuffers b).1 :=
  h.transT (traceExt_RT_ReleaseASBuffers (fun _ _ => hP _ (by simp)) s b)

theorem step_releaseEachASBuffers (l : List AccelerationStructureBuffers)
    (h : TraceExt P s0 s) : TraceExt P s0 (s.releaseEachASBuffers l).1 :=
  h.transT (traceExt_releaseEachASBuffers (fun _ _ => hP _ (by simp)) l s)

theorem step_safeReleaseEach (l : List Ptr) (h : TraceExt P s0 s) :
    TraceExt P s0 (s.safeReleaseEach l).1 :=
  h.transT (traceExt_safeReleaseEach (fun _ _ => hP _ (by simp)) l s)

theorem step_ClearKeepAliveUploads (h : TraceExt P s0 s) :
    TraceExt P s0 s.ClearKeepAliveUploads :=
  h.transT (traceExt_ClearKeepAliveUploads (fun _ _ => hP _ (by simp)) s)

theorem step_RT_ReclaimRetiredAllocators (h : TraceExt P s0 s) :
    TraceExt P s0 s.RT_ReclaimRetiredAllocators :=
  h.transT (traceExt_RT_ReclaimRetiredAllocators (fun _ => hP _ (by simp)) s)

theorem step_BuildBottomLevelAS (env : BlasEnv) (pCmdList : Ptr) (a1 a2 a3 a4 a5 a6 a7 : Nat)
    (outBLAS : AccelerationStructureBuffers) (h : TraceExt P s0 s) :
    TraceExt P s0 (s.BuildBottomLevelAS env pCmdList a1 a2 a3 a4 a5 a6 a7 outBLAS).2.1 :=
  h.transT (traceExt_BuildBottomLevelAS hP s env pCmdList a1 a2 a3 a4 a5 a6 a7 outBLAS)

theorem step_BuildTopLevelAS (env : TlasEnv) (pCmdList : Ptr) (vas : List Nat)
    (outTLAS : AccelerationStructureBuffers) (h : TraceExt P s0 s) :
    TraceExt P s0 (s.BuildTopLevelAS env pCmdList vas outTLAS).2.1 :=
  h.transT (traceExt_BuildTopLevelAS hP s env pCmdList vas outTLAS)

theorem step_submitBuild (pCL : Ptr) (fc : Bool) (hr : HRESULT) (fb : Bool)
    (h : TraceExt P s0 s) : TraceExt P s0 (s.submitBuild pCL fc hr fb) :=
  h.transT (traceExt_submitBuild hP s pCL fc hr fb)

theorem step_releaseTestBuffers (a b c d : Ptr) (h : TraceExt P s0 s) :
    TraceExt P s0 (s.releaseTestBuffers a b c d) := by
  unfold releaseTestBuffers
  exact step_Release hP _ (step_Release hP _ (step_Release hP _ (step_Release hP _ h)))

theorem step_clearPrevious (h : TraceExt P s0 s) : TraceExt P s0 s.clearPrevious := by
  unfold clearPrevious
  simp only
  exact step_setTopLevelAS _ (step_setTlasBuffers _ (step_RT_ReleaseASBuffers hP _
    (step_ClearKeepAliveUploads hP (step_setSceneBLASResults _ (step_safeReleaseEach hP _
      (step_setSceneBLAS _ (step_releaseEachASBuffers hP _ h)))))))

theorem step_clearOldAS (h : TraceExt P s0 s) : TraceExt P s0 s.clearOldAS := by
  unfold clearOldAS
  simp only
  exact step_setTopLevelAS _ (step_setBlasBuffers _ (step_RT_ReleaseASBuffers hP _
    (step_setTlasBuffers _ (step_RT_ReleaseASBuffers hP _ h))))

theorem step_finishLevelBuild (tlasEnv : TlasEnv) (pCL : Ptr) (closeHr : HRESULT) (fc : Bool)
    (signalHr : HRESULT) (h : TraceExt P s0 s) :
    TraceExt P s0 (s.finishLevelBuild tlasEnv pCL closeHr fc signalHr).2 := by
  unfold finishLevelBuild
  simp only
  have h2 := step_setTlasBuffers
    (s.BuildTopLevelAS tlasEnv pCL s.blasVaList s.m_tlasBuffers).2.2
    (step_BuildTopLevelAS hP tlasEnv pCL s.blasVaList s.m_tlasBuffers h)
  repeat' apply ite_cases (fun r : HRESULT × CD3D_RT => TraceExt P s0 r.2)
  all_goals first
    | exact h
    | exact h2
    | exact step_setTopLevelAS _ h2
    | exact step_submitBuild hP _ _ _ _ (step_setTopLevelAS _ h2)

theorem step_buildTestScene (env : TestSceneEnv) (pCL a b c d : Ptr) (h : TraceExt P s0 s) :
    TraceExt P s0 (s.buildTestScene env pCL a b c d).2 := by
  unfold buildTestScene
  simp only
  have h1 := step_setBlasBuffers
    (s.BuildBottomLevelAS env.blas pCL env.vbVA 3 12 DXGI_FORMAT_R32G32B32_FLOAT env.ibVA 3
      DXGI_FORMAT_R32_UINT s.m_blasBuffers).2.2
    (step_BuildBottomLevelAS hP env.blas pCL env.vbVA 3 12 DXGI_FORMAT_R32G32B32_FLOAT env.ibVA 3
      DXGI_FORMAT_R32_UINT s.m_blasBuffers h)
  generalize (s.BuildBottomLevelAS env.blas pCL env.vbVA 3 12 DXGI_FORMAT_R32G32B32_FLOAT
    env.ibVA 3 DXGI_FORMAT_R32_UINT s.m_blasBuffers) = built at h1 ⊢
  generalize built.2.1.setBlasBuffers built.2.2 = s1 at h1 ⊢
  apply ite_cases (fun r : HRESULT × CD3D_RT => TraceExt P s0 r.2)
  · exact step_releaseTestBuffers hP _ _ _ _ h1
  have h2 : TraceExt P s0 (if s1.m_blasBuffers.resultVA = 0 ∧ s1.m_blasBuffers.pResult ≠ 0 then
      s1.setBlasBuffers { s1.m_blasBuffers with resultVA := env.resultVA2 } else s1) :=
    step_ite _ (step_setBlasBuffers _ h1) h1
  generalize (if s1.m_blasBuffers.resultVA = 0 ∧ s1.m_blasBuffers.pResult ≠ 0 then
      s1.setBlasBuffers { s1.m_blasBuffers with resultVA := env.resultVA2 } else s1) = s2 at h2 ⊢
  apply ite_cases (fun r : HRESULT × CD3D_RT => TraceExt P s0 r.2)
  · exact step_releaseTestBuffers hP _ _ _ _
      (step_setBlasBuffers _ (step_RT_ReleaseASBuffers hP _ h2))
  have h3 := step_setTlasBuffers
    (s2.BuildTopLevelAS env.tlas pCL [s2.m_blasBuffers.resultVA] s2.m_tlasBuffers).2.2
    (step_BuildTopLevelAS hP env.tlas pCL [s2.m_blasBuffers.resultVA] s2.m_tlasBuffers h2)
  generalize (s2.BuildTopLevelAS env.tlas pCL [s2.m_blasBuffers.resultVA] s2.m_tlasBuffers) = bt
    at h3 ⊢
  generalize bt.2.1.setTlasBuffers bt.2.2 = s3 at h3 ⊢
  apply ite_cases (fun r : HRESULT × CD3D_RT => TraceExt P s0 r.2)
  · exact step_releaseTestBuffers hP _ _ _ _ h3
  apply ite_cases (fun r : HRESULT × CD3D_RT => TraceExt P s0 r.2)
  · exact step_releaseTestBuffers hP _ _ _ _ (step_setTopLevelAS _ h3)
  · exact step_submitBuild hP _ _ _ _ (step_setTopLevelAS _ h3)
end Steps

section Level

variable {F : Type} [FloatOps F] {P : Event → Prop} {s0 : CD3D_RT}

omit [FloatOps F] in
theorem step_buildLevelBLAS (hP : ∀ e, (∀ r k d, e ≠ Event.deferredRelease r k d) → P e)
    (records : Nat → RecordBuildEnv) (pCL : Ptr) (geo : List (SafeGeometryData F)) (i : Nat)
    (s : CD3D_RT) (h : TraceExt P s0 s) : TraceExt P s0 (buildLevelBLAS records pCL i geo s) := by
  induction geo generalizing i s with
  | nil => exact h
  | cons g rest ih =>
    unfold buildLevelBLAS
    simp only
    cases CreateDefaultBufferFromData (g.vertices.length * 12) (records i).vb with
    | none => exact ih _ _ h
    | some vb =>
      cases CreateDefaultBufferFromData (g.indices.length * 4) (records i).ib with
      | none => exact ih _ _ (step_Release hP _ (step_Release hP _ h))
      | some ib =>
        apply ih
        apply step_ite
        · exact step_pushSceneBLAS _ _ (step_BuildBottomLevelAS hP _ _ _ _ _ _ _ _ _ _
            (step_pushKeepAlive _ h))
        · exact step_BuildBottomLevelAS hP _ _ _ _ _ _ _ _ _ _ (step_pushKeepAlive _ h)

theorem step_CreateLevelGeometryBLASAndTLAS
    (hP : ∀ e, (∀ r k d, e ≠ Event.deferredRelease r k d) → P e)
    (env : LevelBuildEnv F) (s : CD3D_RT) (h : TraceExt P s0 s) :
    TraceExt P s0 (s.CreateLevelGeometryBLASAndTLAS env).2 := by
  unfold CreateLevelGeometryBLASAndTLAS
  apply ite_cases (fun r : HRESULT × CD3D_RT => TraceExt P s0 r.2) _ _ _ h
  apply ite_cases (fun r : HRESULT × CD3D_RT => TraceExt P s0 r.2) _ _ _ h
  cases env.refreshQueue with
  | none => exact h
  | some queue =>
    simp only
    have hq := step_setCommandQueue queue h
    apply ite_cases (fun r : HRESULT × CD3D_RT => TraceExt P s0 r.2) _ _ _ hq
    apply ite_cases (fun r : HRESULT × CD3D_RT => TraceExt P s0 r.2) _ _ _ hq
    cases selectLevelGeometry env.extracted env.terrain env.cam with
    | none => exact hq
    | some geo =>
      cases env.allocator with
      | none => exact hq
      | some al =>
        cases env.commandList with
        | none => exact hq
        | some pCL =>
          simp only
          exact step_finishLevelBuild hP _ _ _ _ _
            (step_buildLevelBLAS hP _ _ _ _ _ (step_clearPrevious hP hq))

theorem step_CreateTestSceneWithEnhancedSafety
    (hP : ∀ e, (∀ r k d, e ≠ Event.deferredRelease r k d) → P e)
    (env : TestSceneEnv) (s : CD3D_RT) (h : TraceExt P s0 s) :
    TraceExt P s0 (s.CreateTestSceneWithEnhancedSafety F env).2 := by
  unfold CreateTestSceneWithEnhancedSafety
  apply ite_cases (fun r : HRESULT × CD3D_RT => TraceExt P s0 r.2) _ _ _ h
  apply ite_cases (fun r : HRESULT × CD3D_RT => TraceExt P s0 r.2) _ _ _ h
  simp only
  have hq : TraceExt P s0 (if s.m_pCommandQueue = 0 then s.setCommandQueue env.queue else s) :=
    step_ite _ (step_setCommandQueue _ h) h
  generalize (if s.m_pCommandQueue = 0 then s.setCommandQueue env.queue else s) = s1 at hq ⊢
  apply ite_cases (fun r : HRESULT × CD3D_RT => TraceExt P s0 r.2) _ _ _ hq
  cases env.allocator with
  | none => exact hq
  | some al =>
    cases env.commandList with
    | none => exact hq
    | some pCL =>
      simp only
      split
      · cases CreateDefaultBufferFromData 36 env.vb with
        | none => exact hq
        | some vb =>
          cases CreateDefaultBufferFromData 12 env.ib with
          | none => exact step_Release hP _ (step_Release hP _ hq)
          | some ib => exact step_buildTestScene hP _ _ _ _ _ _ (step_clearOldAS hP hq)
      · exact hq

end Level


section Frames

variable {P : Event → Prop} {s0 s : CD3D_RT}

theorem step_RT_InitFrameContexts (env : InitFrameEnv) (h : TraceExt P s0 s) :
    TraceExt P s0 (s.RT_InitFrameContexts env) := by
  refine h.transT (TraceExt.of_eqT ?_)
  unfold RT_InitFrameContexts
  split
  · rfl
  · simp only
    cases env.fence <;> rfl

theorem step_waitForFrameContext (fenceValue : Nat) (h : TraceExt P s0 s) :
    TraceExt P s0 (s.waitForFrameContext fenceValue) := by
  unfold waitForFrameContext
  apply step_ite _ _ h
  simp only
  have h3 : TraceExt P s0 (if s.m_frameFence ≠ 0 then s.GetCompletedValue
      else (fenceValue, s)).2 := by
    apply ite_cases (fun r : Nat × CD3D_RT => TraceExt P s0 r.2)
    · exact step_advance h
    · exact h
  exact step_ite _ (step_advance h3) h3

theorem core_waitForFrameContext (s : CD3D_RT) (fenceValue : Nat) :
    (s.waitForFrameContext fenceValue).core = s.core := by
  unfold waitForFrameContext
  split
  · simp only
    split <;> split <;> rfl
  · rfl

theorem step_RT_DeferRelease (r : Ptr) (h : TraceExt P s0 s) :
    TraceExt P s0 (s.RT_DeferRelease r) := by
  refine h.transT (TraceExt.of_eqT ?_)
  unfold RT_DeferRelease
  split <;> rfl

theorem step_detachScene (h : TraceExt P s0 s) : TraceExt P s0 s.detachScene :=
  h.transT (TraceExt.of_eqT rfl)

variable (hP : ∀ e, (∀ r k d, e ≠ Event.deferredRelease r k d) → P e)
include hP

theorem step_RT_BeginFrameAllocator (env : BeginFrameEnv) (h : TraceExt P s0 s) :
    TraceExt P s0 (s.RT_BeginFrameAllocator env).2 := by
  unfold RT_BeginFrameAllocator
  apply ite_cases (fun r : Ptr × CD3D_RT => TraceExt P s0 r.2)
  · exact h
  simp only
  have h1 : TraceExt P s0 (if s.m_frameFence = 0 then s.RT_InitFrameContexts env.init else s) :=
    step_ite _ (step_RT_InitFrameContexts _ h) h
  generalize (if s.m_frameFence = 0 then s.RT_InitFrameContexts env.init else s) = s1 at h1 ⊢
  apply ite_cases (fun r : Ptr × CD3D_RT => TraceExt P s0 r.2)
  · apply ite_cases (fun r : Ptr × CD3D_RT => TraceExt P s0 r.2)
    · exact h1.transT (TraceExt.of_eqT rfl)
    · exact h1.transT (TraceExt.of_eqT rfl)
  · have h2 := step_waitForFrameContext (s1.m_frameCtx s1.ctxIndex).fenceValue h1
    generalize s1.waitForFrameContext (s1.m_frameCtx s1.ctxIndex).fenceValue = s2 at h2 ⊢
    exact (step_emit _ (hP _ (by simp)) h2).transT (TraceExt.of_eqT rfl)

theorem step_signalAndStamp (h : TraceExt P s0 s) : TraceExt P s0 s.signalAndStamp := by
  refine h.transT ⟨[Event.signalFrameFence (s.m_lastSignaledFence + 1)],
    (signalAndStamp_fields s).2.2.2.2.1, ?_⟩
  intro e he
  rw [List.mem_singleton] at he
  subst he
  exact hP _ (by simp)

theorem step_RT_EndFrameAndSignal (h : TraceExt P s0 s) :
    TraceExt P s0 s.RT_EndFrameAndSignal := by
  unfold RT_EndFrameAndSignal
  apply step_ite
  · exact h.transT (TraceExt.of_eqT rfl)
  · simp only
    have h1 : TraceExt P s0 (if s.m_frameRecordedWork = true then s.signalAndStamp else s) :=
      step_ite _ (step_signalAndStamp hP h) h
    exact (step_RT_ReclaimRetiredAllocators hP h1).transT (TraceExt.of_eqT rfl)

theorem step_releaseFrameAllocators (l : List (Fin 15)) (s : CD3D_RT) (h : TraceExt P s0 s) :
    TraceExt P s0 (releaseFrameAllocators s l) := by
  induction l generalizing s with
  | nil => exact h
  | cons i rest ih =>
    unfold releaseFrameAllocators
    simp only
    apply ih
    apply step_ite
    · exact (step_emit _ (hP _ (by simp)) h).transT (TraceExt.of_eqT rfl)
    · exact h

theorem step_RT_ShutdownFrameContexts (h : TraceExt P s0 s) :
    TraceExt P s0 s.RT_ShutdownFrameContexts.2 := by
  unfold RT_ShutdownFrameContexts
  apply ite_cases (fun r : Bool × CD3D_RT => TraceExt P s0 r.2)
  · exact h.transT (TraceExt.of_eqT rfl)
  · simp only
    have h1 : TraceExt P s0 (if s.m_frameFence ≠ 0 then
        (if (emit { s with m_lastSignaledFence := s.m_lastSignaledFence + 1 }
              (Event.signalFrameFence (s.m_lastSignaledFence + 1))).GetCompletedValue.1 <
            (emit { s with m_lastSignaledFence := s.m_lastSignaledFence + 1 }
              (Event.signalFrameFence (s.m_lastSignaledFence + 1))).GetCompletedValue.2.m_lastSignaledFence
         then (emit { s with m_lastSignaledFence := s.m_lastSignaledFence + 1 }
              (Event.signalFrameFence (s.m_lastSignaledFence + 1))).GetCompletedValue.2.WaitForSingleObject
         else (emit { s with m_lastSignaledFence := s.m_lastSignaledFence + 1 }
              (Event.signalFrameFence (s.m_lastSignaledFence + 1))).GetCompletedValue.2)
        else s) := by
      have h0 : TraceExt P s0 (emit { s with m_lastSignaledFence := s.m_lastSignaledFence + 1 }
              (Event.signalFrameFence (s.m_lastSignaledFence + 1))) :=
        step_emit _ (hP _ (by simp)) (h.transT (TraceExt.of_eqT rfl))
      exact step_ite _ (step_ite _ (step_advance (step_advance h0)) (step_advance h0)) h
    generalize (if s.m_frameFence ≠ 0 then
        (if (emit { s with m_lastSignaledFence := s.m_lastSignaledFence + 1 }
              (Event.signalFrameFence (s.m_lastSignaledFence + 1))).GetCompletedValue.1 <
            (emit { s with m_lastSignaledFence := s.m_lastSignaledFence + 1 }
              (Event.signalFrameFence (s.m_lastSignaledFence + 1))).GetCompletedValue.2.m_lastSignaledFence
         then (emit { s with m_lastSignaledFence := s.m_lastSignaledFence + 1 }
              (Event.signalFrameFence (s.m_lastSignaledFence + 1))).GetCompletedValue.2.WaitForSingleObject
         else (emit { s with m_lastSignaledFence := s.m_lastSignaledFence + 1 }
              (Event.signalFrameFence (s.m_lastSignaledFence + 1))).GetCompletedValue.2)
        else s) = s1 at h1 ⊢
    have h2 := step_releaseFrameAllocators hP (List.finRange 15) s1 h1
    generalize releaseFrameAllocators s1 (List.finRange 15) = s2 at h2 ⊢
    have h3 : TraceExt P s0 (if s2.m_frameFence ≠ 0 then s2.emit (Event.objectRelease s2.m_frameFence)
        else s2) := step_ite _ (step_emit _ (hP _ (by simp)) h2) h2
    exact h3.transT (TraceExt.of_eqT rfl)

theorem step_shutdownSignal (h : TraceExt P s0 s) : TraceExt P s0 s.shutdownSignal := by
  unfold shutdownSignal
  apply step_ite
  · exact step_emit _ (hP _ (by simp)) (h.transT (TraceExt.of_eqT rfl))
  · exact h

theorem step_releaseScene (h : TraceExt P s0 s) : TraceExt P s0 s.releaseScene := by
  unfold releaseScene
  simp only
  exact step_ClearKeepAliveUploads hP (step_setSceneBLAS _ (step_releaseEachASBuffers hP _
    (step_setSceneBLASResults _ (step_safeReleaseEach hP _ (step_setBlasBuffers _
      (step_RT_ReleaseASBuffers hP _ (step_setTlasBuffers _ (step_RT_ReleaseASBuffers hP _
        (step_setTopLevelAS _ h)))))))))

theorem step_releaseGlobals (env : ShutdownEnv) (h : TraceExt P s0 s) :
    TraceExt P s0 (s.releaseGlobals env) := by
  have hset : ∀ (f : CD3D_RT → CD3D_RT), (∀ x, (f x).trace = x.trace) →
      ∀ {x}, TraceExt P s0 x → TraceExt P s0 (f x) :=
    fun f hf x hx => hx.transT (TraceExt.of_eqT (hf x))
  unfold releaseGlobals
  simp only
  have h1 : TraceExt P s0
      (if s.m_pRaytracingPSO ≠ 0 then
        (s.emit (Event.objectRelease s.m_pRaytracingPSO)).setRaytracingPSO 0
      else s) :=
    step_ite _ (hset (fun x => x.setRaytracingPSO 0) (fun _ => rfl)
      (step_emit _ (hP _ (by simp)) h)) h
  generalize (if s.m_pRaytracingPSO ≠ 0 then
        (s.emit (Event.objectRelease s.m_pRaytracingPSO)).setRaytracingPSO 0
      else s) = s1 at h1 ⊢
  have h2 : TraceExt P s0 ((s1.setRaytracingOutput 0).setReflectionOutput 0) :=
    hset (fun x => x.setReflectionOutput 0) (fun _ => rfl)
      (hset (fun x => x.setRaytracingOutput 0) (fun _ => rfl) h1)
  generalize (s1.setRaytracingOutput 0).setReflectionOutput 0 = s2 at h2 ⊢
  have h3 := step_ite (s2.g_RT_AOOutputOwned = true) (step_RT_SafeRelease hP s2.g_pRT_AOOutput h2) h2
  generalize (if s2.g_RT_AOOutputOwned = true then (s2.RT_SafeRelease s2.g_pRT_AOOutput).1
    else s2) = s3 at h3 ⊢
  have h4 : TraceExt P s0 (s3.setAOOutput 0 false) :=
    hset (fun x => x.setAOOutput 0 false) (fun _ => rfl) h3
  generalize s3.setAOOutput 0 false = s4 at h4 ⊢
  have h5 : TraceExt P s0
      (if s4.m_pDescriptorHeap ≠ 0 then
        (s4.emit (Event.objectRelease s4.m_pDescriptorHeap)).setDescriptorHeap 0
      else s4) :=
    step_ite _ (hset (fun x => x.setDescriptorHeap 0) (fun _ => rfl)
      (step_emit _ (hP _ (by simp)) h4)) h4
  generalize (if s4.m_pDescriptorHeap ≠ 0 then
        (s4.emit (Event.objectRelease s4.m_pDescriptorHeap)).setDescriptorHeap 0
      else s4) = s5 at h5 ⊢
  have h6 : TraceExt P s0
      (if s5.m_pConstantsBuffer ≠ 0 then (s5.Release s5.m_pConstantsBuffer).setConstantsBuffer 0
      else s5) :=
    step_ite _ (hset (fun x => x.setConstantsBuffer 0) (fun _ => rfl) (step_Release hP _ h5)) h5
  generalize (if s5.m_pConstantsBuffer ≠ 0 then
      (s5.Release s5.m_pConstantsBuffer).setConstantsBuffer 0 else s5) = s6 at h6 ⊢
  exact hset (fun x => x.setShadersCompiled false) (fun _ => rfl)
    (hset (fun x => x.setOutputSize 0 0) (fun _ => rfl)
      (step_RT_SafeRelease hP _ (step_RT_SafeRelease hP _ h6)))

theorem step_releaseDevice (h : TraceExt P s0 s) : TraceExt P s0 s.releaseDevice := by
  unfold releaseDevice
  simp only
  exact step_setCommandQueue _
    (step_ite _ ((step_emit _ (hP _ (by simp)) h).transT (TraceExt.of_eqT rfl)) h)

theorem step_deferEachASBuffers (l : List AccelerationStructureBuffers) (s : CD3D_RT)
    (h : TraceExt P s0 s) : TraceExt P s0 (s.deferEachASBuffers l) := by
  induction l generalizing s with
  | nil => exact h
  | cons b rest ih =>
    unfold deferEachASBuffers
    exact ih _ (step_RT_ReleaseASBuffers hP _ h)

end Frames

/-! ### The drain of the deferred queue -/

theorem step_drainResources {s0 : CD3D_RT} (key done : Nat) (hk : key ≤ done) (l : List Ptr)
    (s : CD3D_RT) (h : TraceExt keyReached s0 s) :
    TraceExt keyReached s0 (drainResources key done l s) := by
  induction l generalizing s with
  | nil => exact h
  | cons r rest ih =>
    unfold drainResources
    apply ih
    apply step_ite
    · refine step_emit _ ?_ h
      intro r' k' d' he
      cases he
      exact hk
    · exact h

theorem step_drainDeferred {s0 : CD3D_RT} (done : Nat) (l : List RT_DeferredRelease)
    (s : CD3D_RT) (h : TraceExt keyReached s0 s) :
    TraceExt keyReached s0 (drainDeferred done l s) := by
  induction l generalizing s with
  | nil => exact h
  | cons d rest ih =>
    unfold drainDeferred
    apply ih
    by_cases hd : done ≥ d.fenceValue
    · rw [if_pos hd]
      exact step_drainResources _ _ hd _ _ h
    · rw [if_neg hd]
      exact h

theorem step_drainQueue {s0 s : CD3D_RT} (h : TraceExt keyReached s0 s) :
    TraceExt keyReached s0 s.drainQueue := by
  unfold drainQueue
  apply step_ite
  · simp only
    exact (step_drainDeferred _ _ _ (step_advance h)).transT (TraceExt.of_eqT rfl)
  · exact h

theorem keyReached_of_notDeferred (e : Event) (h : ∀ r k d, e ≠ Event.deferredRelease r k d) :
    keyReached e := fun r k d he => absurd he (h r k d)

theorem step_Shutdown {s0 s : CD3D_RT} (env : ShutdownEnv) (h : TraceExt keyReached s0 s) :
    TraceExt keyReached s0 (s.Shutdown env) := by
  have hP := keyReached_of_notDeferred
  unfold Shutdown
  apply step_ite _ h
  apply step_ite _ h
  simp only
  have h1 : TraceExt keyReached s0 ({ s with s_shutdownInProgress := true } : CD3D_RT) :=
    h.transT (TraceExt.of_eqT rfl)
  have h2 := step_RT_ShutdownFrameContexts hP (step_releaseDevice hP (step_releaseGlobals hP env
    (step_releaseScene hP (step_drainQueue (step_shutdownSignal hP h1)))))
  exact h2.transT (TraceExt.of_eqT rfl)

section Runs

variable {F : Type} [FloatOps F]

theorem step_UpdateAccelerationStructures {P : Event → Prop} {s0 s : CD3D_RT}
    (hP : ∀ e, (∀ r k d, e ≠ Event.deferredRelease r k d) → P e)
    (env : UpdateEnv F) (h : TraceExt P s0 s) :
    TraceExt P s0 (s.UpdateAccelerationStructures env) := by
  unfold UpdateAccelerationStructures
  simp only
  have h0 : TraceExt P s0 ({ s with frameCounter := (s.frameCounter + 1) % 4294967296 } : CD3D_RT) :=
    h.transT (TraceExt.of_eqT rfl)
  generalize ({ s with frameCounter := (s.frameCounter + 1) % 4294967296 } : CD3D_RT) = s1
    at h0 ⊢
  apply step_ite _ h0
  apply step_ite _ h0
  have h1 := step_RT_WaitForLastDispatch h0
  generalize s1.RT_WaitForLastDispatch = s2 at h1 ⊢
  have h2 := step_setBlasBuffers {} (step_setTlasBuffers {} (step_setTopLevelAS 0
    (step_ClearKeepAliveUploads hP (step_detachScene h1))))
  generalize ((s2.detachScene.ClearKeepAliveUploads.setTopLevelAS 0).setTlasBuffers
    {}).setBlasBuffers {} = s3 at h2 ⊢
  have h3 : TraceExt P s0 (s3.CreateSceneBLASAndTLASFromView env.level).2 :=
    step_CreateLevelGeometryBLASAndTLAS hP env.level s3 h2
  generalize s3.CreateSceneBLASAndTLASFromView env.level = built at h3 ⊢
  have h4 : TraceExt P s0 (if FAILED built.1 = true ∨ built.2.m_pTopLevelAS = 0 then
      (built.2.CreateTestSceneWithEnhancedSafety F env.test).2 else built.2) :=
    step_ite _ (step_CreateTestSceneWithEnhancedSafety hP env.test built.2 h3) h3
  generalize (if FAILED built.1 = true ∨ built.2.m_pTopLevelAS = 0 then
      (built.2.CreateTestSceneWithEnhancedSafety F env.test).2 else built.2) = s4 at h4 ⊢
  exact step_safeReleaseEach hP _ (step_deferEachASBuffers hP _ _
    (step_RT_ReleaseASBuffers hP _ (step_RT_ReleaseASBuffers hP _ h4)))

theorem step_step {s0 s : CD3D_RT} (op : Op F) (h : TraceExt keyReached s0 s) :
    TraceExt keyReached s0 (s.step op) := by
  have hP := keyReached_of_notDeferred
  cases op with
  | safeRelease r => exact step_RT_SafeRelease hP r h
  | deferRelease r => exact step_RT_DeferRelease r h
  | releaseASBuffers b => exact step_RT_ReleaseASBuffers hP b h
  | clearKeepAliveUploads => exact step_ClearKeepAliveUploads hP h
  | beginFrame env => exact step_RT_BeginFrameAllocator hP env h
  | recordWork => exact step_recordWork h
  | endFrame => exact step_RT_EndFrameAndSignal hP h
  | waitForLastDispatch => exact step_RT_WaitForLastDispatch h
  | buildLevel env => exact step_CreateLevelGeometryBLASAndTLAS hP env s h
  | buildTestScene env => exact step_CreateTestSceneWithEnhancedSafety hP env s h
  | update env => exact step_UpdateAccelerationStructures hP env h
  | shutdown env => exact step_Shutdown env h

theorem step_run {s0 : CD3D_RT} (ops : List (Op F)) (s : CD3D_RT)
    (h : TraceExt keyReached s0 s) : TraceExt keyReached s0 (s.run ops) := by
  induction ops generalizing s with
  | nil => exact h
  | cons op rest ih =>
    unfold run
    rw [List.foldl_cons]
    exact ih _ (step_step op h)

end Runs


/-! ### Growth of the deferred queue -/

theorem DeferredExt.reflD (s : CD3D_RT) : DeferredExt s s := ⟨[], (List.append_nil _).symm⟩

theorem DeferredExt.of_eqD {s s' : CD3D_RT} (h : s'.m_deferred = s.m_deferred) :
    DeferredExt s s' := ⟨[], by rw [h, List.append_nil]⟩

theorem DeferredExt.transD {s s' s'' : CD3D_RT} (h1 : DeferredExt s s')
    (h2 : DeferredExt s' s'') : DeferredExt s s'' := by
  obtain ⟨q1, e1⟩ := h1
  obtain ⟨q2, e2⟩ := h2
  exact ⟨q1 ++ q2, by rw [e2, e1, List.append_assoc]⟩

theorem deferredExt_waitForLastASBuild (s : CD3D_RT) : DeferredExt s s.waitForLastASBuild := by
  apply DeferredExt.of_eqD
  unfold waitForLastASBuild
  split
  · simp only
    split <;> rfl
  · rfl

theorem deferredExt_RT_SafeRelease (s : CD3D_RT) (r : Ptr) :
    DeferredExt s (s.RT_SafeRelease r).1 := by
  by_cases hr : r = 0
  · subst hr; simp [DeferredExt.reflD]
  · have hw := deferredExt_waitForLastASBuild s
    rcases RT_SafeRelease_cases s r hr with h | h | h <;> rw [h]
    · exact hw.transD (DeferredExt.of_eqD ((emit_m_deferred _ _).trans (advance_m_deferred _)))
    · refine hw.transD ⟨[{ fenceValue := s.maxFence + 1, resources := [r] }], ?_⟩
      refine (advance_m_deferred _).trans (((show ∀ (x : CD3D_RT) (d : List RT_DeferredRelease),
            ({ x with m_deferred := d } : CD3D_RT).m_deferred = d from fun _ _ => rfl) _ _).trans ?_)
      rw [advance_m_deferred]
    · exact hw.transD (DeferredExt.of_eqD (emit_m_deferred _ _))

theorem deferredExt_RT_ReleaseASBuffers (s : CD3D_RT) (b : AccelerationStructureBuffers) :
    DeferredExt s (s.RT_ReleaseASBuffers b).1 := by
  unfold RT_ReleaseASBuffers
  simp only
  have h := fun s r => deferredExt_RT_SafeRelease s r
  split <;> split <;> split <;> simp only <;>
    first
    | exact DeferredExt.reflD _
    | exact h _ _
    | exact (h _ _).transD (h _ _)
    | exact ((h _ _).transD (h _ _)).transD (h _ _)

theorem deferredExt_releaseEachASBuffers (l : List AccelerationStructureBuffers) (s : CD3D_RT) :
    DeferredExt s (s.releaseEachASBuffers l).1 := by
  induction l generalizing s with
  | nil => exact DeferredExt.reflD _
  | cons b rest ih =>
    simp only [releaseEachASBuffers]
    exact (deferredExt_RT_ReleaseASBuffers s b).transD (ih _)

theorem deferredExt_safeReleaseEach (l : List Ptr) (s : CD3D_RT) :
    DeferredExt s (s.safeReleaseEach l).1 := by
  induction l generalizing s with
  | nil => exact DeferredExt.reflD _
  | cons b rest ih =>
    simp only [safeReleaseEach]
    exact (deferredExt_RT_SafeRelease s b).transD (ih _)

theorem deferredExt_releaseKeepAlive (s : CD3D_RT) (k : UploadBufferKeepAlive) :
    DeferredExt s (s.releaseKeepAlive k) := by
  unfold releaseKeepAlive
  simp only
  have h := fun s r => deferredExt_RT_SafeRelease s r
  have step : ∀ (c : Prop) [Decidable c] (s : CD3D_RT) (r : Ptr),
      DeferredExt s (if c then (s.RT_SafeRelease r).1 else s) := by
    intro c _ s r
    split
    · exact h _ _
    · exact DeferredExt.reflD _
  exact (((step _ _ _).transD (step _ _ _)).transD (step _ _ _)).transD (step _ _ _)

theorem deferredExt_foldl_releaseKeepAlive (l : List UploadBufferKeepAlive) (s : CD3D_RT) :
    DeferredExt s (l.foldl releaseKeepAlive s) := by
  induction l generalizing s with
  | nil => exact DeferredExt.reflD _
  | cons b rest ih =>
    simp only [List.foldl_cons]
    exact (deferredExt_releaseKeepAlive s b).transD (ih _)

theorem deferredExt_ClearKeepAliveUploads (s : CD3D_RT) :
    DeferredExt s s.ClearKeepAliveUploads := by
  unfold ClearKeepAliveUploads
  exact (deferredExt_foldl_releaseKeepAlive _ s).transD (DeferredExt.of_eqD rfl)

theorem deferredExt_releaseASBuffersNow (s : CD3D_RT) (b : AccelerationStructureBuffers) :
    DeferredExt s (s.releaseASBuffersNow b).1 := by
  apply DeferredExt.of_eqD
  unfold releaseASBuffersNow
  simp only
  split <;> split <;> split <;> rfl

theorem deferredExt_BuildBottomLevelAS (s : CD3D_RT) (env : BlasEnv) (pCmdList : Ptr)
    (a1 a2 a3 a4 a5 a6 a7 : Nat) (outBLAS : AccelerationStructureBuffers) :
    DeferredExt s (s.BuildBottomLevelAS env pCmdList a1 a2 a3 a4 a5 a6 a7 outBLAS).2.1 := by
  have h1 := deferredExt_RT_ReleaseASBuffers s outBLAS
  unfold BuildBottomLevelAS
  generalize s.RT_ReleaseASBuffers outBLAS = rel at h1 ⊢
  have h2 := fun b => deferredExt_releaseASBuffersNow rel.1 b
  simp only
  repeat' apply ite_cases (fun r : HRESULT × CD3D_RT × AccelerationStructureBuffers =>
    DeferredExt s r.2.1)
  all_goals first
    | exact DeferredExt.reflD _
    | exact h1
    | exact h1.transD (h2 _)

theorem deferredExt_BuildTopLevelAS (s : CD3D_RT) (env : TlasEnv) (pCmdList : Ptr)
    (vas : List Nat) (outTLAS : AccelerationStructureBuffers) :
    DeferredExt s (s.BuildTopLevelAS env pCmdList vas outTLAS).2.1 := by
  have h1 := deferredExt_RT_ReleaseASBuffers s outTLAS
  unfold BuildTopLevelAS
  generalize s.RT_ReleaseASBuffers outTLAS = rel at h1 ⊢
  simp only
  repeat' apply ite_cases (fun r : HRESULT × CD3D_RT × AccelerationStructureBuffers =>
    DeferredExt s r.2.1)
  all_goals first
    | exact DeferredExt.reflD _
    | exact h1

theorem deferredExt_pushSceneBLAS (s : CD3D_RT) (b : AccelerationStructureBuffers) (va : Nat) :
    DeferredExt s (s.pushSceneBLAS b va) := by
  apply DeferredExt.of_eqD
  unfold pushSceneBLAS
  simp only
  split <;> split <;> rfl

theorem deferredExt_clearPrevious (s : CD3D_RT) : DeferredExt s s.clearPrevious := by
  unfold clearPrevious
  simp only
  have g1 := deferredExt_releaseEachASBuffers s.m_sceneBLAS s
  generalize (s.releaseEachASBuffers s.m_sceneBLAS).1 = r1 at g1 ⊢
  have g2 : DeferredExt s (r1.setSceneBLAS []) := g1.transD (DeferredExt.of_eqD rfl)
  generalize r1.setSceneBLAS [] = s1 at g2 ⊢
  have g3 := g2.transD (deferredExt_safeReleaseEach s1.m_sceneBLASResults s1)
  generalize (s1.safeReleaseEach s1.m_sceneBLASResults).1 = r2 at g3 ⊢
  have g4 : DeferredExt s (r2.setSceneBLASResults []) := g3.transD (DeferredExt.of_eqD rfl)
  generalize r2.setSceneBLASResults [] = s2 at g4 ⊢
  have g5 := g4.transD (deferredExt_ClearKeepAliveUploads s2)
  generalize s2.ClearKeepAliveUploads = s3 at g5 ⊢
  have g6 := g5.transD (deferredExt_RT_ReleaseASBuffers s3 s3.m_tlasBuffers)
  generalize s3.RT_ReleaseASBuffers s3.m_tlasBuffers = rel at g6 ⊢
  exact g6.transD (DeferredExt.of_eqD rfl)

theorem deferredExt_finishLevelBuild (s : CD3D_RT) (tlasEnv : TlasEnv) (pCL : Ptr)
    (closeHr : HRESULT) (fc : Bool) (signalHr : HRESULT) :
    DeferredExt s (s.finishLevelBuild tlasEnv pCL closeHr fc signalHr).2 := by
  unfold finishLevelBuild
  simp only
  have h2 : DeferredExt s ((s.BuildTopLevelAS tlasEnv pCL s.blasVaList s.m_tlasBuffers).2.1.setTlasBuffers
      (s.BuildTopLevelAS tlasEnv pCL s.blasVaList s.m_tlasBuffers).2.2) :=
    (deferredExt_BuildTopLevelAS s tlasEnv pCL s.blasVaList s.m_tlasBuffers).transD
      (DeferredExt.of_eqD rfl)
  repeat' apply ite_cases (fun r : HRESULT × CD3D_RT => DeferredExt s r.2)
  all_goals first
    | exact DeferredExt.reflD _
    | exact h2
    | exact h2.transD (DeferredExt.of_eqD rfl)
    | exact h2.transD (DeferredExt.of_eqD (submitBuild_fields _ _ _ _ _).2.2.2.2)

theorem deferredExt_buildLevelBLAS {F : Type} (records : Nat → RecordBuildEnv) (pCL : Ptr)
    (geo : List (SafeGeometryData F)) (i : Nat) (s : CD3D_RT) :
    DeferredExt s (buildLevelBLAS records pCL i geo s) := by
  induction geo generalizing i s with
  | nil => exact DeferredExt.reflD _
  | cons g rest ih =>
    unfold buildLevelBLAS
    simp only
    cases CreateDefaultBufferFromData (g.vertices.length * 12) (records i).vb with
    | none => exact ih _ _
    | some vb =>
      cases CreateDefaultBufferFromData (g.indices.length * 4) (records i).ib with
      | none => exact (DeferredExt.of_eqD rfl).transD (ih _ _)
      | some ib =>
        simp only
        refine DeferredExt.transD ?_ (ih _ _)
        have hb := fun (e : BlasEnv) a1 a2 a3 a4 a5 a6 a7 b =>
          deferredExt_BuildBottomLevelAS
            (s.pushKeepAlive (UploadBufferKeepAlive.mk vb.1 ib.1 vb.2 ib.2 g.debugName))
            e pCL a1 a2 a3 a4 a5 a6 a7 b
        have h0 : DeferredExt s
            (s.pushKeepAlive (UploadBufferKeepAlive.mk vb.1 ib.1 vb.2 ib.2 g.debugName)) :=
          DeferredExt.of_eqD rfl
        split
        · exact h0.transD ((hb _ _ _ _ _ _ _ _ _).transD (deferredExt_pushSceneBLAS _ _ _))
        · exact h0.transD (hb _ _ _ _ _ _ _ _ _)


/-! ### Resources handed to the release path -/

theorem HandedOver.extend_right {r : Ptr} {s s' s'' : CD3D_RT} (h : HandedOver r s s')
    (ht : TraceExt (fun _ => True) s' s'') (hd : DeferredExt s' s'') : HandedOver r s s'' := by
  obtain ⟨added, q, e1, e2, h3⟩ := h
  obtain ⟨l, e3, _⟩ := ht
  obtain ⟨q2, e4⟩ := hd
  refine ⟨added ++ l, q ++ q2, by rw [e3, e1, List.append_assoc],
    by rw [e4, e2, List.append_assoc], ?_⟩
  rcases h3 with ⟨c, hc⟩ | ⟨d, hd1, hd2⟩
  · exact Or.inl ⟨c, List.mem_append_left _ hc⟩
  · exact Or.inr ⟨d, List.mem_append_left _ hd1, hd2⟩

theorem HandedOver.extend_left {r : Ptr} {s s' s'' : CD3D_RT}
    (ht : TraceExt (fun _ => True) s s') (hd : DeferredExt s s') (h : HandedOver r s' s'') :
    HandedOver r s s'' := by
  obtain ⟨added, q, e1, e2, h3⟩ := h
  obtain ⟨l, e3, _⟩ := ht
  obtain ⟨q2, e4⟩ := hd
  refine ⟨l ++ added, q2 ++ q, by rw [e1, e3, List.append_assoc],
    by rw [e2, e4, List.append_assoc], ?_⟩
  rcases h3 with ⟨c, hc⟩ | ⟨d, hd1, hd2⟩
  · exact Or.inl ⟨c, List.mem_append_right _ hc⟩
  · exact Or.inr ⟨d, List.mem_append_right _ hd1, hd2⟩

theorem waitForLastASBuild_trace (s : CD3D_RT) : s.waitForLastASBuild.trace = s.trace := by
  obtain ⟨c, t, h, _⟩ := waitForLastASBuild_fields s
  rw [h]

theorem waitForLastASBuild_m_deferred (s : CD3D_RT) :
    s.waitForLastASBuild.m_deferred = s.m_deferred := by
  obtain ⟨c, t, h, _⟩ := waitForLastASBuild_fields s
  rw [h]

theorem handedOver_RT_SafeRelease (s : CD3D_RT) (r : Ptr) (hr : r ≠ 0) :
    HandedOver r s (s.RT_SafeRelease r).1 := by
  have ht := waitForLastASBuild_trace s
  have hd := waitForLastASBuild_m_deferred s
  rcases RT_SafeRelease_cases s r hr with h | h | h <;> rw [h]
  · refine ⟨[Event.release r s.waitForLastASBuild.GetCompletedValue.1], [], ?_, ?_,
      Or.inl ⟨_, List.mem_singleton_self _⟩⟩
    · show s.waitForLastASBuild.trace ++ _ = _
      rw [ht]
    · show s.waitForLastASBuild.m_deferred = _
      rw [hd, List.append_nil]
  · refine ⟨[], [{ fenceValue := s.maxFence + 1, resources := [r] }], ?_, ?_,
      Or.inr ⟨_, List.mem_singleton_self _, List.mem_singleton_self _⟩⟩
    · show s.waitForLastASBuild.trace = _
      rw [ht, List.append_nil]
    · show s.waitForLastASBuild.m_deferred ++ _ = _
      rw [hd]
  · refine ⟨[Event.release r s.waitForLastASBuild.fenceCompleted], [], ?_, ?_,
      Or.inl ⟨_, List.mem_singleton_self _⟩⟩
    · show s.waitForLastASBuild.trace ++ _ = _
      rw [ht]
    · show s.waitForLastASBuild.m_deferred = _
      rw [hd, List.append_nil]

theorem grows_RT_SafeRelease (s : CD3D_RT) (r : Ptr) :
    TraceExt (fun _ => True) s (s.RT_SafeRelease r).1 ∧ DeferredExt s (s.RT_SafeRelease r).1 :=
  ⟨traceExt_RT_SafeRelease (fun _ _ => trivial) s r, deferredExt_RT_SafeRelease s r⟩

theorem handedOver_safeReleaseEach (l : List Ptr) (s : CD3D_RT) (r : Ptr) (hm : r ∈ l)
    (hr : r ≠ 0) : HandedOver r s (s.safeReleaseEach l).1 := by
  induction l generalizing s with
  | nil => exact absurd hm (List.not_mem_nil _)
  | cons b rest ih =>
    simp only [safeReleaseEach]
    rcases List.mem_cons.1 hm with rfl | hm'
    · exact (handedOver_RT_SafeRelease s r hr).extend_right
        (traceExt_safeReleaseEach (fun _ _ => trivial) rest _) (deferredExt_safeReleaseEach rest _)
    · exact HandedOver.extend_left (grows_RT_SafeRelease s b).1 (grows_RT_SafeRelease s b).2
        (ih _ hm')

theorem RT_ReleaseASBuffers_fst (s : CD3D_RT) (b : AccelerationStructureBuffers) :
    (s.RT_ReleaseASBuffers b).1 =
      (((s.RT_SafeRelease b.pScratch).1.RT_SafeRelease b.pResult).1.RT_SafeRelease
        b.pInstanceDesc).1 := by
  cases b with
  | mk p1 p2 p3 va =>
    by_cases h1 : p1 = 0 <;> by_cases h2 : p2 = 0 <;> by_cases h3 : p3 = 0 <;>
      simp [RT_ReleaseASBuffers, h1, h2, h3]

theorem handedOver_RT_ReleaseASBuffers (s : CD3D_RT) (b : AccelerationStructureBuffers)
    (hr : b.pResult ≠ 0) : HandedOver b.pResult s (s.RT_ReleaseASBuffers b).1 := by
  have g := grows_RT_SafeRelease
  rw [RT_ReleaseASBuffers_fst]
  exact HandedOver.extend_left (g _ _).1 (g _ _).2
    ((handedOver_RT_SafeRelease _ b.pResult hr).extend_right (g _ _).1 (g _ _).2)


theorem setSceneBLAS_fields (s : CD3D_RT) (l : List AccelerationStructureBuffers) :
    (s.setSceneBLAS l).m_sceneBLAS = l ∧
    (s.setSceneBLAS l).m_sceneBLASResults = s.m_sceneBLASResults ∧
    (s.setSceneBLAS l).m_tlasBuffers = s.m_tlasBuffers := ⟨rfl, rfl, rfl⟩

theorem setSceneBLASResults_fields (s : CD3D_RT) (l : List Ptr) :
    (s.setSceneBLASResults l).m_sceneBLAS = s.m_sceneBLAS ∧
    (s.setSceneBLASResults l).m_sceneBLASResults = l ∧
    (s.setSceneBLASResults l).m_tlasBuffers = s.m_tlasBuffers := ⟨rfl, rfl, rfl⟩

theorem setTlasTop_fields (s : CD3D_RT) (b : AccelerationStructureBuffers) (p : Ptr) :
    ((s.setTlasBuffers b).setTopLevelAS p).m_sceneBLAS = s.m_sceneBLAS ∧
    ((s.setTlasBuffers b).setTopLevelAS p).m_sceneBLASResults = s.m_sceneBLASResults ∧
    ((s.setTlasBuffers b).setTopLevelAS p).m_pTopLevelAS = p ∧
    ((s.setTlasBuffers b).setTopLevelAS p).m_tlasBuffers = b := ⟨rfl, rfl, rfl, rfl⟩

theorem clearPrevious_fields (s : CD3D_RT) :
    s.clearPrevious.m_sceneBLAS = [] ∧ s.clearPrevious.m_sceneBLASResults = [] ∧
    s.clearPrevious.m_pTopLevelAS = 0 ∧ s.clearPrevious.m_tlasBuffers = {} := by
  unfold clearPrevious
  simp only
  generalize (s.releaseEachASBuffers s.m_sceneBLAS).1 = r1
  have e1 := (setSceneBLAS_fields r1 []).1
  generalize r1.setSceneBLAS [] = s1 at e1 ⊢
  have c2 := core_safeReleaseEach s1.m_sceneBLASResults s1
  generalize (s1.safeReleaseEach s1.m_sceneBLASResults).1 = r2 at c2 ⊢
  have e2 : (r2.setSceneBLASResults []).m_sceneBLAS = [] :=
    ((setSceneBLASResults_fields r2 []).1.trans (core_m_sceneBLAS c2)).trans e1
  have e3 := (setSceneBLASResults_fields r2 []).2.1
  generalize r2.setSceneBLASResults [] = s2 at e2 e3 ⊢
  have e4 : s2.ClearKeepAliveUploads.m_sceneBLAS = [] :=
    (core_m_sceneBLAS (core_ClearKeepAliveUploads s2)).trans e2
  have e5 : s2.ClearKeepAliveUploads.m_sceneBLASResults = [] :=
    (core_m_sceneBLASResults (core_ClearKeepAliveUploads s2)).trans e3
  generalize s2.ClearKeepAliveUploads = s3 at e4 e5 ⊢
  have c4 := core_RT_ReleaseASBuffers s3 s3.m_tlasBuffers
  have e6 := RT_ReleaseASBuffers_snd s3 s3.m_tlasBuffers
  generalize s3.RT_ReleaseASBuffers s3.m_tlasBuffers = rel at c4 e6 ⊢
  obtain ⟨f1, f2, f3, f4⟩ := setTlasTop_fields rel.1 rel.2 0
  exact ⟨f1.trans ((core_m_sceneBLAS c4).trans e4),
    f2.trans ((core_m_sceneBLASResults c4).trans e5), f3, f4.trans e6⟩

theorem grows_trans {a b c : CD3D_RT}
    (h1 : TraceExt (fun _ => True) a b ∧ DeferredExt a b)
    (h2 : TraceExt (fun _ => True) b c ∧ DeferredExt b c) :
    TraceExt (fun _ => True) a c ∧ DeferredExt a c :=
  ⟨h1.1.transT h2.1, h1.2.transD h2.2⟩

theorem grows_setSceneBLAS (s : CD3D_RT) (l : List AccelerationStructureBuffers) :
    TraceExt (fun _ => True) s (s.setSceneBLAS l) ∧ DeferredExt s (s.setSceneBLAS l) :=
  ⟨TraceExt.of_eqT rfl, DeferredExt.of_eqD rfl⟩

theorem grows_setSceneBLASResults (s : CD3D_RT) (l : List Ptr) :
    TraceExt (fun _ => True) s (s.setSceneBLASResults l) ∧
      DeferredExt s (s.setSceneBLASResults l) :=
  ⟨TraceExt.of_eqT rfl, DeferredExt.of_eqD rfl⟩

theorem grows_setTlasTop (s : CD3D_RT) (b : AccelerationStructureBuffers) (p : Ptr) :
    TraceExt (fun _ => True) s ((s.setTlasBuffers b).setTopLevelAS p) ∧
      DeferredExt s ((s.setTlasBuffers b).setTopLevelAS p) :=
  ⟨TraceExt.of_eqT rfl, DeferredExt.of_eqD rfl⟩

theorem grows_setCommandQueue (s : CD3D_RT) (q : Ptr) :
    TraceExt (fun _ => True) s (s.setCommandQueue q) ∧ DeferredExt s (s.setCommandQueue q) :=
  ⟨TraceExt.of_eqT rfl, DeferredExt.of_eqD rfl⟩

theorem handedOver_clearPrevious_results (s : CD3D_RT) (r : Ptr) (hm : r ∈ s.m_sceneBLASResults)
    (hr : r ≠ 0) : HandedOver r s s.clearPrevious := by
  have hT : ∀ r c, (fun _ : Event => True) (Event.release r c) := fun _ _ => trivial
  unfold clearPrevious
  simp only
  have g1 : TraceExt (fun _ => True) s (s.releaseEachASBuffers s.m_sceneBLAS).1 ∧
      DeferredExt s (s.releaseEachASBuffers s.m_sceneBLAS).1 :=
    ⟨traceExt_releaseEachASBuffers hT _ s, deferredExt_releaseEachASBuffers _ s⟩
  have c1 := core_releaseEachASBuffers s.m_sceneBLAS s
  generalize (s.releaseEachASBuffers s.m_sceneBLAS).1 = r1 at g1 c1 ⊢
  have g2 := grows_trans g1 (grows_setSceneBLAS r1 [])
  have e1 : (r1.setSceneBLAS []).m_sceneBLASResults = s.m_sceneBLASResults :=
    (setSceneBLAS_fields r1 []).2.1.trans (core_m_sceneBLASResults c1)
  generalize r1.setSceneBLAS [] = s1 at g2 e1 ⊢
  rw [← e1] at hm
  have h2 := HandedOver.extend_left g2.1 g2.2 (handedOver_safeReleaseEach _ s1 r hm hr)
  generalize (s1.safeReleaseEach s1.m_sceneBLASResults).1 = r2 at h2 ⊢
  have h3 := h2.extend_right (grows_setSceneBLASResults r2 []).1
    (grows_setSceneBLASResults r2 []).2
  generalize r2.setSceneBLASResults [] = s2 at h3 ⊢
  have h4 := h3.extend_right (traceExt_ClearKeepAliveUploads hT s2)
    (deferredExt_ClearKeepAliveUploads s2)
  generalize s2.ClearKeepAliveUploads = s3 at h4 ⊢
  have h5 := h4.extend_right (traceExt_RT_ReleaseASBuffers hT s3 s3.m_tlasBuffers)
    (deferredExt_RT_ReleaseASBuffers s3 s3.m_tlasBuffers)
  generalize s3.RT_ReleaseASBuffers s3.m_tlasBuffers = rel at h5 ⊢
  exact h5.extend_right (grows_setTlasTop rel.1 rel.2 0).1 (grows_setTlasTop rel.1 rel.2 0).2

theorem handedOver_clearPrevious_tlas (s : CD3D_RT) (hr : s.m_tlasBuffers.pResult ≠ 0) :
    HandedOver s.m_tlasBuffers.pResult s s.clearPrevious := by
  have hT : ∀ r c, (fun _ : Event => True) (Event.release r c) := fun _ _ => trivial
  unfold clearPrevious
  simp only
  have g1 : TraceExt (fun _ => True) s (s.releaseEachASBuffers s.m_sceneBLAS).1 ∧
      DeferredExt s (s.releaseEachASBuffers s.m_sceneBLAS).1 :=
    ⟨traceExt_releaseEachASBuffers hT _ s, deferredExt_releaseEachASBuffers _ s⟩
  have c1 := core_releaseEachASBuffers s.m_sceneBLAS s
  generalize (s.releaseEachASBuffers s.m_sceneBLAS).1 = r1 at g1 c1 ⊢
  have g2 := grows_trans g1 (grows_setSceneBLAS r1 [])
  have e1 : (r1.setSceneBLAS []).m_tlasBuffers = s.m_tlasBuffers :=
    (setSceneBLAS_fields r1 []).2.2.trans (core_m_tlasBuffers c1)
  generalize r1.setSceneBLAS [] = s1 at g2 e1 ⊢
  have g3 : TraceExt (fun _ => True) s (s1.safeReleaseEach s1.m_sceneBLASResults).1 ∧
      DeferredExt s (s1.safeReleaseEach s1.m_sceneBLASResults).1 :=
    grows_trans g2 ⟨traceExt_safeReleaseEach hT _ s1, deferredExt_safeReleaseEach _ s1⟩
  have c3 := core_safeReleaseEach s1.m_sceneBLASResults s1
  generalize (s1.safeReleaseEach s1.m_sceneBLASResults).1 = r2 at g3 c3 ⊢
  have g4 := grows_trans g3 (grows_setSceneBLASResults r2 [])
  have e4 : (r2.setSceneBLASResults []).m_tlasBuffers = s.m_tlasBuffers :=
    ((setSceneBLASResults_fields r2 []).2.2.trans (core_m_tlasBuffers c3)).trans e1
  generalize r2.setSceneBLASResults [] = s2 at g4 e4 ⊢
  have g5 := grows_trans g4
    ⟨traceExt_ClearKeepAliveUploads hT s2, deferredExt_ClearKeepAliveUploads s2⟩
  have e5 : s2.ClearKeepAliveUploads.m_tlasBuffers = s.m_tlasBuffers :=
    (core_m_tlasBuffers (core_ClearKeepAliveUploads s2)).trans e4
  generalize s2.ClearKeepAliveUploads = s3 at g5 e5 ⊢
  rw [← e5] at hr ⊢
  have h6 := HandedOver.extend_left g5.1 g5.2
    (handedOver_RT_ReleaseASBuffers s3 s3.m_tlasBuffers hr)
  generalize s3.RT_ReleaseASBuffers s3.m_tlasBuffers = rel at h6 ⊢
  exact h6.extend_right (grows_setTlasTop rel.1 rel.2 0).1 (grows_setTlasTop rel.1 rel.2 0).2

theorem buildLevelBLAS_fields {F : Type} (records : Nat → RecordBuildEnv) (pCL : Ptr)
    (geo : List (SafeGeometryData F)) (i : Nat) (s : CD3D_RT) :
    (buildLevelBLAS records pCL i geo s).m_pTopLevelAS = s.m_pTopLevelAS ∧
    (buildLevelBLAS records pCL i geo s).m_tlasBuffers = s.m_tlasBuffers ∧
    (buildLevelBLAS records pCL i geo s).m_sceneBLAS.length ≤ s.m_sceneBLAS.length + geo.length := by
  induction geo generalizing i s with
  | nil => exact ⟨rfl, rfl, le_refl _⟩
  | cons g rest ih =>
    unfold buildLevelBLAS
    simp only
    cases CreateDefaultBufferFromData (g.vertices.length * 12) (records i).vb with
    | none =>
      obtain ⟨a, b, c⟩ := ih (i + 1) s
      exact ⟨a, b, Nat.le_trans c (by rw [List.length_cons]; omega)⟩
    | some vb =>
      cases CreateDefaultBufferFromData (g.indices.length * 4) (records i).ib with
      | none =>
        obtain ⟨a, b, c⟩ := ih (i + 1) ((s.Release vb.1).Release vb.2)
        exact ⟨a, b, Nat.le_trans c
          (by show s.m_sceneBLAS.length + rest.length ≤ _; rw [List.length_cons]; omega)⟩
      | some ib =>
        simp only
        have hc := fun (e : BlasEnv) a1 a2 a3 a4 a5 a6 a7 b =>
          core_BuildBottomLevelAS
            (s.pushKeepAlive (UploadBufferKeepAlive.mk vb.1 ib.1 vb.2 ib.2 g.debugName))
            e pCL a1 a2 a3 a4 a5 a6 a7 b
        have hk : (s.pushKeepAlive (UploadBufferKeepAlive.mk vb.1 ib.1 vb.2 ib.2
            g.debugName)).core = s.core := rfl
        generalize s.pushKeepAlive (UploadBufferKeepAlive.mk vb.1 ib.1 vb.2 ib.2 g.debugName) = sk
          at hc hk ⊢
        have hb := hc (records i).blas (records i).vbVA (g.vertices.length % 4294967296) 12
          DXGI_FORMAT_R32G32B32_FLOAT (records i).ibVA (g.indices.length % 4294967296)
          DXGI_FORMAT_R32_UINT {}
        generalize sk.BuildBottomLevelAS (records i).blas pCL (records i).vbVA
          (g.vertices.length % 4294967296) 12 DXGI_FORMAT_R32G32B32_FLOAT (records i).ibVA
          (g.indices.length % 4294967296) DXGI_FORMAT_R32_UINT {} = built at hb ⊢
        have hcore := hb.trans hk
        have f1 : built.2.1.m_pTopLevelAS = s.m_pTopLevelAS := core_m_pTopLevelAS hcore
        have f2 : built.2.1.m_tlasBuffers = s.m_tlasBuffers := core_m_tlasBuffers hcore
        have f3 : built.2.1.m_sceneBLAS = s.m_sceneBLAS := core_m_sceneBLAS hcore
        have hp : ∀ b va, (built.2.1.pushSceneBLAS b va).m_pTopLevelAS = s.m_pTopLevelAS ∧
            (built.2.1.pushSceneBLAS b va).m_tlasBuffers = s.m_tlasBuffers ∧
            (built.2.1.pushSceneBLAS b va).m_sceneBLAS.length = s.m_sceneBLAS.length + 1 := by
          intro b va
          unfold pushSceneBLAS
          simp only
          split <;> split <;> simp [f1, f2, f3]
        split
        · obtain ⟨a, b, c⟩ := ih (i + 1) (built.2.1.pushSceneBLAS built.2.2 (records i).resultVA2)
          obtain ⟨p1, p2, p3⟩ := hp built.2.2 (records i).resultVA2
          exact ⟨a.trans p1, b.trans p2, by rw [List.length_cons]; omega⟩
        · obtain ⟨a, b, c⟩ := ih (i + 1) built.2.1
          exact ⟨a.trans f1, b.trans f2, by rw [List.length_cons, f3] at *; omega⟩

theorem finishLevelBuild_failed (s : CD3D_RT) (tlasEnv : TlasEnv) (pCL : Ptr)
    (closeHr : HRESULT) (fc : Bool) (signalHr : HRESULT) (h0 : s.m_pTopLevelAS = 0)
    (hf : FAILED (s.finishLevelBuild tlasEnv pCL closeHr fc signalHr).1 = true)
    (hc : FAILED closeHr = false) :
    (s.finishLevelBuild tlasEnv pCL closeHr fc signalHr).2.m_pTopLevelAS = 0 := by
  have hb : (s.BuildTopLevelAS tlasEnv pCL s.blasVaList s.m_tlasBuffers).2.1.m_pTopLevelAS = 0 :=
    (core_m_pTopLevelAS (core_BuildTopLevelAS s tlasEnv pCL s.blasVaList s.m_tlasBuffers)).trans h0
  revert hf
  unfold finishLevelBuild
  simp only
  generalize s.BuildTopLevelAS tlasEnv pCL s.blasVaList s.m_tlasBuffers = built at hb ⊢
  rw [hc]
  simp only [Bool.false_eq_true, if_false]
  repeat' apply ite_cases (fun r : HRESULT × CD3D_RT => FAILED r.1 = true → r.2.m_pTopLevelAS = 0)
  · exact fun _ => h0
  · exact fun _ => h0
  · exact fun _ => hb
  · intro h
    exact absurd (show FAILED S_OK = true from h) (by decide)


section C6

variable {F : Type} [FloatOps F]

theorem CreateLevel_reached (s : CD3D_RT) (env : LevelBuildEnv F)
    (h : reachesCommandList s env = true) :
    ∃ queue l pCL, env.refreshQueue = some queue ∧
      selectLevelGeometry env.extracted env.terrain env.cam = some l ∧
      s.CreateLevelGeometryBLASAndTLAS env =
        (buildLevelBLAS env.records pCL 0 l (s.setCommandQueue queue).clearPrevious).finishLevelBuild
          env.tlas pCL env.closeHr env.fenceCreated env.signalHr := by
  unfold reachesCommandList at h
  simp only [Bool.and_eq_true, decide_eq_true_eq, Bool.not_eq_true'] at h
  obtain ⟨⟨⟨⟨⟨⟨h1, h2⟩, h3⟩, h4⟩, h5⟩, h6⟩, h7⟩ := h
  cases hq : env.refreshQueue with
  | none => rw [hq] at h3; exact absurd h3 (by simp)
  | some queue =>
    rw [hq] at h3
    have h3' : queue ≠ 0 := by simpa using h3
    cases hs : selectLevelGeometry env.extracted env.terrain env.cam with
    | none => rw [hs] at h5; exact absurd h5 (by simp)
    | some l =>
      cases ha : env.allocator with
      | none => rw [ha] at h6; exact absurd h6 (by simp)
      | some al =>
        cases hc : env.commandList with
        | none => rw [hc] at h7; exact absurd h7 (by simp)
        | some pCL =>
          refine ⟨queue, l, pCL, rfl, rfl, ?_⟩
          unfold CreateLevelGeometryBLASAndTLAS
          rw [if_neg h1, h2, hq]
          simp only [Bool.false_eq_true, if_false]
          rw [if_neg (show ¬ (s.setCommandQueue queue).m_pCommandQueue = 0 from h3'), h4, hs, ha, hc]
          simp only [Bool.false_eq_true, if_false]

theorem CreateLevel_early (s : CD3D_RT) (env : LevelBuildEnv F)
    (h : reachesCommandList s env = false) :
    FAILED (s.CreateLevelGeometryBLASAndTLAS env).1 = true ∧
      ∃ queue, (s.CreateLevelGeometryBLASAndTLAS env).2 = s.setCommandQueue queue := by
  have hs : s = s.setCommandQueue s.m_pCommandQueue := rfl
  have fE : FAILED E_FAIL = true := by decide
  have fP : FAILED E_PENDING = true := by decide
  unfold reachesCommandList at h
  unfold CreateLevelGeometryBLASAndTLAS
  by_cases h1 : s.m_pDevice = 0
  · rw [if_pos h1]
    exact ⟨fE, _, hs⟩
  rw [if_neg h1]
  cases h2 : env.streamingBusy with
  | true =>
    simp only [if_true]
    exact ⟨fP, _, hs⟩
  | false =>
    simp only [Bool.false_eq_true, if_false]
    cases hq : env.refreshQueue with
    | none => exact ⟨fE, _, hs⟩
    | some queue =>
      simp only
      by_cases h3 : queue = 0
      · rw [if_pos (show (s.setCommandQueue queue).m_pCommandQueue = 0 from h3)]
        exact ⟨fE, _, rfl⟩
      rw [if_neg (show ¬ (s.setCommandQueue queue).m_pCommandQueue = 0 from h3)]
      cases h4 : FAILED env.deviceRemovedHr with
      | true =>
        simp only [if_true]
        exact ⟨h4, _, rfl⟩
      | false =>
        simp only [Bool.false_eq_true, if_false]
        cases h5 : selectLevelGeometry env.extracted env.terrain env.cam with
        | none => exact ⟨fE, _, rfl⟩
        | some l =>
          cases h6 : env.allocator with
          | none => exact ⟨fE, _, rfl⟩
          | some al =>
            cases h7 : env.commandList with
            | none => exact ⟨fE, _, rfl⟩
            | some pCL =>
              exfalso
              simp [h1, h2, hq, h3, h4, h5, h6, h7] at h

/-- An early return of `CreateLevelGeometryBLASAndTLAS` changes nothing; past the
creation of the command list the installed set is cleared first. -/
theorem CreateLevel_clears_first (s : CD3D_RT) (env : LevelBuildEnv F) :
    (reachesCommandList s env = false →
      FAILED (s.CreateLevelGeometryBLASAndTLAS env).1 = true ∧
      (s.CreateLevelGeometryBLASAndTLAS env).2.m_pTopLevelAS = s.m_pTopLevelAS ∧
      (s.CreateLevelGeometryBLASAndTLAS env).2.m_tlasBuffers = s.m_tlasBuffers ∧
      (s.CreateLevelGeometryBLASAndTLAS env).2.m_sceneBLAS = s.m_sceneBLAS ∧
      (s.CreateLevelGeometryBLASAndTLAS env).2.m_sceneBLASResults = s.m_sceneBLASResults ∧
      (s.CreateLevelGeometryBLASAndTLAS env).2.m_deferred = s.m_deferred ∧
      (s.CreateLevelGeometryBLASAndTLAS env).2.trace = s.trace) ∧
    (reachesCommandList s env = true →
      (∀ p ∈ s.m_sceneBLASResults, p ≠ 0 →
        HandedOver p s (s.CreateLevelGeometryBLASAndTLAS env).2) ∧
      (s.m_tlasBuffers.pResult ≠ 0 →
        HandedOver s.m_tlasBuffers.pResult s (s.CreateLevelGeometryBLASAndTLAS env).2) ∧
      (FAILED (s.CreateLevelGeometryBLASAndTLAS env).1 = true → FAILED env.closeHr = false →
        (s.CreateLevelGeometryBLASAndTLAS env).2.m_pTopLevelAS = 0)) := by
  have hT : ∀ e, (∀ r k d, e ≠ Event.deferredRelease r k d) → (fun _ : Event => True) e :=
    fun _ _ => trivial
  refine ⟨?_, ?_⟩
  · intro h
    obtain ⟨hf, queue, hq⟩ := CreateLevel_early s env h
    rw [hq]
    exact ⟨hf, rfl, rfl, rfl, rfl, rfl, rfl⟩
  · intro h
    obtain ⟨queue, l, pCL, _, _, he⟩ := CreateLevel_reached s env h
    rw [he]
    have g0 := grows_setCommandQueue s queue
    have m1 : (s.setCommandQueue queue).m_sceneBLASResults = s.m_sceneBLASResults := rfl
    have m2 : (s.setCommandQueue queue).m_tlasBuffers = s.m_tlasBuffers := rfl
    generalize s.setCommandQueue queue = s1 at g0 m1 m2 ⊢
    have c0 := (clearPrevious_fields s1).2.2.1
    have hres := fun p hm hp => HandedOver.extend_left g0.1 g0.2
      (handedOver_clearPrevious_results s1 p hm hp)
    have htl := fun hp => HandedOver.extend_left g0.1 g0.2 (handedOver_clearPrevious_tlas s1 hp)
    rw [m1] at hres
    rw [m2] at htl
    generalize s1.clearPrevious = s2 at c0 hres htl ⊢
    have gb : TraceExt (fun _ => True) s2 (buildLevelBLAS env.records pCL 0 l s2) ∧
        DeferredExt s2 (buildLevelBLAS env.records pCL 0 l s2) :=
      ⟨step_buildLevelBLAS hT _ _ _ _ _ (TraceExt.reflT _ _), deferredExt_buildLevelBLAS _ _ _ _ _⟩
    have c1 := (buildLevelBLAS_fields env.records pCL l 0 s2).1.trans c0
    generalize buildLevelBLAS env.records pCL 0 l s2 = s3 at gb c1 ⊢
    have gf : TraceExt (fun _ => True) s3
          (s3.finishLevelBuild env.tlas pCL env.closeHr env.fenceCreated env.signalHr).2 ∧
        DeferredExt s3
          (s3.finishLevelBuild env.tlas pCL env.closeHr env.fenceCreated env.signalHr).2 :=
      ⟨step_finishLevelBuild hT _ _ _ _ _ (TraceExt.reflT _ _),
        deferredExt_finishLevelBuild _ _ _ _ _ _⟩
    have g := grows_trans gb gf
    refine ⟨?_, ?_, ?_⟩
    · intro p hm hp
      exact (hres p hm hp).extend_right g.1 g.2
    · intro hp
      exact (htl hp).extend_right g.1 g.2
    · intro hf hc
      exact finishLevelBuild_failed s3 _ _ _ _ _ c1 hf hc

end C6

/-! ### Size of the build -/

theorem BuildsWithin.of_traceExt {s s' : CD3D_RT}
    (h : TraceExt (fun e => isBlasBuild e = false ∧ tlasInstances e ≤ 8) s s') :
    BuildsWithin 0 s s' := by
  obtain ⟨l, e, hl⟩ := h
  refine ⟨l, e, ?_, fun x hx => (hl x hx).2⟩
  rw [Nat.le_zero, List.countP_eq_zero]
  intro x hx
  rw [(hl x hx).1]
  exact Bool.false_ne_true

theorem BuildsWithin.transB {j k : Nat} {s s' s'' : CD3D_RT} (h1 : BuildsWithin j s s')
    (h2 : BuildsWithin k s' s'') : BuildsWithin (j + k) s s'' := by
  obtain ⟨l1, e1, c1, p1⟩ := h1
  obtain ⟨l2, e2, c2, p2⟩ := h2
  refine ⟨l1 ++ l2, by rw [e2, e1, List.append_assoc], ?_, ?_⟩
  · rw [List.countP_append]
    omega
  · intro x hx
    rcases List.mem_append.1 hx with h | h
    · exact p1 x h
    · exact p2 x h

theorem BuildsWithin.monoB {j k : Nat} {s s' : CD3D_RT} (h : BuildsWithin j s s') (hjk : j ≤ k) :
    BuildsWithin k s s' := by
  obtain ⟨l, e, c, p⟩ := h
  exact ⟨l, e, le_trans c hjk, p⟩

theorem quiet_release (r c : Nat) :
    (fun e => isBlasBuild e = false ∧ tlasInstances e ≤ 8) (Event.release r c) :=
  ⟨rfl, Nat.zero_le _⟩

theorem buildsWithin_BuildBottomLevelAS (s : CD3D_RT) (env : BlasEnv) (pCmdList : Ptr)
    (a1 a2 a3 a4 a5 a6 a7 : Nat) (outBLAS : AccelerationStructureBuffers) :
    BuildsWithin 1 s (s.BuildBottomLevelAS env pCmdList a1 a2 a3 a4 a5 a6 a7 outBLAS).2.1 := by
  have h1 := BuildsWithin.of_traceExt (traceExt_RT_ReleaseASBuffers quiet_release s outBLAS)
  unfold BuildBottomLevelAS
  generalize s.RT_ReleaseASBuffers outBLAS = rel at h1 ⊢
  have h2 := fun b => BuildsWithin.of_traceExt (traceExt_releaseASBuffersNow quiet_release rel.1 b)
  have h3 : ∀ d, BuildsWithin 1 rel.1 (rel.1.emit (Event.buildAS pCmdList false 1 d)) :=
    fun d => ⟨[_], rfl, le_refl _, fun x hx => by
      rw [List.mem_singleton] at hx
      subst hx
      exact Nat.zero_le _⟩
  have h0 : BuildsWithin 1 s s := ⟨[], (List.append_nil _).symm, Nat.zero_le _, fun x hx =>
    absurd hx (List.not_mem_nil _)⟩
  simp only
  repeat' apply ite_cases (fun r : HRESULT × CD3D_RT × AccelerationStructureBuffers =>
    BuildsWithin 1 s r.2.1)
  all_goals first
    | exact h0
    | exact h1.monoB (Nat.zero_le _)
    | exact (h1.transB (h2 _)).monoB (Nat.zero_le _)
    | exact (h1.transB (h3 _))

theorem buildsWithin_buildLevelBLAS {F : Type} (records : Nat → RecordBuildEnv) (pCL : Ptr)
    (geo : List (SafeGeometryData F)) (i : Nat) (s : CD3D_RT) :
    BuildsWithin geo.length s (buildLevelBLAS records pCL i geo s) := by
  induction geo generalizing i s with
  | nil => exact BuildsWithin.of_traceExt (TraceExt.reflT _ _)
  | cons g rest ih =>
    unfold buildLevelBLAS
    simp only
    cases CreateDefaultBufferFromData (g.vertices.length * 12) (records i).vb with
    | none => exact (ih _ _).monoB (by rw [List.length_cons]; omega)
    | some vb =>
      cases CreateDefaultBufferFromData (g.indices.length * 4) (records i).ib with
      | none =>
        have hr : BuildsWithin 0 s ((s.Release vb.1).Release vb.2) :=
          BuildsWithin.of_traceExt
            ((traceExt_Release quiet_release s _).transT (traceExt_Release quiet_release _ _))
        exact (hr.transB (ih _ _)).monoB (by rw [List.length_cons]; omega)
      | some ib =>
        simp only
        have h0 : BuildsWithin 0 s
            (s.pushKeepAlive (UploadBufferKeepAlive.mk vb.1 ib.1 vb.2 ib.2 g.debugName)) :=
          BuildsWithin.of_traceExt (TraceExt.of_eqT rfl)
        have hb := fun (e : BlasEnv) a1 a2 a3 a4 a5 a6 a7 b =>
          buildsWithin_BuildBottomLevelAS
            (s.pushKeepAlive (UploadBufferKeepAlive.mk vb.1 ib.1 vb.2 ib.2 g.debugName))
            e pCL a1 a2 a3 a4 a5 a6 a7 b
        generalize s.pushKeepAlive (UploadBufferKeepAlive.mk vb.1 ib.1 vb.2 ib.2 g.debugName) = sk
          at h0 hb ⊢
        have hb1 := hb (records i).blas (records i).vbVA (g.vertices.length % 4294967296) 12
          DXGI_FORMAT_R32G32B32_FLOAT (records i).ibVA (g.indices.length % 4294967296)
          DXGI_FORMAT_R32_UINT {}
        generalize sk.BuildBottomLevelAS (records i).blas pCL (records i).vbVA
          (g.vertices.length % 4294967296) 12 DXGI_FORMAT_R32G32B32_FLOAT (records i).ibVA
          (g.indices.length % 4294967296) DXGI_FORMAT_R32_UINT {} = built at hb1 ⊢
        have hp : BuildsWithin 0 built.2.1
            (built.2.1.pushSceneBLAS built.2.2 (records i).resultVA2) :=
          BuildsWithin.of_traceExt (step_pushSceneBLAS _ _ (TraceExt.reflT _ _))
        split
        · exact (((h0.transB hb1).transB hp).transB (ih _ _)).monoB
            (by rw [List.length_cons]; omega)
        · exact ((h0.transB hb1).transB (ih _ _)).monoB (by rw [List.length_cons]; omega)

theorem traceExt_BuildTopLevelAS_events {P : Event → Prop}
    (hR : ∀ r c, P (Event.release r c))
    (s : CD3D_RT) (env : TlasEnv) (pCmdList : Ptr)
    (vas : List Nat) (outTLAS : AccelerationStructureBuffers)
    (hI : P (Event.instanceDescs ((instanceDescsFor vas).take (vas.length % 4294967296))))
    (hB : ∀ d, P (Event.buildAS pCmdList true (vas.length % 4294967296) d)) :
    TraceExt P s (s.BuildTopLevelAS env pCmdList vas outTLAS).2.1 := by
  have hE : ∀ (s : CD3D_RT) (e : Event), P e → TraceExt P s (s.emit e) :=
    fun s e h => TraceExt.emit _ _ h
  have h1 := traceExt_RT_ReleaseASBuffers hR s outTLAS
  unfold BuildTopLevelAS
  generalize s.RT_ReleaseASBuffers outTLAS = rel at h1 ⊢
  simp only
  repeat' apply ite_cases (fun r : HRESULT × CD3D_RT × AccelerationStructureBuffers =>
    TraceExt P s r.2.1)
  all_goals first
    | exact TraceExt.reflT _ _
    | exact h1
    | exact h1.transT (traceExt_Release hR _ _)
    | exact h1.transT ((hE _ _ hI).transT (traceExt_Release hR _ _))
    | exact h1.transT ((hE _ _ hI).transT (TraceExt.of_eqT rfl))
    | exact h1.transT ((hE _ _ hI).transT ((TraceExt.of_eqT rfl).transT (hE _ _ (hB _))))

theorem traceExt_submitBuild_events {P : Event → Prop}
    (s : CD3D_RT) (pCL : Ptr) (fc : Bool) (hr : HRESULT) (fb : Bool)
    (hX : P (Event.executeCommandLists pCL)) (hS : ∀ v, P (Event.signalBuildFence v)) :
    TraceExt P s (s.submitBuild pCL fc hr fb) := by
  have hE : ∀ (s : CD3D_RT) (e : Event), P e → TraceExt P s (s.emit e) :=
    fun s e h => TraceExt.emit _ _ h
  unfold submitBuild
  simp only
  have h0 := hE s (Event.executeCommandLists pCL) hX
  split
  · split
    · exact h0.transT ((TraceExt.of_eqT rfl).transT ((hE _ _ (hS _)).transT (TraceExt.of_eqT rfl)))
    · exact h0.transT ((TraceExt.of_eqT rfl).transT (hE _ _ (hS _)))
  · split
    · exact h0.transT (TraceExt.of_eqT rfl)
    · exact h0

theorem instanceDescsFor_length (vas : List Nat) : (instanceDescsFor vas).length = vas.length := by
  simp [instanceDescsFor]

theorem blasVaList_length (s : CD3D_RT) : s.blasVaList.length ≤ s.m_sceneBLAS.length := by
  unfold blasVaList
  rw [List.length_map]
  exact List.length_filter_le _ _

theorem buildsWithin_finishLevelBuild (s : CD3D_RT) (tlasEnv : TlasEnv) (pCL : Ptr)
    (closeHr : HRESULT) (fc : Bool) (signalHr : HRESULT) (h8 : s.m_sceneBLAS.length ≤ 8) :
    BuildsWithin 0 s (s.finishLevelBuild tlasEnv pCL closeHr fc signalHr).2 := by
  apply BuildsWithin.of_traceExt
  have hv : s.blasVaList.length ≤ 8 := le_trans (blasVaList_length s) h8
  have hmod : s.blasVaList.length % 4294967296 ≤ 8 := le_trans (Nat.mod_le _ _) hv
  have hb := traceExt_BuildTopLevelAS_events
    (P := fun e => isBlasBuild e = false ∧ tlasInstances e ≤ 8) quiet_release s tlasEnv pCL
    s.blasVaList s.m_tlasBuffers
    ⟨rfl, by
      show (List.take _ _).length ≤ 8
      rw [List.length_take]
      exact le_trans (Nat.min_le_left _ _) hmod⟩
    (fun d => ⟨rfl, hmod⟩)
  unfold finishLevelBuild
  simp only
  generalize s.BuildTopLevelAS tlasEnv pCL s.blasVaList s.m_tlasBuffers = built at hb ⊢
  have h2 : TraceExt (fun e => isBlasBuild e = false ∧ tlasInstances e ≤ 8) s
      (built.2.1.setTlasBuffers built.2.2) := hb.transT (TraceExt.of_eqT rfl)
  generalize built.2.1.setTlasBuffers built.2.2 = s2 at h2 ⊢
  have h3 : TraceExt (fun e => isBlasBuild e = false ∧ tlasInstances e ≤ 8) s
      (s2.setTopLevelAS s2.m_tlasBuffers.pResult) := h2.transT (TraceExt.of_eqT rfl)
  generalize s2.setTopLevelAS s2.m_tlasBuffers.pResult = s3 at h3 ⊢
  have h4 := h3.transT (traceExt_submitBuild_events
    (P := fun e => isBlasBuild e = false ∧ tlasInstances e ≤ 8) s3 pCL fc signalHr false
    ⟨rfl, Nat.zero_le _⟩ (fun _ => ⟨rfl, Nat.zero_le _⟩))
  repeat' apply ite_cases (fun r : HRESULT × CD3D_RT =>
    TraceExt (fun e => isBlasBuild e = false ∧ tlasInstances e ≤ 8) s r.2)
  all_goals first
    | exact TraceExt.reflT _ _
    | exact h2
    | exact h3
    | exact h4

theorem traceExt_clearPrevious {P : Event → Prop} (hR : ∀ r c, P (Event.release r c))
    (s : CD3D_RT) : TraceExt P s s.clearPrevious := by
  unfold clearPrevious
  simp only
  have g1 := traceExt_releaseEachASBuffers hR s.m_sceneBLAS s
  generalize (s.releaseEachASBuffers s.m_sceneBLAS).1 = r1 at g1 ⊢
  have g2 : TraceExt P s (r1.setSceneBLAS []) := g1.transT (TraceExt.of_eqT rfl)
  generalize r1.setSceneBLAS [] = s1 at g2 ⊢
  have g3 := g2.transT (traceExt_safeReleaseEach hR s1.m_sceneBLASResults s1)
  generalize (s1.safeReleaseEach s1.m_sceneBLASResults).1 = r2 at g3 ⊢
  have g4 : TraceExt P s (r2.setSceneBLASResults []) := g3.transT (TraceExt.of_eqT rfl)
  generalize r2.setSceneBLASResults [] = s2 at g4 ⊢
  have g5 := g4.transT (traceExt_ClearKeepAliveUploads hR s2)
  generalize s2.ClearKeepAliveUploads = s3 at g5 ⊢
  have g6 := g5.transT (traceExt_RT_ReleaseASBuffers hR s3 s3.m_tlasBuffers)
  generalize s3.RT_ReleaseASBuffers s3.m_tlasBuffers = rel at g6 ⊢
  exact g6.transT (TraceExt.of_eqT rfl)

section C8

variable {F : Type} [FloatOps F]

theorem buildsWithin_CreateLevel (s : CD3D_RT) (env : LevelBuildEnv F) :
    BuildsWithin 8 s (s.CreateLevelGeometryBLASAndTLAS env).2 := by
  cases h : reachesCommandList s env with
  | false =>
    obtain ⟨_, queue, hq⟩ := CreateLevel_early s env h
    rw [hq]
    exact (BuildsWithin.of_traceExt (TraceExt.of_eqT rfl)).monoB (Nat.zero_le _)
  | true =>
    obtain ⟨queue, l, pCL, _, hl, he⟩ := CreateLevel_reached s env h
    rw [he]
    have hl8 := selectLevelGeometry_length _ _ _ _ hl
    have g0 : BuildsWithin 0 s (s.setCommandQueue queue) :=
      BuildsWithin.of_traceExt (TraceExt.of_eqT rfl)
    generalize s.setCommandQueue queue = s1 at g0 ⊢
    have g1 := g0.transB (BuildsWithin.of_traceExt (traceExt_clearPrevious quiet_release s1))
    have c1 := (clearPrevious_fields s1).1
    generalize s1.clearPrevious = s2 at g1 c1 ⊢
    have g2 := g1.transB (buildsWithin_buildLevelBLAS env.records pCL l 0 s2)
    have c2 := (buildLevelBLAS_fields env.records pCL l 0 s2).2.2
    rw [c1, List.length_nil, Nat.zero_add] at c2
    generalize buildLevelBLAS env.records pCL 0 l s2 = s3 at g2 c2 ⊢
    have g3 := g2.transB (buildsWithin_finishLevelBuild s3 env.tlas pCL env.closeHr
      env.fenceCreated env.signalHr (le_trans c2 hl8))
    exact g3.monoB (by omega)

/-- C8: the list after `RT_SortKeepNearest` has exactly `min M maxKeep`
records; at most 8 records leave the selection stage of
`CreateLevelGeometryBLASAndTLAS` for its BLAS build loop; and one call of
`CreateLevelGeometryBLASAndTLAS` records at most 8 bottom-level builds, and
every array of instances it writes and every top-level build it records has at
most 8 instances. -/
theorem C8_bounded_working_set :
    (∀ (geo : List (SafeGeometryData F)) (camPos : Vec3 F) (maxKeep : Nat),
      (RT_SortKeepNearest geo camPos maxKeep).length = min geo.length maxKeep) ∧
    (∀ (extracted : List (SafeGeometryData F)) (terrain : Option (SafeGeometryData F))
        (cam : CCamera F) (l : List (SafeGeometryData F)),
      selectLevelGeometry extracted terrain cam = some l → l.length ≤ 8) ∧
    (∀ (s : CD3D_RT) (env : LevelBuildEnv F),
      BuildsWithin 8 s (s.CreateLevelGeometryBLASAndTLAS env).2) :=
  ⟨RT_SortKeepNearest_length, selectLevelGeometry_length, buildsWithin_CreateLevel⟩

end C8

/-- When `RT_BeginFrameAllocator` hands out an allocator, the context of the
current frame holds it. -/
theorem RT_BeginFrameAllocator_allocator (s : CD3D_RT) (env : BeginFrameEnv)
    (h : (s.RT_BeginFrameAllocator env).1 ≠ 0) :
    ((s.RT_BeginFrameAllocator env).2.m_frameCtx (s.RT_BeginFrameAllocator env).2.ctxIndex).pAllocator
      = (s.RT_BeginFrameAllocator env).1 := by
  revert h
  unfold RT_BeginFrameAllocator
  apply ite_cases (fun r : Ptr × CD3D_RT => r.1 ≠ 0 → (r.2.m_frameCtx r.2.ctxIndex).pAllocator = r.1)
  · intro h; exact absurd rfl h
  simp only
  generalize (if s.m_frameFence = 0 then s.RT_InitFrameContexts env.init else s) = s1
  apply ite_cases (fun r : Ptr × CD3D_RT => r.1 ≠ 0 → (r.2.m_frameCtx r.2.ctxIndex).pAllocator = r.1)
  · apply ite_cases (fun r : Ptr × CD3D_RT => r.1 ≠ 0 → (r.2.m_frameCtx r.2.ctxIndex).pAllocator = r.1)
    · intro h; exact absurd rfl h
    · intro _
      show (Function.update s1.m_frameCtx s1.ctxIndex _ s1.ctxIndex).pAllocator = _
      rw [Function.update_same]
  · intro _
    have hc := core_waitForFrameContext s1 (s1.m_frameCtx s1.ctxIndex).fenceValue
    generalize s1.waitForFrameContext (s1.m_frameCtx s1.ctxIndex).fenceValue = s2 at hc ⊢
    have hi : s2.ctxIndex = s1.ctxIndex := core_ctxIndex hc
    have hu : ∀ (f : Fin 15 → RT_FrameContext) (c : RT_FrameContext),
        (Function.update f s1.ctxIndex c s2.ctxIndex).pAllocator = c.pAllocator := by
      intro f c
      rw [hi, Function.update_same]
    exact hu _ _

theorem RT_BeginFrameAllocator_recordWork (s : CD3D_RT) (env : BeginFrameEnv)
    (h : (s.RT_BeginFrameAllocator env).1 ≠ 0) :
    ((s.RT_BeginFrameAllocator env).2.recordWork.m_frameCtx
      (s.RT_BeginFrameAllocator env).2.recordWork.ctxIndex).pAllocator ≠ 0 := by
  have h1 := RT_BeginFrameAllocator_allocator s env h
  generalize s.RT_BeginFrameAllocator env = r at h h1 ⊢
  show (r.2.m_frameCtx r.2.ctxIndex).pAllocator ≠ 0
  rw [h1]
  exact h

/-- C5: `RT_EndFrameAndSignal` with a frame fence.  If work was recorded,
`m_lastSignaledFence` grows by exactly 1, that value is signalled on the frame
fence and the just-used context `m_frameCtx[m_frameIndex % 15]`, which holds
an allocator, is stamped with it and marked used.  If no work was recorded,
`m_lastSignaledFence`, `m_lastDispatchFence` and all contexts are as before and
no signal is issued.  In both cases `m_frameRecordedWork` is cleared and
`m_frameIndex` grows by 1.  The context holds an allocator whenever work was
recorded: `Execute` sets `m_frameRecordedWork` only after
`RT_BeginFrameAllocator` handed out the allocator of that context (last
conjunct). -/
theorem C5_RT_EndFrameAndSignal :
    (∀ s : CD3D_RT, s.m_frameFence ≠ 0 →
      (s.m_frameRecordedWork = true →
        s.RT_EndFrameAndSignal.m_lastSignaledFence = s.m_lastSignaledFence + 1 ∧
        Event.signalFrameFence (s.m_lastSignaledFence + 1) ∈ s.RT_EndFrameAndSignal.trace ∧
        ((s.m_frameCtx s.ctxIndex).pAllocator ≠ 0 →
          (s.RT_EndFrameAndSignal.m_frameCtx s.ctxIndex).fenceValue = s.m_lastSignaledFence + 1 ∧
          (s.RT_EndFrameAndSignal.m_frameCtx s.ctxIndex).usedOnce = true)) ∧
      (s.m_frameRecordedWork = false →
        s.RT_EndFrameAndSignal.m_lastSignaledFence = s.m_lastSignaledFence ∧
        s.RT_EndFrameAndSignal.m_lastDispatchFence = s.m_lastDispatchFence ∧
        s.RT_EndFrameAndSignal.m_frameCtx = s.m_frameCtx ∧
        ∀ v, Event.signalFrameFence v ∈ s.RT_EndFrameAndSignal.trace →
          Event.signalFrameFence v ∈ s.trace) ∧
      s.RT_EndFrameAndSignal.m_frameRecordedWork = false ∧
      s.RT_EndFrameAndSignal.m_frameIndex = s.m_frameIndex + 1) ∧
    (∀ (s : CD3D_RT) (env : BeginFrameEnv), (s.RT_BeginFrameAllocator env).1 ≠ 0 →
      (s.RT_BeginFrameAllocator env).2.recordWork.m_frameRecordedWork = true ∧
      ((s.RT_BeginFrameAllocator env).2.recordWork.m_frameCtx
        (s.RT_BeginFrameAllocator env).2.recordWork.ctxIndex).pAllocator ≠ 0) :=
  ⟨RT_EndFrameAndSignal_effect, fun s env h => ⟨rfl, RT_BeginFrameAllocator_recordWork s env h⟩⟩


/-! ### The rebuild in `UpdateAccelerationStructures` -/

theorem deferredExt_RT_WaitForLastDispatch (s : CD3D_RT) :
    DeferredExt s s.RT_WaitForLastDispatch := by
  apply DeferredExt.of_eqD
  unfold RT_WaitForLastDispatch
  split
  · rfl
  · simp only
    split <;> rfl

theorem deferredExt_submitBuild (s : CD3D_RT) (pCL : Ptr) (fc : Bool) (hr : HRESULT) (fb : Bool) :
    DeferredExt s (s.submitBuild pCL fc hr fb) :=
  DeferredExt.of_eqD (submitBuild_fields s pCL fc hr fb).2.2.2.2

theorem deferredExt_releaseTestBuffers (s : CD3D_RT) (a b c d : Ptr) :
    DeferredExt s (s.releaseTestBuffers a b c d) := by
  have hR : ∀ (x : CD3D_RT) (r : Ptr), (x.Release r).m_deferred = x.m_deferred := fun _ _ => rfl
  unfold releaseTestBuffers
  exact DeferredExt.of_eqD ((hR _ _).trans ((hR _ _).trans ((hR _ _).trans (hR _ _))))

theorem deferredExt_clearOldAS (s : CD3D_RT) : DeferredExt s s.clearOldAS := by
  unfold clearOldAS
  simp only
  have g1 := deferredExt_RT_ReleaseASBuffers s s.m_tlasBuffers
  generalize s.RT_ReleaseASBuffers s.m_tlasBuffers = r1 at g1 ⊢
  have g2 : DeferredExt s (r1.1.setTlasBuffers r1.2) := g1.transD (DeferredExt.of_eqD rfl)
  generalize r1.1.setTlasBuffers r1.2 = s1 at g2 ⊢
  have g3 := g2.transD (deferredExt_RT_ReleaseASBuffers s1 s1.m_blasBuffers)
  generalize s1.RT_ReleaseASBuffers s1.m_blasBuffers = r2 at g3 ⊢
  exact g3.transD (DeferredExt.of_eqD rfl)

theorem deferredExt_buildTestScene (s : CD3D_RT) (env : TestSceneEnv) (pCL a b c d : Ptr) :
    DeferredExt s (s.buildTestScene env pCL a b c d).2 := by
  unfold buildTestScene
  simp only
  have h1 : DeferredExt s ((s.BuildBottomLevelAS env.blas pCL env.vbVA 3 12
      DXGI_FORMAT_R32G32B32_FLOAT env.ibVA 3 DXGI_FORMAT_R32_UINT s.m_blasBuffers).2.1.setBlasBuffers
      (s.BuildBottomLevelAS env.blas pCL env.vbVA 3 12 DXGI_FORMAT_R32G32B32_FLOAT env.ibVA 3
        DXGI_FORMAT_R32_UINT s.m_blasBuffers).2.2) :=
    (deferredExt_BuildBottomLevelAS s env.blas pCL env.vbVA 3 12 DXGI_FORMAT_R32G32B32_FLOAT
      env.ibVA 3 DXGI_FORMAT_R32_UINT s.m_blasBuffers).transD (DeferredExt.of_eqD rfl)
  generalize (s.BuildBottomLevelAS env.blas pCL env.vbVA 3 12 DXGI_FORMAT_R32G32B32_FLOAT
    env.ibVA 3 DXGI_FORMAT_R32_UINT s.m_blasBuffers) = built at h1 ⊢
  generalize built.2.1.setBlasBuffers built.2.2 = s1 at h1 ⊢
  apply ite_cases (fun r : HRESULT × CD3D_RT => DeferredExt s r.2)
  · exact h1.transD (deferredExt_releaseTestBuffers _ _ _ _ _)
  have h2 : DeferredExt s (if s1.m_blasBuffers.resultVA = 0 ∧ s1.m_blasBuffers.pResult ≠ 0 then
      s1.setBlasBuffers { s1.m_blasBuffers with resultVA := env.resultVA2 } else s1) := by
    apply ite_cases (fun r : CD3D_RT => DeferredExt s r)
    · exact h1.transD (DeferredExt.of_eqD rfl)
    · exact h1
  generalize (if s1.m_blasBuffers.resultVA = 0 ∧ s1.m_blasBuffers.pResult ≠ 0 then
      s1.setBlasBuffers { s1.m_blasBuffers with resultVA := env.resultVA2 } else s1) = s2 at h2 ⊢
  apply ite_cases (fun r : HRESULT × CD3D_RT => DeferredExt s r.2)
  · have h3 := h2.transD (deferredExt_RT_ReleaseASBuffers s2 s2.m_blasBuffers)
    generalize s2.RT_ReleaseASBuffers s2.m_blasBuffers = rel at h3 ⊢
    exact (h3.transD (DeferredExt.of_eqD rfl)).transD (deferredExt_releaseTestBuffers _ _ _ _ _)
  have h3 : DeferredExt s ((s2.BuildTopLevelAS env.tlas pCL [s2.m_blasBuffers.resultVA]
      s2.m_tlasBuffers).2.1.setTlasBuffers (s2.BuildTopLevelAS env.tlas pCL
        [s2.m_blasBuffers.resultVA] s2.m_tlasBuffers).2.2) :=
    h2.transD ((deferredExt_BuildTopLevelAS s2 env.tlas pCL [s2.m_blasBuffers.resultVA]
      s2.m_tlasBuffers).transD (DeferredExt.of_eqD rfl))
  generalize (s2.BuildTopLevelAS env.tlas pCL [s2.m_blasBuffers.resultVA] s2.m_tlasBuffers) = bt
    at h3 ⊢
  generalize bt.2.1.setTlasBuffers bt.2.2 = s3 at h3 ⊢
  have h4 : DeferredExt s (s3.setTopLevelAS s3.m_tlasBuffers.pResult) :=
    h3.transD (DeferredExt.of_eqD rfl)
  apply ite_cases (fun r : HRESULT × CD3D_RT => DeferredExt s r.2)
  · exact h3.transD (deferredExt_releaseTestBuffers _ _ _ _ _)
  apply ite_cases (fun r : HRESULT × CD3D_RT => DeferredExt s r.2)
  · exact h4.transD (deferredExt_releaseTestBuffers _ _ _ _ _)
  · exact h4.transD (deferredExt_submitBuild _ _ _ _ _)

section UpdateThms

variable {F : Type} [FloatOps F]

theorem deferredExt_CreateTestScene (s : CD3D_RT) (env : TestSceneEnv) :
    DeferredExt s (s.CreateTestSceneWithEnhancedSafety F env).2 := by
  have h := DeferredExt.reflD s
  unfold CreateTestSceneWithEnhancedSafety
  apply ite_cases (fun r : HRESULT × CD3D_RT => DeferredExt s r.2) _ _ _ h
  apply ite_cases (fun r : HRESULT × CD3D_RT => DeferredExt s r.2) _ _ _ h
  simp only
  have hq : DeferredExt s (if s.m_pCommandQueue = 0 then s.setCommandQueue env.queue else s) := by
    apply ite_cases (fun r : CD3D_RT => DeferredExt s r)
    · exact DeferredExt.of_eqD rfl
    · exact h
  generalize (if s.m_pCommandQueue = 0 then s.setCommandQueue env.queue else s) = s1 at hq ⊢
  apply ite_cases (fun r : HRESULT × CD3D_RT => DeferredExt s r.2) _ _ _ hq
  cases env.allocator with
  | none => exact hq
  | some al =>
    cases env.commandList with
    | none => exact hq
    | some pCL =>
      simp only
      split
      · cases CreateDefaultBufferFromData 36 env.vb with
        | none => exact hq
        | some vb =>
          cases CreateDefaultBufferFromData 12 env.ib with
          | none => exact hq.transD (DeferredExt.of_eqD rfl)
          | some ib =>
            exact hq.transD ((deferredExt_clearOldAS s1).transD
              (deferredExt_buildTestScene _ _ _ _ _ _ _))
      · exact hq

theorem grows_CreateLevel (s : CD3D_RT) (env : LevelBuildEnv F) :
    TraceExt (fun _ => True) s (s.CreateLevelGeometryBLASAndTLAS env).2 ∧
      DeferredExt s (s.CreateLevelGeometryBLASAndTLAS env).2 := by
  refine ⟨step_CreateLevelGeometryBLASAndTLAS (fun _ _ => trivial) env s (TraceExt.reflT _ _), ?_⟩
  cases h : reachesCommandList s env with
  | false =>
    obtain ⟨_, queue, hq⟩ := CreateLevel_early s env h
    rw [hq]
    exact DeferredExt.of_eqD rfl
  | true =>
    obtain ⟨queue, l, pCL, _, _, he⟩ := CreateLevel_reached s env h
    rw [he]
    have g0 : DeferredExt s (s.setCommandQueue queue) := DeferredExt.of_eqD rfl
    generalize s.setCommandQueue queue = s1 at g0 ⊢
    have g1 := g0.transD (deferredExt_clearPrevious s1)
    generalize s1.clearPrevious = s2 at g1 ⊢
    have g2 := g1.transD (deferredExt_buildLevelBLAS env.records pCL l 0 s2)
    generalize buildLevelBLAS env.records pCL 0 l s2 = s3 at g2 ⊢
    exact g2.transD (deferredExt_finishLevelBuild s3 _ _ _ _ _)

theorem grows_deferEachASBuffers (l : List AccelerationStructureBuffers) (s : CD3D_RT) :
    TraceExt (fun _ => True) s (s.deferEachASBuffers l) ∧ DeferredExt s (s.deferEachASBuffers l) := by
  induction l generalizing s with
  | nil => exact ⟨TraceExt.reflT _ _, DeferredExt.reflD _⟩
  | cons b rest ih =>
    unfold deferEachASBuffers
    exact grows_trans
      ⟨traceExt_RT_ReleaseASBuffers (fun _ _ => trivial) s b, deferredExt_RT_ReleaseASBuffers s b⟩
      (ih _)

/-- When the rebuild of `UpdateAccelerationStructures` runs (the frame counter
reaches a multiple of the rebuild interval and streaming is idle), the results
of the installed bottom-level set and of the installed top-level structure are
handed to the release path, whatever the build gives. -/
theorem UpdateAccelerationStructures_releases_old (s : CD3D_RT) (env : UpdateEnv F)
    (hc : (s.frameCounter + 1) % 4294967296 % 3600 = 0) (hb : env.streamingBusy = false) :
    (∀ p ∈ s.m_sceneBLASResults, p ≠ 0 → HandedOver p s (s.UpdateAccelerationStructures env)) ∧
    (s.m_tlasBuffers.pResult ≠ 0 →
      HandedOver s.m_tlasBuffers.pResult s (s.UpdateAccelerationStructures env)) := by
  have hT : ∀ r c, (fun _ : Event => True) (Event.release r c) := fun _ _ => trivial
  have hT2 : ∀ e, (∀ r k d, e ≠ Event.deferredRelease r k d) → (fun _ : Event => True) e :=
    fun _ _ => trivial
  unfold UpdateAccelerationStructures
  simp only
  have g0 : TraceExt (fun _ => True) s
        ({ s with frameCounter := (s.frameCounter + 1) % 4294967296 } : CD3D_RT) ∧
      DeferredExt s ({ s with frameCounter := (s.frameCounter + 1) % 4294967296 } : CD3D_RT) :=
    ⟨TraceExt.of_eqT rfl, DeferredExt.of_eqD rfl⟩
  have m0 : ({ s with frameCounter := (s.frameCounter + 1) % 4294967296 } : CD3D_RT).m_sceneBLASResults
      = s.m_sceneBLASResults := rfl
  have t0 : ({ s with frameCounter := (s.frameCounter + 1) % 4294967296 } : CD3D_RT).m_tlasBuffers
      = s.m_tlasBuffers := rfl
  generalize ({ s with frameCounter := (s.frameCounter + 1) % 4294967296 } : CD3D_RT) = s1
    at g0 m0 t0 ⊢
  rw [if_neg (not_not.2 hc), hb]
  simp only [Bool.false_eq_true, if_false]
  have g1 := grows_trans g0
    ⟨traceExt_RT_WaitForLastDispatch (fun _ => True) s1, deferredExt_RT_WaitForLastDispatch s1⟩
  have m1 : s1.RT_WaitForLastDispatch.m_sceneBLASResults = s.m_sceneBLASResults :=
    (core_m_sceneBLASResults (core_RT_WaitForLastDispatch s1)).trans m0
  have t1 : s1.RT_WaitForLastDispatch.m_tlasBuffers = s.m_tlasBuffers :=
    (core_m_tlasBuffers (core_RT_WaitForLastDispatch s1)).trans t0
  generalize s1.RT_WaitForLastDispatch = s2 at g1 m1 t1 ⊢
  rw [m1, t1]
  generalize s2.m_blasBuffers = oldBlas
  generalize s2.m_sceneBLAS = oldScene
  have g2 : TraceExt (fun _ => True) s s2.detachScene ∧ DeferredExt s s2.detachScene :=
    grows_trans g1 ⟨TraceExt.of_eqT rfl, DeferredExt.of_eqD rfl⟩
  generalize s2.detachScene = s3 at g2 ⊢
  have g3 := grows_trans g2
    ⟨traceExt_ClearKeepAliveUploads hT s3, deferredExt_ClearKeepAliveUploads s3⟩
  generalize s3.ClearKeepAliveUploads = s4 at g3 ⊢
  have g4 : TraceExt (fun _ => True) s (((s4.setTopLevelAS 0).setTlasBuffers {}).setBlasBuffers {}) ∧
      DeferredExt s (((s4.setTopLevelAS 0).setTlasBuffers {}).setBlasBuffers {}) :=
    grows_trans g3 ⟨TraceExt.of_eqT rfl, DeferredExt.of_eqD rfl⟩
  generalize ((s4.setTopLevelAS 0).setTlasBuffers {}).setBlasBuffers {} = s5 at g4 ⊢
  have g5 := grows_trans g4 (grows_CreateLevel s5 env.level)
  unfold CreateSceneBLASAndTLASFromView
  generalize s5.CreateLevelGeometryBLASAndTLAS env.level = built at g5 ⊢
  have g6 : TraceExt (fun _ => True) s (if FAILED built.1 = true ∨ built.2.m_pTopLevelAS = 0 then
        (built.2.CreateTestSceneWithEnhancedSafety F env.test).2 else built.2) ∧
      DeferredExt s (if FAILED built.1 = true ∨ built.2.m_pTopLevelAS = 0 then
        (built.2.CreateTestSceneWithEnhancedSafety F env.test).2 else built.2) := by
    apply ite_cases (fun r : CD3D_RT => TraceExt (fun _ => True) s r ∧ DeferredExt s r)
    · exact grows_trans g5
        ⟨step_CreateTestSceneWithEnhancedSafety hT2 env.test built.2 (TraceExt.reflT _ _),
          deferredExt_CreateTestScene built.2 env.test⟩
    · exact g5
  generalize (if FAILED built.1 = true ∨ built.2.m_pTopLevelAS = 0 then
      (built.2.CreateTestSceneWithEnhancedSafety F env.test).2 else built.2) = s6 at g6 ⊢
  unfold DeferASBuffers
  have k1 : TraceExt (fun _ => True) s6 (s6.RT_ReleaseASBuffers s.m_tlasBuffers).1 ∧
      DeferredExt s6 (s6.RT_ReleaseASBuffers s.m_tlasBuffers).1 :=
    ⟨traceExt_RT_ReleaseASBuffers hT _ _, deferredExt_RT_ReleaseASBuffers _ _⟩
  have htl := fun hp => HandedOver.extend_left g6.1 g6.2
    (handedOver_RT_ReleaseASBuffers s6 s.m_tlasBuffers hp)
  have g7 := grows_trans g6 k1
  generalize (s6.RT_ReleaseASBuffers s.m_tlasBuffers).1 = s7 at htl g7 ⊢
  have k2 : TraceExt (fun _ => True) s7 (s7.RT_ReleaseASBuffers oldBlas).1 ∧
      DeferredExt s7 (s7.RT_ReleaseASBuffers oldBlas).1 :=
    ⟨traceExt_RT_ReleaseASBuffers hT _ _, deferredExt_RT_ReleaseASBuffers _ _⟩
  have g8 := grows_trans g7 k2
  have htl2 := fun hp => (htl hp).extend_right k2.1 k2.2
  generalize (s7.RT_ReleaseASBuffers oldBlas).1 = s8 at htl2 g8 ⊢
  have k3 := grows_deferEachASBuffers oldScene s8
  have g9 := grows_trans g8 k3
  have htl3 := fun hp => (htl2 hp).extend_right k3.1 k3.2
  generalize s8.deferEachASBuffers oldScene = s9 at htl3 g9 ⊢
  refine ⟨?_, ?_⟩
  · intro p hm hp
    exact HandedOver.extend_left g9.1 g9.2 (handedOver_safeReleaseEach _ s9 p hm hp)
  · intro hp
    exact (htl3 hp).extend_right (traceExt_safeReleaseEach hT _ s9)
      (deferredExt_safeReleaseEach _ s9)

/-- C6 (amended): a call of `CreateLevelGeometryBLASAndTLAS` that returns before
its command list is created fails and leaves the installed top-level structure,
the bottom-level set, the deferred queue and the trace as they were.  A call
that gets to its command list clears the installed set first: whether or not
the build then succeeds, every non-null pointer of the previous
`m_sceneBLASResults` and the result buffer of the previous `m_tlasBuffers` has
been released or queued for release when the call returns, and when the call
fails for another reason than `Close`, `m_pTopLevelAS` is null afterwards.
`UpdateAccelerationStructures`, when its frame counter reaches a multiple of
the rebuild interval and streaming is idle, hands the same resources of the
installed set to the release path whatever the outcome of its build. -/
theorem C6_rebuild_clears_first (s : CD3D_RT) :
    (∀ env : LevelBuildEnv F,
      (reachesCommandList s env = false →
        FAILED (s.CreateLevelGeometryBLASAndTLAS env).1 = true ∧
        (s.CreateLevelGeometryBLASAndTLAS env).2.m_pTopLevelAS = s.m_pTopLevelAS ∧
        (s.CreateLevelGeometryBLASAndTLAS env).2.m_tlasBuffers = s.m_tlasBuffers ∧
        (s.CreateLevelGeometryBLASAndTLAS env).2.m_sceneBLAS = s.m_sceneBLAS ∧
        (s.CreateLevelGeometryBLASAndTLAS env).2.m_sceneBLASResults = s.m_sceneBLASResults ∧
        (s.CreateLevelGeometryBLASAndTLAS env).2.m_deferred = s.m_deferred ∧
        (s.CreateLevelGeometryBLASAndTLAS env).2.trace = s.trace) ∧
      (reachesCommandList s env = true →
        (∀ p ∈ s.m_sceneBLASResults, p ≠ 0 →
          HandedOver p s (s.CreateLevelGeometryBLASAndTLAS env).2) ∧
        (s.m_tlasBuffers.pResult ≠ 0 →
          HandedOver s.m_tlasBuffers.pResult s (s.CreateLevelGeometryBLASAndTLAS env).2) ∧
        (FAILED (s.CreateLevelGeometryBLASAndTLAS env).1 = true → FAILED env.closeHr = false →
          (s.CreateLevelGeometryBLASAndTLAS env).2.m_pTopLevelAS = 0))) ∧
    (∀ env : UpdateEnv F,
      (s.frameCounter + 1) % 4294967296 % 3600 = 0 → env.streamingBusy = false →
        (∀ p ∈ s.m_sceneBLASResults, p ≠ 0 →
          HandedOver p s (s.UpdateAccelerationStructures env)) ∧
        (s.m_tlasBuffers.pResult ≠ 0 →
          HandedOver s.m_tlasBuffers.pResult s (s.UpdateAccelerationStructures env))) :=
  ⟨CreateLevel_clears_first s, UpdateAccelerationStructures_releases_old s⟩

end UpdateThms

end CD3D_RT

/-! ### Shader containers -/

theorem drop_take_four (bc : List BYTE) (n : Nat) (h : n + 4 ≤ bc.length) :
    (bc.drop n).take 4 = [bc.getD n 0, bc.getD (n + 1) 0, bc.getD (n + 2) 0, bc.getD (n + 3) 0] := by
  induction bc generalizing n with
  | nil => simp at h
  | cons a l ih =>
    cases n with
    | zero =>
      match l, h with
      | b :: c :: d :: rest, _ => simp
    | succ k =>
      have hk : k + 4 ≤ l.length := by simp at h; omega
      have := ih k hk
      simpa [List.getD_cons_succ, Nat.add_right_comm] using this

theorem headerDWORD_eq (bc : List BYTE) (k : Nat) (h : 4 * k + 4 ≤ bc.length) :
    headerDWORD bc k = littleEndian ((bc.drop (4 * k)).take 4) := by
  rw [drop_take_four bc (4 * k) h]
  simp only [headerDWORD, littleEndian]
  omega

theorem validateDXILContainer_iff (bc : List BYTE) :
    validateDXILContainer bc = true ↔
      32 ≤ bc.length ∧ littleEndian (bc.take 4) = 0x43425844 ∧
        littleEndian ((bc.drop 24).take 4) = bc.length ∧
        0 < littleEndian ((bc.drop 28).take 4) := by
  unfold validateDXILContainer
  by_cases hlen : bc.length < 32
  · simp only [hlen, if_true]
    constructor
    · intro h; cases h
    · intro h; omega
  · have h0 := headerDWORD_eq bc 0 (by omega)
    have h6 := headerDWORD_eq bc 6 (by omega)
    have h7 := headerDWORD_eq bc 7 (by omega)
    simp only [Nat.mul_zero, List.drop_zero] at h0
    simp only [hlen, if_false, h0, h6, h7]
    norm_num
    have hlen2 : 32 ≤ bc.length := by omega
    simp only [hlen2, true_and, Nat.pos_iff_ne_zero]

theorem littleEndian_signature (bc : List BYTE) (h : 4 ≤ bc.length) :
    littleEndian (bc.take 4) = 0x43425844 ↔ bc.take 4 = [0x44, 0x58, 0x42, 0x43] := by
  match bc, h with
  | a :: b :: c :: d :: rest, _ =>
    simp only [List.take_succ_cons, List.take_zero, littleEndian, List.cons.injEq, and_true]
    have ha := a.isLt
    have hb := b.isLt
    have hc := c.isLt
    have hd := d.isLt
    constructor
    · intro h
      refine ⟨Fin.ext ?_, Fin.ext ?_, Fin.ext ?_, Fin.ext ?_⟩ <;>
        first
        | (show a.val = 0x44; omega)
        | (show b.val = 0x58; omega)
        | (show c.val = 0x42; omega)
        | (show d.val = 0x43; omega)
    · rintro ⟨rfl, rfl, rfl, rfl⟩
      rfl

/-- C20: `ValidateCompiledShaders` returns `true` exactly when each of the three
buffers (ray generation, miss, closest hit) is non-empty, has at least 32
bytes, starts with four bytes whose little-endian value is `0x43425844`, holds
its own length as the little-endian value of bytes 24..27 and a non-zero
little-endian value in bytes 28..31.  The four leading bytes are then `D`, `X`,
`B`, `C` (`0x44`, `0x58`, `0x42`, `0x43`). -/
theorem C20_ValidateCompiledShaders_iff (sc : ShaderBytecode) :
    (ValidateCompiledShaders sc = true ↔
      ∀ bc ∈ [sc.rayGenBytecode, sc.missBytecode, sc.closestHitBytecode],
        bc ≠ [] ∧ 32 ≤ bc.length ∧ littleEndian (bc.take 4) = 0x43425844 ∧
          littleEndian ((bc.drop 24).take 4) = bc.length ∧
          0 < littleEndian ((bc.drop 28).take 4)) ∧
    ∀ bc : List BYTE, 4 ≤ bc.length →
      (littleEndian (bc.take 4) = 0x43425844 ↔ bc.take 4 = [0x44, 0x58, 0x42, 0x43]) := by
  refine ⟨?_, littleEndian_signature⟩
  have hne : ∀ bc : List BYTE, 32 ≤ bc.length → bc ≠ [] := by
    intro bc h e; rw [e] at h; simp at h
  have hemp : ∀ bc : List BYTE, 32 ≤ bc.length → bc.isEmpty = false := by
    intro bc h
    cases bc with
    | nil => simp at h
    | cons a l => rfl
  unfold ValidateCompiledShaders
  simp only [List.mem_cons, List.mem_singleton, List.not_mem_nil, or_false, forall_eq_or_imp,
    forall_eq, Bool.true_and]
  constructor
  · intro h
    by_cases e1 : sc.rayGenBytecode.isEmpty = true
    · simp [e1] at h
    by_cases e2 : sc.missBytecode.isEmpty = true
    · simp [e1, e2] at h
    by_cases e3 : sc.closestHitBytecode.isEmpty = true
    · simp [e1, e2, e3] at h
    simp only [e1, e2, e3, if_false, Bool.false_eq_true] at h
    have h1 : validateDXILContainer sc.rayGenBytecode = true := by
      revert h; cases validateDXILContainer sc.rayGenBytecode <;> simp
    have h2 : validateDXILContainer sc.missBytecode = true := by
      revert h; cases validateDXILContainer sc.missBytecode <;> simp
    have h3 : validateDXILContainer sc.closestHitBytecode = true := by
      revert h; cases validateDXILContainer sc.closestHitBytecode <;> simp
    have g1 := (validateDXILContainer_iff _).1 h1
    have g2 := (validateDXILContainer_iff _).1 h2
    have g3 := (validateDXILContainer_iff _).1 h3
    exact ⟨⟨hne _ g1.1, g1⟩, ⟨hne _ g2.1, g2⟩, ⟨hne _ g3.1, g3⟩⟩
  · rintro ⟨⟨-, g1⟩, ⟨-, g2⟩, ⟨-, g3⟩⟩
    have h1 := (validateDXILContainer_iff _).2 g1
    have h2 := (validateDXILContainer_iff _).2 g2
    have h3 := (validateDXILContainer_iff _).2 g3
    simp [hemp _ g1.1, hemp _ g2.1, hemp _ g3.1, h1, h2, h3]

section ValidateThms2
variable {F : Type} [FloatOps F]

theorem index_diagnostic_ne_empty (a b : String) :
    "index " ++ a ++ " out of range (v=" ++ b ++ ")" ≠ "" := by
  intro h
  have h2 := congrArg String.length h
  simp only [String.length_append] at h2
  have h3 : "index ".length = 6 := by decide
  have h4 : "".length = 0 := by decide
  omega

/-- C19: a record with at least 3 vertices and an index count that is a
positive multiple of 3 up to the cap of 30,000,000, in which some index is not
below the vertex count, is rejected by `ValidateMeshData` with the reason
`index <m> out of range (v=<n>)`, where `m` is the largest index of the record
and `n` its vertex count.  Such a record contributes no BLAS:
`RT_AppendTerrainPatch` does not append it, and the inline copy of the
validation in `ExtractLevelGeometry` finds the same reason and skips it, so it
is in no list handed to the BLAS loop. -/
theorem C19_index_out_of_range (m : SafeGeometryData F) (why : String)
    (hv : 3 ≤ m.vertices.length) (hpos : 0 < m.indices.length)
    (hmod : m.indices.length % 3 = 0) (hcap : m.indices.length ≤ 30000000)
    (hbad : ∃ idx ∈ m.indices, m.vertices.length ≤ idx) :
    (maxIndex m.indices ∈ m.indices ∧ ∀ idx ∈ m.indices, idx ≤ maxIndex m.indices) ∧
    ValidateMeshData m why =
      some (false, "index " ++ toString (maxIndex m.indices) ++ " out of range (v=" ++
        toString m.vertices.length ++ ")") ∧
    (∀ outGeometry : List (SafeGeometryData F),
      RT_AppendTerrainPatch outGeometry (some m) = outGeometry) ∧
    inlineValidationError m =
      some ("index " ++ toString (maxIndex m.indices) ++ " out of range (v=" ++
        toString m.vertices.length ++ ")") ∧
    ∀ outGeometry : List (SafeGeometryData F), extractNode outGeometry m = outGeometry := by
  obtain ⟨idx, hidx, hle⟩ := hbad
  have hge : ∀ x ∈ m.indices, x ≤ maxIndex m.indices := fun x hx => (maxIndex_foldl_ge _ 0).2 x hx
  have hmax : m.vertices.length ≤ maxIndex m.indices := le_trans hle (hge idx hidx)
  have hmem : maxIndex m.indices ∈ m.indices := by
    rcases maxIndex_foldl_mem m.indices 0 with h0 | h0
    · have : maxIndex m.indices = 0 := h0
      omega
    · exact h0
  have h1 : ¬ m.vertices.length < 3 := by omega
  have h2 : ¬ (m.indices.length < 3 ∨ m.indices.length % 3 ≠ 0) := by omega
  have h3 : ¬ m.indices.length > 30000000 := by omega
  have hV : ValidateMeshData m why =
      some (false, "index " ++ toString (maxIndex m.indices) ++ " out of range (v=" ++
        toString m.vertices.length ++ ")") := by
    unfold ValidateMeshData
    simp only [h1, h2, h3, if_false, ge_iff_le, hmax, if_true]
  have hI : inlineValidationError m =
      some ("index " ++ toString (maxIndex m.indices) ++ " out of range (v=" ++
        toString m.vertices.length ++ ")") := by
    unfold inlineValidationError
    simp only [h1, h2, h3, if_false, ge_iff_le, hmax, if_true]
  refine ⟨⟨hmem, hge⟩, hV, ?_, hI, ?_⟩
  · intro outGeometry
    unfold RT_AppendTerrainPatch
    have hE : ValidateMeshData m "" =
      some (false, "index " ++ toString (maxIndex m.indices) ++ " out of range (v=" ++
        toString m.vertices.length ++ ")") := by
      unfold ValidateMeshData
      simp only [h1, h2, h3, if_false, ge_iff_le, hmax, if_true]
    simp only [hE]
  · intro outGeometry
    unfold extractNode
    simp only [hI, ne_eq, index_diagnostic_ne_empty, not_false_eq_true, if_true]

end ValidateThms2

namespace CD3D_RT

section SkipThms

variable {F : Type} [FloatOps F]

theorem UpdateAccelerationStructures_skip (s : CD3D_RT) (env : UpdateEnv F)
    (h : env.streamingBusy = true ∨ (s.frameCounter + 1) % 4294967296 % 3600 ≠ 0) :
    s.UpdateAccelerationStructures env =
      { s with frameCounter := (s.frameCounter + 1) % 4294967296 } := by
  unfold UpdateAccelerationStructures
  simp only
  by_cases hc : (s.frameCounter + 1) % 4294967296 % 3600 ≠ 0
  · rw [if_pos hc]
  · rw [if_neg hc]
    have hb : env.streamingBusy = true := by tauto
    rw [if_pos hb]

/-- C11: a call of `UpdateAccelerationStructures` made while the streaming-busy
signal is true, or whose call count (the static 32-bit counter after its
increment) is not a multiple of 3600, changes nothing but that counter:
`m_pTopLevelAS`, `m_tlasBuffers`, `m_blasBuffers`, `m_sceneBLAS`,
`m_sceneBLASResults` and the deferred queue are the same afterwards, the three
fence counters have not moved, and no call left the process.  A direct call of
`CreateLevelGeometryBLASAndTLAS` while streaming is busy fails and leaves the
whole state as it was. -/
theorem C11_rebuild_skip (s : CD3D_RT) :
    (∀ env : UpdateEnv F,
      (env.streamingBusy = true ∨ (s.frameCounter + 1) % 4294967296 % 3600 ≠ 0) →
        s.UpdateAccelerationStructures env =
          { s with frameCounter := (s.frameCounter + 1) % 4294967296 } ∧
        (s.UpdateAccelerationStructures env).m_pTopLevelAS = s.m_pTopLevelAS ∧
        (s.UpdateAccelerationStructures env).m_tlasBuffers = s.m_tlasBuffers ∧
        (s.UpdateAccelerationStructures env).m_blasBuffers = s.m_blasBuffers ∧
        (s.UpdateAccelerationStructures env).m_sceneBLAS = s.m_sceneBLAS ∧
        (s.UpdateAccelerationStructures env).m_sceneBLASResults = s.m_sceneBLASResults ∧
        (s.UpdateAccelerationStructures env).m_deferred = s.m_deferred ∧
        (s.UpdateAccelerationStructures env).m_lastSignaledFence = s.m_lastSignaledFence ∧
        (s.UpdateAccelerationStructures env).m_lastDispatchFence = s.m_lastDispatchFence ∧
        (s.UpdateAccelerationStructures env).m_lastASBuildFence = s.m_lastASBuildFence ∧
        (s.UpdateAccelerationStructures env).fenceCompleted = s.fenceCompleted ∧
        (s.UpdateAccelerationStructures env).trace = s.trace) ∧
    (∀ env : LevelBuildEnv F, env.streamingBusy = true →
      FAILED (s.CreateLevelGeometryBLASAndTLAS env).1 = true ∧
      (s.CreateLevelGeometryBLASAndTLAS env).2 = s) := by
  constructor
  · intro env h
    have e := UpdateAccelerationStructures_skip s env h
    refine ⟨e, ?_⟩
    rw [e]
    exact ⟨rfl, rfl, rfl, rfl, rfl, rfl, rfl, rfl, rfl, rfl, rfl⟩
  · intro env hb
    have fE : FAILED E_FAIL = true := by decide
    have fP : FAILED E_PENDING = true := by decide
    unfold CreateLevelGeometryBLASAndTLAS
    by_cases hd : s.m_pDevice = 0
    · rw [if_pos hd]; exact ⟨fE, rfl⟩
    · rw [if_neg hd, if_pos hb]; exact ⟨fP, rfl⟩

end SkipThms


/-! ### The reclaim pass and the deferred queue -/

theorem reclaimAllocators_m_deferred (completed : Nat) (l : List RetiredAllocator)
    (s : CD3D_RT) : (reclaimAllocators completed l s).2.m_deferred = s.m_deferred := by
  induction l generalizing s with
  | nil => rfl
  | cons r rest ih =>
    unfold reclaimAllocators
    split
    · exact ih s
    · split
      · exact (ih _).trans (emit_m_deferred _ _)
      · exact ih s

theorem reclaimHeaps_m_deferred (done : Nat) (l : List RT_RetiredHeap) (s : CD3D_RT) :
    (reclaimHeaps done l s).2.m_deferred = s.m_deferred := by
  induction l generalizing s with
  | nil => rfl
  | cons r rest ih =>
    unfold reclaimHeaps
    split
    · refine (ih _).trans ?_
      split
      · exact emit_m_deferred _ _
      · rfl
    · exact ih s

theorem RT_ReclaimRetiredAllocators_m_deferred (s : CD3D_RT) :
    s.RT_ReclaimRetiredAllocators.m_deferred = s.m_deferred := by
  unfold RT_ReclaimRetiredAllocators
  simp only
  have h1 : ∀ x : CD3D_RT,
      ({ (reclaimAllocators x.GetCompletedValue.1 x.GetCompletedValue.2.m_retiredAllocators
          x.GetCompletedValue.2).2 with
        m_retiredAllocators := (reclaimAllocators x.GetCompletedValue.1
          x.GetCompletedValue.2.m_retiredAllocators x.GetCompletedValue.2).1 } :
          CD3D_RT).m_deferred = x.m_deferred :=
    fun x => Eq.trans rfl ((reclaimAllocators_m_deferred _ _ _).trans (advance_m_deferred x))
  have h2 : ∀ x : CD3D_RT,
      ({ (reclaimHeaps x.GetCompletedValue.1 x.GetCompletedValue.2.g_RT_RetiredHeaps
          x.GetCompletedValue.2).2 with
        g_RT_RetiredHeaps := (reclaimHeaps x.GetCompletedValue.1
          x.GetCompletedValue.2.g_RT_RetiredHeaps x.GetCompletedValue.2).1 } :
          CD3D_RT).m_deferred = x.m_deferred :=
    fun x => Eq.trans rfl ((reclaimHeaps_m_deferred _ _ _).trans (advance_m_deferred x))
  split <;> split
  · exact (h2 _).trans (h1 s)
  · exact h1 s
  · exact h2 s
  · rfl

theorem RT_EndFrameAndSignal_m_deferred (s : CD3D_RT) :
    s.RT_EndFrameAndSignal.m_deferred = s.m_deferred := by
  unfold RT_EndFrameAndSignal
  split
  · rfl
  · simp only
    have h1 : (if s.m_frameRecordedWork = true then s.signalAndStamp else s).m_deferred =
        s.m_deferred := by
      split
      · exact (signalAndStamp_fields s).2.2.2.2.2.1
      · rfl
    generalize (if s.m_frameRecordedWork = true then s.signalAndStamp else s) = s1 at h1 ⊢
    exact Eq.trans rfl ((RT_ReclaimRetiredAllocators_m_deferred s1).trans h1)

theorem traceExt_RT_EndFrameAndSignal_events (s : CD3D_RT) :
    TraceExt (fun e => (∃ p, e = Event.objectRelease p) ∨ ∃ v, e = Event.signalFrameFence v) s
      s.RT_EndFrameAndSignal := by
  unfold RT_EndFrameAndSignal
  split
  · exact TraceExt.of_eqT rfl
  · simp only
    have h1 : TraceExt
        (fun e => (∃ p, e = Event.objectRelease p) ∨ ∃ v, e = Event.signalFrameFence v) s
        (if s.m_frameRecordedWork = true then s.signalAndStamp else s) := by
      split
      · refine ⟨_, (signalAndStamp_fields s).2.2.2.2.1, ?_⟩
        intro e he
        rw [List.mem_singleton] at he
        exact Or.inr ⟨_, he⟩
      · exact TraceExt.reflT _ _
    generalize (if s.m_frameRecordedWork = true then s.signalAndStamp else s) = s1 at h1 ⊢
    exact (h1.transT (traceExt_RT_ReclaimRetiredAllocators (fun p => Or.inl ⟨p, rfl⟩) s1)).transT
      (TraceExt.of_eqT rfl)

/-- C15 (fails on the code): `RT_ReclaimRetiredAllocators` goes through the
retired allocators and the retired descriptor heaps and leaves the deferred
queue as it is; `RT_EndFrameAndSignal`, which runs it, leaves the deferred queue
as it is too and calls `Release` on no resource (the calls it makes are the
release of allocators and heaps and the signal of the frame fence).  So an
entry whose key the frame fence has reached stays in the queue: with completed
value `5`, the entry with key `1` that holds resource `7` is still there after
the end of the frame and nothing was released. -/
theorem C15_reclaim_skips_deferred_queue :
    (∀ s : CD3D_RT, s.RT_ReclaimRetiredAllocators.m_deferred = s.m_deferred ∧
      TraceExt (fun e => ∃ p, e = Event.objectRelease p) s s.RT_ReclaimRetiredAllocators) ∧
    (∀ s : CD3D_RT, s.RT_EndFrameAndSignal.m_deferred = s.m_deferred ∧
      TraceExt (fun e => (∃ p, e = Event.objectRelease p) ∨ ∃ v, e = Event.signalFrameFence v)
        s s.RT_EndFrameAndSignal) ∧
    (dueEntry.fenceCompleted = 5 ∧
      dueEntry.RT_EndFrameAndSignal.fenceCompleted = 5 ∧
      dueEntry.RT_EndFrameAndSignal.m_deferred = [{ fenceValue := 1, resources := [7] }] ∧
      dueEntry.RT_EndFrameAndSignal.trace = []) :=
  ⟨fun s => ⟨RT_ReclaimRetiredAllocators_m_deferred s,
      traceExt_RT_ReclaimRetiredAllocators (fun p => ⟨p, rfl⟩) s⟩,
    fun s => ⟨RT_EndFrameAndSignal_m_deferred s, traceExt_RT_EndFrameAndSignal_events s⟩,
    by decide⟩


/-! ### The instance array -/

theorem instanceDescsFor_getElem? (l : List Nat) (i : Nat) :
    (instanceDescsFor l)[i]? =
      l[i]?.map fun va =>
        ({ Transform := [1, 0, 0, 0, 0, 1, 0, 0, 0, 0, 1, 0]
           InstanceID := i
           InstanceMask := 255
           InstanceContributionToHitGroupIndex := 0
           Flags := 0
           AccelerationStructure := va } : InstanceDesc) := by
  unfold instanceDescsFor
  rw [List.getElem?_map, List.getElem?_enum]
  cases l[i]? <;> rfl

theorem SUCCEEDED_of_FAILED (hr : HRESULT) (h : FAILED hr = true) : SUCCEEDED hr = false := by
  unfold FAILED at h
  unfold SUCCEEDED
  simp only [decide_eq_true_eq] at h
  simp only [decide_eq_false_iff_not]
  exact Int.not_le.2 h

theorem RT_ReleaseASBuffers_empty (s : CD3D_RT) : s.RT_ReleaseASBuffers {} = (s, {}) := rfl


theorem BuildBottomLevelAS_fresh (s : CD3D_RT) (env : BlasEnv) (pCmdList : Ptr)
    (a1 a2 a3 a4 a5 a6 a7 : Nat) (r : HRESULT × CD3D_RT × AccelerationStructureBuffers)
    (hr : r = s.BuildBottomLevelAS env pCmdList a1 a2 a3 a4 a5 a6 a7 {}) :
    (SUCCEEDED r.1 = true ∧ r.2.1 = s.emit (Event.buildAS pCmdList false 1 env.resultVA) ∧
      r.2.2.pResult = env.result ∧
      r.2.2.resultVA = (if env.result ≠ 0 then env.resultVA else 0)) ∨
    (SUCCEEDED r.1 = false ∧ TraceExt (fun e => ∃ p c, e = Event.release p c) s r.2.1 ∧
      r.2.1.m_sceneBLAS = s.m_sceneBLAS) := by
  have fI : SUCCEEDED E_INVALIDARG = false := by decide
  have fE : SUCCEEDED E_FAIL = false := by decide
  have fS : SUCCEEDED S_OK = true := by decide
  have hnow := fun b => traceExt_releaseASBuffersNow
    (P := fun e => ∃ p c, e = Event.release p c) (fun p c => ⟨p, c, rfl⟩) s b
  have hnowc := fun b => core_m_sceneBLAS (core_releaseASBuffersNow s b)
  unfold BuildBottomLevelAS at hr
  rw [RT_ReleaseASBuffers_empty] at hr
  simp only at hr
  split at hr
  · subst hr; exact Or.inr ⟨fI, TraceExt.reflT _ _, rfl⟩
  split at hr
  · subst hr; exact Or.inr ⟨fI, TraceExt.reflT _ _, rfl⟩
  split at hr
  · subst hr; exact Or.inr ⟨fI, TraceExt.reflT _ _, rfl⟩
  split at hr
  · subst hr; exact Or.inr ⟨fI, TraceExt.reflT _ _, rfl⟩
  split at hr
  · subst hr; exact Or.inr ⟨fI, TraceExt.reflT _ _, rfl⟩
  split at hr
  · rename_i h6
    subst hr; exact Or.inr ⟨SUCCEEDED_of_FAILED _ h6, TraceExt.reflT _ _, rfl⟩
  split at hr
  · subst hr; exact Or.inr ⟨fE, TraceExt.reflT _ _, rfl⟩
  split at hr
  · rename_i h8
    subst hr; exact Or.inr ⟨SUCCEEDED_of_FAILED _ h8, TraceExt.reflT _ _, rfl⟩
  split at hr
  · rename_i h9
    subst hr; exact Or.inr ⟨SUCCEEDED_of_FAILED _ h9, hnow _, hnowc _⟩
  · subst hr; exact Or.inl ⟨fS, rfl, rfl, rfl⟩


theorem BuiltInOrder.reflB (s : CD3D_RT) : BuiltInOrder s s :=
  ⟨[], [], by simp, by simp, rfl, by simp, by simp⟩

theorem BuiltInOrder.transI {a b c : CD3D_RT} (h1 : BuiltInOrder a b) (h2 : BuiltInOrder b c) :
    BuiltInOrder a c := by
  obtain ⟨l1, b1, t1, m1, d1, n1, i1⟩ := h1
  obtain ⟨l2, b2, t2, m2, d2, n2, i2⟩ := h2
  refine ⟨l1 ++ l2, b1 ++ b2, by rw [t2, t1, List.append_assoc],
    by rw [m2, m1, List.append_assoc], by rw [List.filterMap_append, List.map_append, d1, d2],
    ?_, ?_⟩
  · intro x hx
    rcases List.mem_append.1 hx with h | h
    · exact n1 x h
    · exact n2 x h
  · intro descs hx
    rcases List.mem_append.1 hx with h | h
    · exact i1 descs h
    · exact i2 descs h

theorem BuiltInOrder.of_releases {s s' : CD3D_RT}
    (ht : TraceExt (fun e => ∃ p c, e = Event.release p c) s s')
    (hm : s'.m_sceneBLAS = s.m_sceneBLAS) : BuiltInOrder s s' := by
  obtain ⟨l, e, p⟩ := ht
  have hnone : l.filterMap blasDest = [] := by
    rw [List.filterMap_eq_nil_iff]
    intro x hx
    obtain ⟨q, c, rfl⟩ := p x hx
    rfl
  refine ⟨l, [], e, by rw [hm, List.append_nil], by rw [hnone]; rfl, by simp, ?_⟩
  intro descs hx
  obtain ⟨q, c, hq⟩ := p _ hx
  cases hq

theorem BuiltInOrder.built (s : CD3D_RT) (pCL : Ptr) (blas : AccelerationStructureBuffers)
    (resultVA2 : Nat) (h : blas.resultVA ≠ 0) :
    BuiltInOrder s
      ((s.emit (Event.buildAS pCL false 1 blas.resultVA)).pushSceneBLAS blas resultVA2) := by
  have e1 : ((s.emit (Event.buildAS pCL false 1 blas.resultVA)).pushSceneBLAS blas
      resultVA2).trace = s.trace ++ [Event.buildAS pCL false 1 blas.resultVA] := by
    unfold pushSceneBLAS
    simp only
    split <;> split <;> rfl
  have e2 : ((s.emit (Event.buildAS pCL false 1 blas.resultVA)).pushSceneBLAS blas
      resultVA2).m_sceneBLAS = s.m_sceneBLAS ++ [blas] := by
    unfold pushSceneBLAS
    have hc : ¬ (blas.resultVA = 0 ∧ blas.pResult ≠ 0) := fun hh => h hh.1
    simp only [hc, if_false]
    split <;> rfl
  refine ⟨_, _, e1, e2, rfl, ?_, ?_⟩
  · intro b hb
    rw [List.mem_singleton] at hb
    rw [hb]; exact h
  · intro descs hx
    rw [List.mem_singleton] at hx
    cases hx

theorem buildLevelBLAS_dests {F : Type} (records : Nat → RecordBuildEnv)
    (hdev : ∀ i, (records i).blas.result ≠ 0 ∧ (records i).blas.resultVA ≠ 0) (pCL : Ptr)
    (geo : List (SafeGeometryData F)) (i : Nat) (s : CD3D_RT) :
    BuiltInOrder s (buildLevelBLAS records pCL i geo s) := by
  have hrel : ∀ (x : CD3D_RT) (r : Ptr), BuiltInOrder x (x.Release r) := fun x r =>
    BuiltInOrder.of_releases (TraceExt.emit _ _ ⟨_, _, rfl⟩) rfl
  induction geo generalizing i s with
  | nil => exact BuiltInOrder.reflB s
  | cons g rest ih =>
    unfold buildLevelBLAS
    simp only
    cases CreateDefaultBufferFromData (g.vertices.length * 12) (records i).vb with
    | none => exact ih _ _
    | some vb =>
      cases CreateDefaultBufferFromData (g.indices.length * 4) (records i).ib with
      | none => exact ((hrel _ _).transI (hrel _ _)).transI (ih _ _)
      | some ib =>
        simp only
        have h0 : BuiltInOrder s
            (s.pushKeepAlive (UploadBufferKeepAlive.mk vb.1 ib.1 vb.2 ib.2 g.debugName)) :=
          BuiltInOrder.of_releases (TraceExt.of_eqT rfl) rfl
        generalize s.pushKeepAlive (UploadBufferKeepAlive.mk vb.1 ib.1 vb.2 ib.2 g.debugName) = sk
          at h0 ⊢
        have hb := BuildBottomLevelAS_fresh sk (records i).blas pCL (records i).vbVA
          (g.vertices.length % 4294967296) 12
          DXGI_FORMAT_R32G32B32_FLOAT (records i).ibVA (g.indices.length % 4294967296)
          DXGI_FORMAT_R32_UINT _ rfl
        generalize sk.BuildBottomLevelAS (records i).blas pCL (records i).vbVA
          (g.vertices.length % 4294967296) 12 DXGI_FORMAT_R32G32B32_FLOAT (records i).ibVA
          (g.indices.length % 4294967296) DXGI_FORMAT_R32_UINT {} = built at hb ⊢
        rcases hb with ⟨hs, e1, -, e3⟩ | ⟨hs, ht, hm⟩
        · rw [if_pos hs]
          have hva : built.2.2.resultVA = (records i).blas.resultVA := by
            rw [e3, if_pos (hdev i).1]
          have hne : built.2.2.resultVA ≠ 0 := by rw [hva]; exact (hdev i).2
          have hstep := BuiltInOrder.built sk pCL built.2.2 (records i).resultVA2 hne
          rw [hva] at hstep
          rw [e1]
          exact (h0.transI hstep).transI (ih _ _)
        · rw [hs]
          simp only [Bool.false_eq_true, if_false]
          exact (h0.transI (BuiltInOrder.of_releases ht hm)).transI (ih _ _)


theorem instanceDescsFor_take (vas : List Nat) (h : vas.length < 4294967296) :
    (instanceDescsFor vas).take (vas.length % 4294967296) = instanceDescsFor vas := by
  rw [Nat.mod_eq_of_lt h]
  apply List.take_of_length_le
  rw [instanceDescsFor_length]

theorem finishLevelBuild_instances (s : CD3D_RT) (tlasEnv : TlasEnv) (pCL : Ptr)
    (closeHr : HRESULT) (fc : Bool) (signalHr : HRESULT) (h8 : s.m_sceneBLAS.length ≤ 8) :
    TraceExt (fun e => blasDest e = none ∧
        ∀ descs, e = Event.instanceDescs descs → descs = instanceDescsFor s.blasVaList) s
      (s.finishLevelBuild tlasEnv pCL closeHr fc signalHr).2 := by
  have hv : s.blasVaList.length < 4294967296 :=
    lt_of_le_of_lt (le_trans (blasVaList_length s) h8) (by decide)
  have hb := traceExt_BuildTopLevelAS_events
    (P := fun e => blasDest e = none ∧
      ∀ descs, e = Event.instanceDescs descs → descs = instanceDescsFor s.blasVaList)
    (fun r c => ⟨rfl, fun descs e => by cases e⟩) s tlasEnv pCL
    s.blasVaList s.m_tlasBuffers
    ⟨rfl, fun descs e => by
      rw [instanceDescsFor_take _ hv] at e
      exact (Event.instanceDescs.inj e).symm⟩
    (fun d => ⟨rfl, fun descs e => by cases e⟩)
  unfold finishLevelBuild
  simp only
  generalize s.BuildTopLevelAS tlasEnv pCL s.blasVaList s.m_tlasBuffers = built at hb ⊢
  have h2 := hb.transT (TraceExt.of_eqT (show (built.2.1.setTlasBuffers built.2.2).trace =
    built.2.1.trace from rfl))
  generalize built.2.1.setTlasBuffers built.2.2 = s2 at h2 ⊢
  have h3 := h2.transT (TraceExt.of_eqT (show (s2.setTopLevelAS s2.m_tlasBuffers.pResult).trace =
    s2.trace from rfl))
  generalize s2.setTopLevelAS s2.m_tlasBuffers.pResult = s3 at h3 ⊢
  have h4 := h3.transT (traceExt_submitBuild_events
    (P := fun e => blasDest e = none ∧
      ∀ descs, e = Event.instanceDescs descs → descs = instanceDescsFor s.blasVaList)
    s3 pCL fc signalHr false
    ⟨rfl, fun descs e => by cases e⟩ (fun _ => ⟨rfl, fun descs e => by cases e⟩))
  repeat' apply ite_cases (fun r : HRESULT × CD3D_RT =>
    TraceExt (fun e => blasDest e = none ∧
      ∀ descs, e = Event.instanceDescs descs → descs = instanceDescsFor s.blasVaList) s r.2)
  all_goals first
    | exact TraceExt.reflT _ _
    | exact h2
    | exact h3
    | exact h4

theorem blasVaList_of_nonzero (s : CD3D_RT) (h : ∀ b ∈ s.m_sceneBLAS, b.resultVA ≠ 0) :
    s.blasVaList = s.m_sceneBLAS.map fun b => b.resultVA := by
  unfold blasVaList
  rw [List.filter_eq_self.2]
  intro b hb
  simpa using h b hb

theorem finishLevelBuild_m_sceneBLAS (s : CD3D_RT) (tlasEnv : TlasEnv) (pCL : Ptr)
    (closeHr : HRESULT) (fc : Bool) (signalHr : HRESULT) :
    (s.finishLevelBuild tlasEnv pCL closeHr fc signalHr).2.m_sceneBLAS = s.m_sceneBLAS := by
  have hb := core_m_sceneBLAS (core_BuildTopLevelAS s tlasEnv pCL s.blasVaList s.m_tlasBuffers)
  unfold finishLevelBuild
  simp only
  generalize s.BuildTopLevelAS tlasEnv pCL s.blasVaList s.m_tlasBuffers = built at hb ⊢
  have h2 : (built.2.1.setTlasBuffers built.2.2).m_sceneBLAS = s.m_sceneBLAS :=
    Eq.trans rfl hb
  generalize built.2.1.setTlasBuffers built.2.2 = s2 at h2 ⊢
  have h3 : (s2.setTopLevelAS s2.m_tlasBuffers.pResult).m_sceneBLAS = s.m_sceneBLAS :=
    Eq.trans rfl h2
  generalize s2.setTopLevelAS s2.m_tlasBuffers.pResult = s3 at h3 ⊢
  have h4 := (submitBuild_fields s3 pCL fc signalHr false).1.trans h3
  repeat' apply ite_cases (fun r : HRESULT × CD3D_RT => r.2.m_sceneBLAS = s.m_sceneBLAS)
  all_goals first
    | rfl
    | exact h2
    | exact h3
    | exact h4

theorem ite_cond_cases {α : Type} (Q : α → Prop) (c : Prop) [Decidable c] (a b : α)
    (ha : c → Q a) (hb : ¬ c → Q b) : Q (if c then a else b) := by
  split
  · exact ha (by assumption)
  · exact hb (by assumption)

theorem BuildTopLevelAS_written (s : CD3D_RT) (env : TlasEnv) (pCmdList : Ptr)
    (vas : List Nat) (outTLAS : AccelerationStructureBuffers) :
    SUCCEEDED (s.BuildTopLevelAS env pCmdList vas outTLAS).1 = true →
      Event.instanceDescs ((instanceDescsFor vas).take (vas.length % 4294967296)) ∈
        (s.BuildTopLevelAS env pCmdList vas outTLAS).2.1.trace := by
  have fI : SUCCEEDED E_INVALIDARG = false := by decide
  have fE : SUCCEEDED E_FAIL = false := by decide
  have hsel : ∀ hr0 : HRESULT, SUCCEEDED (if FAILED hr0 = true then hr0 else E_FAIL) = false := by
    intro hr0
    split
    · rename_i hf
      exact SUCCEEDED_of_FAILED _ hf
    · exact fE
  have hmem : ∀ (x : CD3D_RT) (e e2 : Event) (u : List Ptr),
      e ∈ (emit { x.emit e with g_RT_TempUploads := u } e2).trace := by
    intro x e e2 u
    rw [emit_trace]
    apply List.mem_append_left
    show e ∈ (x.emit e).trace
    rw [emit_trace]
    exact List.mem_append_right _ (List.mem_singleton.2 rfl)
  unfold BuildTopLevelAS
  generalize s.RT_ReleaseASBuffers outTLAS = rel
  simp only
  repeat' (first
    | apply ite_cond_cases (fun r : HRESULT × CD3D_RT × AccelerationStructureBuffers =>
        SUCCEEDED r.1 = true →
          Event.instanceDescs ((instanceDescsFor vas).take (vas.length % 4294967296)) ∈
            r.2.1.trace)
    | intro h)
  all_goals first
    | exact absurd (fI.symm.trans h) (by decide)
    | exact absurd (fE.symm.trans h) (by decide)
    | exact absurd ((hsel _).symm.trans h) (by decide)
    | exact absurd ((SUCCEEDED_of_FAILED _ (by assumption)).symm.trans h) (by decide)
    | exact hmem _ _ _ _

/-- A list of result addresses that passes the tests at the head of
`BuildTopLevelAS`, on a device that is not removed and gives the upload buffer
for the instances and maps it: the call writes the instance array of the list
after the release of the previous buffers, and writes no other array. -/
theorem BuildTopLevelAS_accepted (s : CD3D_RT) (env : TlasEnv) (pCmdList : Ptr)
    (l : List Nat) (outTLAS : AccelerationStructureBuffers)
    (hd : s.m_pDevice ≠ 0) (hc : pCmdList ≠ 0) (hn : l ≠ []) (hlen : l.length ≤ 100000)
    (hnz : ∀ va ∈ l, va ≠ 0) (hrem : FAILED env.deviceRemovedHr = false)
    (hup : FAILED env.uploadHr = false) (hupp : env.upload ≠ 0)
    (hmap : FAILED env.mapHr = false) (hmapped : env.mapped = true) :
    ∃ rest, (s.BuildTopLevelAS env pCmdList l outTLAS).2.1.trace =
        (s.RT_ReleaseASBuffers outTLAS).1.trace ++
          Event.instanceDescs (instanceDescsFor l) :: rest ∧
      ∀ e ∈ rest, ∀ descs, e ≠ Event.instanceDescs descs := by
  have hlt : l.length < 4294967296 := lt_of_le_of_lt hlen (by decide)
  have htake := instanceDescsFor_take l hlt
  have g1 : ¬(s.m_pDevice = 0 ∨ pCmdList = 0) := by
    rintro (h | h)
    · exact hd h
    · exact hc h
  have g2 : ¬(l.isEmpty = true ∨ l.length > 100000) := by
    rintro (h | h)
    · exact hn (List.isEmpty_iff.1 h)
    · omega
  have g3 : (l.any fun va => decide (va = 0)) = false := by
    rw [List.any_eq_false]
    intro va hva
    simpa using hnz va hva
  have g5 : ¬(FAILED env.uploadHr = true ∨ env.upload = 0) := by
    rintro (h | h)
    · rw [hup] at h
      cases h
    · exact hupp h
  have g6 : ¬(FAILED env.mapHr = true ∨ (!env.mapped) = true) := by
    rintro (h | h)
    · rw [hmap] at h
      cases h
    · rw [hmapped] at h
      cases h
  unfold BuildTopLevelAS
  rw [if_neg g1, if_neg g2, g3, hrem]
  simp only [Bool.false_eq_true, if_false]
  generalize s.RT_ReleaseASBuffers outTLAS = rel
  rw [if_neg g5, if_neg g6, htake]
  have hemit : ∀ (x : CD3D_RT) (e : Event), (x.emit e).trace = x.trace ++ [e] := fun _ _ => rfl
  suffices h : ∃ rest, (if FAILED env.instanceDescHr = true then
        (env.instanceDescHr,
          (rel.1.emit (Event.instanceDescs (instanceDescsFor l))).Release env.upload,
          { rel.2 with pInstanceDesc := env.instanceDesc })
      else _ : HRESULT × CD3D_RT × AccelerationStructureBuffers).2.1.trace =
        (rel.1.trace ++ [Event.instanceDescs (instanceDescsFor l)]) ++ rest ∧
      ∀ e ∈ rest, ∀ descs, e ≠ Event.instanceDescs descs by
    obtain ⟨rest, h1, h2⟩ := h
    exact ⟨rest, by rw [h1, List.append_assoc]; rfl, h2⟩
  repeat' apply ite_cases (fun r : HRESULT × CD3D_RT × AccelerationStructureBuffers =>
    ∃ rest, r.2.1.trace = (rel.1.trace ++ [Event.instanceDescs (instanceDescsFor l)]) ++ rest ∧
      ∀ e ∈ rest, ∀ descs, e ≠ Event.instanceDescs descs)
  all_goals first
    | exact ⟨[], (List.append_nil _).symm, fun e he => by cases he⟩
    | (refine ⟨[_], rfl, ?_⟩
       intro e he descs
       rw [List.mem_singleton] at he
       rw [he]
       exact fun h => Event.noConfusion h)

/-- A call of `BuildTopLevelAS` that succeeds has written the instance array of
its list in the course of the call. -/
theorem BuildTopLevelAS_written_added (s : CD3D_RT) (env : TlasEnv) (pCmdList : Ptr)
    (vas : List Nat) (outTLAS : AccelerationStructureBuffers) :
    SUCCEEDED (s.BuildTopLevelAS env pCmdList vas outTLAS).1 = true →
      ∃ added, (s.BuildTopLevelAS env pCmdList vas outTLAS).2.1.trace = s.trace ++ added ∧
        Event.instanceDescs ((instanceDescsFor vas).take (vas.length % 4294967296)) ∈ added := by
  have fI : SUCCEEDED E_INVALIDARG = false := by decide
  have fE : SUCCEEDED E_FAIL = false := by decide
  have hsel : ∀ hr0 : HRESULT, SUCCEEDED (if FAILED hr0 = true then hr0 else E_FAIL) = false := by
    intro hr0
    split
    · rename_i hf
      exact SUCCEEDED_of_FAILED _ hf
    · exact fE
  obtain ⟨pre, hpre, -⟩ := traceExt_RT_ReleaseASBuffers (P := fun _ => True)
    (fun _ _ => trivial) s outTLAS
  have hmem : ∀ (x : CD3D_RT) (e e2 : Event) (u : List Ptr), x.trace = s.trace ++ pre →
      ∃ added, (emit { x.emit e with g_RT_TempUploads := u } e2).trace = s.trace ++ added ∧
        e ∈ added := by
    intro x e e2 u hx
    refine ⟨pre ++ [e] ++ [e2], ?_, by simp⟩
    show (x.trace ++ [e]) ++ [e2] = _
    rw [hx, List.append_assoc, List.append_assoc, List.append_assoc]
  unfold BuildTopLevelAS
  generalize s.RT_ReleaseASBuffers outTLAS = rel at hpre
  simp only
  repeat' (first
    | apply ite_cond_cases (fun r : HRESULT × CD3D_RT × AccelerationStructureBuffers =>
        SUCCEEDED r.1 = true →
          ∃ added, r.2.1.trace = s.trace ++ added ∧
            Event.instanceDescs ((instanceDescsFor vas).take (vas.length % 4294967296)) ∈ added)
    | intro h)
  all_goals first
    | exact absurd (fI.symm.trans h) (by decide)
    | exact absurd ((hsel _).symm.trans h) (by decide)
    | exact absurd ((SUCCEEDED_of_FAILED _ (by assumption)).symm.trans h) (by decide)
    | exact hmem _ _ _ _ hpre

theorem SUCCEEDED_of_not_FAILED (hr : HRESULT) (h : ¬ FAILED hr = true) :
    SUCCEEDED hr = true := by
  unfold FAILED at h
  unfold SUCCEEDED
  simp only [decide_eq_true_eq] at h ⊢
  exact Int.not_lt.1 h

theorem finishLevelBuild_written (s : CD3D_RT) (tlasEnv : TlasEnv) (pCL : Ptr)
    (closeHr : HRESULT) (fc : Bool) (signalHr : HRESULT) (h8 : s.m_sceneBLAS.length ≤ 8) :
    SUCCEEDED (s.finishLevelBuild tlasEnv pCL closeHr fc signalHr).1 = true →
      ∃ added, (s.finishLevelBuild tlasEnv pCL closeHr fc signalHr).2.trace = s.trace ++ added ∧
        Event.instanceDescs (instanceDescsFor s.blasVaList) ∈ added := by
  have fE : SUCCEEDED E_FAIL = false := by decide
  have hv : s.blasVaList.length < 4294967296 :=
    lt_of_le_of_lt (le_trans (blasVaList_length s) h8) (by decide)
  have hb := BuildTopLevelAS_written_added s tlasEnv pCL s.blasVaList s.m_tlasBuffers
  rw [instanceDescsFor_take _ hv] at hb
  unfold finishLevelBuild
  simp only
  generalize s.BuildTopLevelAS tlasEnv pCL s.blasVaList s.m_tlasBuffers = built at hb ⊢
  have t2 : (built.2.1.setTlasBuffers built.2.2).trace = built.2.1.trace := rfl
  generalize built.2.1.setTlasBuffers built.2.2 = s2 at t2 ⊢
  have t3 : (s2.setTopLevelAS s2.m_tlasBuffers.pResult).trace = s2.trace := rfl
  generalize s2.setTopLevelAS s2.m_tlasBuffers.pResult = s3 at t3 ⊢
  obtain ⟨post, hpost, -⟩ := traceExt_submitBuild (P := fun _ => True) (fun _ _ => trivial)
    s3 pCL fc signalHr false
  generalize s3.submitBuild pCL fc signalHr false = s4 at hpost ⊢
  repeat' (first
    | apply ite_cond_cases (fun r : HRESULT × CD3D_RT =>
        SUCCEEDED r.1 = true →
          ∃ added, r.2.trace = s.trace ++ added ∧
            Event.instanceDescs (instanceDescsFor s.blasVaList) ∈ added)
    | intro h)
  all_goals first
    | exact absurd (fE.symm.trans h) (by decide)
    | skip
  rename_i c1 c2 c3 c4
  have hs : SUCCEEDED built.1 = true :=
    SUCCEEDED_of_not_FAILED _ (fun hf => c3 (Or.inl hf))
  obtain ⟨added, ha, hm⟩ := hb hs
  refine ⟨added ++ post, ?_, List.mem_append_left _ hm⟩
  show s4.trace = _
  rw [hpost, t3, t2, ha, List.append_assoc]

theorem clearPrevious_m_pDevice (s : CD3D_RT) : s.clearPrevious.m_pDevice = s.m_pDevice := by
  unfold clearPrevious
  simp only
  have c1 := core_m_pDevice (core_releaseEachASBuffers s.m_sceneBLAS s)
  generalize (s.releaseEachASBuffers s.m_sceneBLAS).1 = r1 at c1 ⊢
  have e1 : (r1.setSceneBLAS []).m_pDevice = s.m_pDevice := Eq.trans rfl c1
  generalize r1.setSceneBLAS [] = s1 at e1 ⊢
  have c2 := (core_m_pDevice (core_safeReleaseEach s1.m_sceneBLASResults s1)).trans e1
  generalize (s1.safeReleaseEach s1.m_sceneBLASResults).1 = r2 at c2 ⊢
  have e2 : (r2.setSceneBLASResults []).m_pDevice = s.m_pDevice := Eq.trans rfl c2
  generalize r2.setSceneBLASResults [] = s2 at e2 ⊢
  have c3 := (core_m_pDevice (core_ClearKeepAliveUploads s2)).trans e2
  generalize s2.ClearKeepAliveUploads = s3 at c3 ⊢
  have c4 := (core_m_pDevice (core_RT_ReleaseASBuffers s3 s3.m_tlasBuffers)).trans c3
  generalize s3.RT_ReleaseASBuffers s3.m_tlasBuffers = rel at c4 ⊢
  exact Eq.trans rfl c4

theorem buildLevelBLAS_m_pDevice {F : Type} (records : Nat → RecordBuildEnv) (pCL : Ptr)
    (geo : List (SafeGeometryData F)) (i : Nat) (s : CD3D_RT) :
    (buildLevelBLAS records pCL i geo s).m_pDevice = s.m_pDevice := by
  induction geo generalizing i s with
  | nil => rfl
  | cons g rest ih =>
    unfold buildLevelBLAS
    simp only
    cases CreateDefaultBufferFromData (g.vertices.length * 12) (records i).vb with
    | none => exact ih (i + 1) s
    | some vb =>
      cases CreateDefaultBufferFromData (g.indices.length * 4) (records i).ib with
      | none => exact (ih (i + 1) ((s.Release vb.1).Release vb.2)).trans rfl
      | some ib =>
        simp only
        have hc := fun (e : BlasEnv) a1 a2 a3 a4 a5 a6 a7 b =>
          core_BuildBottomLevelAS
            (s.pushKeepAlive (UploadBufferKeepAlive.mk vb.1 ib.1 vb.2 ib.2 g.debugName))
            e pCL a1 a2 a3 a4 a5 a6 a7 b
        have hk : (s.pushKeepAlive (UploadBufferKeepAlive.mk vb.1 ib.1 vb.2 ib.2
            g.debugName)).core = s.core := rfl
        generalize s.pushKeepAlive (UploadBufferKeepAlive.mk vb.1 ib.1 vb.2 ib.2 g.debugName) = sk
          at hc hk ⊢
        have hb := hc (records i).blas (records i).vbVA (g.vertices.length % 4294967296) 12
          DXGI_FORMAT_R32G32B32_FLOAT (records i).ibVA (g.indices.length % 4294967296)
          DXGI_FORMAT_R32_UINT {}
        generalize sk.BuildBottomLevelAS (records i).blas pCL (records i).vbVA
          (g.vertices.length % 4294967296) 12 DXGI_FORMAT_R32G32B32_FLOAT (records i).ibVA
          (g.indices.length % 4294967296) DXGI_FORMAT_R32_UINT {} = built at hb ⊢
        have f1 : built.2.1.m_pDevice = s.m_pDevice := core_m_pDevice (hb.trans hk)
        have hp : ∀ b va, (built.2.1.pushSceneBLAS b va).m_pDevice = s.m_pDevice := by
          intro b va
          unfold pushSceneBLAS
          simp only
          split <;> split <;> exact f1
        split
        · exact (ih (i + 1) _).trans (hp _ _)
        · exact (ih (i + 1) _).trans f1

theorem blasVaList_ne_zero (s : CD3D_RT) : ∀ va ∈ s.blasVaList, va ≠ 0 := by
  intro va h
  unfold blasVaList at h
  obtain ⟨b, hb, rfl⟩ := List.mem_map.1 h
  simpa using (List.mem_filter.1 hb).2

theorem finishLevelBuild_m_sceneBLASResults (s : CD3D_RT) (tlasEnv : TlasEnv) (pCL : Ptr)
    (closeHr : HRESULT) (fc : Bool) (signalHr : HRESULT) :
    (s.finishLevelBuild tlasEnv pCL closeHr fc signalHr).2.m_sceneBLASResults =
      s.m_sceneBLASResults := by
  have hb := core_m_sceneBLASResults
    (core_BuildTopLevelAS s tlasEnv pCL s.blasVaList s.m_tlasBuffers)
  unfold finishLevelBuild
  simp only
  generalize s.BuildTopLevelAS tlasEnv pCL s.blasVaList s.m_tlasBuffers = built at hb ⊢
  have h2 : (built.2.1.setTlasBuffers built.2.2).m_sceneBLASResults = s.m_sceneBLASResults :=
    Eq.trans rfl hb
  generalize built.2.1.setTlasBuffers built.2.2 = s2 at h2 ⊢
  have h3 : (s2.setTopLevelAS s2.m_tlasBuffers.pResult).m_sceneBLASResults =
      s.m_sceneBLASResults := Eq.trans rfl h2
  generalize s2.setTopLevelAS s2.m_tlasBuffers.pResult = s3 at h3 ⊢
  have h4 := (submitBuild_fields s3 pCL fc signalHr false).2.1.trans h3
  repeat' apply ite_cases (fun r : HRESULT × CD3D_RT =>
    r.2.m_sceneBLASResults = s.m_sceneBLASResults)
  all_goals first
    | rfl
    | exact h2
    | exact h3
    | exact h4

/-- After the BLAS loop, with at least one structure built whose result address
is not zero, the TLAS build is reached and, on a device that is not removed,
creates the upload buffer and maps it, the instance array is written. -/
theorem finishLevelBuild_writes (s : CD3D_RT) (tlasEnv : TlasEnv) (pCL : Ptr)
    (closeHr : HRESULT) (fc : Bool) (signalHr : HRESULT) (h8 : s.m_sceneBLAS.length ≤ 8)
    (hd : s.m_pDevice ≠ 0) (hc : pCL ≠ 0) (hres : s.m_sceneBLASResults ≠ [])
    (hva : s.blasVaList ≠ [])
    (hrem : FAILED tlasEnv.deviceRemovedHr = false) (hup : FAILED tlasEnv.uploadHr = false)
    (hupp : tlasEnv.upload ≠ 0) (hmap : FAILED tlasEnv.mapHr = false)
    (hmapped : tlasEnv.mapped = true) :
    ∃ added, (s.finishLevelBuild tlasEnv pCL closeHr fc signalHr).2.trace = s.trace ++ added ∧
      Event.instanceDescs (instanceDescsFor s.blasVaList) ∈ added := by
  have hlen : s.blasVaList.length ≤ 100000 :=
    le_trans (le_trans (blasVaList_length s) h8) (by decide)
  obtain ⟨rest, hb, -⟩ := BuildTopLevelAS_accepted s tlasEnv pCL s.blasVaList s.m_tlasBuffers
    hd hc hva hlen (blasVaList_ne_zero s) hrem hup hupp hmap hmapped
  obtain ⟨pre, hpre, -⟩ := traceExt_RT_ReleaseASBuffers (P := fun _ => True)
    (fun _ _ => trivial) s s.m_tlasBuffers
  rw [hpre] at hb
  unfold finishLevelBuild
  have n1 : s.m_sceneBLASResults.isEmpty = false := by
    cases h : s.m_sceneBLASResults with
    | nil => exact absurd h hres
    | cons a b => rfl
  have n2 : s.blasVaList.isEmpty = false := by
    cases h : s.blasVaList with
    | nil => exact absurd h hva
    | cons a b => rfl
  simp only [n1, n2, Bool.false_eq_true, if_false]
  generalize s.BuildTopLevelAS tlasEnv pCL s.blasVaList s.m_tlasBuffers = built at hb ⊢
  have t2 : (built.2.1.setTlasBuffers built.2.2).trace = built.2.1.trace := rfl
  generalize built.2.1.setTlasBuffers built.2.2 = s2 at t2 ⊢
  have t3 : (s2.setTopLevelAS s2.m_tlasBuffers.pResult).trace = s2.trace := rfl
  generalize s2.setTopLevelAS s2.m_tlasBuffers.pResult = s3 at t3 ⊢
  obtain ⟨post, hpost, -⟩ := traceExt_submitBuild (P := fun _ => True) (fun _ _ => trivial)
    s3 pCL fc signalHr false
  generalize s3.submitBuild pCL fc signalHr false = s4 at hpost ⊢
  have hm : Event.instanceDescs (instanceDescsFor s.blasVaList) ∈
      pre ++ Event.instanceDescs (instanceDescsFor s.blasVaList) :: rest :=
    List.mem_append_right _ (List.mem_cons_self _ _)
  repeat' apply ite_cases (fun r : HRESULT × CD3D_RT =>
    ∃ added, r.2.trace = s.trace ++ added ∧
      Event.instanceDescs (instanceDescsFor s.blasVaList) ∈ added)
  · exact ⟨_, by show s2.trace = _; rw [t2, hb, List.append_assoc], hm⟩
  · exact ⟨_, by show s3.trace = _; rw [t3, t2, hb, List.append_assoc], hm⟩
  · exact ⟨_ ++ post, by show s4.trace = _; rw [hpost, t3, t2, hb]; simp only [List.append_assoc],
      List.mem_append_left _ hm⟩

section InstanceThms

variable {F : Type} [FloatOps F]

theorem CreateLevel_instances (s : CD3D_RT) (env : LevelBuildEnv F)
    (hdev : ∀ i, (env.records i).blas.result ≠ 0 ∧ (env.records i).blas.resultVA ≠ 0) :
    ∃ added, (s.CreateLevelGeometryBLASAndTLAS env).2.trace = s.trace ++ added ∧
      (∀ descs, Event.instanceDescs descs ∈ added →
        descs = instanceDescsFor (added.filterMap blasDest)) ∧
      (reachesCommandList s env = true →
        added.filterMap blasDest =
          (s.CreateLevelGeometryBLASAndTLAS env).2.m_sceneBLAS.map fun b => b.resultVA) := by
  cases h : reachesCommandList s env with
  | false =>
    obtain ⟨_, queue, hq⟩ := CreateLevel_early s env h
    rw [hq]
    refine ⟨[], by rw [List.append_nil]; rfl, ?_, ?_⟩
    · intro descs hd
      cases hd
    · intro hh
      cases hh
  | true =>
    obtain ⟨queue, l, pCL, _, hl, he⟩ := CreateLevel_reached s env h
    rw [he]
    have hl8 := selectLevelGeometry_length _ _ _ _ hl
    have t1 : (s.setCommandQueue queue).trace = s.trace := rfl
    generalize s.setCommandQueue queue = s1 at t1 ⊢
    have t2 := traceExt_clearPrevious (P := fun e => ∃ p c, e = Event.release p c)
      (fun p c => ⟨p, c, rfl⟩) s1
    have c1 := (clearPrevious_fields s1).1
    generalize s1.clearPrevious = s2 at t2 c1 ⊢
    have t3 := buildLevelBLAS_dests env.records hdev pCL l 0 s2
    have c2 := (buildLevelBLAS_fields env.records pCL l 0 s2).2.2
    rw [c1, List.length_nil, Nat.zero_add] at c2
    generalize buildLevelBLAS env.records pCL 0 l s2 = s3 at t3 c2 ⊢
    have t4 := finishLevelBuild_instances s3 env.tlas pCL env.closeHr env.fenceCreated
      env.signalHr (le_trans c2 hl8)
    have c4 := finishLevelBuild_m_sceneBLAS s3 env.tlas pCL env.closeHr env.fenceCreated
      env.signalHr
    generalize (s3.finishLevelBuild env.tlas pCL env.closeHr env.fenceCreated env.signalHr).2 = s4
      at t4 c4 ⊢
    obtain ⟨a2, e2, p2⟩ := t2
    obtain ⟨a3, built, e3, m3, d3, n3, i3⟩ := t3
    obtain ⟨a4, e4, p4⟩ := t4
    rw [c1, List.nil_append] at m3
    have hva : s3.blasVaList = built.map fun b => b.resultVA := by
      rw [blasVaList_of_nonzero s3 (by rw [m3]; exact n3), m3]
    have f2 : a2.filterMap blasDest = [] := by
      rw [List.filterMap_eq_nil_iff]
      intro x hx
      obtain ⟨q, c, rfl⟩ := p2 x hx
      rfl
    have f4 : a4.filterMap blasDest = [] := by
      rw [List.filterMap_eq_nil_iff]
      intro x hx
      exact (p4 x hx).1
    have fall : (a2 ++ a3 ++ a4).filterMap blasDest = built.map fun b => b.resultVA := by
      rw [List.filterMap_append, List.filterMap_append, f2, f4, d3, List.nil_append,
        List.append_nil]
    refine ⟨a2 ++ a3 ++ a4, by rw [e4, e3, e2, t1]; simp only [List.append_assoc], ?_, ?_⟩
    · intro descs hd
      rw [fall, ← hva]
      rcases List.mem_append.1 hd with hd | hd
      · rcases List.mem_append.1 hd with hd | hd
        · obtain ⟨q, c, hq⟩ := p2 _ hd
          cases hq
        · exact absurd hd (i3 descs)
      · exact (p4 _ hd).2 descs rfl
    · intro _
      rw [fall, c4, m3]

omit [FloatOps F] in
theorem buildLevelBLAS_no_instances (records : Nat → RecordBuildEnv) (pCL : Ptr)
    (geo : List (SafeGeometryData F)) (i : Nat) (s0 s : CD3D_RT)
    (h : TraceExt (fun e => ∀ descs, e ≠ Event.instanceDescs descs) s0 s) :
    TraceExt (fun e => ∀ descs, e ≠ Event.instanceDescs descs) s0
      (buildLevelBLAS records pCL i geo s) := by
  have hrel : ∀ (x : CD3D_RT) (r : Ptr),
      TraceExt (fun e => ∀ descs, e ≠ Event.instanceDescs descs) x (x.Release r) :=
    fun x r => TraceExt.emit _ _ (fun descs => by simp)
  induction geo generalizing i s with
  | nil => exact h
  | cons g rest ih =>
    unfold buildLevelBLAS
    simp only
    cases CreateDefaultBufferFromData (g.vertices.length * 12) (records i).vb with
    | none => exact ih _ _ h
    | some vb =>
      cases CreateDefaultBufferFromData (g.indices.length * 4) (records i).ib with
      | none => exact ih _ _ ((h.transT (hrel _ _)).transT (hrel _ _))
      | some ib =>
        simp only
        have h0 : TraceExt (fun e => ∀ descs, e ≠ Event.instanceDescs descs) s0
            (s.pushKeepAlive (UploadBufferKeepAlive.mk vb.1 ib.1 vb.2 ib.2 g.debugName)) :=
          h.transT (TraceExt.of_eqT rfl)
        generalize s.pushKeepAlive (UploadBufferKeepAlive.mk vb.1 ib.1 vb.2 ib.2 g.debugName) = sk
          at h0 ⊢
        have hb := BuildBottomLevelAS_fresh sk (records i).blas pCL (records i).vbVA
          (g.vertices.length % 4294967296) 12
          DXGI_FORMAT_R32G32B32_FLOAT (records i).ibVA (g.indices.length % 4294967296)
          DXGI_FORMAT_R32_UINT _ rfl
        generalize sk.BuildBottomLevelAS (records i).blas pCL (records i).vbVA
          (g.vertices.length % 4294967296) 12 DXGI_FORMAT_R32G32B32_FLOAT (records i).ibVA
          (g.indices.length % 4294967296) DXGI_FORMAT_R32_UINT {} = built at hb ⊢
        apply ih
        rcases hb with ⟨hs, e1, -, -⟩ | ⟨hs, ht, -⟩
        · rw [if_pos hs, e1]
          exact step_pushSceneBLAS _ _ (h0.transT (TraceExt.emit _ _ (fun descs => by simp)))
        · rw [hs]
          simp only [Bool.false_eq_true, if_false]
          exact h0.transT (ht.monoT (fun e he descs => by
            obtain ⟨p, c, rfl⟩ := he
            simp))

theorem CreateLevel_instances_any (s : CD3D_RT) (env : LevelBuildEnv F) :
    TraceExt (fun e => ∀ descs, e = Event.instanceDescs descs →
        descs = instanceDescsFor (s.CreateLevelGeometryBLASAndTLAS env).2.blasVaList) s
      (s.CreateLevelGeometryBLASAndTLAS env).2 := by
  cases h : reachesCommandList s env with
  | false =>
    obtain ⟨_, queue, hq⟩ := CreateLevel_early s env h
    rw [hq]
    exact TraceExt.of_eqT rfl
  | true =>
    obtain ⟨queue, l, pCL, _, hl, he⟩ := CreateLevel_reached s env h
    rw [he]
    have hl8 := selectLevelGeometry_length _ _ _ _ hl
    have t1 : TraceExt (fun e => ∀ descs, e ≠ Event.instanceDescs descs) s
        (s.setCommandQueue queue) := TraceExt.of_eqT rfl
    generalize s.setCommandQueue queue = s1 at t1 ⊢
    have t2 := t1.transT (traceExt_clearPrevious
      (P := fun e => ∀ descs, e ≠ Event.instanceDescs descs) (fun p c descs => by simp) s1)
    have c1 := (clearPrevious_fields s1).1
    generalize s1.clearPrevious = s2 at t2 c1 ⊢
    have t3 := buildLevelBLAS_no_instances env.records pCL l 0 s s2 t2
    have c2 := (buildLevelBLAS_fields env.records pCL l 0 s2).2.2
    rw [c1, List.length_nil, Nat.zero_add] at c2
    generalize buildLevelBLAS env.records pCL 0 l s2 = s3 at t3 c2 ⊢
    have t4 := finishLevelBuild_instances s3 env.tlas pCL env.closeHr env.fenceCreated
      env.signalHr (le_trans c2 hl8)
    have c4 := finishLevelBuild_m_sceneBLAS s3 env.tlas pCL env.closeHr env.fenceCreated
      env.signalHr
    generalize (s3.finishLevelBuild env.tlas pCL env.closeHr env.fenceCreated env.signalHr).2 = s4
      at t4 c4 ⊢
    have hva : s4.blasVaList = s3.blasVaList := by
      unfold blasVaList
      rw [c4]
    rw [hva]
    exact (t3.monoT (fun e he descs hd => absurd hd (he descs))).transT
      (t4.monoT (fun e he => he.2))

/-- A call of `CreateLevelGeometryBLASAndTLAS` that succeeds has written, in
the course of the call, the instance array of the non-zero result addresses of
`m_sceneBLAS`. -/
theorem CreateLevel_written (s : CD3D_RT) (env : LevelBuildEnv F) :
    SUCCEEDED (s.CreateLevelGeometryBLASAndTLAS env).1 = true →
      ∃ added, (s.CreateLevelGeometryBLASAndTLAS env).2.trace = s.trace ++ added ∧
        Event.instanceDescs
          (instanceDescsFor (s.CreateLevelGeometryBLASAndTLAS env).2.blasVaList) ∈ added := by
  intro hs
  cases h : reachesCommandList s env with
  | false =>
    obtain ⟨hf, -⟩ := CreateLevel_early s env h
    exact absurd ((SUCCEEDED_of_FAILED _ hf).symm.trans hs) (by decide)
  | true =>
    obtain ⟨queue, l, pCL, _, hl, he⟩ := CreateLevel_reached s env h
    rw [he] at hs ⊢
    have hl8 := selectLevelGeometry_length _ _ _ _ hl
    have t1 : TraceExt (fun _ => True) s (s.setCommandQueue queue) := TraceExt.of_eqT rfl
    generalize s.setCommandQueue queue = s1 at t1 hs ⊢
    have t2 := t1.transT (traceExt_clearPrevious (P := fun _ => True) (fun _ _ => trivial) s1)
    have c1 := (clearPrevious_fields s1).1
    generalize s1.clearPrevious = s2 at t2 c1 hs ⊢
    have t3 := step_buildLevelBLAS (P := fun _ => True) (fun _ _ => trivial) env.records pCL l 0
      s2 t2
    have c2 := (buildLevelBLAS_fields env.records pCL l 0 s2).2.2
    rw [c1, List.length_nil, Nat.zero_add] at c2
    generalize buildLevelBLAS env.records pCL 0 l s2 = s3 at t3 c2 hs ⊢
    obtain ⟨added, ha, hm⟩ := finishLevelBuild_written s3 env.tlas pCL env.closeHr
      env.fenceCreated env.signalHr (le_trans c2 hl8) hs
    have c4 := finishLevelBuild_m_sceneBLAS s3 env.tlas pCL env.closeHr env.fenceCreated
      env.signalHr
    generalize (s3.finishLevelBuild env.tlas pCL env.closeHr env.fenceCreated env.signalHr).2 = s4
      at ha c4 ⊢
    have hva : s4.blasVaList = s3.blasVaList := by
      unfold blasVaList
      rw [c4]
    obtain ⟨pre, hpre, -⟩ := t3
    rw [hva]
    exact ⟨pre ++ added, by rw [ha, hpre, List.append_assoc], List.mem_append_right _ hm⟩

theorem CreateLevel_reached_list (s : CD3D_RT) (env : LevelBuildEnv F)
    (h : reachesCommandList s env = true) :
    s.m_pDevice ≠ 0 ∧
    ∃ queue l pCL, env.commandList = some pCL ∧
      selectLevelGeometry env.extracted env.terrain env.cam = some l ∧
      s.CreateLevelGeometryBLASAndTLAS env =
        (buildLevelBLAS env.records pCL 0 l (s.setCommandQueue queue).clearPrevious).finishLevelBuild
          env.tlas pCL env.closeHr env.fenceCreated env.signalHr := by
  unfold reachesCommandList at h
  simp only [Bool.and_eq_true, decide_eq_true_eq, Bool.not_eq_true'] at h
  obtain ⟨⟨⟨⟨⟨⟨h1, h2⟩, h3⟩, h4⟩, h5⟩, h6⟩, h7⟩ := h
  refine ⟨h1, ?_⟩
  cases hq : env.refreshQueue with
  | none => rw [hq] at h3; exact absurd h3 (by simp)
  | some queue =>
    rw [hq] at h3
    have h3' : queue ≠ 0 := by simpa using h3
    cases hs : selectLevelGeometry env.extracted env.terrain env.cam with
    | none => rw [hs] at h5; exact absurd h5 (by simp)
    | some l =>
      cases ha : env.allocator with
      | none => rw [ha] at h6; exact absurd h6 (by simp)
      | some al =>
        cases hc : env.commandList with
        | none => rw [hc] at h7; exact absurd h7 (by simp)
        | some pCL =>
          refine ⟨queue, l, pCL, rfl, rfl, ?_⟩
          unfold CreateLevelGeometryBLASAndTLAS
          rw [if_neg h1, h2, hq]
          simp only [Bool.false_eq_true, if_false]
          rw [if_neg (show ¬ (s.setCommandQueue queue).m_pCommandQueue = 0 from h3'), h4, hs, ha, hc]
          simp only [Bool.false_eq_true, if_false]

/-- A call of `CreateLevelGeometryBLASAndTLAS` that gets to its command list, a
non-null one, and builds at least one bottom-level structure with a result
buffer and a non-zero result address, on a device that is not removed, creates
the upload buffer for the instances and maps it, writes the instance array of
the non-zero result addresses of `m_sceneBLAS`. -/
theorem CreateLevel_writes (s : CD3D_RT) (env : LevelBuildEnv F)
    (hr : reachesCommandList s env = true) (hcl : env.commandList ≠ some 0)
    (hres : (s.CreateLevelGeometryBLASAndTLAS env).2.m_sceneBLASResults ≠ [])
    (hva : (s.CreateLevelGeometryBLASAndTLAS env).2.blasVaList ≠ [])
    (hrem : FAILED env.tlas.deviceRemovedHr = false) (hup : FAILED env.tlas.uploadHr = false)
    (hupp : env.tlas.upload ≠ 0) (hmap : FAILED env.tlas.mapHr = false)
    (hmapped : env.tlas.mapped = true) :
    ∃ added, (s.CreateLevelGeometryBLASAndTLAS env).2.trace = s.trace ++ added ∧
      Event.instanceDescs
        (instanceDescsFor (s.CreateLevelGeometryBLASAndTLAS env).2.blasVaList) ∈ added := by
  obtain ⟨hd, queue, l, pCL, hc, hl, he⟩ := CreateLevel_reached_list s env hr
  have hpCL : pCL ≠ 0 := fun h0 => hcl (by rw [hc, h0])
  rw [he] at hres hva ⊢
  have hl8 := selectLevelGeometry_length _ _ _ _ hl
  have t1 : TraceExt (fun _ => True) s (s.setCommandQueue queue) := TraceExt.of_eqT rfl
  have d1 : (s.setCommandQueue queue).m_pDevice = s.m_pDevice := rfl
  generalize s.setCommandQueue queue = s1 at t1 d1 hres hva ⊢
  have t2 := t1.transT (traceExt_clearPrevious (P := fun _ => True) (fun _ _ => trivial) s1)
  have c1 := (clearPrevious_fields s1).1
  have d2 := (clearPrevious_m_pDevice s1).trans d1
  generalize s1.clearPrevious = s2 at t2 c1 d2 hres hva ⊢
  have t3 := step_buildLevelBLAS (P := fun _ => True) (fun _ _ => trivial) env.records pCL l 0
    s2 t2
  have c2 := (buildLevelBLAS_fields env.records pCL l 0 s2).2.2
  have d3 := (buildLevelBLAS_m_pDevice env.records pCL l 0 s2).trans d2
  rw [c1, List.length_nil, Nat.zero_add] at c2
  generalize buildLevelBLAS env.records pCL 0 l s2 = s3 at t3 c2 d3 hres hva ⊢
  have c4 := finishLevelBuild_m_sceneBLAS s3 env.tlas pCL env.closeHr env.fenceCreated
    env.signalHr
  have c5 := finishLevelBuild_m_sceneBLASResults s3 env.tlas pCL env.closeHr env.fenceCreated
    env.signalHr
  have hva3 : (s3.finishLevelBuild env.tlas pCL env.closeHr env.fenceCreated
      env.signalHr).2.blasVaList = s3.blasVaList := by
    unfold blasVaList
    rw [c4]
  rw [hva3] at hva ⊢
  rw [c5] at hres
  obtain ⟨added, ha, hm⟩ := finishLevelBuild_writes s3 env.tlas pCL env.closeHr
    env.fenceCreated env.signalHr (le_trans c2 hl8) (by rw [d3]; exact hd) hpCL hres hva
    hrem hup hupp hmap hmapped
  obtain ⟨pre, hpre, -⟩ := t3
  exact ⟨pre ++ added, by rw [ha, hpre, List.append_assoc], List.mem_append_right _ hm⟩

/-- C13: the instance array `BuildTopLevelAS` writes for a list of `n` result
addresses has exactly `n` descriptors, and descriptor `i` has the address at
position `i` of the list as `AccelerationStructure`, `InstanceID = i`, the 3x4
identity as `Transform`, `InstanceMask = 0xFF`,
`InstanceContributionToHitGroupIndex = 0` and no flags.  For a list of at most
100000 addresses every instance array the call writes is this array, and a call
that succeeds has written it.  In `CreateLevelGeometryBLASAndTLAS` the list
handed over is the list of the non-zero result addresses of `m_sceneBLAS`;
when the device gives every bottom-level structure it builds a non-null result
buffer with a non-zero address, these are the destination addresses of the
bottom-level builds this call recorded, in the order of the builds, and
`m_sceneBLAS` holds exactly these structures.  The array is written: for a
list the call accepts (device and command list at hand, between 1 and 100000
addresses, none of them zero), on a device that is not removed, creates the
upload buffer and maps it, `BuildTopLevelAS` writes this array right after the
release of the previous buffers and writes no other array; and a call of
`CreateLevelGeometryBLASAndTLAS` that succeeds has written, in the course of
the call, the array of the non-zero result addresses of `m_sceneBLAS`; so has
a call that gets to its command list, a non-null one, and builds at least one
bottom-level structure with a result buffer and a non-zero result address, on
a device that is not removed, creates the upload buffer and maps it. -/
theorem C13_instance_array :
    (∀ l : List Nat, (instanceDescsFor l).length = l.length ∧
      ∀ (i va : Nat), l[i]? = some va →
        (instanceDescsFor l)[i]? = some
          ({ Transform := [1, 0, 0, 0, 0, 1, 0, 0, 0, 0, 1, 0]
             InstanceID := i
             InstanceMask := 0xFF
             InstanceContributionToHitGroupIndex := 0
             Flags := 0
             AccelerationStructure := va } : InstanceDesc)) ∧
    (∀ (s : CD3D_RT) (env : TlasEnv) (pCmdList : Ptr) (l : List Nat)
        (outTLAS : AccelerationStructureBuffers), l.length ≤ 100000 →
      TraceExt (fun e => ∀ descs, e = Event.instanceDescs descs → descs = instanceDescsFor l) s
        (s.BuildTopLevelAS env pCmdList l outTLAS).2.1 ∧
      (SUCCEEDED (s.BuildTopLevelAS env pCmdList l outTLAS).1 = true →
        Event.instanceDescs (instanceDescsFor l) ∈
          (s.BuildTopLevelAS env pCmdList l outTLAS).2.1.trace)) ∧
    (∀ (s : CD3D_RT) (env : LevelBuildEnv F),
      TraceExt (fun e => ∀ descs, e = Event.instanceDescs descs →
          descs = instanceDescsFor (s.CreateLevelGeometryBLASAndTLAS env).2.blasVaList) s
        (s.CreateLevelGeometryBLASAndTLAS env).2) ∧
    (∀ (s : CD3D_RT) (env : LevelBuildEnv F),
      (∀ i, (env.records i).blas.result ≠ 0 ∧ (env.records i).blas.resultVA ≠ 0) →
      ∃ added, (s.CreateLevelGeometryBLASAndTLAS env).2.trace = s.trace ++ added ∧
        (∀ descs, Event.instanceDescs descs ∈ added →
          descs = instanceDescsFor (added.filterMap blasDest)) ∧
        (reachesCommandList s env = true →
          added.filterMap blasDest =
            (s.CreateLevelGeometryBLASAndTLAS env).2.m_sceneBLAS.map fun b => b.resultVA)) ∧
    (∀ (s : CD3D_RT) (env : TlasEnv) (pCmdList : Ptr) (l : List Nat)
        (outTLAS : AccelerationStructureBuffers),
      s.m_pDevice ≠ 0 → pCmdList ≠ 0 → l ≠ [] → l.length ≤ 100000 → (∀ va ∈ l, va ≠ 0) →
      FAILED env.deviceRemovedHr = false → FAILED env.uploadHr = false → env.upload ≠ 0 →
      FAILED env.mapHr = false → env.mapped = true →
      ∃ rest, (s.BuildTopLevelAS env pCmdList l outTLAS).2.1.trace =
          (s.RT_ReleaseASBuffers outTLAS).1.trace ++
            Event.instanceDescs (instanceDescsFor l) :: rest ∧
        ∀ e ∈ rest, ∀ descs, e ≠ Event.instanceDescs descs) ∧
    (∀ (s : CD3D_RT) (env : LevelBuildEnv F),
      SUCCEEDED (s.CreateLevelGeometryBLASAndTLAS env).1 = true →
      ∃ added, (s.CreateLevelGeometryBLASAndTLAS env).2.trace = s.trace ++ added ∧
        Event.instanceDescs
          (instanceDescsFor (s.CreateLevelGeometryBLASAndTLAS env).2.blasVaList) ∈ added) ∧
    (∀ (s : CD3D_RT) (env : LevelBuildEnv F),
      reachesCommandList s env = true → env.commandList ≠ some 0 →
      (s.CreateLevelGeometryBLASAndTLAS env).2.m_sceneBLASResults ≠ [] →
      (s.CreateLevelGeometryBLASAndTLAS env).2.blasVaList ≠ [] →
      FAILED env.tlas.deviceRemovedHr = false → FAILED env.tlas.uploadHr = false →
      env.tlas.upload ≠ 0 → FAILED env.tlas.mapHr = false → env.tlas.mapped = true →
      ∃ added, (s.CreateLevelGeometryBLASAndTLAS env).2.trace = s.trace ++ added ∧
        Event.instanceDescs
          (instanceDescsFor (s.CreateLevelGeometryBLASAndTLAS env).2.blasVaList) ∈ added) := by
  refine ⟨?_, ?_, CreateLevel_instances_any, CreateLevel_instances,
    BuildTopLevelAS_accepted, CreateLevel_written, CreateLevel_writes⟩
  · intro l
    refine ⟨instanceDescsFor_length l, ?_⟩
    intro i va h
    rw [instanceDescsFor_getElem?, h]
    rfl
  · intro s env pCmdList l outTLAS hlen
    have hlt : l.length < 4294967296 := lt_of_le_of_lt hlen (by decide)
    have htake := instanceDescsFor_take l hlt
    constructor
    · refine traceExt_BuildTopLevelAS_events (fun r c descs e => by cases e) s env pCmdList l
        outTLAS ?_ (fun d descs e => by cases e)
      intro descs e
      rw [htake] at e
      exact (Event.instanceDescs.inj e).symm
    · intro hs
      have := BuildTopLevelAS_written s env pCmdList l outTLAS hs
      rw [htake] at this
      exact this

end InstanceThms


/-! ### The signalled counter and the shape of the deferred queue along a run -/

section OrderlyBase

variable {Q : RT_DeferredRelease → Prop}

theorem Orderly.reflO (Q : RT_DeferredRelease → Prop) (s : CD3D_RT) : Orderly Q s s :=
  ⟨fun h => h, le_refl _, [], by simp, by simp [signals], by simp [signals]⟩

theorem Orderly.transO {s s' s'' : CD3D_RT} (h1 : Orderly Q s s') (h2 : Orderly Q s' s'') :
    Orderly Q s s'' := by
  obtain ⟨q1, l1, a1, e1, p1, b1⟩ := h1
  obtain ⟨q2, l2, a2, e2, p2, b2⟩ := h2
  refine ⟨fun h => q2 (q1 h), le_trans l1 l2, a1 ++ a2, by rw [e2, e1, List.append_assoc], ?_, ?_⟩
  · unfold signals at *
    rw [List.filterMap_append, List.pairwise_append]
    refine ⟨p1, p2, ?_⟩
    intro x hx y hy
    have hx' := (b1 x hx).2
    have hy' := (b2 y hy).1
    omega
  · intro v hv
    unfold signals at *
    rw [List.filterMap_append, List.mem_append] at hv
    rcases hv with hv | hv
    · have := b1 v hv
      omega
    · have := b2 v hv
      omega

theorem Orderly.of_fieldsO {s s' : CD3D_RT} (ht : s'.trace = s.trace)
    (hd : s'.m_deferred = s.m_deferred)
    (hl : s'.m_lastSignaledFence = s.m_lastSignaledFence) : Orderly Q s s' :=
  ⟨fun h => by rw [hd]; exact h, by rw [hl], [], by simp [ht], by simp [signals],
    by simp [signals]⟩

theorem Orderly.emitO (s : CD3D_RT) (e : Event) (he : signalValue e = none) :
    Orderly Q s (s.emit e) :=
  ⟨fun h => h, le_refl _, [e], rfl, by simp [signals, he], by simp [signals, he]⟩

theorem Orderly.signalO {s s' : CD3D_RT} (e : Event)
    (ht : s'.trace = s.trace ++ [e]) (he : signalValue e = some (s.m_lastSignaledFence + 1))
    (hd : s'.m_deferred = s.m_deferred)
    (hl : s'.m_lastSignaledFence = s.m_lastSignaledFence + 1) : Orderly Q s s' := by
  refine ⟨fun h => by rw [hd]; exact h, by rw [hl]; omega, [e], ht, by simp [signals, he], ?_⟩
  intro v hv
  simp only [signals, List.filterMap_cons, he, List.filterMap_nil, List.mem_singleton] at hv
  subst hv
  rw [hl]
  omega

theorem Orderly.bumpO {s s' : CD3D_RT} (ht : s'.trace = s.trace)
    (hd : s'.m_deferred = s.m_deferred)
    (hl : s'.m_lastSignaledFence = s.m_lastSignaledFence + 1) : Orderly Q s s' :=
  ⟨fun h => by rw [hd]; exact h, by rw [hl]; omega, [], by simp [ht], by simp [signals],
    by simp [signals]⟩

theorem Orderly.pushO {s s' : CD3D_RT} (d : RT_DeferredRelease) (hq : Q d)
    (ht : s'.trace = s.trace) (hd : s'.m_deferred = s.m_deferred ++ [d])
    (hl : s'.m_lastSignaledFence = s.m_lastSignaledFence) : Orderly Q s s' := by
  refine ⟨?_, by rw [hl], [], by simp [ht], by simp [signals], by simp [signals]⟩
  intro h x hx
  rw [hd, List.mem_append, List.mem_singleton] at hx
  rcases hx with hx | hx
  · exact h x hx
  · rw [hx]; exact hq

theorem Orderly.clearO {s s' : CD3D_RT} (ht : s'.trace = s.trace) (hd : s'.m_deferred = [])
    (hl : s'.m_lastSignaledFence = s.m_lastSignaledFence) : Orderly Q s s' := by
  refine ⟨?_, by rw [hl], [], by simp [ht], by simp [signals], by simp [signals]⟩
  intro _ x hx
  rw [hd] at hx
  cases hx

end OrderlyBase

section OrderlySteps

variable {Q : RT_DeferredRelease → Prop} {s0 s : CD3D_RT}

theorem ord_ite (c : Prop) [Decidable c] {a b : CD3D_RT} (ha : Orderly Q s0 a)
    (hb : Orderly Q s0 b) : Orderly Q s0 (if c then a else b) := by
  split <;> assumption

theorem ord_quiet (f : CD3D_RT → CD3D_RT)
    (hf : ∀ x, (f x).trace = x.trace ∧ (f x).m_deferred = x.m_deferred ∧
      (f x).m_lastSignaledFence = x.m_lastSignaledFence)
    (h : Orderly Q s0 s) : Orderly Q s0 (f s) :=
  h.transO (Orderly.of_fieldsO (hf s).1 (hf s).2.1 (hf s).2.2)

theorem ord_emit (e : Event) (he : signalValue e = none) (h : Orderly Q s0 s) :
    Orderly Q s0 (s.emit e) :=
  h.transO (Orderly.emitO s e he)

theorem ord_advance (h : Orderly Q s0 s) : Orderly Q s0 s.advance :=
  ord_quiet (fun x => x.advance) (fun _ => ⟨rfl, rfl, rfl⟩) h

theorem ord_setTlasBuffers (v : AccelerationStructureBuffers) (h : Orderly Q s0 s) :
    Orderly Q s0 (s.setTlasBuffers v) :=
  ord_quiet (fun x => x.setTlasBuffers v) (fun _ => ⟨rfl, rfl, rfl⟩) h

theorem ord_setBlasBuffers (v : AccelerationStructureBuffers) (h : Orderly Q s0 s) :
    Orderly Q s0 (s.setBlasBuffers v) :=
  ord_quiet (fun x => x.setBlasBuffers v) (fun _ => ⟨rfl, rfl, rfl⟩) h

theorem ord_setSceneBLAS (v : List AccelerationStructureBuffers) (h : Orderly Q s0 s) :
    Orderly Q s0 (s.setSceneBLAS v) :=
  ord_quiet (fun x => x.setSceneBLAS v) (fun _ => ⟨rfl, rfl, rfl⟩) h

theorem ord_setSceneBLASResults (v : List Ptr) (h : Orderly Q s0 s) :
    Orderly Q s0 (s.setSceneBLASResults v) :=
  ord_quiet (fun x => x.setSceneBLASResults v) (fun _ => ⟨rfl, rfl, rfl⟩) h

theorem ord_setTopLevelAS (v : Ptr) (h : Orderly Q s0 s) : Orderly Q s0 (s.setTopLevelAS v) :=
  ord_quiet (fun x => x.setTopLevelAS v) (fun _ => ⟨rfl, rfl, rfl⟩) h

theorem ord_setCommandQueue (v : Ptr) (h : Orderly Q s0 s) :
    Orderly Q s0 (s.setCommandQueue v) :=
  ord_quiet (fun x => x.setCommandQueue v) (fun _ => ⟨rfl, rfl, rfl⟩) h

theorem ord_pushKeepAlive (v : UploadBufferKeepAlive) (h : Orderly Q s0 s) :
    Orderly Q s0 (s.pushKeepAlive v) :=
  ord_quiet (fun x => x.pushKeepAlive v) (fun _ => ⟨rfl, rfl, rfl⟩) h

theorem ord_recordWork (h : Orderly Q s0 s) : Orderly Q s0 s.recordWork :=
  ord_quiet (fun x => x.recordWork) (fun _ => ⟨rfl, rfl, rfl⟩) h

theorem ord_detachScene (h : Orderly Q s0 s) : Orderly Q s0 s.detachScene :=
  ord_setSceneBLASResults _ (ord_setSceneBLAS _ h)

theorem ord_pushSceneBLAS (b : AccelerationStructureBuffers) (va : Nat)
    (h : Orderly Q s0 s) : Orderly Q s0 (s.pushSceneBLAS b va) := by
  unfold pushSceneBLAS
  simp only
  apply ord_ite
  · exact (h.transO (Orderly.of_fieldsO rfl rfl rfl)).transO (Orderly.of_fieldsO rfl rfl rfl)
  · exact h.transO (Orderly.of_fieldsO rfl rfl rfl)

theorem ord_Release (r : Ptr) (h : Orderly Q s0 s) : Orderly Q s0 (s.Release r) :=
  ord_emit _ (by rfl) h

theorem ord_SAFE_RELEASE (r : Ptr) (h : Orderly Q s0 s) : Orderly Q s0 (s.SAFE_RELEASE r) := by
  unfold SAFE_RELEASE
  exact ord_ite _ (ord_Release _ h) h

theorem ord_waitForLastASBuild (h : Orderly Q s0 s) : Orderly Q s0 s.waitForLastASBuild := by
  obtain ⟨c, t, e, -⟩ := waitForLastASBuild_fields s
  rw [e]
  exact h.transO (Orderly.of_fieldsO rfl rfl rfl)

theorem ord_RT_WaitForLastDispatch (h : Orderly Q s0 s) :
    Orderly Q s0 s.RT_WaitForLastDispatch := by
  unfold RT_WaitForLastDispatch
  apply ord_ite _ h
  simp only
  exact ord_ite _ (ord_advance h) (ord_advance (ord_advance h))

theorem ord_RT_InitFrameContexts (env : InitFrameEnv) (h : Orderly Q s0 s) :
    Orderly Q s0 (s.RT_InitFrameContexts env) := by
  unfold RT_InitFrameContexts
  apply ord_ite _ h
  simp only
  have h1 : Orderly Q s0 ({ s with m_frameIndex := 0 } : CD3D_RT) :=
    h.transO (Orderly.of_fieldsO rfl rfl rfl)
  cases env.fence with
  | none => exact h1
  | some fence => exact h1.transO (Orderly.of_fieldsO rfl rfl rfl)

theorem ord_waitForFrameContext (fenceValue : Nat) (h : Orderly Q s0 s) :
    Orderly Q s0 (s.waitForFrameContext fenceValue) := by
  unfold waitForFrameContext
  apply ord_ite _ _ h
  simp only
  have h3 : Orderly Q s0 (if s.m_frameFence ≠ 0 then s.GetCompletedValue
      else (fenceValue, s)).2 := by
    apply ite_cases (fun r : Nat × CD3D_RT => Orderly Q s0 r.2)
    · exact ord_advance h
    · exact h
  exact ord_ite _ (ord_advance h3) h3

theorem ord_RT_BeginFrameAllocator (env : BeginFrameEnv) (h : Orderly Q s0 s) :
    Orderly Q s0 (s.RT_BeginFrameAllocator env).2 := by
  unfold RT_BeginFrameAllocator
  apply ite_cases (fun r : Ptr × CD3D_RT => Orderly Q s0 r.2)
  · exact h
  simp only
  have h1 : Orderly Q s0 (if s.m_frameFence = 0 then s.RT_InitFrameContexts env.init else s) :=
    ord_ite _ (ord_RT_InitFrameContexts _ h) h
  generalize (if s.m_frameFence = 0 then s.RT_InitFrameContexts env.init else s) = s1 at h1 ⊢
  apply ite_cases (fun r : Ptr × CD3D_RT => Orderly Q s0 r.2)
  · apply ite_cases (fun r : Ptr × CD3D_RT => Orderly Q s0 r.2)
    · exact h1.transO (Orderly.of_fieldsO rfl rfl rfl)
    · exact h1.transO (Orderly.of_fieldsO rfl rfl rfl)
  · have h2 := ord_waitForFrameContext (s1.m_frameCtx s1.ctxIndex).fenceValue h1
    generalize s1.waitForFrameContext (s1.m_frameCtx s1.ctxIndex).fenceValue = s2 at h2 ⊢
    exact (ord_emit _ (by rfl) h2).transO (Orderly.of_fieldsO rfl rfl rfl)

theorem ord_signalAndStamp (h : Orderly Q s0 s) : Orderly Q s0 s.signalAndStamp := by
  obtain ⟨f1, -, -, -, f5, f6, -, -⟩ := signalAndStamp_fields s
  exact h.transO (Orderly.signalO _ f5 rfl f6 f1)

theorem ord_reclaimAllocators (completed : Nat) (l : List RetiredAllocator) (s : CD3D_RT)
    (h : Orderly Q s0 s) : Orderly Q s0 (reclaimAllocators completed l s).2 := by
  induction l generalizing s with
  | nil => exact h
  | cons r rest ih =>
    unfold reclaimAllocators
    split
    · exact ih s h
    · split
      · exact ih _ (ord_emit _ (by rfl) h)
      · exact ih s h

theorem ord_reclaimHeaps (done : Nat) (l : List RT_RetiredHeap) (s : CD3D_RT)
    (h : Orderly Q s0 s) : Orderly Q s0 (reclaimHeaps done l s).2 := by
  induction l generalizing s with
  | nil => exact h
  | cons r rest ih =>
    unfold reclaimHeaps
    split
    · exact ih _ (ord_ite _ (ord_emit _ (by rfl) h) h)
    · exact ih s h

theorem ord_RT_ReclaimRetiredAllocators (h : Orderly Q s0 s) :
    Orderly Q s0 s.RT_ReclaimRetiredAllocators := by
  unfold RT_ReclaimRetiredAllocators
  simp only
  have h1 : ∀ x : CD3D_RT, Orderly Q s0 x → Orderly Q s0
      ({ (reclaimAllocators x.GetCompletedValue.1 x.GetCompletedValue.2.m_retiredAllocators
          x.GetCompletedValue.2).2 with
        m_retiredAllocators := (reclaimAllocators x.GetCompletedValue.1
          x.GetCompletedValue.2.m_retiredAllocators x.GetCompletedValue.2).1 } : CD3D_RT) := by
    intro x hx
    exact (ord_reclaimAllocators _ _ _ (ord_advance hx)).transO (Orderly.of_fieldsO rfl rfl rfl)
  have h2 : ∀ x : CD3D_RT, Orderly Q s0 x → Orderly Q s0
      ({ (reclaimHeaps x.GetCompletedValue.1 x.GetCompletedValue.2.g_RT_RetiredHeaps
          x.GetCompletedValue.2).2 with
        g_RT_RetiredHeaps := (reclaimHeaps x.GetCompletedValue.1
          x.GetCompletedValue.2.g_RT_RetiredHeaps x.GetCompletedValue.2).1 } : CD3D_RT) := by
    intro x hx
    exact (ord_reclaimHeaps _ _ _ (ord_advance hx)).transO (Orderly.of_fieldsO rfl rfl rfl)
  have h3 := ord_ite (s.m_frameFence ≠ 0 ∧ (!s.m_retiredAllocators.isEmpty) = true) (h1 s h) h
  generalize (if s.m_frameFence ≠ 0 ∧ (!s.m_retiredAllocators.isEmpty) = true then
      ({ (reclaimAllocators s.GetCompletedValue.1 s.GetCompletedValue.2.m_retiredAllocators
          s.GetCompletedValue.2).2 with
        m_retiredAllocators := (reclaimAllocators s.GetCompletedValue.1
          s.GetCompletedValue.2.m_retiredAllocators s.GetCompletedValue.2).1 } : CD3D_RT)
      else s) = s1 at h3 ⊢
  exact ord_ite _ (h2 s1 h3) h3

theorem ord_RT_EndFrameAndSignal (h : Orderly Q s0 s) : Orderly Q s0 s.RT_EndFrameAndSignal := by
  unfold RT_EndFrameAndSignal
  apply ord_ite
  · exact h.transO (Orderly.of_fieldsO rfl rfl rfl)
  · simp only
    have h1 : Orderly Q s0 (if s.m_frameRecordedWork = true then s.signalAndStamp else s) :=
      ord_ite _ (ord_signalAndStamp h) h
    exact (ord_RT_ReclaimRetiredAllocators h1).transO (Orderly.of_fieldsO rfl rfl rfl)

theorem ord_releaseFrameAllocators (l : List (Fin 15)) (s : CD3D_RT) (h : Orderly Q s0 s) :
    Orderly Q s0 (releaseFrameAllocators s l) := by
  induction l generalizing s with
  | nil => exact h
  | cons i rest ih =>
    unfold releaseFrameAllocators
    simp only
    apply ih
    apply ord_ite
    · exact (ord_emit _ (by rfl) h).transO (Orderly.of_fieldsO rfl rfl rfl)
    · exact h

theorem ord_signalFrame (h : Orderly Q s0 s) :
    Orderly Q s0 (emit { s with m_lastSignaledFence := s.m_lastSignaledFence + 1 }
      (Event.signalFrameFence (s.m_lastSignaledFence + 1))) :=
  h.transO (Orderly.signalO _ rfl rfl rfl rfl)

theorem ord_RT_ShutdownFrameContexts (h : Orderly Q s0 s) :
    Orderly Q s0 s.RT_ShutdownFrameContexts.2 := by
  unfold RT_ShutdownFrameContexts
  apply ite_cases (fun r : Bool × CD3D_RT => Orderly Q s0 r.2)
  · exact h.transO (Orderly.bumpO rfl rfl rfl)
  · simp only
    have h0 := ord_signalFrame h
    generalize (emit { s with m_lastSignaledFence := s.m_lastSignaledFence + 1 }
      (Event.signalFrameFence (s.m_lastSignaledFence + 1))) = sg at h0 ⊢
    have h1 : Orderly Q s0 (if s.m_frameFence ≠ 0 then
        (if sg.GetCompletedValue.1 < sg.GetCompletedValue.2.m_lastSignaledFence
         then sg.GetCompletedValue.2.WaitForSingleObject
         else sg.GetCompletedValue.2)
        else s) :=
      ord_ite _ (ord_ite _ (ord_advance (ord_advance h0)) (ord_advance h0)) h
    generalize (if s.m_frameFence ≠ 0 then
        (if sg.GetCompletedValue.1 < sg.GetCompletedValue.2.m_lastSignaledFence
         then sg.GetCompletedValue.2.WaitForSingleObject
         else sg.GetCompletedValue.2)
        else s) = s1 at h1 ⊢
    have h2 := ord_releaseFrameAllocators (List.finRange 15) s1 h1
    generalize releaseFrameAllocators s1 (List.finRange 15) = s2 at h2 ⊢
    have h3 : Orderly Q s0 (if s2.m_frameFence ≠ 0 then s2.emit (Event.objectRelease s2.m_frameFence)
        else s2) := ord_ite _ (ord_emit _ (by rfl) h2) h2
    exact h3.transO (Orderly.of_fieldsO rfl rfl rfl)

theorem ord_shutdownSignal (h : Orderly Q s0 s) : Orderly Q s0 s.shutdownSignal := by
  unfold shutdownSignal
  apply ord_ite
  · exact ord_signalFrame h
  · exact h

theorem ord_submitBuild (pCL : Ptr) (fc : Bool) (hr : HRESULT) (fb : Bool)
    (h : Orderly Q s0 s) : Orderly Q s0 (s.submitBuild pCL fc hr fb) := by
  unfold submitBuild
  simp only
  have h0 := ord_emit (Event.executeCommandLists pCL) (by rfl) h
  generalize s.emit (Event.executeCommandLists pCL) = s1 at h0 ⊢
  have h1 : Orderly Q s0 (emit { s1 with m_lastSignaledFence := s1.m_lastSignaledFence + 1 }
      (Event.signalBuildFence (s1.m_lastSignaledFence + 1))) :=
    h0.transO (Orderly.signalO _ rfl rfl rfl rfl)
  apply ord_ite
  · apply ord_ite
    · exact h1.transO (Orderly.of_fieldsO rfl rfl rfl)
    · exact h1
  · apply ord_ite
    · have hb : Orderly Q s0
          ({ s1 with m_lastSignaledFence := s1.m_lastSignaledFence + 1 } : CD3D_RT) :=
        h0.transO (Orderly.bumpO rfl rfl rfl)
      exact hb.transO (Orderly.of_fieldsO rfl rfl rfl)
    · exact h0

theorem ord_drainResources (key done : Nat) (l : List Ptr) (s : CD3D_RT)
    (h : Orderly Q s0 s) : Orderly Q s0 (drainResources key done l s) := by
  induction l generalizing s with
  | nil => exact h
  | cons r rest ih =>
    unfold drainResources
    exact ih _ (ord_ite _ (ord_emit _ (by rfl) h) h)

theorem ord_drainDeferred (done : Nat) (l : List RT_DeferredRelease) (s : CD3D_RT)
    (h : Orderly Q s0 s) : Orderly Q s0 (drainDeferred done l s) := by
  induction l generalizing s with
  | nil => exact h
  | cons d rest ih =>
    unfold drainDeferred
    exact ih _ (ord_ite _ (ord_drainResources _ _ _ _ h) h)

theorem ord_drainQueue (h : Orderly Q s0 s) : Orderly Q s0 s.drainQueue := by
  unfold drainQueue
  apply ord_ite
  · simp only
    exact (ord_drainDeferred _ _ _ (ord_advance h)).transO (Orderly.clearO rfl rfl rfl)
  · exact h

theorem ord_releaseDevice (h : Orderly Q s0 s) : Orderly Q s0 s.releaseDevice := by
  unfold releaseDevice
  simp only
  exact ord_setCommandQueue _
    (ord_ite _ ((ord_emit _ (by rfl) h).transO (Orderly.of_fieldsO rfl rfl rfl)) h)

theorem ord_releaseASBuffersNow (b : AccelerationStructureBuffers) (h : Orderly Q s0 s) :
    Orderly Q s0 (s.releaseASBuffersNow b).1 := by
  unfold releaseASBuffersNow
  simp only
  exact ord_ite _ (ord_Release _ (ord_ite _ (ord_Release _ (ord_ite _ (ord_Release _ h) h))
    (ord_ite _ (ord_Release _ h) h))) (ord_ite _ (ord_Release _ (ord_ite _ (ord_Release _ h) h))
    (ord_ite _ (ord_Release _ h) h))

theorem ord_releaseTestBuffers (a b c d : Ptr) (h : Orderly Q s0 s) :
    Orderly Q s0 (s.releaseTestBuffers a b c d) := by
  unfold releaseTestBuffers
  exact ord_Release _ (ord_Release _ (ord_Release _ (ord_Release _ h)))

variable (hQ : ∀ k r, r ≠ 0 → Q { fenceValue := k, resources := [r] })
include hQ

theorem ord_RT_SafeRelease (r : Ptr) (h : Orderly Q s0 s) :
    Orderly Q s0 (s.RT_SafeRelease r).1 := by
  by_cases hr : r = 0
  · subst hr
    rw [RT_SafeRelease_null]
    exact h
  · have hw := ord_waitForLastASBuild h
    rcases RT_SafeRelease_cases s r hr with e | e | e <;> rw [e]
    · exact ord_emit _ (by rfl) (ord_advance hw)
    · exact ord_advance ((ord_advance hw).transO
        (Orderly.pushO { fenceValue := s.maxFence + 1, resources := [r] } (hQ _ _ hr)
          rfl rfl rfl))
    · exact ord_emit _ (by rfl) hw

theorem ord_RT_ReleaseASBuffers (b : AccelerationStructureBuffers) (h : Orderly Q s0 s) :
    Orderly Q s0 (s.RT_ReleaseASBuffers b).1 := by
  rw [RT_ReleaseASBuffers_fst]
  exact ord_RT_SafeRelease hQ _ (ord_RT_SafeRelease hQ _ (ord_RT_SafeRelease hQ _ h))

theorem ord_releaseEachASBuffers (l : List AccelerationStructureBuffers) (s : CD3D_RT)
    (h : Orderly Q s0 s) : Orderly Q s0 (s.releaseEachASBuffers l).1 := by
  induction l generalizing s with
  | nil => exact h
  | cons b rest ih =>
    simp only [releaseEachASBuffers]
    exact ih _ (ord_RT_ReleaseASBuffers hQ b h)

theorem ord_safeReleaseEach (l : List Ptr) (s : CD3D_RT) (h : Orderly Q s0 s) :
    Orderly Q s0 (s.safeReleaseEach l).1 := by
  induction l generalizing s with
  | nil => exact h
  | cons b rest ih =>
    simp only [safeReleaseEach]
    exact ih _ (ord_RT_SafeRelease hQ b h)

theorem ord_releaseKeepAlive (k : UploadBufferKeepAlive) (h : Orderly Q s0 s) :
    Orderly Q s0 (s.releaseKeepAlive k) := by
  unfold releaseKeepAlive
  simp only
  have step : ∀ (c : Prop) [Decidable c] (x : CD3D_RT) (r : Ptr), Orderly Q s0 x →
      Orderly Q s0 (if c then (x.RT_SafeRelease r).1 else x) :=
    fun c _ x r hx => ord_ite _ (ord_RT_SafeRelease hQ r hx) hx
  exact step _ _ _ (step _ _ _ (step _ _ _ (step _ _ _ h)))

theorem ord_foldl_releaseKeepAlive (l : List UploadBufferKeepAlive) (s : CD3D_RT)
    (h : Orderly Q s0 s) : Orderly Q s0 (l.foldl releaseKeepAlive s) := by
  induction l generalizing s with
  | nil => exact h
  | cons b rest ih =>
    simp only [List.foldl_cons]
    exact ih _ (ord_releaseKeepAlive hQ b h)

theorem ord_ClearKeepAliveUploads (h : Orderly Q s0 s) :
    Orderly Q s0 s.ClearKeepAliveUploads := by
  unfold ClearKeepAliveUploads
  exact (ord_foldl_releaseKeepAlive hQ _ _ h).transO (Orderly.of_fieldsO rfl rfl rfl)

theorem ord_BuildBottomLevelAS (env : BlasEnv) (pCmdList : Ptr) (a1 a2 a3 a4 a5 a6 a7 : Nat)
    (outBLAS : AccelerationStructureBuffers) (h : Orderly Q s0 s) :
    Orderly Q s0 (s.BuildBottomLevelAS env pCmdList a1 a2 a3 a4 a5 a6 a7 outBLAS).2.1 := by
  have h1 := ord_RT_ReleaseASBuffers hQ outBLAS h
  unfold BuildBottomLevelAS
  generalize s.RT_ReleaseASBuffers outBLAS = rel at h1 ⊢
  have h2 : ∀ b : AccelerationStructureBuffers, Orderly Q s0 (rel.1.releaseASBuffersNow b).1 :=
    fun b => ord_releaseASBuffersNow b h1
  simp only
  repeat' apply ite_cases (fun r : HRESULT × CD3D_RT × AccelerationStructureBuffers =>
    Orderly Q s0 r.2.1)
  all_goals first
    | exact h
    | exact h1
    | exact h2 _
    | exact ord_emit _ (by rfl) h1

theorem ord_BuildTopLevelAS (env : TlasEnv) (pCmdList : Ptr) (vas : List Nat)
    (outTLAS : AccelerationStructureBuffers) (h : Orderly Q s0 s) :
    Orderly Q s0 (s.BuildTopLevelAS env pCmdList vas outTLAS).2.1 := by
  have h1 := ord_RT_ReleaseASBuffers hQ outTLAS h
  unfold BuildTopLevelAS
  generalize s.RT_ReleaseASBuffers outTLAS = rel at h1 ⊢
  simp only
  have h2 := ord_Release env.upload h1
  have h3 := ord_emit (Event.instanceDescs
    ((instanceDescsFor vas).take (vas.length % 4294967296))) (by rfl) h1
  generalize rel.1.emit (Event.instanceDescs
    ((instanceDescsFor vas).take (vas.length % 4294967296))) = s3 at h3 ⊢
  have h4 := ord_Release env.upload h3
  have h5 : Orderly Q s0
      ({ s3 with g_RT_TempUploads := s3.g_RT_TempUploads ++ [env.upload] } : CD3D_RT) :=
    h3.transO (Orderly.of_fieldsO rfl rfl rfl)
  generalize ({ s3 with g_RT_TempUploads := s3.g_RT_TempUploads ++ [env.upload] } : CD3D_RT)
    = s5 at h5 ⊢
  repeat' apply ite_cases (fun r : HRESULT × CD3D_RT × AccelerationStructureBuffers =>
    Orderly Q s0 r.2.1)
  all_goals first
    | exact h
    | exact h1
    | exact h2
    | exact h4
    | exact h5
    | exact ord_emit _ (by rfl) h5

theorem ord_clearPrevious (h : Orderly Q s0 s) : Orderly Q s0 s.clearPrevious := by
  unfold clearPrevious
  simp only
  exact ord_setTopLevelAS _ (ord_setTlasBuffers _ (ord_RT_ReleaseASBuffers hQ _
    (ord_ClearKeepAliveUploads hQ (ord_setSceneBLASResults _ (ord_safeReleaseEach hQ _ _
      (ord_setSceneBLAS _ (ord_releaseEachASBuffers hQ _ _ h)))))))

theorem ord_clearOldAS (h : Orderly Q s0 s) : Orderly Q s0 s.clearOldAS := by
  unfold clearOldAS
  simp only
  exact ord_setTopLevelAS _ (ord_setBlasBuffers _ (ord_RT_ReleaseASBuffers hQ _
    (ord_setTlasBuffers _ (ord_RT_ReleaseASBuffers hQ _ h))))

theorem ord_finishLevelBuild (tlasEnv : TlasEnv) (pCL : Ptr) (closeHr : HRESULT) (fc : Bool)
    (signalHr : HRESULT) (h : Orderly Q s0 s) :
    Orderly Q s0 (s.finishLevelBuild tlasEnv pCL closeHr fc signalHr).2 := by
  unfold finishLevelBuild
  simp only
  have h2 := ord_setTlasBuffers
    (s.BuildTopLevelAS tlasEnv pCL s.blasVaList s.m_tlasBuffers).2.2
    (ord_BuildTopLevelAS hQ tlasEnv pCL s.blasVaList s.m_tlasBuffers h)
  repeat' apply ite_cases (fun r : HRESULT × CD3D_RT => Orderly Q s0 r.2)
  all_goals first
    | exact h
    | exact h2
    | exact ord_setTopLevelAS _ h2
    | exact ord_submitBuild _ _ _ _ (ord_setTopLevelAS _ h2)

theorem ord_buildTestScene (env : TestSceneEnv) (pCL a b c d : Ptr) (h : Orderly Q s0 s) :
    Orderly Q s0 (s.buildTestScene env pCL a b c d).2 := by
  unfold buildTestScene
  simp only
  have h1 := ord_setBlasBuffers
    (s.BuildBottomLevelAS env.blas pCL env.vbVA 3 12 DXGI_FORMAT_R32G32B32_FLOAT env.ibVA 3
      DXGI_FORMAT_R32_UINT s.m_blasBuffers).2.2
    (ord_BuildBottomLevelAS hQ env.blas pCL env.vbVA 3 12 DXGI_FORMAT_R32G32B32_FLOAT env.ibVA 3
      DXGI_FORMAT_R32_UINT s.m_blasBuffers h)
  generalize (s.BuildBottomLevelAS env.blas pCL env.vbVA 3 12 DXGI_FORMAT_R32G32B32_FLOAT
    env.ibVA 3 DXGI_FORMAT_R32_UINT s.m_blasBuffers) = built at h1 ⊢
  generalize built.2.1.setBlasBuffers built.2.2 = s1 at h1 ⊢
  apply ite_cases (fun r : HRESULT × CD3D_RT => Orderly Q s0 r.2)
  · exact ord_releaseTestBuffers _ _ _ _ h1
  have h2 : Orderly Q s0 (if s1.m_blasBuffers.resultVA = 0 ∧ s1.m_blasBuffers.pResult ≠ 0 then
      s1.setBlasBuffers { s1.m_blasBuffers with resultVA := env.resultVA2 } else s1) :=
    ord_ite _ (ord_setBlasBuffers _ h1) h1
  generalize (if s1.m_blasBuffers.resultVA = 0 ∧ s1.m_blasBuffers.pResult ≠ 0 then
      s1.setBlasBuffers { s1.m_blasBuffers with resultVA := env.resultVA2 } else s1) = s2 at h2 ⊢
  apply ite_cases (fun r : HRESULT × CD3D_RT => Orderly Q s0 r.2)
  · exact ord_releaseTestBuffers _ _ _ _
      (ord_setBlasBuffers _ (ord_RT_ReleaseASBuffers hQ _ h2))
  have h3 := ord_setTlasBuffers
    (s2.BuildTopLevelAS env.tlas pCL [s2.m_blasBuffers.resultVA] s2.m_tlasBuffers).2.2
    (ord_BuildTopLevelAS hQ env.tlas pCL [s2.m_blasBuffers.resultVA] s2.m_tlasBuffers h2)
  generalize (s2.BuildTopLevelAS env.tlas pCL [s2.m_blasBuffers.resultVA] s2.m_tlasBuffers) = bt
    at h3 ⊢
  generalize bt.2.1.setTlasBuffers bt.2.2 = s3 at h3 ⊢
  apply ite_cases (fun r : HRESULT × CD3D_RT => Orderly Q s0 r.2)
  · exact ord_releaseTestBuffers _ _ _ _ h3
  apply ite_cases (fun r : HRESULT × CD3D_RT => Orderly Q s0 r.2)
  · exact ord_releaseTestBuffers _ _ _ _ (ord_setTopLevelAS _ h3)
  · exact ord_submitBuild _ _ _ _ (ord_setTopLevelAS _ h3)

theorem ord_releaseScene (h : Orderly Q s0 s) : Orderly Q s0 s.releaseScene := by
  unfold releaseScene
  simp only
  exact ord_ClearKeepAliveUploads hQ (ord_setSceneBLAS _ (ord_releaseEachASBuffers hQ _ _
    (ord_setSceneBLASResults _ (ord_safeReleaseEach hQ _ _ (ord_setBlasBuffers _
      (ord_RT_ReleaseASBuffers hQ _ (ord_setTlasBuffers _ (ord_RT_ReleaseASBuffers hQ _
        (ord_setTopLevelAS _ h)))))))))

theorem ord_releaseGlobals (env : ShutdownEnv) (h : Orderly Q s0 s) :
    Orderly Q s0 (s.releaseGlobals env) := by
  have hset : ∀ (f : CD3D_RT → CD3D_RT), (∀ x, (f x).trace = x.trace ∧
      (f x).m_deferred = x.m_deferred ∧ (f x).m_lastSignaledFence = x.m_lastSignaledFence) →
      ∀ {x}, Orderly Q s0 x → Orderly Q s0 (f x) :=
    fun f hf x hx => ord_quiet f hf hx
  unfold releaseGlobals
  simp only
  have h1 : Orderly Q s0
      (if s.m_pRaytracingPSO ≠ 0 then
        (s.emit (Event.objectRelease s.m_pRaytracingPSO)).setRaytracingPSO 0
      else s) :=
    ord_ite _ (hset (fun x => x.setRaytracingPSO 0) (fun _ => ⟨rfl, rfl, rfl⟩)
      (ord_emit _ (by rfl) h)) h
  generalize (if s.m_pRaytracingPSO ≠ 0 then
        (s.emit (Event.objectRelease s.m_pRaytracingPSO)).setRaytracingPSO 0
      else s) = s1 at h1 ⊢
  have h2 : Orderly Q s0 ((s1.setRaytracingOutput 0).setReflectionOutput 0) :=
    hset (fun x => x.setReflectionOutput 0) (fun _ => ⟨rfl, rfl, rfl⟩)
      (hset (fun x => x.setRaytracingOutput 0) (fun _ => ⟨rfl, rfl, rfl⟩) h1)
  generalize (s1.setRaytracingOutput 0).setReflectionOutput 0 = s2 at h2 ⊢
  have h3 := ord_ite (s2.g_RT_AOOutputOwned = true)
    (ord_RT_SafeRelease hQ s2.g_pRT_AOOutput h2) h2
  generalize (if s2.g_RT_AOOutputOwned = true then (s2.RT_SafeRelease s2.g_pRT_AOOutput).1
    else s2) = s3 at h3 ⊢
  have h4 : Orderly Q s0 (s3.setAOOutput 0 false) :=
    hset (fun x => x.setAOOutput 0 false) (fun _ => ⟨rfl, rfl, rfl⟩) h3
  generalize s3.setAOOutput 0 false = s4 at h4 ⊢
  have h5 : Orderly Q s0
      (if s4.m_pDescriptorHeap ≠ 0 then
        (s4.emit (Event.objectRelease s4.m_pDescriptorHeap)).setDescriptorHeap 0
      else s4) :=
    ord_ite _ (hset (fun x => x.setDescriptorHeap 0) (fun _ => ⟨rfl, rfl, rfl⟩)
      (ord_emit _ (by rfl) h4)) h4
  generalize (if s4.m_pDescriptorHeap ≠ 0 then
        (s4.emit (Event.objectRelease s4.m_pDescriptorHeap)).setDescriptorHeap 0
      else s4) = s5 at h5 ⊢
  have h6 : Orderly Q s0
      (if s5.m_pConstantsBuffer ≠ 0 then (s5.Release s5.m_pConstantsBuffer).setConstantsBuffer 0
      else s5) :=
    ord_ite _ (hset (fun x => x.setConstantsBuffer 0) (fun _ => ⟨rfl, rfl, rfl⟩)
      (ord_Release _ h5)) h5
  generalize (if s5.m_pConstantsBuffer ≠ 0 then
      (s5.Release s5.m_pConstantsBuffer).setConstantsBuffer 0 else s5) = s6 at h6 ⊢
  exact hset (fun x => x.setShadersCompiled false) (fun _ => ⟨rfl, rfl, rfl⟩)
    (hset (fun x => x.setOutputSize 0 0) (fun _ => ⟨rfl, rfl, rfl⟩)
      (ord_RT_SafeRelease hQ _ (ord_RT_SafeRelease hQ _ h6)))

theorem ord_deferEachASBuffers (l : List AccelerationStructureBuffers) (s : CD3D_RT)
    (h : Orderly Q s0 s) : Orderly Q s0 (s.deferEachASBuffers l) := by
  induction l generalizing s with
  | nil => exact h
  | cons b rest ih =>
    unfold deferEachASBuffers
    exact ih _ (ord_RT_ReleaseASBuffers hQ _ h)

theorem ord_Shutdown (env : ShutdownEnv) (h : Orderly Q s0 s) :
    Orderly Q s0 (s.Shutdown env) := by
  unfold Shutdown
  apply ord_ite _ h
  apply ord_ite _ h
  simp only
  have h1 : Orderly Q s0 ({ s with s_shutdownInProgress := true } : CD3D_RT) :=
    h.transO (Orderly.of_fieldsO rfl rfl rfl)
  have h2 := ord_RT_ShutdownFrameContexts (ord_releaseDevice (ord_releaseGlobals hQ env
    (ord_releaseScene hQ (ord_drainQueue (ord_shutdownSignal h1)))))
  exact h2.transO (Orderly.of_fieldsO rfl rfl rfl)

end OrderlySteps

section OrderlyRuns

variable {F : Type} [FloatOps F] {Q : RT_DeferredRelease → Prop} {s0 : CD3D_RT}

omit [FloatOps F] in
theorem ord_buildLevelBLAS (hQ : ∀ k r, r ≠ 0 → Q { fenceValue := k, resources := [r] })
    (records : Nat → RecordBuildEnv) (pCL : Ptr) (geo : List (SafeGeometryData F)) (i : Nat)
    (s : CD3D_RT) (h : Orderly Q s0 s) : Orderly Q s0 (buildLevelBLAS records pCL i geo s) := by
  induction geo generalizing i s with
  | nil => exact h
  | cons g rest ih =>
    unfold buildLevelBLAS
    simp only
    cases CreateDefaultBufferFromData (g.vertices.length * 12) (records i).vb with
    | none => exact ih _ _ h
    | some vb =>
      cases CreateDefaultBufferFromData (g.indices.length * 4) (records i).ib with
      | none => exact ih _ _ (ord_Release _ (ord_Release _ h))
      | some ib =>
        apply ih
        apply ord_ite
        · exact ord_pushSceneBLAS _ _ (ord_BuildBottomLevelAS hQ _ _ _ _ _ _ _ _ _ _
            (ord_pushKeepAlive _ h))
        · exact ord_BuildBottomLevelAS hQ _ _ _ _ _ _ _ _ _ _ (ord_pushKeepAlive _ h)

theorem ord_CreateLevelGeometryBLASAndTLAS
    (hQ : ∀ k r, r ≠ 0 → Q { fenceValue := k, resources := [r] })
    (env : LevelBuildEnv F) (s : CD3D_RT) (h : Orderly Q s0 s) :
    Orderly Q s0 (s.CreateLevelGeometryBLASAndTLAS env).2 := by
  unfold CreateLevelGeometryBLASAndTLAS
  apply ite_cases (fun r : HRESULT × CD3D_RT => Orderly Q s0 r.2) _ _ _ h
  apply ite_cases (fun r : HRESULT × CD3D_RT => Orderly Q s0 r.2) _ _ _ h
  cases env.refreshQueue with
  | none => exact h
  | some queue =>
    simp only
    have hq := ord_setCommandQueue queue h
    apply ite_cases (fun r : HRESULT × CD3D_RT => Orderly Q s0 r.2) _ _ _ hq
    apply ite_cases (fun r : HRESULT × CD3D_RT => Orderly Q s0 r.2) _ _ _ hq
    cases selectLevelGeometry env.extracted env.terrain env.cam with
    | none => exact hq
    | some geo =>
      cases env.allocator with
      | none => exact hq
      | some al =>
        cases env.commandList with
        | none => exact hq
        | some pCL =>
          simp only
          exact ord_finishLevelBuild hQ _ _ _ _ _
            (ord_buildLevelBLAS hQ _ _ _ _ _ (ord_clearPrevious hQ hq))

theorem ord_CreateTestSceneWithEnhancedSafety
    (hQ : ∀ k r, r ≠ 0 → Q { fenceValue := k, resources := [r] })
    (env : TestSceneEnv) (s : CD3D_RT) (h : Orderly Q s0 s) :
    Orderly Q s0 (s.CreateTestSceneWithEnhancedSafety F env).2 := by
  unfold CreateTestSceneWithEnhancedSafety
  apply ite_cases (fun r : HRESULT × CD3D_RT => Orderly Q s0 r.2) _ _ _ h
  apply ite_cases (fun r : HRESULT × CD3D_RT => Orderly Q s0 r.2) _ _ _ h
  simp only
  have hq : Orderly Q s0 (if s.m_pCommandQueue = 0 then s.setCommandQueue env.queue else s) :=
    ord_ite _ (ord_setCommandQueue _ h) h
  generalize (if s.m_pCommandQueue = 0 then s.setCommandQueue env.queue else s) = s1 at hq ⊢
  apply ite_cases (fun r : HRESULT × CD3D_RT => Orderly Q s0 r.2) _ _ _ hq
  cases env.allocator with
  | none => exact hq
  | some al =>
    cases env.commandList with
    | none => exact hq
    | some pCL =>
      simp only
      split
      · cases CreateDefaultBufferFromData 36 env.vb with
        | none => exact hq
        | some vb =>
          cases CreateDefaultBufferFromData 12 env.ib with
          | none => exact ord_Release _ (ord_Release _ hq)
          | some ib => exact ord_buildTestScene hQ _ _ _ _ _ _ (ord_clearOldAS hQ hq)
      · exact hq

theorem ord_UpdateAccelerationStructures
    (hQ : ∀ k r, r ≠ 0 → Q { fenceValue := k, resources := [r] })
    (env : UpdateEnv F) (s : CD3D_RT) (h : Orderly Q s0 s) :
    Orderly Q s0 (s.UpdateAccelerationStructures env) := by
  unfold UpdateAccelerationStructures
  simp only
  have h0 : Orderly Q s0 ({ s with frameCounter := (s.frameCounter + 1) % 4294967296 } : CD3D_RT) :=
    h.transO (Orderly.of_fieldsO rfl rfl rfl)
  generalize ({ s with frameCounter := (s.frameCounter + 1) % 4294967296 } : CD3D_RT) = s1
    at h0 ⊢
  apply ord_ite _ h0
  apply ord_ite _ h0
  have h1 := ord_RT_WaitForLastDispatch h0
  generalize s1.RT_WaitForLastDispatch = s2 at h1 ⊢
  have h2 := ord_setBlasBuffers {} (ord_setTlasBuffers {} (ord_setTopLevelAS 0
    (ord_ClearKeepAliveUploads hQ (ord_detachScene h1))))
  generalize ((s2.detachScene.ClearKeepAliveUploads.setTopLevelAS 0).setTlasBuffers
    {}).setBlasBuffers {} = s3 at h2 ⊢
  have h3 : Orderly Q s0 (s3.CreateSceneBLASAndTLASFromView env.level).2 :=
    ord_CreateLevelGeometryBLASAndTLAS hQ env.level s3 h2
  generalize s3.CreateSceneBLASAndTLASFromView env.level = built at h3 ⊢
  have h4 : Orderly Q s0 (if FAILED built.1 = true ∨ built.2.m_pTopLevelAS = 0 then
      (built.2.CreateTestSceneWithEnhancedSafety F env.test).2 else built.2) :=
    ord_ite _ (ord_CreateTestSceneWithEnhancedSafety hQ env.test built.2 h3) h3
  generalize (if FAILED built.1 = true ∨ built.2.m_pTopLevelAS = 0 then
      (built.2.CreateTestSceneWithEnhancedSafety F env.test).2 else built.2) = s4 at h4 ⊢
  exact ord_safeReleaseEach hQ _ _ (ord_deferEachASBuffers hQ _ _
    (ord_RT_ReleaseASBuffers hQ _ (ord_RT_ReleaseASBuffers hQ _ h4)))

theorem ord_RT_DeferRelease (r : Ptr) (s : CD3D_RT) (h : Orderly (fun _ => True) s0 s) :
    Orderly (fun _ => True) s0 (s.RT_DeferRelease r) := by
  refine h.transO ⟨fun _ _ _ => trivial, ?_, [], ?_, by simp [signals], by simp [signals]⟩
  · unfold RT_DeferRelease
    split
    · exact le_refl _
    · exact le_refl _
  · unfold RT_DeferRelease
    split <;> simp

theorem ord_step (hQ : ∀ k r, r ≠ 0 → Q { fenceValue := k, resources := [r] })
    (op : Op F) (hop : op.isDeferRelease = false) (s : CD3D_RT) (h : Orderly Q s0 s) :
    Orderly Q s0 (s.step op) := by
  cases op with
  | safeRelease r => exact ord_RT_SafeRelease hQ r h
  | deferRelease r => exact absurd hop (fun e => Bool.noConfusion e)
  | releaseASBuffers b => exact ord_RT_ReleaseASBuffers hQ b h
  | clearKeepAliveUploads => exact ord_ClearKeepAliveUploads hQ h
  | beginFrame env => exact ord_RT_BeginFrameAllocator env h
  | recordWork => exact ord_recordWork h
  | endFrame => exact ord_RT_EndFrameAndSignal h
  | waitForLastDispatch => exact ord_RT_WaitForLastDispatch h
  | buildLevel env => exact ord_CreateLevelGeometryBLASAndTLAS hQ env s h
  | buildTestScene env => exact ord_CreateTestSceneWithEnhancedSafety hQ env s h
  | update env => exact ord_UpdateAccelerationStructures hQ env s h
  | shutdown env => exact ord_Shutdown hQ env h

theorem ord_run (hQ : ∀ k r, r ≠ 0 → Q { fenceValue := k, resources := [r] })
    (ops : List (Op F)) (hops : ∀ op ∈ ops, op.isDeferRelease = false) (s : CD3D_RT)
    (h : Orderly Q s0 s) : Orderly Q s0 (s.run ops) := by
  induction ops generalizing s with
  | nil => exact h
  | cons op rest ih =>
    unfold run
    rw [List.foldl_cons]
    exact ih (fun o ho => hops o (List.mem_cons_of_mem _ ho)) _
      (ord_step hQ op (hops op (List.mem_cons_self _ _)) s h)

theorem ord_step_any (op : Op F) (s : CD3D_RT) (h : Orderly (fun _ => True) s0 s) :
    Orderly (fun _ => True) s0 (s.step op) := by
  cases op with
  | deferRelease r => exact ord_RT_DeferRelease r s h
  | safeRelease r => exact ord_step (fun _ _ _ => trivial) _ (by rfl) s h
  | releaseASBuffers b => exact ord_step (fun _ _ _ => trivial) _ (by rfl) s h
  | clearKeepAliveUploads => exact ord_step (fun _ _ _ => trivial) _ (by rfl) s h
  | beginFrame env => exact ord_step (fun _ _ _ => trivial) _ (by rfl) s h
  | recordWork => exact ord_step (fun _ _ _ => trivial) _ (by rfl) s h
  | endFrame => exact ord_step (fun _ _ _ => trivial) _ (by rfl) s h
  | waitForLastDispatch => exact ord_step (fun _ _ _ => trivial) _ (by rfl) s h
  | buildLevel env => exact ord_step (fun _ _ _ => trivial) _ (by rfl) s h
  | buildTestScene env => exact ord_step (fun _ _ _ => trivial) _ (by rfl) s h
  | update env => exact ord_step (fun _ _ _ => trivial) _ (by rfl) s h
  | shutdown env => exact ord_step (fun _ _ _ => trivial) _ (by rfl) s h

theorem ord_run_any (ops : List (Op F)) (s : CD3D_RT) (h : Orderly (fun _ => True) s0 s) :
    Orderly (fun _ => True) s0 (s.run ops) := by
  induction ops generalizing s with
  | nil => exact h
  | cons op rest ih =>
    unfold run
    rw [List.foldl_cons]
    exact ih _ (ord_step_any op s h)

end OrderlyRuns


section RunThms

variable {F : Type} [FloatOps F]

theorem run_append (s : CD3D_RT) (a b : List (Op F)) : s.run (a ++ b) = (s.run a).run b := by
  unfold run
  exact List.foldl_append _ _ _ _

theorem UpdateAccelerationStructures_off_cadence (s : CD3D_RT) (env : UpdateEnv F)
    (h : s.frameCounter + 1 < 3600) :
    s.UpdateAccelerationStructures env = { s with frameCounter := s.frameCounter + 1 } := by
  have h1 : (s.frameCounter + 1) % 4294967296 = s.frameCounter + 1 := by omega
  unfold UpdateAccelerationStructures
  simp only
  rw [h1]
  have hc : ((s.frameCounter + 1) % 3600 ≠ 0) := by omega
  exact if_pos hc

theorem run_update_off_cadence (env : UpdateEnv F) (n : Nat) (s : CD3D_RT)
    (h : s.frameCounter + n < 3600) :
    s.run (List.replicate n (Op.update env)) = { s with frameCounter := s.frameCounter + n } := by
  induction n generalizing s with
  | zero => rfl
  | succ k ih =>
    rw [List.replicate_succ]
    unfold run
    rw [List.foldl_cons]
    have e : s.step (Op.update env) = { s with frameCounter := s.frameCounter + 1 } :=
      UpdateAccelerationStructures_off_cadence s env (by omega)
    rw [e]
    have ih' := ih ({ s with frameCounter := s.frameCounter + 1 } : CD3D_RT)
      (by show s.frameCounter + 1 + k < 3600; omega)
    unfold run at ih'
    rw [ih']
    show ({ s with frameCounter := s.frameCounter + 1 + k } : CD3D_RT) = _
    rw [Nat.add_assoc, Nat.add_comm 1 k]

/-- C16: the signalled counter never goes down and the values signalled out of
it go up.  Along every sequence of operations of the stage
(`RT_EndFrameAndSignal`, the two scene builds, the rebuild, `Shutdown` with its
`RT_ShutdownFrameContexts`, the release calls), started in any state,
`m_lastSignaledFence` at the end is at least what it was at the start, and the
values handed to a queue `Signal` out of the counter in between are strictly
ascending, all above the counter at the start and none above the counter at the
end.  Hence, if the values signalled before the start were ascending and none
above the counter, so are all values signalled up to the end.  The same holds
for `RT_ShutdownFrameContexts` called on its own. -/
theorem C16_signaled_counter_monotone (s : CD3D_RT) :
    (∀ ops : List (Op F),
      s.m_lastSignaledFence ≤ (s.run ops).m_lastSignaledFence ∧
      ∃ added, (s.run ops).trace = s.trace ++ added ∧ (signals added).Pairwise (· < ·) ∧
        ∀ v ∈ signals added,
          s.m_lastSignaledFence < v ∧ v ≤ (s.run ops).m_lastSignaledFence) ∧
    (∀ ops : List (Op F),
      ((signals s.trace).Pairwise (· < ·) ∧ ∀ v ∈ signals s.trace, v ≤ s.m_lastSignaledFence) →
        (signals (s.run ops).trace).Pairwise (· < ·) ∧
        ∀ v ∈ signals (s.run ops).trace, v ≤ (s.run ops).m_lastSignaledFence) ∧
    (s.m_lastSignaledFence ≤ s.RT_ShutdownFrameContexts.2.m_lastSignaledFence ∧
      ∃ added, s.RT_ShutdownFrameContexts.2.trace = s.trace ++ added ∧
        (signals added).Pairwise (· < ·) ∧
        ∀ v ∈ signals added,
          s.m_lastSignaledFence < v ∧ v ≤ s.RT_ShutdownFrameContexts.2.m_lastSignaledFence) := by
  have hrun := fun ops : List (Op F) =>
    @ord_run_any F _ s ops s (Orderly.reflO _ _)
  refine ⟨fun ops => (hrun ops).2, ?_, ?_⟩
  · intro ops ⟨hp, hb⟩
    obtain ⟨-, hle, added, e, p, b⟩ := hrun ops
    rw [e]
    unfold signals at *
    rw [List.filterMap_append]
    constructor
    · rw [List.pairwise_append]
      refine ⟨hp, p, ?_⟩
      intro x hx y hy
      have := hb x hx
      have := (b y hy).1
      omega
    · intro v hv
      rw [List.mem_append] at hv
      rcases hv with hv | hv
      · have := hb v hv
        omega
      · exact (b v hv).2
  · exact (ord_RT_ShutdownFrameContexts (Q := fun _ => True) (Orderly.reflO _ s)).2

end RunThms


/-! ### Frames without a top-level structure -/

section QuietThms

variable {s0 s : CD3D_RT}

theorem Quiet.reflQ (s : CD3D_RT) : Quiet s s := ⟨rfl, TraceExt.reflT _ _⟩

theorem Quiet.transQ {s s' s'' : CD3D_RT} (h1 : Quiet s s') (h2 : Quiet s' s'') : Quiet s s'' :=
  ⟨h2.1.trans h1.1, h1.2.transT h2.2⟩

theorem Quiet.of_eqQ {s s' : CD3D_RT} (hb : s'.bookkeeping = s.bookkeeping)
    (ht : s'.trace = s.trace) : Quiet s s' := ⟨hb, TraceExt.of_eqT ht⟩

theorem quiet_emit (e : Event) (he : isRelease e) (h : Quiet s0 s) : Quiet s0 (s.emit e) :=
  h.transQ ⟨rfl, TraceExt.emit _ _ he⟩

theorem quiet_SAFE_RELEASE (r : Ptr) (h : Quiet s0 s) : Quiet s0 (s.SAFE_RELEASE r) := by
  unfold SAFE_RELEASE
  split
  · exact quiet_emit _ (Or.inl ⟨_, _, rfl⟩) h
  · exact h

theorem quiet_setDescriptorHeap (v : Ptr) (h : Quiet s0 s) : Quiet s0 (s.setDescriptorHeap v) :=
  h.transQ (Quiet.of_eqQ rfl rfl)

theorem quiet_setRaytracingOutput (v : Ptr) (h : Quiet s0 s) :
    Quiet s0 (s.setRaytracingOutput v) := h.transQ (Quiet.of_eqQ rfl rfl)

theorem quiet_setReflectionOutput (v : Ptr) (h : Quiet s0 s) :
    Quiet s0 (s.setReflectionOutput v) := h.transQ (Quiet.of_eqQ rfl rfl)

theorem quiet_setConstantsBuffer (v : Ptr) (h : Quiet s0 s) :
    Quiet s0 (s.setConstantsBuffer v) := h.transQ (Quiet.of_eqQ rfl rfl)

theorem quiet_setOutputSize (w v : Nat) (h : Quiet s0 s) : Quiet s0 (s.setOutputSize w v) :=
  h.transQ (Quiet.of_eqQ rfl rfl)

theorem quiet_setAOOutput (p : Ptr) (o : Bool) (h : Quiet s0 s) : Quiet s0 (s.setAOOutput p o) :=
  h.transQ (Quiet.of_eqQ rfl rfl)

theorem quiet_setGIState (v : Nat) (h : Quiet s0 s) : Quiet s0 (s.setGIState v) :=
  h.transQ (Quiet.of_eqQ rfl rfl)

theorem quiet_setReflState (v : Nat) (h : Quiet s0 s) : Quiet s0 (s.setReflState v) :=
  h.transQ (Quiet.of_eqQ rfl rfl)

theorem quiet_setAOState (v : Nat) (h : Quiet s0 s) : Quiet s0 (s.setAOState v) :=
  h.transQ (Quiet.of_eqQ rfl rfl)

theorem quiet_setExecuteCallCount (v : Nat) (h : Quiet s0 s) :
    Quiet s0 (s.setExecuteCallCount v) := h.transQ (Quiet.of_eqQ rfl rfl)

theorem quiet_setWasLevelLoading (v : Bool) (h : Quiet s0 s) :
    Quiet s0 (s.setWasLevelLoading v) := h.transQ (Quiet.of_eqQ rfl rfl)

theorem quiet_createDescriptorHeap (env : ResourcesEnv) (h : Quiet s0 s) :
    Quiet s0 (s.createDescriptorHeap env).2 := by
  unfold createDescriptorHeap
  split
  · simp only
    split
    · exact quiet_setDescriptorHeap _ h
    · split
      · exact quiet_setDescriptorHeap _
          (quiet_emit _ (Or.inr ⟨_, rfl⟩) (quiet_setDescriptorHeap _ h))
      · exact quiet_setDescriptorHeap _ h
  · exact h

theorem quiet_ite (c : Prop) [Decidable c] {a b : CD3D_RT} (ha : Quiet s0 a)
    (hb : Quiet s0 b) : Quiet s0 (if c then a else b) := by
  split <;> assumption

theorem quiet_bindOutputs (env : ResourcesEnv) (gi : Ptr) (h : Quiet s0 s) :
    Quiet s0 (s.bindOutputs env gi) :=
  quiet_setReflectionOutput _ (quiet_setRaytracingOutput _ h)

theorem quiet_bindTextures (env : ResourcesEnv) (h : Quiet s0 s) :
    Quiet s0 (s.bindTextures env).2 := by
  unfold bindTextures
  have h2 : Quiet s0 (match env.aoTexture with
      | some native => s.setAOOutput native false
      | none => s) := by
    split
    · exact quiet_setAOOutput _ _ h
    · exact h
  dsimp only
  split
  · exact h2
  · exact quiet_bindOutputs _ _ h2

theorem quiet_finishResources (env : ResourcesEnv) (outW outH : Nat) (h : Quiet s0 s) :
    Quiet s0 (s.finishResources env outW outH) := by
  unfold finishResources
  dsimp only
  have h1 : Quiet s0 (if s.m_pConstantsBuffer = 0 ∨ env.constantsTooSmall = true then
      (s.SAFE_RELEASE s.m_pConstantsBuffer).setConstantsBuffer env.constants else s) :=
    quiet_ite _ (quiet_setConstantsBuffer _ (quiet_SAFE_RELEASE _ h)) h
  generalize (if s.m_pConstantsBuffer = 0 ∨ env.constantsTooSmall = true then
      (s.SAFE_RELEASE s.m_pConstantsBuffer).setConstantsBuffer env.constants else s) = s1 at h1
  have h2 := quiet_setAOState D3D12_RESOURCE_STATE_COMMON
    (quiet_setReflState D3D12_RESOURCE_STATE_COMMON
      (quiet_setGIState D3D12_RESOURCE_STATE_COMMON (quiet_setOutputSize outW outH h1)))
  generalize (((s1.setOutputSize outW outH).setGIState D3D12_RESOURCE_STATE_COMMON).setReflState
    D3D12_RESOURCE_STATE_COMMON).setAOState D3D12_RESOURCE_STATE_COMMON = s2 at h2
  have h3 : Quiet s0 (if s2.m_pReflectionOutput = s2.m_pRaytracingOutput then
      s2.setReflState s2.g_RT_GIState else s2) := quiet_ite _ (quiet_setReflState _ h2) h2
  generalize (if s2.m_pReflectionOutput = s2.m_pRaytracingOutput then
      s2.setReflState s2.g_RT_GIState else s2) = s3 at h3
  split
  · split
    · exact quiet_setAOOutput _ _ h3
    · exact h3
  · exact h3

theorem quiet_CreateRayTracingResources (env : ResourcesEnv) (h : Quiet s0 s) :
    Quiet s0 (s.CreateRayTracingResources env).2 := by
  have hh := quiet_createDescriptorHeap env h
  unfold CreateRayTracingResources
  split
  · exact h
  split
  · exact h
  split
  · exact h
  · dsimp only
    generalize s.createDescriptorHeap env = heap at hh
    split
    · exact hh
    · have h2 := quiet_bindTextures env hh
      split
      · exact h2
      · split
        · exact h2
        · exact quiet_finishResources _ _ _ h2

theorem quiet_ensureOutputs (env : ResourcesEnv) (h : Quiet s0 s) :
    Quiet s0 (s.ensureOutputs env).2 := by
  unfold ensureOutputs
  split
  · exact quiet_CreateRayTracingResources env h
  · exact h

theorem bookkeeping_RT_ReclaimRetiredAllocators (s : CD3D_RT) :
    s.RT_ReclaimRetiredAllocators.bookkeeping = s.bookkeeping := by
  have hc := core_RT_ReclaimRetiredAllocators s
  have h1 : ∀ x : CD3D_RT, x.core.bookkeeping = x.bookkeeping := fun _ => rfl
  rw [← h1, hc, h1]

/-- The end of a frame in which no work was recorded: no fence counter and no
frame context changes, the frame index grows by 1, and the only calls made are
`Release` calls on retired allocators and heaps. -/
theorem RT_EndFrameAndSignal_idle (s : CD3D_RT) (hw : s.m_frameRecordedWork = false) :
    s.RT_EndFrameAndSignal.bookkeeping =
      (s.m_frameFence, s.m_lastSignaledFence, s.m_lastDispatchFence, s.m_lastASBuildFence,
        s.m_frameIndex + 1, false, s.m_frameCtx, s.m_pTopLevelAS, s.s_geometryBuilt) ∧
    TraceExt isRelease s s.RT_EndFrameAndSignal := by
  unfold RT_EndFrameAndSignal
  split
  · exact ⟨rfl, TraceExt.of_eqT rfl⟩
  · rw [hw]
    simp only [Bool.false_eq_true, if_false]
    have hb := bookkeeping_RT_ReclaimRetiredAllocators s
    have ht := traceExt_RT_ReclaimRetiredAllocators (P := isRelease) (fun p => Or.inr ⟨p, rfl⟩) s
    generalize s.RT_ReclaimRetiredAllocators = s1 at hb ht
    simp only [bookkeeping, Prod.mk.injEq] at hb
    obtain ⟨b1, b2, b3, b4, b5, _, b7, b8, b9⟩ := hb
    refine ⟨?_, ht.transT (TraceExt.of_eqT rfl)⟩
    show (s1.m_frameFence, s1.m_lastSignaledFence, s1.m_lastDispatchFence, s1.m_lastASBuildFence,
      s1.m_frameIndex + 1, false, s1.m_frameCtx, s1.m_pTopLevelAS, s1.s_geometryBuilt) = _
    rw [b1, b2, b3, b4, b5, b7, b8, b9]

end QuietThms

section InstallThms

variable {F : Type} [FloatOps F]

theorem submitBuild_m_pTopLevelAS (s : CD3D_RT) (pCL : Ptr) (fc : Bool) (hr : HRESULT)
    (fb : Bool) : (s.submitBuild pCL fc hr fb).m_pTopLevelAS = s.m_pTopLevelAS := by
  unfold submitBuild
  dsimp only
  split
  · split <;> rfl
  · split <;> rfl

theorem finishLevelBuild_installs (s : CD3D_RT) (tlasEnv : TlasEnv) (pCL : Ptr)
    (closeHr : HRESULT) (fenceCreated : Bool) (signalHr : HRESULT) :
    SUCCEEDED (s.finishLevelBuild tlasEnv pCL closeHr fenceCreated signalHr).1 = true →
      (s.finishLevelBuild tlasEnv pCL closeHr fenceCreated signalHr).2.m_pTopLevelAS ≠ 0 := by
  have fE : SUCCEEDED E_FAIL = true → False := by decide
  unfold finishLevelBuild
  dsimp only
  refine ite_cases (fun r : HRESULT × CD3D_RT => SUCCEEDED r.1 = true → r.2.m_pTopLevelAS ≠ 0)
    _ _ _ (fun h => (fE h).elim) ?_
  refine ite_cases (fun r : HRESULT × CD3D_RT => SUCCEEDED r.1 = true → r.2.m_pTopLevelAS ≠ 0)
    _ _ _ (fun h => (fE h).elim) ?_
  generalize s.BuildTopLevelAS tlasEnv pCL s.blasVaList s.m_tlasBuffers = built
  generalize built.2.1.setTlasBuffers built.2.2 = s1
  split
  · exact fun h => (fE h).elim
  · rename_i hc
    split
    · exact fun h => (fE h).elim
    · intro _
      rw [submitBuild_m_pTopLevelAS]
      exact fun h0 => hc (Or.inr h0)

theorem CreateLevelGeometryBLASAndTLAS_installs (s : CD3D_RT) (env : LevelBuildEnv F) :
    SUCCEEDED (s.CreateLevelGeometryBLASAndTLAS env).1 = true →
      (s.CreateLevelGeometryBLASAndTLAS env).2.m_pTopLevelAS ≠ 0 := by
  have fE : SUCCEEDED E_FAIL = true → False := by decide
  have fP : SUCCEEDED E_PENDING = true → False := by decide
  have fF : ∀ hr : HRESULT, FAILED hr = true → SUCCEEDED hr = true → False := by
    intro hr h1 h2
    simp only [FAILED, SUCCEEDED, decide_eq_true_eq] at h1 h2
    exact absurd h2 (Int.not_le.2 h1)
  unfold CreateLevelGeometryBLASAndTLAS
  split
  · exact fun h => (fE h).elim
  split
  · exact fun h => (fP h).elim
  split
  · exact fun h => (fE h).elim
  dsimp only
  split
  · exact fun h => (fE h).elim
  split
  · rename_i hf
    exact fun h => (fF _ hf h).elim
  split
  · exact fun h => (fE h).elim
  split
  · exact fun h => (fE h).elim
  split
  · exact fun h => (fE h).elim
  exact finishLevelBuild_installs _ _ _ _ _ _

theorem ensureGeometry_noTopLevelAS (s : CD3D_RT) (env : LevelBuildEnv F)
    (h1 : (s.ensureGeometry env).1 = false) (h2 : (s.ensureGeometry env).2.m_pTopLevelAS = 0) :
    s.s_geometryBuilt = true ∧ (s.ensureGeometry env).2 = s := by
  have hi := CreateLevelGeometryBLASAndTLAS_installs s env
  unfold ensureGeometry at h1 h2 ⊢
  dsimp only at h1 h2 ⊢
  generalize s.CreateLevelGeometryBLASAndTLAS env = built at hi h1 h2 ⊢
  by_cases hg : s.s_geometryBuilt = true
  · simp only [hg, Bool.not_true, Bool.false_eq_true, if_false, and_self]
  · exfalso
    simp only [Bool.not_eq_true] at hg
    simp only [hg, Bool.not_false, if_true] at h1 h2
    by_cases hs : SUCCEEDED built.1 = true
    · rw [if_pos hs] at h2
      exact hi hs h2
    · rw [if_neg hs] at h1
      cases h1

theorem executeDispatch_exit (s : CD3D_RT) (env : ExecuteEnv F) :
    (s.executeDispatch env).1 ≠ ExecuteExit.noTopLevelAS := by
  unfold executeDispatch
  dsimp only
  refine ite_cases (fun r : ExecuteExit × CD3D_RT => r.1 ≠ ExecuteExit.noTopLevelAS)
    _ _ _ (fun h => ExecuteExit.noConfusion h) ?_
  refine ite_cases (fun r : ExecuteExit × CD3D_RT => r.1 ≠ ExecuteExit.noTopLevelAS)
    _ _ _ (fun h => ExecuteExit.noConfusion h) ?_
  refine ite_cases (fun r : ExecuteExit × CD3D_RT => r.1 ≠ ExecuteExit.noTopLevelAS)
    _ _ _ (fun h => ExecuteExit.noConfusion h) (fun h => ExecuteExit.noConfusion h)

/-- A call of `executeScene` that ends at the test `if (!m_pTopLevelAS)`, made
with no work recorded: the geometry had been built before, and the state is the
one an end of frame leaves after `Release` calls only. -/
theorem executeScene_noTopLevelAS (s : CD3D_RT) (env : ExecuteEnv F)
    (h : (s.executeScene env).1 = ExecuteExit.noTopLevelAS) :
    s.s_geometryBuilt = true ∧ s.m_pTopLevelAS = 0 ∧
      ∃ s1, Quiet s s1 ∧ (s.executeScene env).2 = s1.RT_EndFrameAndSignal := by
  have hq := quiet_ensureOutputs env.resources (Quiet.reflQ s)
  unfold executeScene at h ⊢
  dsimp only at h ⊢
  generalize s.ensureOutputs env.resources = outputs at hq h ⊢
  have hg := ensureGeometry_noTopLevelAS outputs.2 env.level
  generalize outputs.2.ensureGeometry env.level = geometry at hg h ⊢
  have hd := executeDispatch_exit geometry.2 env
  generalize geometry.2.executeDispatch env = r at hd h ⊢
  by_cases c1 : outputs.1 = true
  · rw [if_pos c1] at h
    cases h
  · rw [if_neg c1] at h ⊢
    by_cases c2 : geometry.1 = true
    · rw [if_pos c2] at h
      cases h
    · rw [if_neg c2] at h ⊢
      by_cases c3 : geometry.2.m_pTopLevelAS = 0
      · rw [if_pos c3]
        obtain ⟨g1, g2⟩ := hg (by simpa using c2) c3
        have hb := hq.1
        simp only [bookkeeping, Prod.mk.injEq] at hb
        obtain ⟨_, _, _, _, _, _, _, b8, b9⟩ := hb
        rw [g2] at c3 ⊢
        exact ⟨b9.symm.trans g1, b8.symm.trans c3, outputs.2, hq, rfl⟩
      · rw [if_neg c3] at h
        exact (hd h).elim

theorem signals_of_isRelease (l : List Event) (h : ∀ e ∈ l, isRelease e) : signals l = [] := by
  induction l with
  | nil => rfl
  | cons e rest ih =>
    have he := h e (List.mem_cons_self _ _)
    have hr := ih fun x hx => h x (List.mem_cons_of_mem _ hx)
    unfold signals at hr ⊢
    rcases he with ⟨r, c, rfl⟩ | ⟨p, rfl⟩
    · simpa [signalValue] using hr
    · simpa [signalValue] using hr

/-- C17: a call of `Execute` that ends at the test `if (!m_pTopLevelAS)` (the
geometry was built in an earlier call and no top-level structure is installed)
makes `Release` calls only: it records no dispatch, submits no command list and
signals no fence; `m_lastSignaledFence`, `m_lastDispatchFence`,
`m_lastASBuildFence` and every frame context are as before, `m_frameIndex` has
grown by exactly 1 and `m_frameRecordedWork` is false. -/
theorem C17_frame_without_top_level_AS (s : CD3D_RT) (env : ExecuteEnv F)
    (h : (s.Execute env).1 = ExecuteExit.noTopLevelAS) :
    (s.s_geometryBuilt = true ∧ s.m_pTopLevelAS = 0 ∧ (s.Execute env).2.m_pTopLevelAS = 0) ∧
    (∃ added, (s.Execute env).2.trace = s.trace ++ added ∧ (∀ e ∈ added, isRelease e) ∧
      signals added = [] ∧ (∀ cl, Event.executeCommandLists cl ∉ added) ∧
      ∀ cl w h d, Event.dispatchRays cl w h d ∉ added) ∧
    (s.Execute env).2.m_lastSignaledFence = s.m_lastSignaledFence ∧
    (s.Execute env).2.m_lastDispatchFence = s.m_lastDispatchFence ∧
    (s.Execute env).2.m_lastASBuildFence = s.m_lastASBuildFence ∧
    (s.Execute env).2.m_frameCtx = s.m_frameCtx ∧
    (s.Execute env).2.m_frameIndex = s.m_frameIndex + 1 ∧
    (s.Execute env).2.m_frameRecordedWork = false := by
  have q1 : Quiet s (s.setExecuteCallCount ((s.s_executeCallCount + 1) % 4294967296)) :=
    quiet_setExecuteCallCount _ (Quiet.reflQ s)
  unfold Execute at h ⊢
  dsimp only at h ⊢
  generalize s.setExecuteCallCount ((s.s_executeCallCount + 1) % 4294967296) = s1 at q1 h ⊢
  by_cases c1 : s1.s_deviceStabilityFailure = true
  · rw [if_pos c1] at h
    cases h
  rw [if_neg c1] at h ⊢
  by_cases c2 : env.isLevelLoading = true
  · rw [if_pos c2] at h
    cases h
  rw [if_neg c2] at h ⊢
  have q2 : Quiet s (if s1.s_wasLevelLoading = true then s1.setWasLevelLoading false else s1) :=
    quiet_ite _ (quiet_setWasLevelLoading _ q1) q1
  generalize (if s1.s_wasLevelLoading = true then s1.setWasLevelLoading false else s1) = s2
    at q2 h ⊢
  by_cases c3 : s2.m_pDevice ≠ 0 ∧ FAILED env.deviceRemovedHr = true
  · rw [if_pos c3] at h
    cases h
  rw [if_neg c3] at h ⊢
  have hw : (s2.setFrameRecordedWork false).m_frameRecordedWork = false := rfl
  have b3 : (s2.setFrameRecordedWork false).bookkeeping =
      (s2.m_frameFence, s2.m_lastSignaledFence, s2.m_lastDispatchFence, s2.m_lastASBuildFence,
        s2.m_frameIndex, false, s2.m_frameCtx, s2.m_pTopLevelAS, s2.s_geometryBuilt) := rfl
  have t3 : (s2.setFrameRecordedWork false).trace = s2.trace := rfl
  generalize s2.setFrameRecordedWork false = s3 at hw b3 t3 h ⊢
  split at h
  · cases h
  rename_i c4
  rw [if_neg c4]
  obtain ⟨g1, g2, s4, q4, e4⟩ := executeScene_noTopLevelAS s3 env h
  rw [e4]
  obtain ⟨b2, tr2⟩ := q2
  obtain ⟨b4, tr4⟩ := q4
  simp only [bookkeeping, Prod.mk.injEq] at b2 b3 b4
  obtain ⟨_, x2, x3, x4, x5, _, x7, x8, x9⟩ := b2
  obtain ⟨_, y2, y3, y4, y5, y6, y7, y8, y9⟩ := b3
  obtain ⟨_, z2, z3, z4, z5, z6, z7, z8, z9⟩ := b4
  obtain ⟨b5, tr5⟩ := RT_EndFrameAndSignal_idle s4 (z6.trans hw)
  simp only [bookkeeping, Prod.mk.injEq] at b5
  obtain ⟨_, w2, w3, w4, w5, w6, w7, w8, _⟩ := b5
  obtain ⟨added, ha, hp⟩ := (tr2.transT (TraceExt.of_eqT t3)).transT (tr4.transT tr5)
  refine ⟨⟨?_, ?_, ?_⟩, ⟨added, ha, hp, signals_of_isRelease _ hp, ?_, ?_⟩,
    ?_, ?_, ?_, ?_, ?_, w6⟩
  · exact x9.symm.trans (y9.symm.trans g1)
  · exact x8.symm.trans (y8.symm.trans g2)
  · exact w8.trans (z8.trans g2)
  · intro cl hm
    rcases hp _ hm with ⟨_, _, e⟩ | ⟨_, e⟩ <;> cases e
  · intro cl w h d hm
    rcases hp _ hm with ⟨_, _, e⟩ | ⟨_, e⟩ <;> cases e
  · exact w2.trans (z2.trans (y2.trans x2))
  · exact w3.trans (z3.trans (y3.trans x3))
  · exact w4.trans (z4.trans (y4.trans x4))
  · exact w7.trans (z7.trans (y7.trans x7))
  · rw [w5, z5, y5, x5]

end InstallThms



/-! ### The size of the dispatch -/

section DispatchThms

variable {P : Event → Prop} {s0 s : CD3D_RT}

theorem step_setGIState (v : Nat) (h : TraceExt P s0 s) : TraceExt P s0 (s.setGIState v) :=
  h.transT (TraceExt.of_eqT rfl)

theorem step_setReflState (v : Nat) (h : TraceExt P s0 s) : TraceExt P s0 (s.setReflState v) :=
  h.transT (TraceExt.of_eqT rfl)

theorem step_setAOState (v : Nat) (h : TraceExt P s0 s) : TraceExt P s0 (s.setAOState v) :=
  h.transT (TraceExt.of_eqT rfl)

theorem step_RT_TransitionTracked (cl res tracked new : Nat)
    (hP : ∀ r a b, P (Event.transition cl r a b)) (h : TraceExt P s0 s) :
    TraceExt P s0 (s.RT_TransitionTracked cl res tracked new).1 := by
  unfold RT_TransitionTracked
  split
  · exact h
  · split
    · exact h
    · exact step_emit _ (hP _ _ _) h

theorem step_transitionOutputs (cl new : Nat) (hP : ∀ r a b, P (Event.transition cl r a b))
    (h : TraceExt P s0 s) : TraceExt P s0 (s.transitionOutputs cl new) := by
  unfold transitionOutputs
  dsimp only
  have h1 := step_setGIState (s.RT_TransitionTracked cl s.m_pRaytracingOutput s.g_RT_GIState new).2
    (step_RT_TransitionTracked cl s.m_pRaytracingOutput s.g_RT_GIState new hP h)
  generalize (s.RT_TransitionTracked cl s.m_pRaytracingOutput s.g_RT_GIState new).1.setGIState
    (s.RT_TransitionTracked cl s.m_pRaytracingOutput s.g_RT_GIState new).2 = s1 at h1 ⊢
  have h2 : TraceExt P s0 (if s1.m_pReflectionOutput ≠ 0 then
      (s1.RT_TransitionTracked cl s1.m_pReflectionOutput s1.g_RT_ReflState new).1.setReflState
        (s1.RT_TransitionTracked cl s1.m_pReflectionOutput s1.g_RT_ReflState new).2
      else s1) :=
    step_ite _ (step_setReflState _ (step_RT_TransitionTracked _ _ _ _ hP h1)) h1
  generalize (if s1.m_pReflectionOutput ≠ 0 then
      (s1.RT_TransitionTracked cl s1.m_pReflectionOutput s1.g_RT_ReflState new).1.setReflState
        (s1.RT_TransitionTracked cl s1.m_pReflectionOutput s1.g_RT_ReflState new).2
      else s1) = s2 at h2 ⊢
  exact step_ite _ (step_setAOState _ (step_RT_TransitionTracked _ _ _ _ hP h2)) h2

theorem step_UpdateRayTracingConstants (mapped : Bool) (w v n : Nat)
    (hP : P (Event.uploadConstants w v)) (h : TraceExt P s0 s) :
    TraceExt P s0 (s.UpdateRayTracingConstants mapped w v n) := by
  unfold UpdateRayTracingConstants
  split
  · exact h
  · dsimp only
    split
    · exact step_emit _ hP h
    · exact h

/-- The events `ExecuteRayTracingWithDebug` records: transitions on the command
list, the upload of the constants and the dispatch, the last two with the
extents computed from the description of the output. -/
theorem traceExt_ExecuteRayTracingWithDebug (env : RaysEnv) (cl width height : Nat)
    (hT : ∀ r a b, P (Event.transition cl r a b))
    (hU : P (Event.uploadConstants (min env.giWidth 0xFFFFFFFF % 4294967296)
      (if env.giHeight ≠ 0 then env.giHeight else 1)))
    (hD : P (Event.dispatchRays cl (min env.giWidth 0xFFFFFFFF % 4294967296)
      (if env.giHeight ≠ 0 then env.giHeight else 1) 1))
    (s : CD3D_RT) : TraceExt P s (s.ExecuteRayTracingWithDebug env cl width height) := by
  unfold ExecuteRayTracingWithDebug
  dsimp only
  refine step_ite _ (TraceExt.reflT _ _) ?_
  refine step_ite _ (TraceExt.reflT _ _) ?_
  refine step_ite _ (TraceExt.reflT _ _) ?_
  refine step_ite _ (TraceExt.reflT _ _) ?_
  refine step_ite _ (TraceExt.reflT _ _) ?_
  refine step_transitionOutputs _ _ hT ?_
  refine step_ite _ (step_emit _ hD ?_) ?_
  · exact step_UpdateRayTracingConstants _ _ _ _ hU
      (step_transitionOutputs _ _ hT (TraceExt.reflT _ _))
  · exact step_UpdateRayTracingConstants _ _ _ _ hU
      (step_transitionOutputs _ _ hT (TraceExt.reflT _ _))

theorem mem_trace_transitionOutputs (cl new : Nat) (e : Event) (s : CD3D_RT) (h : e ∈ s.trace) :
    e ∈ (s.transitionOutputs cl new).trace :=
  (step_transitionOutputs cl new (fun _ _ _ => trivial) (TraceExt.reflT (fun _ => True) s)).subset h

end DispatchThms

/-- C18 (as amended): whatever `width` and `height` the caller hands in, every
dispatch `ExecuteRayTracingWithDebug` records is on its command list with Width
the width of the output image, cut to `0xFFFFFFFF`, Height the height of the
image, or `1` when that height is `0`, and Depth `1`, and every upload of the
constants carries these two values as `ScreenWidth` and `ScreenHeight`; the
call does the same for any two pairs of arguments.  For an image at least one
row high and at most `0xFFFFFFFF` wide these are the actual dimensions.  With
the objects at hand, a non-zero width and address of the top-level structure
and `r_DXR_NoDispatch` at `0`, the dispatch is recorded. -/
theorem C18_dispatch_size (s : CD3D_RT) (env : RaysEnv) (pCommandList : Ptr) :
    (∀ width height, ∃ added,
      (s.ExecuteRayTracingWithDebug env pCommandList width height).trace = s.trace ++ added ∧
      (∀ cl w h d, Event.dispatchRays cl w h d ∈ added →
        cl = pCommandList ∧ w = min env.giWidth 0xFFFFFFFF ∧
          h = (if env.giHeight = 0 then 1 else env.giHeight) ∧ d = 1) ∧
      ∀ w h, Event.uploadConstants w h ∈ added →
        w = min env.giWidth 0xFFFFFFFF ∧ h = (if env.giHeight = 0 then 1 else env.giHeight)) ∧
    (∀ width height width2 height2,
      s.ExecuteRayTracingWithDebug env pCommandList width height =
        s.ExecuteRayTracingWithDebug env pCommandList width2 height2) ∧
    (0 < env.giHeight → env.giWidth ≤ 0xFFFFFFFF →
      min env.giWidth 0xFFFFFFFF = env.giWidth ∧
        (if env.giHeight = 0 then 1 else env.giHeight) = env.giHeight) ∧
    ∀ width height, pCommandList ≠ 0 → s.m_pDevice ≠ 0 → s.m_pDescriptorHeap ≠ 0 →
      s.m_pRaytracingOutput ≠ 0 → s.m_pRaytracingPSO ≠ 0 → s.m_pTopLevelAS ≠ 0 →
      env.giWidth ≠ 0 → env.tlasVA ≠ 0 → env.noDispatch = 0 →
      Event.dispatchRays pCommandList (min env.giWidth 0xFFFFFFFF)
        (if env.giHeight = 0 then 1 else env.giHeight) 1 ∈
          (s.ExecuteRayTracingWithDebug env pCommandList width height).trace := by
  have hW : min env.giWidth 0xFFFFFFFF % 4294967296 = min env.giWidth 0xFFFFFFFF := by
    apply Nat.mod_eq_of_lt
    have := Nat.min_le_right env.giWidth 0xFFFFFFFF
    omega
  have hH : (if env.giHeight ≠ 0 then env.giHeight else 1) =
      (if env.giHeight = 0 then 1 else env.giHeight) := by
    by_cases h0 : env.giHeight = 0 <;> simp [h0]
  refine ⟨?_, fun _ _ _ _ => rfl, ?_, ?_⟩
  · intro width height
    obtain ⟨added, ha, hp⟩ := traceExt_ExecuteRayTracingWithDebug
      (P := fun e => (∃ r a b, e = Event.transition pCommandList r a b) ∨
        e = Event.uploadConstants (min env.giWidth 0xFFFFFFFF % 4294967296)
          (if env.giHeight ≠ 0 then env.giHeight else 1) ∨
        e = Event.dispatchRays pCommandList (min env.giWidth 0xFFFFFFFF % 4294967296)
          (if env.giHeight ≠ 0 then env.giHeight else 1) 1)
      env pCommandList width height (fun r a b => Or.inl ⟨r, a, b, rfl⟩)
      (Or.inr (Or.inl rfl)) (Or.inr (Or.inr rfl)) s
    rw [hW, hH] at hp
    refine ⟨added, ha, ?_, ?_⟩
    · intro cl w h d hm
      rcases hp _ hm with ⟨_, _, _, e⟩ | e | e
      · cases e
      · cases e
      · injection e with e1 e2 e3 e4
        exact ⟨e1, e2, e3, e4⟩
    · intro w h hm
      rcases hp _ hm with ⟨_, _, _, e⟩ | e | e
      · cases e
      · injection e with e1 e2
        exact ⟨e1, e2⟩
      · cases e
  · intro h1 h2
    refine ⟨Nat.min_eq_left h2, ?_⟩
    rw [if_neg (by omega)]
  · intro width height c1 c2 c3 c4 c5 c6 c7 c8 c9
    unfold ExecuteRayTracingWithDebug
    dsimp only
    rw [if_neg (by simp [c1, c2, c3, c4]), if_neg c5, if_neg c6, hW, hH, if_neg, if_neg c8, if_pos c9]
    · apply mem_trace_transitionOutputs
      show _ ∈ _ ++ [_]
      simp
    · intro hc
      rcases hc with hc | hc
      · have := Nat.min_le_right env.giWidth 0xFFFFFFFF
        omega
      · split at hc <;> omega

end CD3D_RT

/-! ### Reads of the validation and its inline copies -/

section ValidateThms3

variable {F : Type} [FloatOps F]

theorem index_diagnostic_ne_degenerate (a b : String) :
    "index " ++ a ++ " out of range (v=" ++ b ++ ")" ≠ "degenerate triangles" := by
  intro h
  have h2 := congrArg String.length h
  simp only [String.length_append] at h2
  have h3 : "index ".length = 6 := by decide
  have h4 : " out of range (v=".length = 17 := by decide
  have h5 : "degenerate triangles".length = 20 := by decide
  omega

theorem hasNonFinite_of_finite (l : List (Vec3 F))
    (h : ∀ p ∈ l, FloatOps.isfinite p.x = true ∧ FloatOps.isfinite p.y = true ∧
      FloatOps.isfinite p.z = true) : l.any hasNonFinite = false := by
  rw [Bool.eq_false_iff]
  intro hc
  rw [List.any_eq_true] at hc
  obtain ⟨p, hp, hnf⟩ := hc
  obtain ⟨fx, fy, fz⟩ := h p hp
  simp [hasNonFinite, fx, fy, fz] at hnf

/-- A record that meets the conditions of the validation is accepted, and
`why` is left as it was. -/
theorem ValidateMeshData_accepts (m : SafeGeometryData F) (why : String)
    (hv : 3 ≤ m.vertices.length) (hi : 3 ≤ m.indices.length) (hmod : m.indices.length % 3 = 0)
    (hcap : m.indices.length ≤ 30000000) (hidx : ∀ idx ∈ m.indices, idx < m.vertices.length)
    (hfin : ∀ p ∈ m.vertices, FloatOps.isfinite p.x = true ∧ FloatOps.isfinite p.y = true ∧
      FloatOps.isfinite p.z = true)
    (hdeg : ∀ k, k < 100 → ¬ triangleDegenerate m k) :
    ValidateMeshData m why = some (true, why) := by
  unfold ValidateMeshData
  simp only
  rw [if_neg (by omega), if_neg (by omega), if_neg (by omega)]
  have hmax := (maxIndex_lt_iff m.indices m.vertices.length (by omega)).2 hidx
  rw [if_neg (by omega), hasNonFinite_of_finite _ hfin]
  simp only [Bool.false_eq_true, if_false]
  obtain ⟨d, hd1, hd2⟩ := triangleLoop_spec m hidx 101 0 (by omega) (by omega)
  rw [Nat.mul_zero] at hd1
  rw [hd1]
  cases d with
  | true =>
    obtain ⟨k, -, hk, hkd⟩ := hd2.1 rfl
    exact absurd hkd (hdeg k hk)
  | false => rfl

/-- An accepted record has at least 3 vertices and an index count that is at
least 3, a multiple of 3 and at most 30,000,000. -/
theorem ValidateMeshData_accepted_counts (m : SafeGeometryData F) (why w : String)
    (h : ValidateMeshData m why = some (true, w)) :
    3 ≤ m.vertices.length ∧ 3 ≤ m.indices.length ∧ m.indices.length % 3 = 0 ∧
      m.indices.length ≤ 30000000 := by
  revert h
  unfold ValidateMeshData
  simp only
  by_cases h1 : m.vertices.length < 3
  · rw [if_pos h1]
    intro h
    cases h
  rw [if_neg h1]
  by_cases h2 : m.indices.length < 3 ∨ m.indices.length % 3 ≠ 0
  · rw [if_pos h2]
    intro h
    cases h
  rw [if_neg h2]
  by_cases h3 : m.indices.length > 30000000
  · rw [if_pos h3]
    intro h
    cases h
  intro _
  omega

theorem ValidateMeshData_isSome (m : SafeGeometryData F) (why : String) :
    (ValidateMeshData m why).isSome = true := by
  unfold ValidateMeshData
  simp only
  by_cases h1 : m.vertices.length < 3
  · rw [if_pos h1]
    rfl
  rw [if_neg h1]
  by_cases h2 : m.indices.length < 3 ∨ m.indices.length % 3 ≠ 0
  · rw [if_pos h2]
    rfl
  rw [if_neg h2]
  by_cases h3 : m.indices.length > 30000000
  · rw [if_pos h3]
    rfl
  rw [if_neg h3]
  by_cases h4 : maxIndex m.indices ≥ m.vertices.length
  · rw [if_pos h4]
    rfl
  rw [if_neg h4]
  by_cases h5 : m.vertices.any hasNonFinite = true
  · rw [if_pos h5]
    rfl
  rw [if_neg h5]
  have hidx := (maxIndex_lt_iff m.indices m.vertices.length (by omega)).1 (by omega)
  obtain ⟨d, hd1, -⟩ := triangleLoop_spec m hidx 101 0 (by omega) (by omega)
  rw [Nat.mul_zero] at hd1
  rw [hd1]
  cases d <;> rfl

/-- With every index below the vertex count, the three index reads and the
three vertex reads of a pass of the triangle loop at position `t` fall inside
the containers. -/
theorem triangle_reads_in_bounds (m : SafeGeometryData F)
    (hmax : maxIndex m.indices < m.vertices.length) (t k : Nat)
    (ht : t + 2 < m.indices.length) (hk : k ≤ 2) :
    ∃ idx p, m.indices[t + k]? = some idx ∧ idx < m.vertices.length ∧
      m.vertices[idx]? = some p := by
  have hidx := (maxIndex_lt_iff m.indices m.vertices.length (by omega)).1 hmax
  have h0 : t + k < m.indices.length := by omega
  have hv := hidx _ (List.getElem_mem h0)
  exact ⟨_, _, List.getElem?_eq_getElem h0, hv, List.getElem?_eq_getElem hv⟩

/-- C28: `ValidateMeshData` reads inside its containers.  It returns a verdict
for every record (in the model `none` stands for a read outside a container).
When the largest index is below the vertex count, each read
`m.indices[t + k]` of the triangle loop (`t + 2 < indices.size()`, `k` in
`0..2`) is inside `indices`, the index read is below the vertex count and the
vertex read with it is inside `vertices`, and the loop runs to a result from
every position it can be at.  When the largest index is not below the vertex
count the loop is not reached: the record is rejected, and not for degenerate
triangles. -/
theorem C28_reads_in_bounds (m : SafeGeometryData F) (why : String) :
    (ValidateMeshData m why).isSome = true ∧
    (maxIndex m.indices < m.vertices.length →
      (∀ t k, t + 2 < m.indices.length → k ≤ 2 →
        ∃ idx p, m.indices[t + k]? = some idx ∧ idx < m.vertices.length ∧
          m.vertices[idx]? = some p) ∧
      ∀ fuel j, 100 < fuel + j → j ≤ 100 →
        (triangleLoop m m.indices.length fuel (3 * j)).isSome = true) ∧
    (m.vertices.length ≤ maxIndex m.indices →
      ∃ reason, ValidateMeshData m why = some (false, reason) ∧
        reason ≠ "degenerate triangles") := by
  refine ⟨?_, ?_, ?_⟩
  · exact ValidateMeshData_isSome m why
  · intro hmax
    refine ⟨fun t k ht hk => triangle_reads_in_bounds m hmax t k ht hk, ?_⟩
    intro fuel j hf hj
    have hidx := (maxIndex_lt_iff m.indices m.vertices.length (by omega)).1 hmax
    obtain ⟨d, hd, -⟩ := triangleLoop_spec m hidx fuel j hf hj
    rw [hd]
    rfl
  · intro hmax
    unfold ValidateMeshData
    simp only
    by_cases h1 : m.vertices.length < 3
    · rw [if_pos h1]
      exact ⟨_, rfl, by decide⟩
    rw [if_neg h1]
    by_cases h2 : m.indices.length < 3 ∨ m.indices.length % 3 ≠ 0
    · rw [if_pos h2]
      exact ⟨_, rfl, by decide⟩
    rw [if_neg h2]
    by_cases h3 : m.indices.length > 30000000
    · rw [if_pos h3]
      exact ⟨_, rfl, by decide⟩
    rw [if_neg h3, if_pos hmax]
    exact ⟨_, rfl, index_diagnostic_ne_degenerate _ _⟩

theorem inlineValidationError_eq (m : SafeGeometryData F) (why : String) :
    inlineValidationError m =
      (ValidateMeshData m why).map (fun r => if r.1 = true then "" else r.2) := by
  unfold inlineValidationError ValidateMeshData
  simp only
  by_cases h1 : m.vertices.length < 3
  · rw [if_pos h1, if_pos h1]
    rfl
  rw [if_neg h1, if_neg h1]
  by_cases h2 : m.indices.length < 3 ∨ m.indices.length % 3 ≠ 0
  · rw [if_pos h2, if_pos h2]
    rfl
  rw [if_neg h2, if_neg h2]
  by_cases h3 : m.indices.length > 30000000
  · rw [if_pos h3, if_pos h3]
    rfl
  rw [if_neg h3, if_neg h3]
  by_cases h4 : maxIndex m.indices ≥ m.vertices.length
  · rw [if_pos h4, if_pos h4]
    rfl
  rw [if_neg h4, if_neg h4]
  by_cases h5 : m.vertices.any hasNonFinite = true
  · rw [if_pos h5, if_pos h5]
    rfl
  rw [if_neg h5, if_neg h5]
  cases triangleLoop m m.indices.length 101 0 with
  | none => rfl
  | some d => cases d <;> rfl

theorem proceduralValidationError_eq (m : SafeGeometryData F) :
    proceduralValidationError m = inlineValidationError m := by
  unfold inlineValidationError proceduralValidationError
  simp only
  by_cases h1 : m.vertices.length < 3
  · rw [if_pos h1, if_pos h1]
  rw [if_neg h1, if_neg h1]
  by_cases h2 : m.indices.length < 3 ∨ m.indices.length % 3 ≠ 0
  · rw [if_pos h2, if_pos h2]
  rw [if_neg h2, if_neg h2]
  by_cases h3 : m.indices.length > 30000000
  · rw [if_pos h3, if_pos h3]
  rw [if_neg h3, if_neg h3]
  by_cases h4 : maxIndex m.indices ≥ m.vertices.length
  · rw [if_pos h4, if_pos h4]
  rw [if_neg h4, if_neg h4]
  cases h5 : m.vertices.any hasNonFinite with
  | true => simp
  | false =>
    simp only [Bool.not_false, if_true, Bool.false_eq_true, if_false]
    cases triangleLoop m m.indices.length 101 0 with
    | none => rfl
    | some d => cases d <;> rfl

theorem ValidateMeshData_reason_ne_empty (m : SafeGeometryData F) (why reason : String)
    (h : ValidateMeshData m why = some (false, reason)) : reason ≠ "" := by
  revert h
  unfold ValidateMeshData
  simp only
  by_cases h1 : m.vertices.length < 3
  · rw [if_pos h1]
    intro h
    cases h
    decide
  rw [if_neg h1]
  by_cases h2 : m.indices.length < 3 ∨ m.indices.length % 3 ≠ 0
  · rw [if_pos h2]
    intro h
    cases h
    decide
  rw [if_neg h2]
  by_cases h3 : m.indices.length > 30000000
  · rw [if_pos h3]
    intro h
    cases h
    decide
  rw [if_neg h3]
  by_cases h4 : maxIndex m.indices ≥ m.vertices.length
  · rw [if_pos h4]
    intro h
    cases h
    exact index_diagnostic_ne_empty _ _
  rw [if_neg h4]
  by_cases h5 : m.vertices.any hasNonFinite = true
  · rw [if_pos h5]
    intro h
    cases h
    decide
  rw [if_neg h5]
  cases triangleLoop m m.indices.length 101 0 with
  | none => intro h; cases h
  | some d =>
    cases d
    · intro h; cases h
    · intro h
      cases h
      decide

/-- C29: the two inline copies of the validation in `ExtractLevelGeometry` (the
one for a render node and the one for a procedural mesh) compute, for every
record, the verdict of `ValidateMeshData`: the error string of each copy is
empty when `ValidateMeshData` accepts and is the reason of `ValidateMeshData`
when it rejects; that reason is never empty, so each copy accepts (leaves its
error string empty) exactly when `ValidateMeshData` accepts. -/
theorem C29_inline_copies_agree (m : SafeGeometryData F) (why : String) :
    inlineValidationError m =
      (ValidateMeshData m why).map (fun r => if r.1 = true then "" else r.2) ∧
    proceduralValidationError m =
      (ValidateMeshData m why).map (fun r => if r.1 = true then "" else r.2) ∧
    (inlineValidationError m = some "" ↔ ∃ w, ValidateMeshData m why = some (true, w)) ∧
    (proceduralValidationError m = some "" ↔ ∃ w, ValidateMeshData m why = some (true, w)) ∧
    ∀ reason, ValidateMeshData m why = some (false, reason) →
      reason ≠ "" ∧ inlineValidationError m = some reason ∧
        proceduralValidationError m = some reason := by
  have e1 := inlineValidationError_eq m why
  have e2 := (proceduralValidationError_eq m).trans e1
  have hne := ValidateMeshData_reason_ne_empty m why
  have key : ∀ x : Option String,
      x = (ValidateMeshData m why).map (fun r => if r.1 = true then "" else r.2) →
      (x = some "" ↔ ∃ w, ValidateMeshData m why = some (true, w)) := by
    intro x hx
    rw [hx]
    cases hv : ValidateMeshData m why with
    | none => simp
    | some r =>
      obtain ⟨b, w⟩ := r
      cases b
      · have := hne w hv
        simp [this]
      · simp
  refine ⟨e1, e2, key _ e1, key _ e2, ?_⟩
  intro reason h
  refine ⟨hne reason h, ?_, ?_⟩
  · rw [e1, h]
    rfl
  · rw [e2, h]
    rfl

end ValidateThms3

/-! ### The two checks of the shader containers -/

theorem validateDXILContainer_of_validateDXIL (bc : List BYTE) (h : validateDXIL bc = true) :
    validateDXILContainer bc = true := by
  revert h
  unfold validateDXIL validateDXILContainer
  simp only
  by_cases h1 : bc.length < 32
  · rw [if_pos h1]
    intro h
    cases h
  rw [if_neg h1, if_neg h1]
  by_cases h2 : headerDWORD bc 0 ≠ 0x43425844
  · rw [if_pos h2]
    intro h
    cases h
  rw [if_neg h2, if_neg h2]
  by_cases h3 : headerDWORD bc 6 ≠ bc.length
  · rw [if_pos h3]
    intro h
    cases h
  rw [if_neg h3, if_neg h3]
  by_cases h4 : headerDWORD bc 7 = 0 ∨ headerDWORD bc 7 > 16
  · rw [if_pos h4]
    intro h
    cases h
  rw [if_neg h4, if_neg (fun h0 => h4 (Or.inl h0))]
  intro _
  rfl

namespace CCompiler

theorem ValidateCompiledShaders_of_ValidateShaderBytecode (c : CCompiler)
    (h : c.ValidateShaderBytecode = true) : ValidateCompiledShaders c.getBytecode = true := by
  revert h
  unfold ValidateShaderBytecode ValidateCompiledShaders getBytecode
  simp only
  by_cases h1 : c.m_rayGenShaderBytecode.isEmpty = true
  · rw [if_pos h1]
    intro h
    cases h
  rw [if_neg h1, if_neg h1]
  by_cases h2 : c.m_missShaderBytecode.isEmpty = true
  · rw [if_pos h2]
    intro h
    cases h
  rw [if_neg h2, if_neg h2]
  by_cases h3 : c.m_closestHitShaderBytecode.isEmpty = true
  · rw [if_pos h3]
    intro h
    cases h
  rw [if_neg h3, if_neg h3]
  intro h
  simp only [Bool.true_and, Bool.and_eq_true] at h
  obtain ⟨⟨a, b⟩, d⟩ := h
  rw [validateDXILContainer_of_validateDXIL _ a, validateDXILContainer_of_validateDXIL _ b,
    validateDXILContainer_of_validateDXIL _ d]
  rfl

theorem ValidateShaderBytecode_CreateShaderBytecode (c : CCompiler) :
    c.CreateShaderBytecode.ValidateShaderBytecode = c.ValidateShaderBytecode := rfl

theorem CompileRayTracingShaders_valid (c : CCompiler) (env : CompileEnv)
    (h : (c.CompileRayTracingShaders env).1 = true) :
    (c.CompileRayTracingShaders env).2.ValidateShaderBytecode = true := by
  revert h
  unfold CompileRayTracingShaders
  simp only
  generalize (if (!(env.compileFromSource c).1) = true then
      if (!(env.loadPrecompiled (env.compileFromSource c).2).1) = true then
        (env.loadPrecompiled (env.compileFromSource c).2).2.CreatePlaceholderShaders
      else (env.loadPrecompiled (env.compileFromSource c).2).2
    else (env.compileFromSource c).2) = c1
  cases hv : c1.ValidateShaderBytecode with
  | false =>
    intro h
    simp at h
  | true =>
    intro _
    simp only [Bool.not_true, Bool.false_eq_true, if_false]
    rw [ValidateShaderBytecode_CreateShaderBytecode]
    exact hv

set_option maxRecDepth 100000 in
theorem placeholders_valid :
    ∀ name ∈ ["RayGeneration", "Miss", "ClosestHit"],
      (createDXILContainer name).length = 152 ∧
      validateDXIL (createDXILContainer name) = true ∧
      validateDXILContainer (createDXILContainer name) = true := by
  decide!

theorem isEmpty_of_length {α : Type} (l : List α) (n : Nat) (h : l.length = n + 1) :
    l.isEmpty = false := by
  cases l with
  | nil => cases h
  | cons a l => rfl

theorem CreatePlaceholderShaders_valid (c : CCompiler) (h1 : c.m_rayGenShaderBytecode = [])
    (h2 : c.m_missShaderBytecode = []) (h3 : c.m_closestHitShaderBytecode = []) :
    c.CreatePlaceholderShaders.m_rayGenShaderBytecode = createDXILContainer "RayGeneration" ∧
    c.CreatePlaceholderShaders.m_missShaderBytecode = createDXILContainer "Miss" ∧
    c.CreatePlaceholderShaders.m_closestHitShaderBytecode = createDXILContainer "ClosestHit" ∧
    c.CreatePlaceholderShaders.ValidateShaderBytecode = true := by
  obtain ⟨a, b, d, x, y, z⟩ := c
  simp only at h1 h2 h3
  subst h1 h2 h3
  have p1 := placeholders_valid "RayGeneration" (by simp)
  have p2 := placeholders_valid "Miss" (by simp)
  have p3 := placeholders_valid "ClosestHit" (by simp)
  have e : (CCompiler.mk [] [] [] x y z).CreatePlaceholderShaders =
      CCompiler.mk (createDXILContainer "RayGeneration") (createDXILContainer "Miss")
        (createDXILContainer "ClosestHit") x y z := rfl
  rw [e]
  refine ⟨rfl, rfl, rfl, ?_⟩
  unfold ValidateShaderBytecode
  simp only [isEmpty_of_length _ 151 p1.1, isEmpty_of_length _ 151 p2.1,
    isEmpty_of_length _ 151 p3.1, p1.2.1, p2.2.1, p3.2.1, Bool.false_eq_true, if_false,
    Bool.and_self]

end CCompiler

/-- C30: the check of the compiler is at least as strict as the check of the
pipeline.  A buffer `validateDXIL` accepts is accepted by
`validateDXILContainer`, so three buffers `CCompiler::ValidateShaderBytecode`
accepts are accepted by `CD3D_RT::ValidateCompiledShaders`.  A call of
`CompileRayTracingShaders` that succeeds leaves buffers that pass both checks,
so `CompileAndLoadShaders`, the shaders not compiled yet, returns `S_OK` and
sets `m_shadersCompiled` exactly when `CompileRayTracingShaders` succeeds, and
`E_FAIL` without a change of state otherwise.  The containers
`CreatePlaceholderShaders` generates, of 152 bytes each, pass both checks. -/
theorem C30_compiler_check_implies_pipeline_check :
    (∀ bc : List BYTE, validateDXIL bc = true → validateDXILContainer bc = true) ∧
    (∀ c : CCompiler, c.ValidateShaderBytecode = true →
      ValidateCompiledShaders c.getBytecode = true) ∧
    (∀ (c : CCompiler) (env : CCompiler.CompileEnv),
      (c.CompileRayTracingShaders env).1 = true →
        (c.CompileRayTracingShaders env).2.ValidateShaderBytecode = true ∧
        ValidateCompiledShaders (c.CompileRayTracingShaders env).2.getBytecode = true) ∧
    (∀ (s : CD3D_RT) (c : CCompiler) (env : CCompiler.CompileEnv),
      s.m_shadersCompiled = false →
        ((c.CompileRayTracingShaders env).1 = true →
          s.CompileAndLoadShaders c env =
            (S_OK, s.setShadersCompiled true, (c.CompileRayTracingShaders env).2)) ∧
        ((c.CompileRayTracingShaders env).1 = false →
          s.CompileAndLoadShaders c env = (E_FAIL, s, (c.CompileRayTracingShaders env).2))) ∧
    (∀ name ∈ ["RayGeneration", "Miss", "ClosestHit"],
      (CCompiler.createDXILContainer name).length = 152 ∧
      validateDXIL (CCompiler.createDXILContainer name) = true ∧
      validateDXILContainer (CCompiler.createDXILContainer name) = true) ∧
    (∀ c : CCompiler, c.m_rayGenShaderBytecode = [] → c.m_missShaderBytecode = [] →
      c.m_closestHitShaderBytecode = [] →
        c.CreatePlaceholderShaders.ValidateShaderBytecode = true ∧
        ValidateCompiledShaders c.CreatePlaceholderShaders.getBytecode = true) := by
  refine ⟨validateDXILContainer_of_validateDXIL,
    CCompiler.ValidateCompiledShaders_of_ValidateShaderBytecode, ?_, ?_,
    CCompiler.placeholders_valid, ?_⟩
  · intro c env h
    have hv := CCompiler.CompileRayTracingShaders_valid c env h
    exact ⟨hv, CCompiler.ValidateCompiledShaders_of_ValidateShaderBytecode _ hv⟩
  · intro s c env hs
    constructor
    · intro h
      have hv := CCompiler.ValidateCompiledShaders_of_ValidateShaderBytecode _
        (CCompiler.CompileRayTracingShaders_valid c env h)
      unfold CD3D_RT.CompileAndLoadShaders
      simp only [hs, h, hv, Bool.false_eq_true, if_false, Bool.not_true]
    · intro h
      unfold CD3D_RT.CompileAndLoadShaders
      simp only [hs, h, Bool.false_eq_true, if_false, Bool.not_false, if_true]
  · intro c h1 h2 h3
    have hv := (CCompiler.CreatePlaceholderShaders_valid c h1 h2 h3).2.2.2
    exact ⟨hv, CCompiler.ValidateCompiledShaders_of_ValidateShaderBytecode _ hv⟩

namespace CD3D_RT

/-! ### Reuse of a frame allocator -/

/-- C26 (fails on the code): `RT_BeginFrameAllocator` on a stage with device,
queue and frame fence whose context of the frame holds an allocator returns
that allocator and clears `usedOnce`, but the statement `ctx.fenceValue = 0`
is the body of `if (FAILED(rhr))`: the stamp is cleared only when `Reset`
failed, and is kept when `Reset` succeeded. -/
theorem C26_stamp_kept_when_reset_succeeds (s : CD3D_RT) (env : BeginFrameEnv)
    (hd : s.m_pDevice ≠ 0) (hq : s.m_pCommandQueue ≠ 0) (hf : s.m_frameFence ≠ 0)
    (ha : (s.m_frameCtx s.ctxIndex).pAllocator ≠ 0) :
    (s.RT_BeginFrameAllocator env).1 = (s.m_frameCtx s.ctxIndex).pAllocator ∧
    ((s.RT_BeginFrameAllocator env).2.m_frameCtx s.ctxIndex).usedOnce = false ∧
    (FAILED env.resetHr = true →
      ((s.RT_BeginFrameAllocator env).2.m_frameCtx s.ctxIndex).fenceValue = 0) ∧
    (FAILED env.resetHr = false →
      ((s.RT_BeginFrameAllocator env).2.m_frameCtx s.ctxIndex).fenceValue =
        (s.m_frameCtx s.ctxIndex).fenceValue) := by
  unfold RT_BeginFrameAllocator
  rw [if_neg (by simp [hd, hq])]
  dsimp only
  rw [if_neg hf, if_neg ha]
  generalize (s.waitForFrameContext (s.m_frameCtx s.ctxIndex).fenceValue).emit _ = s2
  refine ⟨?_, ?_, ?_, ?_⟩
  · split <;> rfl
  · show (Function.update s2.m_frameCtx s.ctxIndex _ s.ctxIndex).usedOnce = false
    rw [Function.update_same]
  · intro hr
    show (Function.update s2.m_frameCtx s.ctxIndex _ s.ctxIndex).fenceValue = 0
    rw [Function.update_same, if_pos hr]
  · intro hr
    show (Function.update s2.m_frameCtx s.ctxIndex _ s.ctxIndex).fenceValue = _
    rw [Function.update_same, if_neg (by simp [hr])]


/-! ### Validated records and the caps of the build -/

section CapsThms

variable {F : Type} [FloatOps F]

end CapsThms


/-! ### The paths of a frame -/

section BookThms

variable {B : Ptr × Nat × Nat × Nat × Nat × Bool × (Fin 15 → RT_FrameContext) × Ptr × Bool}
  {s : CD3D_RT}

theorem bk_ite (c : Prop) [Decidable c] {a b : CD3D_RT} (ha : a.bookkeeping = B)
    (hb : b.bookkeeping = B) : (if c then a else b).bookkeeping = B := by
  split <;> assumption

theorem bk_emit (e : Event) (h : s.bookkeeping = B) : (s.emit e).bookkeeping = B := h

theorem bk_of_core {a b : CD3D_RT} (hc : a.core = b.core) : a.bookkeeping = b.bookkeeping := by
  have h1 : ∀ x : CD3D_RT, x.core.bookkeeping = x.bookkeeping := fun _ => rfl
  rw [← h1, hc, h1]

theorem bk_setGIState (v : Nat) (h : s.bookkeeping = B) : (s.setGIState v).bookkeeping = B := h

theorem bk_setReflState (v : Nat) (h : s.bookkeeping = B) : (s.setReflState v).bookkeeping = B := h

theorem bk_setAOState (v : Nat) (h : s.bookkeeping = B) : (s.setAOState v).bookkeeping = B := h

theorem bk_RT_TransitionTracked (cl res tracked new : Nat) (h : s.bookkeeping = B) :
    (s.RT_TransitionTracked cl res tracked new).1.bookkeeping = B := by
  unfold RT_TransitionTracked
  split
  · exact h
  · split
    · exact h
    · exact h

theorem bk_transitionOutputs (cl new : Nat) (h : s.bookkeeping = B) :
    (s.transitionOutputs cl new).bookkeeping = B := by
  unfold transitionOutputs
  dsimp only
  have h1 := bk_setGIState (s.RT_TransitionTracked cl s.m_pRaytracingOutput s.g_RT_GIState new).2
    (bk_RT_TransitionTracked cl s.m_pRaytracingOutput s.g_RT_GIState new h)
  generalize (s.RT_TransitionTracked cl s.m_pRaytracingOutput s.g_RT_GIState new).1.setGIState
    (s.RT_TransitionTracked cl s.m_pRaytracingOutput s.g_RT_GIState new).2 = s1 at h1 ⊢
  have h2 : (if s1.m_pReflectionOutput ≠ 0 then
      (s1.RT_TransitionTracked cl s1.m_pReflectionOutput s1.g_RT_ReflState new).1.setReflState
        (s1.RT_TransitionTracked cl s1.m_pReflectionOutput s1.g_RT_ReflState new).2
      else s1).bookkeeping = B :=
    bk_ite _ (bk_setReflState _ (bk_RT_TransitionTracked _ _ _ _ h1)) h1
  generalize (if s1.m_pReflectionOutput ≠ 0 then
      (s1.RT_TransitionTracked cl s1.m_pReflectionOutput s1.g_RT_ReflState new).1.setReflState
        (s1.RT_TransitionTracked cl s1.m_pReflectionOutput s1.g_RT_ReflState new).2
      else s1) = s2 at h2 ⊢
  exact bk_ite _ (bk_setAOState _ (bk_RT_TransitionTracked _ _ _ _ h2)) h2

theorem bk_UpdateRayTracingConstants (mapped : Bool) (w v n : Nat) (h : s.bookkeeping = B) :
    (s.UpdateRayTracingConstants mapped w v n).bookkeeping = B := by
  unfold UpdateRayTracingConstants
  split
  · exact h
  · dsimp only
    split
    · exact h
    · exact h

theorem bk_ExecuteRayTracingWithDebug (env : RaysEnv) (cl width height : Nat)
    (h : s.bookkeeping = B) :
    (s.ExecuteRayTracingWithDebug env cl width height).bookkeeping = B := by
  unfold ExecuteRayTracingWithDebug
  dsimp only
  refine bk_ite _ h ?_
  refine bk_ite _ h ?_
  refine bk_ite _ h ?_
  refine bk_ite _ h ?_
  refine bk_ite _ h ?_
  refine bk_transitionOutputs _ _ ?_
  refine bk_ite _ (bk_emit _ ?_) ?_
  · exact bk_UpdateRayTracingConstants _ _ _ _ (bk_transitionOutputs _ _ h)
  · exact bk_UpdateRayTracingConstants _ _ _ _ (bk_transitionOutputs _ _ h)

theorem bk_RT_WaitForLastDispatch (h : s.bookkeeping = B) :
    s.RT_WaitForLastDispatch.bookkeeping = B :=
  (bk_of_core (core_RT_WaitForLastDispatch s)).trans h

theorem bk_transitionForCompose (cl4 pGI pRefl pAO : Ptr) (h : s.bookkeeping = B) :
    (s.transitionForCompose cl4 pGI pRefl pAO).bookkeeping = B := by
  unfold transitionForCompose
  dsimp only
  have h1 := bk_setGIState (s.RT_TransitionTracked cl4 pGI s.g_RT_GIState
      (D3D12_RESOURCE_STATE_NON_PIXEL_SHADER_RESOURCE ||| D3D12_RESOURCE_STATE_PIXEL_SHADER_RESOURCE)).2
    (bk_RT_TransitionTracked cl4 pGI s.g_RT_GIState
      (D3D12_RESOURCE_STATE_NON_PIXEL_SHADER_RESOURCE ||| D3D12_RESOURCE_STATE_PIXEL_SHADER_RESOURCE) h)
  generalize (s.RT_TransitionTracked cl4 pGI s.g_RT_GIState
    (D3D12_RESOURCE_STATE_NON_PIXEL_SHADER_RESOURCE ||| D3D12_RESOURCE_STATE_PIXEL_SHADER_RESOURCE)).1.setGIState
    (s.RT_TransitionTracked cl4 pGI s.g_RT_GIState
      (D3D12_RESOURCE_STATE_NON_PIXEL_SHADER_RESOURCE ||| D3D12_RESOURCE_STATE_PIXEL_SHADER_RESOURCE)).2
    = s1 at h1 ⊢
  have h2 : (if pRefl ≠ 0 then
      (s1.RT_TransitionTracked cl4 pRefl s1.g_RT_ReflState
        (D3D12_RESOURCE_STATE_NON_PIXEL_SHADER_RESOURCE ||| D3D12_RESOURCE_STATE_PIXEL_SHADER_RESOURCE)).1.setReflState
        (s1.RT_TransitionTracked cl4 pRefl s1.g_RT_ReflState
          (D3D12_RESOURCE_STATE_NON_PIXEL_SHADER_RESOURCE ||| D3D12_RESOURCE_STATE_PIXEL_SHADER_RESOURCE)).2
      else s1).bookkeeping = B :=
    bk_ite _ (bk_setReflState _ (bk_RT_TransitionTracked _ _ _ _ h1)) h1
  generalize (if pRefl ≠ 0 then
      (s1.RT_TransitionTracked cl4 pRefl s1.g_RT_ReflState
        (D3D12_RESOURCE_STATE_NON_PIXEL_SHADER_RESOURCE ||| D3D12_RESOURCE_STATE_PIXEL_SHADER_RESOURCE)).1.setReflState
        (s1.RT_TransitionTracked cl4 pRefl s1.g_RT_ReflState
          (D3D12_RESOURCE_STATE_NON_PIXEL_SHADER_RESOURCE ||| D3D12_RESOURCE_STATE_PIXEL_SHADER_RESOURCE)).2
      else s1) = s2 at h2 ⊢
  exact bk_ite _ (bk_setAOState _ (bk_RT_TransitionTracked _ _ _ _ h2)) h2

theorem bk_composeDraw (env : ComposeEnv) (pGI pRefl pAO : Ptr) (h : s.bookkeeping = B) :
    (s.composeDraw env pGI pRefl pAO).2.bookkeeping = B := by
  unfold composeDraw
  have h1 : (if env.cl4 ≠ 0 then s.transitionForCompose env.cl4 pGI pRefl pAO else s).bookkeeping
      = B := bk_ite _ (bk_transitionForCompose _ _ _ _ h) h
  dsimp only
  generalize (if env.cl4 ≠ 0 then s.transitionForCompose env.cl4 pGI pRefl pAO else s) = s1
    at h1 ⊢
  repeat' apply ite_cases (fun r : HRESULT × CD3D_RT => r.2.bookkeeping = B)
  all_goals first
    | exact h
    | exact h1

theorem bk_CreateRayTracingResources (env : ResourcesEnv) (h : s.bookkeeping = B) :
    (s.CreateRayTracingResources env).2.bookkeeping = B :=
  (quiet_CreateRayTracingResources env (Quiet.reflQ s)).1.trans h

theorem bk_ComposeToHDROneShot (env : ComposeEnv) (h : s.bookkeeping = B) :
    (s.ComposeToHDROneShot env).2.bookkeeping = B := by
  unfold ComposeToHDROneShot
  have h1 := bk_RT_WaitForLastDispatch h
  dsimp only
  generalize s.RT_WaitForLastDispatch = s1 at h1 ⊢
  have h2 := bk_CreateRayTracingResources env.resources h1
  generalize s1.CreateRayTracingResources env.resources = cr at h2 ⊢
  refine ite_cases (fun r : HRESULT × CD3D_RT => r.2.bookkeeping = B) _ _ _ h ?_
  refine ite_cases (fun r : HRESULT × CD3D_RT => r.2.bookkeeping = B) _ _ _ h ?_
  refine ite_cases (fun r : HRESULT × CD3D_RT => r.2.bookkeeping = B) _ _ _ h ?_
  refine ite_cases (fun r : HRESULT × CD3D_RT => r.2.bookkeeping = B) _ _ _ h1 ?_
  refine ite_cases (fun r : HRESULT × CD3D_RT => r.2.bookkeeping = B) _ _ _ h1 ?_
  refine ite_cases (fun r : HRESULT × CD3D_RT => r.2.bookkeeping = B) _ _ _ ?_ ?_
  · refine ite_cases (fun r : HRESULT × CD3D_RT => r.2.bookkeeping = B) _ _ _ h2 ?_
    exact bk_composeDraw _ _ _ _ h2
  · exact bk_composeDraw _ _ _ _ h1

end BookThms

section EndFrameThms

theorem RT_EndFrameAndSignal_m_frameRecordedWork (s : CD3D_RT) :
    s.RT_EndFrameAndSignal.m_frameRecordedWork = false := by
  unfold RT_EndFrameAndSignal
  split <;> rfl

theorem latch_of_core {a b : CD3D_RT} (h : a.core = b.core) :
    a.s_deviceStabilityFailure = b.s_deviceStabilityFailure := by
  have h1 := congrArg CD3D_RT.s_deviceStabilityFailure h
  exact h1

theorem signalAndStamp_more (s : CD3D_RT) :
    s.signalAndStamp.m_lastASBuildFence = s.m_lastASBuildFence ∧
    s.signalAndStamp.s_deviceStabilityFailure = s.s_deviceStabilityFailure ∧
    s.signalAndStamp.m_pTopLevelAS = s.m_pTopLevelAS ∧
    s.signalAndStamp.s_geometryBuilt = s.s_geometryBuilt := by
  unfold signalAndStamp
  dsimp only
  split <;> exact ⟨rfl, rfl, rfl, rfl⟩

theorem RT_EndFrameAndSignal_latch (s : CD3D_RT) :
    s.RT_EndFrameAndSignal.s_deviceStabilityFailure = s.s_deviceStabilityFailure := by
  unfold RT_EndFrameAndSignal
  split
  · rfl
  · dsimp only
    have h1 : (if s.m_frameRecordedWork = true then s.signalAndStamp else s).s_deviceStabilityFailure
        = s.s_deviceStabilityFailure := by
      split
      · exact (signalAndStamp_more s).2.1
      · rfl
    generalize (if s.m_frameRecordedWork = true then s.signalAndStamp else s) = s1 at h1 ⊢
    exact (latch_of_core (core_RT_ReclaimRetiredAllocators s1)).trans h1

theorem RT_EndFrameAndSignal_m_frameFence (s : CD3D_RT) :
    s.RT_EndFrameAndSignal.m_frameFence = s.m_frameFence := by
  unfold RT_EndFrameAndSignal
  split
  · rfl
  · dsimp only
    have h1 : (if s.m_frameRecordedWork = true then s.signalAndStamp else s).m_frameFence
        = s.m_frameFence := by
      split
      · exact (signalAndStamp_fields s).2.2.2.1
      · rfl
    generalize (if s.m_frameRecordedWork = true then s.signalAndStamp else s) = s1 at h1 ⊢
    exact (core_m_frameFence (core_RT_ReclaimRetiredAllocators s1)).trans h1

/-- The end of a frame without a frame fence: the frame index grows by 1 and
the flag is cleared, nothing else changes. -/
theorem RT_EndFrameAndSignal_unfenced (s : CD3D_RT) (hf : s.m_frameFence = 0) :
    s.RT_EndFrameAndSignal.bookkeeping =
      (s.m_frameFence, s.m_lastSignaledFence, s.m_lastDispatchFence, s.m_lastASBuildFence,
        s.m_frameIndex + 1, false, s.m_frameCtx, s.m_pTopLevelAS, s.s_geometryBuilt) ∧
    s.RT_EndFrameAndSignal.trace = s.trace := by
  unfold RT_EndFrameAndSignal
  rw [if_pos hf]
  exact ⟨rfl, rfl⟩

/-- The end of a frame with recorded work on a stage with a frame fence: the
counter `m_lastSignaledFence` grows by 1, that value is signalled and becomes
`m_lastDispatchFence`, and the context of the frame, when it holds an
allocator, is stamped with it. -/
theorem RT_EndFrameAndSignal_recorded (s : CD3D_RT) (hf : s.m_frameFence ≠ 0)
    (hw : s.m_frameRecordedWork = true) :
    s.RT_EndFrameAndSignal.bookkeeping =
      (s.m_frameFence, s.m_lastSignaledFence + 1, s.m_lastSignaledFence + 1,
        s.m_lastASBuildFence, s.m_frameIndex + 1, false,
        (if (s.m_frameCtx s.ctxIndex).pAllocator ≠ 0 then
          Function.update s.m_frameCtx s.ctxIndex
            { s.m_frameCtx s.ctxIndex with
              fenceValue := s.m_lastSignaledFence + 1, usedOnce := true }
        else s.m_frameCtx),
        s.m_pTopLevelAS, s.s_geometryBuilt) ∧
    ∃ released, s.RT_EndFrameAndSignal.trace =
        s.trace ++ Event.signalFrameFence (s.m_lastSignaledFence + 1) :: released ∧
      ∀ e ∈ released, isRelease e := by
  obtain ⟨f1, f2, f3, f4, f5, f6, f7, f8⟩ := signalAndStamp_fields s
  obtain ⟨g1, g2, g3, g4⟩ := signalAndStamp_more s
  have hctx : s.signalAndStamp.m_frameCtx =
      (if (s.m_frameCtx s.ctxIndex).pAllocator ≠ 0 then
        Function.update s.m_frameCtx s.ctxIndex
          { s.m_frameCtx s.ctxIndex with
            fenceValue := s.m_lastSignaledFence + 1, usedOnce := true }
      else s.m_frameCtx) := by
    split
    · rename_i ha
      exact f7 ha
    · rename_i ha
      exact f8 (by simpa using ha)
  unfold RT_EndFrameAndSignal
  rw [if_neg hf, hw]
  simp only [if_true]
  have hb := bookkeeping_RT_ReclaimRetiredAllocators s.signalAndStamp
  obtain ⟨l, hl, hp⟩ := traceExt_RT_ReclaimRetiredAllocators (P := isRelease)
    (fun p => Or.inr ⟨p, rfl⟩) s.signalAndStamp
  generalize s.signalAndStamp.RT_ReclaimRetiredAllocators = s1 at hb hl
  simp only [bookkeeping, Prod.mk.injEq] at hb
  obtain ⟨b1, b2, b3, b4, b5, _, b7, b8, b9⟩ := hb
  constructor
  · show (s1.m_frameFence, s1.m_lastSignaledFence, s1.m_lastDispatchFence,
      s1.m_lastASBuildFence, s1.m_frameIndex + 1, false, s1.m_frameCtx, s1.m_pTopLevelAS,
      s1.s_geometryBuilt) = _
    rw [b1, b2, b3, b4, b5, b7, b8, b9, f1, f2, f3, f4, g1, g3, g4, hctx]
  · refine ⟨l, ?_, hp⟩
    show s1.trace = _
    rw [hl, f5, List.append_assoc]
    rfl

end EndFrameThms

section BeginThms

theorem RT_InitFrameContexts_fields (s : CD3D_RT) (env : InitFrameEnv) :
    (s.RT_InitFrameContexts env).m_lastSignaledFence = s.m_lastSignaledFence ∧
    (s.RT_InitFrameContexts env).m_lastDispatchFence = s.m_lastDispatchFence ∧
    (s.RT_InitFrameContexts env).m_lastASBuildFence = s.m_lastASBuildFence ∧
    (s.RT_InitFrameContexts env).m_frameRecordedWork = s.m_frameRecordedWork ∧
    (s.RT_InitFrameContexts env).s_deviceStabilityFailure = s.s_deviceStabilityFailure ∧
    ∀ i, ((s.RT_InitFrameContexts env).m_frameCtx i).fenceValue = (s.m_frameCtx i).fenceValue := by
  unfold RT_InitFrameContexts
  split
  · exact ⟨rfl, rfl, rfl, rfl, rfl, fun _ => rfl⟩
  · dsimp only
    cases env.fence with
    | none => exact ⟨rfl, rfl, rfl, rfl, rfl, fun _ => rfl⟩
    | some fence =>
      refine ⟨rfl, rfl, rfl, rfl, rfl, fun i => ?_⟩
      show (match env.allocators i with
        | none => { s.m_frameCtx i with pAllocator := 0 }
        | some tmp => { s.m_frameCtx i with pAllocator := tmp }).fenceValue = _
      cases env.allocators i <;> rfl

/-- `RT_BeginFrameAllocator` leaves the three fence counters, the flag for
recorded work and the latch as they are; the stamp of a frame context is the
same afterwards or `0`. -/
theorem RT_BeginFrameAllocator_fields (s : CD3D_RT) (env : BeginFrameEnv) :
    (s.RT_BeginFrameAllocator env).2.m_lastSignaledFence = s.m_lastSignaledFence ∧
    (s.RT_BeginFrameAllocator env).2.m_lastDispatchFence = s.m_lastDispatchFence ∧
    (s.RT_BeginFrameAllocator env).2.m_lastASBuildFence = s.m_lastASBuildFence ∧
    (s.RT_BeginFrameAllocator env).2.m_frameRecordedWork = s.m_frameRecordedWork ∧
    (s.RT_BeginFrameAllocator env).2.s_deviceStabilityFailure = s.s_deviceStabilityFailure ∧
    ∀ i, ((s.RT_BeginFrameAllocator env).2.m_frameCtx i).fenceValue =
        (s.m_frameCtx i).fenceValue ∨
      ((s.RT_BeginFrameAllocator env).2.m_frameCtx i).fenceValue = 0 := by
  unfold RT_BeginFrameAllocator
  refine ite_cases (fun r : Ptr × CD3D_RT =>
    r.2.m_lastSignaledFence = s.m_lastSignaledFence ∧
    r.2.m_lastDispatchFence = s.m_lastDispatchFence ∧
    r.2.m_lastASBuildFence = s.m_lastASBuildFence ∧
    r.2.m_frameRecordedWork = s.m_frameRecordedWork ∧
    r.2.s_deviceStabilityFailure = s.s_deviceStabilityFailure ∧
    ∀ i, (r.2.m_frameCtx i).fenceValue = (s.m_frameCtx i).fenceValue ∨
      (r.2.m_frameCtx i).fenceValue = 0) _ _ _
    ⟨rfl, rfl, rfl, rfl, rfl, fun _ => Or.inl rfl⟩ ?_
  dsimp only
  have h1 : (if s.m_frameFence = 0 then s.RT_InitFrameContexts env.init else s).m_lastSignaledFence
        = s.m_lastSignaledFence ∧
      (if s.m_frameFence = 0 then s.RT_InitFrameContexts env.init else s).m_lastDispatchFence
        = s.m_lastDispatchFence ∧
      (if s.m_frameFence = 0 then s.RT_InitFrameContexts env.init else s).m_lastASBuildFence
        = s.m_lastASBuildFence ∧
      (if s.m_frameFence = 0 then s.RT_InitFrameContexts env.init else s).m_frameRecordedWork
        = s.m_frameRecordedWork ∧
      (if s.m_frameFence = 0 then s.RT_InitFrameContexts env.init else s).s_deviceStabilityFailure
        = s.s_deviceStabilityFailure ∧
      ∀ i, ((if s.m_frameFence = 0 then s.RT_InitFrameContexts env.init else s).m_frameCtx
        i).fenceValue = (s.m_frameCtx i).fenceValue := by
    split
    · exact RT_InitFrameContexts_fields s env.init
    · exact ⟨rfl, rfl, rfl, rfl, rfl, fun _ => rfl⟩
  generalize (if s.m_frameFence = 0 then s.RT_InitFrameContexts env.init else s) = s1 at h1 ⊢
  obtain ⟨a1, a2, a3, a4, a5, a6⟩ := h1
  have hupd : ∀ (x : CD3D_RT) (c : RT_FrameContext), x.m_frameCtx = s1.m_frameCtx →
      (c.fenceValue = (s1.m_frameCtx s1.ctxIndex).fenceValue ∨ c.fenceValue = 0) →
      ∀ i, (Function.update x.m_frameCtx s1.ctxIndex c i).fenceValue =
          (s.m_frameCtx i).fenceValue ∨
        (Function.update x.m_frameCtx s1.ctxIndex c i).fenceValue = 0 := by
    intro x c hx hc i
    by_cases hi : i = s1.ctxIndex
    · subst hi
      rw [Function.update_same]
      rcases hc with hc | hc
      · exact Or.inl (hc.trans (a6 _))
      · exact Or.inr hc
    · rw [Function.update_noteq hi, hx]
      exact Or.inl (a6 i)
  split
  · split
    · exact ⟨a1, a2, a3, a4, a5, hupd s1 _ rfl (Or.inl rfl)⟩
    · exact ⟨a1, a2, a3, a4, a5, hupd s1 _ rfl (Or.inl rfl)⟩
  · have hc := core_waitForFrameContext s1 (s1.m_frameCtx s1.ctxIndex).fenceValue
    generalize s1.waitForFrameContext (s1.m_frameCtx s1.ctxIndex).fenceValue = s2 at hc ⊢
    refine ⟨(core_m_lastSignaledFence hc).trans a1, (core_m_lastDispatchFence hc).trans a2,
      (core_m_lastASBuildFence hc).trans a3, (core_m_frameRecordedWork hc).trans a4,
      (latch_of_core hc).trans a5, ?_⟩
    refine hupd (s2.emit _) _ (core_m_frameCtx hc) ?_
    split
    · exact Or.inr rfl
    · exact Or.inl rfl

end BeginThms


/-! ### The order of the fence counters -/

section FencedThms

theorem Fenced.reflF (s : CD3D_RT) : Fenced s s := ⟨rfl, rfl, rfl, le_refl _, Or.inl rfl⟩

theorem Fenced.of_fields {s s' : CD3D_RT}
    (h : s'.m_frameFence = s.m_frameFence ∧ s'.m_lastDispatchFence = s.m_lastDispatchFence ∧
      s'.m_frameCtx = s.m_frameCtx ∧ s'.m_lastSignaledFence = s.m_lastSignaledFence ∧
      s'.m_lastASBuildFence = s.m_lastASBuildFence) : Fenced s s' :=
  ⟨h.1, h.2.1, h.2.2.1, le_of_eq h.2.2.2.1.symm, Or.inl h.2.2.2.2⟩

theorem Fenced.of_core {s s' : CD3D_RT} (h : s'.core = s.core) : Fenced s s' :=
  Fenced.of_fields ⟨core_m_frameFence h, core_m_lastDispatchFence h, core_m_frameCtx h,
    core_m_lastSignaledFence h, core_m_lastASBuildFence h⟩

theorem Fenced.transF {s s' s'' : CD3D_RT} (h1 : Fenced s s') (h2 : Fenced s' s'') :
    Fenced s s'' := by
  obtain ⟨a1, a2, a3, a4, a5⟩ := h1
  obtain ⟨b1, b2, b3, b4, b5⟩ := h2
  refine ⟨b1.trans a1, b2.trans a2, b3.trans a3, le_trans a4 b4, ?_⟩
  rcases b5 with b5 | b5
  · rcases a5 with a5 | a5
    · exact Or.inl (b5.trans a5)
    · exact Or.inr (b5 ▸ le_trans a5 b4)
  · exact Or.inr b5

/-- A build keeps the fence counters in order. -/
theorem Fenced.inOrder {s s' : CD3D_RT} (h : Fenced s s') (ho : fencesInOrder s) :
    fencesInOrder s' := by
  obtain ⟨_, a2, a3, a4, a5⟩ := h
  obtain ⟨o1, o2, o3⟩ := ho
  refine ⟨a2 ▸ le_trans o1 a4, ?_, fun i => a3 ▸ le_trans (o3 i) a4⟩
  rcases a5 with a5 | a5
  · exact a5 ▸ le_trans o2 a4
  · exact a5

theorem fenced_submitBuild (s : CD3D_RT) (pCL : Ptr) (fc : Bool) (hr : HRESULT) (fb : Bool) :
    Fenced s (s.submitBuild pCL fc hr fb) := by
  unfold submitBuild
  simp only
  split
  · split
    · exact ⟨rfl, rfl, rfl, Nat.le_succ _, Or.inr (le_refl _)⟩
    · exact ⟨rfl, rfl, rfl, Nat.le_succ _, Or.inl rfl⟩
  · split
    · exact ⟨rfl, rfl, rfl, Nat.le_succ _, Or.inr (le_refl _)⟩
    · exact Fenced.reflF _

theorem fenced_releaseTestBuffers (s : CD3D_RT) (a b c d : Ptr) :
    Fenced s (s.releaseTestBuffers a b c d) := by
  have hR : ∀ (x : CD3D_RT) (r : Ptr), Fenced x (x.Release r) :=
    fun x r => Fenced.of_core (core_Release x r)
  unfold releaseTestBuffers
  exact ((hR _ _).transF (hR _ _)).transF ((hR _ _).transF (hR _ _))

theorem fenced_pushSceneBLAS (s : CD3D_RT) (b : AccelerationStructureBuffers) (va : Nat) :
    Fenced s (s.pushSceneBLAS b va) := by
  apply Fenced.of_fields
  unfold pushSceneBLAS
  simp only
  split <;> split <;> exact ⟨rfl, rfl, rfl, rfl, rfl⟩

theorem fenced_clearPrevious (s : CD3D_RT) : Fenced s s.clearPrevious := by
  unfold clearPrevious
  simp only
  have g1 : Fenced s (s.releaseEachASBuffers s.m_sceneBLAS).1 :=
    Fenced.of_core (core_releaseEachASBuffers _ _)
  generalize (s.releaseEachASBuffers s.m_sceneBLAS).1 = r1 at g1 ⊢
  have g2 : Fenced s (r1.setSceneBLAS []) := g1.transF (Fenced.of_fields ⟨rfl, rfl, rfl, rfl, rfl⟩)
  generalize r1.setSceneBLAS [] = s1 at g2 ⊢
  have g3 := g2.transF (Fenced.of_core (core_safeReleaseEach s1.m_sceneBLASResults s1))
  generalize (s1.safeReleaseEach s1.m_sceneBLASResults).1 = r2 at g3 ⊢
  have g4 : Fenced s (r2.setSceneBLASResults []) :=
    g3.transF (Fenced.of_fields ⟨rfl, rfl, rfl, rfl, rfl⟩)
  generalize r2.setSceneBLASResults [] = s2 at g4 ⊢
  have g5 := g4.transF (Fenced.of_core (core_ClearKeepAliveUploads s2))
  generalize s2.ClearKeepAliveUploads = s3 at g5 ⊢
  have g6 := g5.transF (Fenced.of_core (core_RT_ReleaseASBuffers s3 s3.m_tlasBuffers))
  generalize s3.RT_ReleaseASBuffers s3.m_tlasBuffers = rel at g6 ⊢
  exact g6.transF (Fenced.of_fields ⟨rfl, rfl, rfl, rfl, rfl⟩)

theorem fenced_finishLevelBuild (s : CD3D_RT) (tlasEnv : TlasEnv) (pCL : Ptr)
    (closeHr : HRESULT) (fc : Bool) (signalHr : HRESULT) :
    Fenced s (s.finishLevelBuild tlasEnv pCL closeHr fc signalHr).2 := by
  unfold finishLevelBuild
  simp only
  have h2 : Fenced s ((s.BuildTopLevelAS tlasEnv pCL s.blasVaList s.m_tlasBuffers).2.1.setTlasBuffers
      (s.BuildTopLevelAS tlasEnv pCL s.blasVaList s.m_tlasBuffers).2.2) :=
    (Fenced.of_core (core_BuildTopLevelAS s tlasEnv pCL s.blasVaList s.m_tlasBuffers)).transF
      (Fenced.of_fields ⟨rfl, rfl, rfl, rfl, rfl⟩)
  repeat' apply ite_cases (fun r : HRESULT × CD3D_RT => Fenced s r.2)
  all_goals first
    | exact Fenced.reflF _
    | exact h2
    | exact h2.transF (Fenced.of_fields ⟨rfl, rfl, rfl, rfl, rfl⟩)
    | exact h2.transF ((Fenced.of_fields ⟨rfl, rfl, rfl, rfl, rfl⟩).transF
        (fenced_submitBuild _ _ _ _ _))

theorem fenced_buildLevelBLAS {F : Type} (records : Nat → RecordBuildEnv) (pCL : Ptr)
    (geo : List (SafeGeometryData F)) (i : Nat) (s : CD3D_RT) :
    Fenced s (buildLevelBLAS records pCL i geo s) := by
  induction geo generalizing i s with
  | nil => exact Fenced.reflF _
  | cons g rest ih =>
    unfold buildLevelBLAS
    simp only
    cases CreateDefaultBufferFromData (g.vertices.length * 12) (records i).vb with
    | none => exact ih _ _
    | some vb =>
      cases CreateDefaultBufferFromData (g.indices.length * 4) (records i).ib with
      | none => exact (Fenced.of_fields ⟨rfl, rfl, rfl, rfl, rfl⟩).transF (ih _ _)
      | some ib =>
        simp only
        refine Fenced.transF ?_ (ih _ _)
        have hb := fun (e : BlasEnv) a1 a2 a3 a4 a5 a6 a7 b =>
          Fenced.of_core (core_BuildBottomLevelAS
            (s.pushKeepAlive (UploadBufferKeepAlive.mk vb.1 ib.1 vb.2 ib.2 g.debugName))
            e pCL a1 a2 a3 a4 a5 a6 a7 b)
        have h0 : Fenced s
            (s.pushKeepAlive (UploadBufferKeepAlive.mk vb.1 ib.1 vb.2 ib.2 g.debugName)) :=
          Fenced.of_fields ⟨rfl, rfl, rfl, rfl, rfl⟩
        split
        · exact h0.transF ((hb _ _ _ _ _ _ _ _ _).transF (fenced_pushSceneBLAS _ _ _))
        · exact h0.transF (hb _ _ _ _ _ _ _ _ _)

theorem fenced_clearOldAS (s : CD3D_RT) : Fenced s s.clearOldAS := by
  unfold clearOldAS
  simp only
  have g1 : Fenced s (s.RT_ReleaseASBuffers s.m_tlasBuffers).1 :=
    Fenced.of_core (core_RT_ReleaseASBuffers s s.m_tlasBuffers)
  generalize s.RT_ReleaseASBuffers s.m_tlasBuffers = r1 at g1 ⊢
  have g2 : Fenced s (r1.1.setTlasBuffers r1.2) :=
    g1.transF (Fenced.of_fields ⟨rfl, rfl, rfl, rfl, rfl⟩)
  generalize r1.1.setTlasBuffers r1.2 = s1 at g2 ⊢
  have g3 := g2.transF (Fenced.of_core (core_RT_ReleaseASBuffers s1 s1.m_blasBuffers))
  generalize s1.RT_ReleaseASBuffers s1.m_blasBuffers = r2 at g3 ⊢
  exact g3.transF (Fenced.of_fields ⟨rfl, rfl, rfl, rfl, rfl⟩)

theorem fenced_buildTestScene (s : CD3D_RT) (env : TestSceneEnv) (pCL a b c d : Ptr) :
    Fenced s (s.buildTestScene env pCL a b c d).2 := by
  unfold buildTestScene
  simp only
  have h1 : Fenced s ((s.BuildBottomLevelAS env.blas pCL env.vbVA 3 12
      DXGI_FORMAT_R32G32B32_FLOAT env.ibVA 3 DXGI_FORMAT_R32_UINT s.m_blasBuffers).2.1.setBlasBuffers
      (s.BuildBottomLevelAS env.blas pCL env.vbVA 3 12 DXGI_FORMAT_R32G32B32_FLOAT env.ibVA 3
        DXGI_FORMAT_R32_UINT s.m_blasBuffers).2.2) :=
    (Fenced.of_core (core_BuildBottomLevelAS s env.blas pCL env.vbVA 3 12
      DXGI_FORMAT_R32G32B32_FLOAT env.ibVA 3 DXGI_FORMAT_R32_UINT s.m_blasBuffers)).transF
      (Fenced.of_fields ⟨rfl, rfl, rfl, rfl, rfl⟩)
  generalize (s.BuildBottomLevelAS env.blas pCL env.vbVA 3 12 DXGI_FORMAT_R32G32B32_FLOAT
    env.ibVA 3 DXGI_FORMAT_R32_UINT s.m_blasBuffers) = built at h1 ⊢
  generalize built.2.1.setBlasBuffers built.2.2 = s1 at h1 ⊢
  apply ite_cases (fun r : HRESULT × CD3D_RT => Fenced s r.2)
  · exact h1.transF (fenced_releaseTestBuffers _ _ _ _ _)
  have h2 : Fenced s (if s1.m_blasBuffers.resultVA = 0 ∧ s1.m_blasBuffers.pResult ≠ 0 then
      s1.setBlasBuffers { s1.m_blasBuffers with resultVA := env.resultVA2 } else s1) := by
    apply ite_cases (fun r : CD3D_RT => Fenced s r)
    · exact h1.transF (Fenced.of_fields ⟨rfl, rfl, rfl, rfl, rfl⟩)
    · exact h1
  generalize (if s1.m_blasBuffers.resultVA = 0 ∧ s1.m_blasBuffers.pResult ≠ 0 then
      s1.setBlasBuffers { s1.m_blasBuffers with resultVA := env.resultVA2 } else s1) = s2 at h2 ⊢
  apply ite_cases (fun r : HRESULT × CD3D_RT => Fenced s r.2)
  · have h3 := h2.transF (Fenced.of_core (core_RT_ReleaseASBuffers s2 s2.m_blasBuffers))
    generalize s2.RT_ReleaseASBuffers s2.m_blasBuffers = rel at h3 ⊢
    exact (h3.transF (Fenced.of_fields ⟨rfl, rfl, rfl, rfl, rfl⟩)).transF
      (fenced_releaseTestBuffers _ _ _ _ _)
  have h3 : Fenced s ((s2.BuildTopLevelAS env.tlas pCL [s2.m_blasBuffers.resultVA]
      s2.m_tlasBuffers).2.1.setTlasBuffers (s2.BuildTopLevelAS env.tlas pCL
        [s2.m_blasBuffers.resultVA] s2.m_tlasBuffers).2.2) :=
    h2.transF ((Fenced.of_core (core_BuildTopLevelAS s2 env.tlas pCL [s2.m_blasBuffers.resultVA]
      s2.m_tlasBuffers)).transF (Fenced.of_fields ⟨rfl, rfl, rfl, rfl, rfl⟩))
  generalize (s2.BuildTopLevelAS env.tlas pCL [s2.m_blasBuffers.resultVA] s2.m_tlasBuffers) = bt
    at h3 ⊢
  generalize bt.2.1.setTlasBuffers bt.2.2 = s3 at h3 ⊢
  have h4 : Fenced s (s3.setTopLevelAS s3.m_tlasBuffers.pResult) :=
    h3.transF (Fenced.of_fields ⟨rfl, rfl, rfl, rfl, rfl⟩)
  apply ite_cases (fun r : HRESULT × CD3D_RT => Fenced s r.2)
  · exact h3.transF (fenced_releaseTestBuffers _ _ _ _ _)
  apply ite_cases (fun r : HRESULT × CD3D_RT => Fenced s r.2)
  · exact h4.transF (fenced_releaseTestBuffers _ _ _ _ _)
  · exact h4.transF (fenced_submitBuild _ _ _ _ _)

variable {F : Type} [FloatOps F]

theorem fenced_CreateTestScene (s : CD3D_RT) (env : TestSceneEnv) :
    Fenced s (s.CreateTestSceneWithEnhancedSafety F env).2 := by
  have h := Fenced.reflF s
  unfold CreateTestSceneWithEnhancedSafety
  apply ite_cases (fun r : HRESULT × CD3D_RT => Fenced s r.2) _ _ _ h
  apply ite_cases (fun r : HRESULT × CD3D_RT => Fenced s r.2) _ _ _ h
  simp only
  have hq : Fenced s (if s.m_pCommandQueue = 0 then s.setCommandQueue env.queue else s) := by
    apply ite_cases (fun r : CD3D_RT => Fenced s r)
    · exact Fenced.of_fields ⟨rfl, rfl, rfl, rfl, rfl⟩
    · exact h
  generalize (if s.m_pCommandQueue = 0 then s.setCommandQueue env.queue else s) = s1 at hq ⊢
  apply ite_cases (fun r : HRESULT × CD3D_RT => Fenced s r.2) _ _ _ hq
  cases env.allocator with
  | none => exact hq
  | some al =>
    cases env.commandList with
    | none => exact hq
    | some pCL =>
      simp only
      split
      · cases CreateDefaultBufferFromData 36 env.vb with
        | none => exact hq
        | some vb =>
          cases CreateDefaultBufferFromData 12 env.ib with
          | none => exact hq.transF (Fenced.of_fields ⟨rfl, rfl, rfl, rfl, rfl⟩)
          | some ib =>
            exact hq.transF ((fenced_clearOldAS s1).transF
              (fenced_buildTestScene _ _ _ _ _ _ _))
      · exact hq

theorem fenced_CreateLevel (s : CD3D_RT) (env : LevelBuildEnv F) :
    Fenced s (s.CreateLevelGeometryBLASAndTLAS env).2 := by
  cases h : reachesCommandList s env with
  | false =>
    obtain ⟨_, queue, hq⟩ := CreateLevel_early s env h
    rw [hq]
    exact Fenced.of_fields ⟨rfl, rfl, rfl, rfl, rfl⟩
  | true =>
    obtain ⟨queue, l, pCL, _, _, he⟩ := CreateLevel_reached s env h
    rw [he]
    have g0 : Fenced s (s.setCommandQueue queue) := Fenced.of_fields ⟨rfl, rfl, rfl, rfl, rfl⟩
    generalize s.setCommandQueue queue = s1 at g0 ⊢
    have g1 := g0.transF (fenced_clearPrevious s1)
    generalize s1.clearPrevious = s2 at g1 ⊢
    have g2 := g1.transF (fenced_buildLevelBLAS env.records pCL l 0 s2)
    generalize buildLevelBLAS env.records pCL 0 l s2 = s3 at g2 ⊢
    exact g2.transF (fenced_finishLevelBuild s3 _ _ _ _ _)

theorem fenced_ensureGeometry (s : CD3D_RT) (env : LevelBuildEnv F) :
    Fenced s (s.ensureGeometry env).2 := by
  unfold ensureGeometry
  split
  · dsimp only
    split
    · exact (fenced_CreateLevel s env).transF (Fenced.of_fields ⟨rfl, rfl, rfl, rfl, rfl⟩)
    · exact fenced_CreateLevel s env
  · exact Fenced.reflF s

theorem Fenced.of_bookkeeping {s s' : CD3D_RT} (h : s'.bookkeeping = s.bookkeeping) :
    Fenced s s' := by
  simp only [bookkeeping, Prod.mk.injEq] at h
  obtain ⟨b1, b2, b3, b4, _, _, b7, _, _⟩ := h
  exact Fenced.of_fields ⟨b1, b3, b7, b2, b4⟩

end FencedThms


/-! ### The compose step -/

section ComposeThms

variable {P : Event → Prop} {s0 s : CD3D_RT}

theorem step_transitionForCompose (cl4 pGI pRefl pAO : Ptr)
    (hP : ∀ r a b, P (Event.transition cl4 r a b)) (h : TraceExt P s0 s) :
    TraceExt P s0 (s.transitionForCompose cl4 pGI pRefl pAO) := by
  unfold transitionForCompose
  dsimp only
  have h1 := step_setGIState (s.RT_TransitionTracked cl4 pGI s.g_RT_GIState
      (D3D12_RESOURCE_STATE_NON_PIXEL_SHADER_RESOURCE ||| D3D12_RESOURCE_STATE_PIXEL_SHADER_RESOURCE)).2
    (step_RT_TransitionTracked cl4 pGI s.g_RT_GIState
      (D3D12_RESOURCE_STATE_NON_PIXEL_SHADER_RESOURCE ||| D3D12_RESOURCE_STATE_PIXEL_SHADER_RESOURCE)
      hP h)
  generalize (s.RT_TransitionTracked cl4 pGI s.g_RT_GIState
    (D3D12_RESOURCE_STATE_NON_PIXEL_SHADER_RESOURCE ||| D3D12_RESOURCE_STATE_PIXEL_SHADER_RESOURCE)).1.setGIState
    (s.RT_TransitionTracked cl4 pGI s.g_RT_GIState
      (D3D12_RESOURCE_STATE_NON_PIXEL_SHADER_RESOURCE ||| D3D12_RESOURCE_STATE_PIXEL_SHADER_RESOURCE)).2
    = s1 at h1 ⊢
  have h2 : TraceExt P s0 (if pRefl ≠ 0 then
      (s1.RT_TransitionTracked cl4 pRefl s1.g_RT_ReflState
        (D3D12_RESOURCE_STATE_NON_PIXEL_SHADER_RESOURCE ||| D3D12_RESOURCE_STATE_PIXEL_SHADER_RESOURCE)).1.setReflState
        (s1.RT_TransitionTracked cl4 pRefl s1.g_RT_ReflState
          (D3D12_RESOURCE_STATE_NON_PIXEL_SHADER_RESOURCE ||| D3D12_RESOURCE_STATE_PIXEL_SHADER_RESOURCE)).2
      else s1) :=
    step_ite _ (step_setReflState _ (step_RT_TransitionTracked _ _ _ _ hP h1)) h1
  generalize (if pRefl ≠ 0 then
      (s1.RT_TransitionTracked cl4 pRefl s1.g_RT_ReflState
        (D3D12_RESOURCE_STATE_NON_PIXEL_SHADER_RESOURCE ||| D3D12_RESOURCE_STATE_PIXEL_SHADER_RESOURCE)).1.setReflState
        (s1.RT_TransitionTracked cl4 pRefl s1.g_RT_ReflState
          (D3D12_RESOURCE_STATE_NON_PIXEL_SHADER_RESOURCE ||| D3D12_RESOURCE_STATE_PIXEL_SHADER_RESOURCE)).2
      else s1) = s2 at h2 ⊢
  exact step_ite _ (step_setAOState _ (step_RT_TransitionTracked _ _ _ _ hP h2)) h2

theorem step_composeDraw (env : ComposeEnv) (pGI pRefl pAO : Ptr)
    (hT : ∀ r a b, P (Event.transition env.cl4 r a b)) (hD : P (Event.drawInstanced env.pCL))
    (hE : P (Event.executeCommandLists env.pCL)) (h : TraceExt P s0 s) :
    TraceExt P s0 (s.composeDraw env pGI pRefl pAO).2 := by
  unfold composeDraw
  have h1 : TraceExt P s0
      (if env.cl4 ≠ 0 then s.transitionForCompose env.cl4 pGI pRefl pAO else s) :=
    step_ite _ (step_transitionForCompose _ _ _ _ hT h) h
  dsimp only
  generalize (if env.cl4 ≠ 0 then s.transitionForCompose env.cl4 pGI pRefl pAO else s) = s1
    at h1 ⊢
  repeat' apply ite_cases (fun r : HRESULT × CD3D_RT => TraceExt P s0 r.2)
  all_goals first
    | exact h
    | exact h1
    | exact step_emit _ hD h1
    | exact step_emit _ hE (step_emit _ hD h1)

theorem step_ComposeToHDROneShot (env : ComposeEnv) (hR : ∀ e, isRelease e → P e)
    (hT : ∀ r a b, P (Event.transition env.cl4 r a b)) (hD : P (Event.drawInstanced env.pCL))
    (hE : P (Event.executeCommandLists env.pCL)) (h : TraceExt P s0 s) :
    TraceExt P s0 (s.ComposeToHDROneShot env).2 := by
  unfold ComposeToHDROneShot
  have h1 := h.transT (traceExt_RT_WaitForLastDispatch P s)
  dsimp only
  generalize s.RT_WaitForLastDispatch = s1 at h1 ⊢
  have h2 := h1.transT
    ((quiet_CreateRayTracingResources env.resources (Quiet.reflQ s1)).2.monoT hR)
  generalize s1.CreateRayTracingResources env.resources = cr at h2 ⊢
  refine ite_cases (fun r : HRESULT × CD3D_RT => TraceExt P s0 r.2) _ _ _ h ?_
  refine ite_cases (fun r : HRESULT × CD3D_RT => TraceExt P s0 r.2) _ _ _ h ?_
  refine ite_cases (fun r : HRESULT × CD3D_RT => TraceExt P s0 r.2) _ _ _ h ?_
  refine ite_cases (fun r : HRESULT × CD3D_RT => TraceExt P s0 r.2) _ _ _ h1 ?_
  refine ite_cases (fun r : HRESULT × CD3D_RT => TraceExt P s0 r.2) _ _ _ h1 ?_
  refine ite_cases (fun r : HRESULT × CD3D_RT => TraceExt P s0 r.2) _ _ _ ?_ ?_
  · refine ite_cases (fun r : HRESULT × CD3D_RT => TraceExt P s0 r.2) _ _ _ h2 ?_
    exact step_composeDraw env _ _ _ hT hD hE h2
  · exact step_composeDraw env _ _ _ hT hD hE h1

theorem composeDraw_ne_S_FALSE (s : CD3D_RT) (env : ComposeEnv) (pGI pRefl pAO : Ptr) :
    (s.composeDraw env pGI pRefl pAO).1 ≠ S_FALSE := by
  have hf : ∀ hr : HRESULT, FAILED hr = true → hr ≠ S_FALSE := by
    intro hr h e
    rw [e] at h
    exact absurd h (by decide)
  have h1 : E_INVALIDARG ≠ S_FALSE := by decide
  have h2 : E_FAIL ≠ S_FALSE := by decide
  have h3 : S_OK ≠ S_FALSE := by decide
  unfold composeDraw
  dsimp only
  split
  · rename_i c; exact hf _ c
  split
  · exact h1
  split
  · rename_i c; exact hf _ c
  split
  · exact h2
  split
  · exact h2
  split
  · rename_i c; exact hf _ c
  split
  · rename_i c; exact hf _ c
  split
  · rename_i c; exact hf _ c
  split
  · rename_i c; exact hf _ c
  · exact h3

theorem core_m_pRaytracingOutput {a b : CD3D_RT} (h : a.core = b.core) :
    a.m_pRaytracingOutput = b.m_pRaytracingOutput := by
  have h1 := congrArg CD3D_RT.m_pRaytracingOutput h
  exact h1

end ComposeThms

/-- C22 (as amended): `ComposeToHDROneShot` returns `S_FALSE` exactly when
device and queue are there and either `m_pRaytracingOutput` is null, or the
device is not removed and either there is no HDR or scene target or the resize
of the outputs through `CreateRayTracingResources` fails for a non-null
destination.  With `S_FALSE` it makes `Release` calls only, so it records no
draw and submits no list, and leaves the fence bookkeeping alone.  It returns
`E_FAIL`, with the state as it was, when device or queue are null, also for a
null output.  `m_pTopLevelAS` is not looked at. -/
theorem C22_compose_nothing_to_do (s : CD3D_RT) (env : ComposeEnv) :
    ((s.ComposeToHDROneShot env).1 = S_FALSE ↔
      (s.m_pDevice ≠ 0 ∧ s.m_pCommandQueue ≠ 0) ∧
      (s.m_pRaytracingOutput = 0 ∨
        (FAILED env.deviceRemovedHr = false ∧
          (env.hasTarget = false ∨
            (env.pDst ≠ 0 ∧ env.sizeMismatch = true ∧
              FAILED (s.RT_WaitForLastDispatch.CreateRayTracingResources env.resources).1
                = true))))) ∧
    ((s.ComposeToHDROneShot env).1 = S_FALSE →
      (s.ComposeToHDROneShot env).2.bookkeeping = s.bookkeeping ∧
      ∃ added, (s.ComposeToHDROneShot env).2.trace = s.trace ++ added ∧
        (∀ e ∈ added, isRelease e) ∧ (∀ cl, Event.drawInstanced cl ∉ added) ∧
        ∀ cl, Event.executeCommandLists cl ∉ added) ∧
    (s.m_pDevice = 0 ∨ s.m_pCommandQueue = 0 → s.ComposeToHDROneShot env = (E_FAIL, s)) := by
  have key : ((s.ComposeToHDROneShot env).1 = S_FALSE ↔
      (s.m_pDevice ≠ 0 ∧ s.m_pCommandQueue ≠ 0) ∧
      (s.m_pRaytracingOutput = 0 ∨
        (FAILED env.deviceRemovedHr = false ∧
          (env.hasTarget = false ∨
            (env.pDst ≠ 0 ∧ env.sizeMismatch = true ∧
              FAILED (s.RT_WaitForLastDispatch.CreateRayTracingResources env.resources).1
                = true))))) ∧
      ((s.ComposeToHDROneShot env).1 = S_FALSE → Quiet s (s.ComposeToHDROneShot env).2) := by
    have q1 : Quiet s s.RT_WaitForLastDispatch :=
      ⟨bk_RT_WaitForLastDispatch rfl, traceExt_RT_WaitForLastDispatch _ s⟩
    have o1 : s.RT_WaitForLastDispatch.m_pRaytracingOutput = s.m_pRaytracingOutput :=
      core_m_pRaytracingOutput (core_RT_WaitForLastDispatch s)
    have hEF : E_FAIL ≠ S_FALSE := by decide
    unfold ComposeToHDROneShot
    dsimp only
    generalize s.RT_WaitForLastDispatch = s1 at q1 o1 ⊢
    have q2 := quiet_CreateRayTracingResources env.resources q1
    generalize s1.CreateRayTracingResources env.resources = cr at q2 ⊢
    have d1 := fun a b c => composeDraw_ne_S_FALSE s1 env a b c
    have d2 := fun a b c => composeDraw_ne_S_FALSE cr.2 env a b c
    by_cases c1 : s.m_pDevice = 0 ∨ s.m_pCommandQueue = 0
    · rw [if_pos c1]
      refine ⟨⟨fun h => absurd h hEF, fun h => ?_⟩, fun h => absurd h hEF⟩
      rcases c1 with c1 | c1
      · exact absurd c1 h.1.1
      · exact absurd c1 h.1.2
    rw [if_neg c1]
    have c1a : s.m_pDevice ≠ 0 ∧ s.m_pCommandQueue ≠ 0 :=
      ⟨fun h => c1 (Or.inl h), fun h => c1 (Or.inr h)⟩
    by_cases c2 : s.m_pRaytracingOutput = 0
    · rw [if_pos c2]
      exact ⟨⟨fun _ => ⟨c1a, Or.inl c2⟩, fun _ => rfl⟩, fun _ => Quiet.reflQ s⟩
    rw [if_neg c2]
    by_cases c3 : FAILED env.deviceRemovedHr = true
    · rw [if_pos c3]
      refine ⟨⟨fun h => absurd h hEF, fun h => ?_⟩, fun h => absurd h hEF⟩
      rcases h.2 with h | h
      · exact absurd h c2
      · rw [h.1] at c3
        cases c3
    rw [if_neg c3]
    have c3a : FAILED env.deviceRemovedHr = false := by simpa using c3
    by_cases c4 : (!env.hasTarget) = true
    · rw [if_pos c4]
      have c4a : env.hasTarget = false := by simpa using c4
      exact ⟨⟨fun _ => ⟨c1a, Or.inr ⟨c3a, Or.inl c4a⟩⟩, fun _ => rfl⟩, fun _ => q1⟩
    rw [if_neg c4]
    have c4a : env.hasTarget ≠ false := by simpa using c4
    by_cases c5 : env.pDst = 0 ∨ s1.m_pRaytracingOutput = 0
    · rw [if_pos c5]
      refine ⟨⟨fun h => absurd h hEF, fun h => ?_⟩, fun h => absurd h hEF⟩
      rcases h.2 with h | ⟨_, h | h⟩
      · exact absurd h c2
      · exact absurd h c4a
      · rcases c5 with c5 | c5
        · exact absurd c5 h.1
        · exact absurd (o1.symm.trans c5) c2
    rw [if_neg c5]
    have c5a : env.pDst ≠ 0 := fun h => c5 (Or.inl h)
    by_cases c6 : env.sizeMismatch = true
    · rw [if_pos c6]
      by_cases c7 : FAILED cr.1 = true
      · rw [if_pos c7]
        exact ⟨⟨fun _ => ⟨c1a, Or.inr ⟨c3a, Or.inr ⟨c5a, c6, c7⟩⟩⟩, fun _ => rfl⟩, fun _ => q2⟩
      · rw [if_neg c7]
        refine ⟨⟨fun h => absurd h (d2 _ _ _), fun h => ?_⟩, fun h => absurd h (d2 _ _ _)⟩
        rcases h.2 with h | ⟨_, h | h⟩
        · exact absurd h c2
        · exact absurd h c4a
        · exact absurd h.2.2 c7
    · rw [if_neg c6]
      refine ⟨⟨fun h => absurd h (d1 _ _ _), fun h => ?_⟩, fun h => absurd h (d1 _ _ _)⟩
      rcases h.2 with h | ⟨_, h | h⟩
      · exact absurd h c2
      · exact absurd h c4a
      · exact absurd h.2.1 c6
  refine ⟨key.1, fun h => ?_, fun h => ?_⟩
  · obtain ⟨hb, added, ha, hp⟩ := key.2 h
    refine ⟨hb, added, ha, hp, fun cl hm => ?_, fun cl hm => ?_⟩
    · rcases hp _ hm with ⟨_, _, e⟩ | ⟨_, e⟩ <;> cases e
    · rcases hp _ hm with ⟨_, _, e⟩ | ⟨_, e⟩ <;> cases e
  · unfold ComposeToHDROneShot
    rw [if_pos h]


/-! ### The frame of `Execute` -/

section FrameThms

variable {F : Type} [FloatOps F]

theorem RT_EndFrameAndSignal_restores (s : CD3D_RT) (hf : s.m_frameFence ≠ 0)
    (hw : s.m_frameRecordedWork = true) (h2 : s.m_lastASBuildFence ≤ s.m_lastSignaledFence)
    (h3 : ∀ i, (s.m_frameCtx i).fenceValue ≤ s.m_lastSignaledFence) :
    fencesInOrder s.RT_EndFrameAndSignal := by
  have hb := (RT_EndFrameAndSignal_recorded s hf hw).1
  simp only [bookkeeping, Prod.mk.injEq] at hb
  obtain ⟨_, b2, b3, b4, _, _, b7, _, _⟩ := hb
  refine ⟨by rw [b3, b2], by rw [b4, b2]; exact Nat.le_succ_of_le h2, fun i => ?_⟩
  rw [b7, b2]
  split
  · by_cases hi : i = s.ctxIndex
    · rw [hi, Function.update_same]
    · rw [Function.update_noteq hi]
      exact Nat.le_succ_of_le (h3 i)
  · exact Nat.le_succ_of_le (h3 i)

/-- The end of a frame keeps the fence counters in order. -/
theorem RT_EndFrameAndSignal_inOrder (s : CD3D_RT) (h : fencesInOrder s) :
    fencesInOrder s.RT_EndFrameAndSignal := by
  have hsame : s.RT_EndFrameAndSignal.bookkeeping =
      (s.m_frameFence, s.m_lastSignaledFence, s.m_lastDispatchFence, s.m_lastASBuildFence,
        s.m_frameIndex + 1, false, s.m_frameCtx, s.m_pTopLevelAS, s.s_geometryBuilt) →
      fencesInOrder s.RT_EndFrameAndSignal := by
    intro hb
    simp only [bookkeeping, Prod.mk.injEq] at hb
    obtain ⟨b1, b2, b3, b4, _, _, b7, _, _⟩ := hb
    exact (Fenced.of_fields ⟨b1, b3, b7, b2, b4⟩).inOrder h
  by_cases hf : s.m_frameFence = 0
  · exact hsame (RT_EndFrameAndSignal_unfenced s hf).1
  · cases hw : s.m_frameRecordedWork with
    | false => exact hsame (RT_EndFrameAndSignal_idle s hw).1
    | true => exact RT_EndFrameAndSignal_restores s hf hw h.2.1 h.2.2

theorem ensureGeometry_built (s : CD3D_RT) (env : LevelBuildEnv F)
    (h : s.s_geometryBuilt = true) : s.ensureGeometry env = (false, s) := by
  unfold ensureGeometry
  rw [h]
  rfl

/-- An exit of `Execute` before the dispatch is recorded. -/
theorem frame_early (X : CD3D_RT) (e : ExecuteExit) (he1 : e ≠ ExecuteExit.closeFailed)
    (he2 : e ≠ ExecuteExit.done)
    (hl : e = ExecuteExit.deviceRemoved → X.s_deviceStabilityFailure = true) :
    ((e, X.RT_EndFrameAndSignal)).2.m_frameRecordedWork = false ∧
    ((((e, X.RT_EndFrameAndSignal)).1 = ExecuteExit.deviceRemoved ∨ ((e, X.RT_EndFrameAndSignal)).1 = ExecuteExit.closeFailed) →
      ((e, X.RT_EndFrameAndSignal)).2.s_deviceStabilityFailure = true) ∧
    (fencesInOrder X →
      (((e, X.RT_EndFrameAndSignal)).2.m_frameFence ≠ 0 ∨
        (((e, X.RT_EndFrameAndSignal)).1 ≠ ExecuteExit.closeFailed ∧ ((e, X.RT_EndFrameAndSignal)).1 ≠ ExecuteExit.done)) →
      fencesInOrder ((e, X.RT_EndFrameAndSignal)).2) ∧
    ((((e, X.RT_EndFrameAndSignal)).1 = ExecuteExit.closeFailed ∨ ((e, X.RT_EndFrameAndSignal)).1 = ExecuteExit.done) →
      ((e, X.RT_EndFrameAndSignal)).2.m_frameFence ≠ 0 →
      X.m_lastSignaledFence + 1 ≤ ((e, X.RT_EndFrameAndSignal)).2.m_lastSignaledFence ∧
      (X.s_geometryBuilt = true →
        ((e, X.RT_EndFrameAndSignal)).2.m_lastSignaledFence = X.m_lastSignaledFence + 1) ∧
      ((e, X.RT_EndFrameAndSignal)).2.m_lastDispatchFence = ((e, X.RT_EndFrameAndSignal)).2.m_lastSignaledFence ∧
      (∃ i, (((e, X.RT_EndFrameAndSignal)).2.m_frameCtx i).fenceValue = ((e, X.RT_EndFrameAndSignal)).2.m_lastSignaledFence ∧
        (((e, X.RT_EndFrameAndSignal)).2.m_frameCtx i).usedOnce = true) ∧
      Event.signalFrameFence ((e, X.RT_EndFrameAndSignal)).2.m_lastSignaledFence ∈ ((e, X.RT_EndFrameAndSignal)).2.trace) := by
  refine ⟨RT_EndFrameAndSignal_m_frameRecordedWork X, ?_, ?_, ?_⟩
  · rintro (h | h)
    · exact (RT_EndFrameAndSignal_latch X).trans (hl h)
    · exact absurd h he1
  · intro ho _
    exact RT_EndFrameAndSignal_inOrder X ho
  · rintro (h | h)
    · exact absurd h he1
    · exact absurd h he2

/-- The frame specification is kept when the start is moved back over steps
that leave the frame bookkeeping to a build. -/
theorem frame_mono (S T : CD3D_RT) (r : ExecuteExit × CD3D_RT) (hF : Fenced S T)
    (hg : S.s_geometryBuilt = true →
      T.s_geometryBuilt = true ∧ T.m_lastSignaledFence = S.m_lastSignaledFence)
    (h :
      (r).2.m_frameRecordedWork = false ∧
      (((r).1 = ExecuteExit.deviceRemoved ∨ (r).1 = ExecuteExit.closeFailed) →
        (r).2.s_deviceStabilityFailure = true) ∧
      (fencesInOrder T →
        ((r).2.m_frameFence ≠ 0 ∨
          ((r).1 ≠ ExecuteExit.closeFailed ∧ (r).1 ≠ ExecuteExit.done)) →
        fencesInOrder (r).2) ∧
      (((r).1 = ExecuteExit.closeFailed ∨ (r).1 = ExecuteExit.done) →
        (r).2.m_frameFence ≠ 0 →
        T.m_lastSignaledFence + 1 ≤ (r).2.m_lastSignaledFence ∧
        (T.s_geometryBuilt = true →
          (r).2.m_lastSignaledFence = T.m_lastSignaledFence + 1) ∧
        (r).2.m_lastDispatchFence = (r).2.m_lastSignaledFence ∧
        (∃ i, ((r).2.m_frameCtx i).fenceValue = (r).2.m_lastSignaledFence ∧
          ((r).2.m_frameCtx i).usedOnce = true) ∧
        Event.signalFrameFence (r).2.m_lastSignaledFence ∈ (r).2.trace)) :
    (r).2.m_frameRecordedWork = false ∧
    (((r).1 = ExecuteExit.deviceRemoved ∨ (r).1 = ExecuteExit.closeFailed) →
      (r).2.s_deviceStabilityFailure = true) ∧
    (fencesInOrder S →
      ((r).2.m_frameFence ≠ 0 ∨
        ((r).1 ≠ ExecuteExit.closeFailed ∧ (r).1 ≠ ExecuteExit.done)) →
      fencesInOrder (r).2) ∧
    (((r).1 = ExecuteExit.closeFailed ∨ (r).1 = ExecuteExit.done) →
      (r).2.m_frameFence ≠ 0 →
      S.m_lastSignaledFence + 1 ≤ (r).2.m_lastSignaledFence ∧
      (S.s_geometryBuilt = true →
        (r).2.m_lastSignaledFence = S.m_lastSignaledFence + 1) ∧
      (r).2.m_lastDispatchFence = (r).2.m_lastSignaledFence ∧
      (∃ i, ((r).2.m_frameCtx i).fenceValue = (r).2.m_lastSignaledFence ∧
        ((r).2.m_frameCtx i).usedOnce = true) ∧
      Event.signalFrameFence (r).2.m_lastSignaledFence ∈ (r).2.trace) := by
  obtain ⟨h1, h2, h3, h4⟩ := h
  refine ⟨h1, h2, fun ho hc => h3 (hF.inOrder ho) hc, fun he hf => ?_⟩
  obtain ⟨d1, d2, d3, d4, d5⟩ := h4 he hf
  refine ⟨le_trans (Nat.succ_le_succ hF.2.2.2.1) d1, fun hb => ?_, d3, d4, d5⟩
  rw [d2 (hg hb).1, (hg hb).2]

/-- The end of the frame after the dispatch was recorded. -/
theorem recorded_end (r x y : CD3D_RT)
    (hx : x.bookkeeping = (r.m_frameFence, r.m_lastSignaledFence, r.m_lastSignaledFence + 1,
      r.m_lastASBuildFence, r.m_frameIndex, true, r.m_frameCtx, r.m_pTopLevelAS,
      r.s_geometryBuilt))
    (hy : y.bookkeeping = x.RT_EndFrameAndSignal.bookkeeping)
    (ht : TraceExt (fun _ => True) x.RT_EndFrameAndSignal y)
    (ha : (r.m_frameCtx r.ctxIndex).pAllocator ≠ 0) :
    y.m_frameRecordedWork = false ∧
    (fencesInOrder r → y.m_frameFence ≠ 0 → fencesInOrder y) ∧
    (y.m_frameFence ≠ 0 →
      y.m_lastSignaledFence = r.m_lastSignaledFence + 1 ∧
      y.m_lastDispatchFence = y.m_lastSignaledFence ∧
      (∃ i, (y.m_frameCtx i).fenceValue = y.m_lastSignaledFence ∧
        (y.m_frameCtx i).usedOnce = true) ∧
      Event.signalFrameFence y.m_lastSignaledFence ∈ y.trace) := by
  have hFy : Fenced x.RT_EndFrameAndSignal y := Fenced.of_bookkeeping hy
  have hyf : y.m_frameFence = x.m_frameFence :=
    hFy.1.trans (RT_EndFrameAndSignal_m_frameFence x)
  have hyw : y.m_frameRecordedWork = false := by
    have h1 := congrArg (fun b => b.2.2.2.2.2.1) hy
    exact h1.trans (RT_EndFrameAndSignal_m_frameRecordedWork x)
  simp only [bookkeeping, Prod.mk.injEq] at hx
  obtain ⟨x1, x2, x3, x4, x5, x6, x7, x8, x9⟩ := hx
  have hc : x.ctxIndex = r.ctxIndex := by
    unfold ctxIndex
    exact Fin.ext (by show x.m_frameIndex % 15 = r.m_frameIndex % 15; rw [x5])
  refine ⟨hyw, fun ho hf => ?_, fun hf => ?_⟩
  · have hfx : x.m_frameFence ≠ 0 := fun h => hf (hyf.trans h)
    refine hFy.inOrder (RT_EndFrameAndSignal_restores x hfx x6 ?_ ?_)
    · rw [x4, x2]
      exact ho.2.1
    · intro i
      rw [x7, x2]
      exact ho.2.2 i
  · have hfx : x.m_frameFence ≠ 0 := fun h => hf (hyf.trans h)
    obtain ⟨eb, l, el, _⟩ := RT_EndFrameAndSignal_recorded x hfx x6
    rw [eb] at hy
    simp only [bookkeeping, Prod.mk.injEq] at hy
    obtain ⟨y1, y2, y3, y4, y5, y6, y7, y8, y9⟩ := hy
    rw [x7, hc, if_pos ha] at y7
    refine ⟨y2.trans (by rw [x2]), y3.trans y2.symm, ⟨r.ctxIndex, ?_, ?_⟩, ?_⟩
    · rw [y7, Function.update_same, y2]
    · rw [y7, Function.update_same]
    · refine ht.subset ?_
      rw [el, y2]
      exact List.mem_append_right _ (List.mem_cons_self _ _)

theorem executeDispatch_spec (s : CD3D_RT) (env : ExecuteEnv F) :
    (s.executeDispatch env).2.m_frameRecordedWork = false ∧
    (((s.executeDispatch env).1 = ExecuteExit.deviceRemoved ∨ (s.executeDispatch env).1 = ExecuteExit.closeFailed) →
      (s.executeDispatch env).2.s_deviceStabilityFailure = true) ∧
    (fencesInOrder s →
      ((s.executeDispatch env).2.m_frameFence ≠ 0 ∨
        ((s.executeDispatch env).1 ≠ ExecuteExit.closeFailed ∧ (s.executeDispatch env).1 ≠ ExecuteExit.done)) →
      fencesInOrder (s.executeDispatch env).2) ∧
    (((s.executeDispatch env).1 = ExecuteExit.closeFailed ∨ (s.executeDispatch env).1 = ExecuteExit.done) →
      (s.executeDispatch env).2.m_frameFence ≠ 0 →
      s.m_lastSignaledFence + 1 ≤ (s.executeDispatch env).2.m_lastSignaledFence ∧
      (s.s_geometryBuilt = true →
        (s.executeDispatch env).2.m_lastSignaledFence = s.m_lastSignaledFence + 1) ∧
      (s.executeDispatch env).2.m_lastDispatchFence = (s.executeDispatch env).2.m_lastSignaledFence ∧
      (∃ i, ((s.executeDispatch env).2.m_frameCtx i).fenceValue = (s.executeDispatch env).2.m_lastSignaledFence ∧
        ((s.executeDispatch env).2.m_frameCtx i).usedOnce = true) ∧
      Event.signalFrameFence (s.executeDispatch env).2.m_lastSignaledFence ∈ (s.executeDispatch env).2.trace) := by
  have hb := RT_BeginFrameAllocator_fields s env.beginFrame
  have ha := RT_BeginFrameAllocator_allocator s env.beginFrame
  generalize hr : s.executeDispatch env = res
  unfold executeDispatch at hr
  dsimp only at hr
  generalize s.RT_BeginFrameAllocator env.beginFrame = begun at hb ha hr
  obtain ⟨a1, a2, a3, a4, a5, a6⟩ := hb
  have hbo : fencesInOrder s → fencesInOrder begun.2 := by
    intro ho
    refine ⟨by rw [a2, a1]; exact ho.1, by rw [a3, a1]; exact ho.2.1, fun i => ?_⟩
    rw [a1]
    rcases a6 i with h | h
    · rw [h]
      exact ho.2.2 i
    · rw [h]
      exact Nat.zero_le _
  have early : ∀ e : ExecuteExit, e ≠ ExecuteExit.closeFailed → e ≠ ExecuteExit.done →
      e ≠ ExecuteExit.deviceRemoved → res = (e, begun.2.RT_EndFrameAndSignal) →
      (res).2.m_frameRecordedWork = false ∧
      (((res).1 = ExecuteExit.deviceRemoved ∨ (res).1 = ExecuteExit.closeFailed) →
        (res).2.s_deviceStabilityFailure = true) ∧
      (fencesInOrder s →
        ((res).2.m_frameFence ≠ 0 ∨
          ((res).1 ≠ ExecuteExit.closeFailed ∧ (res).1 ≠ ExecuteExit.done)) →
        fencesInOrder (res).2) ∧
      (((res).1 = ExecuteExit.closeFailed ∨ (res).1 = ExecuteExit.done) →
        (res).2.m_frameFence ≠ 0 →
        s.m_lastSignaledFence + 1 ≤ (res).2.m_lastSignaledFence ∧
        (s.s_geometryBuilt = true →
          (res).2.m_lastSignaledFence = s.m_lastSignaledFence + 1) ∧
        (res).2.m_lastDispatchFence = (res).2.m_lastSignaledFence ∧
        (∃ i, ((res).2.m_frameCtx i).fenceValue = (res).2.m_lastSignaledFence ∧
          ((res).2.m_frameCtx i).usedOnce = true) ∧
        Event.signalFrameFence (res).2.m_lastSignaledFence ∈ (res).2.trace) := by
    intro e he1 he2 he3 hres
    obtain ⟨f1, f2, f3, f4⟩ := frame_early begun.2 e he1 he2 (fun h => absurd h he3)
    rw [hres]
    refine ⟨f1, f2, fun ho hc => f3 (hbo ho) hc, fun he => ?_⟩
    rcases he with h | h
    · exact absurd h he1
    · exact absurd h he2
  by_cases c1 : begun.1 = 0
  · rw [if_pos c1] at hr
    exact early _ (by decide) (by decide) (by decide) hr.symm
  rw [if_neg c1] at hr
  by_cases c2 : FAILED env.commandListHr = true ∨ env.commandList = 0
  · rw [if_pos c2] at hr
    exact early _ (by decide) (by decide) (by decide) hr.symm
  rw [if_neg c2] at hr
  have hrb := bk_ExecuteRayTracingWithDebug env.rays env.commandList begun.2.m_outputWidth
    begun.2.m_outputHeight (s := begun.2) rfl
  generalize begun.2.ExecuteRayTracingWithDebug env.rays env.commandList begun.2.m_outputWidth
    begun.2.m_outputHeight = r at hrb hr
  simp only [bookkeeping, Prod.mk.injEq] at hrb
  obtain ⟨r1, r2, r3, r4, r5, r6, r7, r8, r9⟩ := hrb
  have hro : fencesInOrder s → fencesInOrder r := fun ho =>
    (Fenced.of_fields ⟨r1, r3, r7, r2, r4⟩).inOrder (hbo ho)
  have hc : r.ctxIndex = begun.2.ctxIndex := by
    unfold ctxIndex
    exact Fin.ext (by show r.m_frameIndex % 15 = begun.2.m_frameIndex % 15; rw [r5])
  have har : (r.m_frameCtx r.ctxIndex).pAllocator ≠ 0 := by
    rw [r7, hc, ha c1]
    exact c1
  have fin : ∀ (e : ExecuteExit) (x y : CD3D_RT),
      (e = ExecuteExit.closeFailed → y.s_deviceStabilityFailure = true) →
      e ≠ ExecuteExit.deviceRemoved →
      (e = ExecuteExit.closeFailed ∨ e = ExecuteExit.done) →
      x.bookkeeping = (r.m_frameFence, r.m_lastSignaledFence, r.m_lastSignaledFence + 1,
        r.m_lastASBuildFence, r.m_frameIndex, true, r.m_frameCtx, r.m_pTopLevelAS,
        r.s_geometryBuilt) →
      y.bookkeeping = x.RT_EndFrameAndSignal.bookkeeping →
      TraceExt (fun _ => True) x.RT_EndFrameAndSignal y → res = (e, y) →
      (res).2.m_frameRecordedWork = false ∧
      (((res).1 = ExecuteExit.deviceRemoved ∨ (res).1 = ExecuteExit.closeFailed) →
        (res).2.s_deviceStabilityFailure = true) ∧
      (fencesInOrder s →
        ((res).2.m_frameFence ≠ 0 ∨
          ((res).1 ≠ ExecuteExit.closeFailed ∧ (res).1 ≠ ExecuteExit.done)) →
        fencesInOrder (res).2) ∧
      (((res).1 = ExecuteExit.closeFailed ∨ (res).1 = ExecuteExit.done) →
        (res).2.m_frameFence ≠ 0 →
        s.m_lastSignaledFence + 1 ≤ (res).2.m_lastSignaledFence ∧
        (s.s_geometryBuilt = true →
          (res).2.m_lastSignaledFence = s.m_lastSignaledFence + 1) ∧
        (res).2.m_lastDispatchFence = (res).2.m_lastSignaledFence ∧
        (∃ i, ((res).2.m_frameCtx i).fenceValue = (res).2.m_lastSignaledFence ∧
          ((res).2.m_frameCtx i).usedOnce = true) ∧
        Event.signalFrameFence (res).2.m_lastSignaledFence ∈ (res).2.trace) := by
    intro e x y hl he3 hE hx hy ht hres
    obtain ⟨g1, g2, g3⟩ := recorded_end r x y hx hy ht har
    rw [hres]
    refine ⟨g1, ?_, fun ho hc => ?_, fun _ hf => ?_⟩
    · rintro (h | h)
      · exact absurd h he3
      · exact hl h
    · rcases hc with hc | hc
      · exact g2 (hro ho) hc
      · rcases hE with h | h
        · exact absurd h hc.1
        · exact absurd h hc.2
    · obtain ⟨k1, k2, k3, k4⟩ := g3 hf
      have k1s : y.m_lastSignaledFence = s.m_lastSignaledFence + 1 := by
        rw [k1, r2, a1]
      exact ⟨le_of_eq k1s.symm, fun _ => k1s, k2, k3, k4⟩
  by_cases c3 : FAILED env.closeHr = true
  · rw [if_pos c3] at hr
    exact fin ExecuteExit.closeFailed
      (((r.setFrameRecordedWork true).setLastDispatchFence
        (r.m_lastSignaledFence + 1)).setDeviceStabilityFailure true) _
      (fun _ => (RT_EndFrameAndSignal_latch _).trans rfl) (by decide) (Or.inl rfl) rfl rfl
      (TraceExt.reflT _ _) hr.symm
  · rw [if_neg c3] at hr
    exact fin ExecuteExit.done
      (((r.setFrameRecordedWork true).setLastDispatchFence
        (r.m_lastSignaledFence + 1)).emit (Event.executeCommandLists env.commandList)) _
      (fun h => ExecuteExit.noConfusion h) (by decide) (Or.inr rfl) rfl
      (bk_ComposeToHDROneShot env.compose rfl)
      (step_ComposeToHDROneShot env.compose (fun _ _ => trivial) (fun _ _ _ => trivial)
        trivial trivial (TraceExt.reflT _ _)) hr.symm

theorem frame_mono_eq (S T : CD3D_RT) (r : ExecuteExit × CD3D_RT)
    (hf : T.m_frameFence = S.m_frameFence ∧ T.m_lastDispatchFence = S.m_lastDispatchFence ∧
      T.m_frameCtx = S.m_frameCtx ∧ T.m_lastSignaledFence = S.m_lastSignaledFence ∧
      T.m_lastASBuildFence = S.m_lastASBuildFence ∧ T.s_geometryBuilt = S.s_geometryBuilt)
    (h :
      (r).2.m_frameRecordedWork = false ∧
      (((r).1 = ExecuteExit.deviceRemoved ∨ (r).1 = ExecuteExit.closeFailed) →
        (r).2.s_deviceStabilityFailure = true) ∧
      (fencesInOrder T →
        ((r).2.m_frameFence ≠ 0 ∨
          ((r).1 ≠ ExecuteExit.closeFailed ∧ (r).1 ≠ ExecuteExit.done)) →
        fencesInOrder (r).2) ∧
      (((r).1 = ExecuteExit.closeFailed ∨ (r).1 = ExecuteExit.done) →
        (r).2.m_frameFence ≠ 0 →
        T.m_lastSignaledFence + 1 ≤ (r).2.m_lastSignaledFence ∧
        (T.s_geometryBuilt = true →
          (r).2.m_lastSignaledFence = T.m_lastSignaledFence + 1) ∧
        (r).2.m_lastDispatchFence = (r).2.m_lastSignaledFence ∧
        (∃ i, ((r).2.m_frameCtx i).fenceValue = (r).2.m_lastSignaledFence ∧
          ((r).2.m_frameCtx i).usedOnce = true) ∧
        Event.signalFrameFence (r).2.m_lastSignaledFence ∈ (r).2.trace)) :
    (r).2.m_frameRecordedWork = false ∧
    (((r).1 = ExecuteExit.deviceRemoved ∨ (r).1 = ExecuteExit.closeFailed) →
      (r).2.s_deviceStabilityFailure = true) ∧
    (fencesInOrder S →
      ((r).2.m_frameFence ≠ 0 ∨
        ((r).1 ≠ ExecuteExit.closeFailed ∧ (r).1 ≠ ExecuteExit.done)) →
      fencesInOrder (r).2) ∧
    (((r).1 = ExecuteExit.closeFailed ∨ (r).1 = ExecuteExit.done) →
      (r).2.m_frameFence ≠ 0 →
      S.m_lastSignaledFence + 1 ≤ (r).2.m_lastSignaledFence ∧
      (S.s_geometryBuilt = true →
        (r).2.m_lastSignaledFence = S.m_lastSignaledFence + 1) ∧
      (r).2.m_lastDispatchFence = (r).2.m_lastSignaledFence ∧
      (∃ i, ((r).2.m_frameCtx i).fenceValue = (r).2.m_lastSignaledFence ∧
        ((r).2.m_frameCtx i).usedOnce = true) ∧
      Event.signalFrameFence (r).2.m_lastSignaledFence ∈ (r).2.trace) :=
  frame_mono S T r (Fenced.of_fields ⟨hf.1, hf.2.1, hf.2.2.1, hf.2.2.2.1, hf.2.2.2.2.1⟩)
    (fun hb => ⟨hf.2.2.2.2.2.trans hb, hf.2.2.2.1⟩) h

theorem executeScene_spec (s : CD3D_RT) (env : ExecuteEnv F) :
    (s.executeScene env).2.m_frameRecordedWork = false ∧
    (((s.executeScene env).1 = ExecuteExit.deviceRemoved ∨ (s.executeScene env).1 = ExecuteExit.closeFailed) →
      (s.executeScene env).2.s_deviceStabilityFailure = true) ∧
    (fencesInOrder s →
      ((s.executeScene env).2.m_frameFence ≠ 0 ∨
        ((s.executeScene env).1 ≠ ExecuteExit.closeFailed ∧ (s.executeScene env).1 ≠ ExecuteExit.done)) →
      fencesInOrder (s.executeScene env).2) ∧
    (((s.executeScene env).1 = ExecuteExit.closeFailed ∨ (s.executeScene env).1 = ExecuteExit.done) →
      (s.executeScene env).2.m_frameFence ≠ 0 →
      s.m_lastSignaledFence + 1 ≤ (s.executeScene env).2.m_lastSignaledFence ∧
      (s.s_geometryBuilt = true →
        (s.executeScene env).2.m_lastSignaledFence = s.m_lastSignaledFence + 1) ∧
      (s.executeScene env).2.m_lastDispatchFence = (s.executeScene env).2.m_lastSignaledFence ∧
      (∃ i, ((s.executeScene env).2.m_frameCtx i).fenceValue = (s.executeScene env).2.m_lastSignaledFence ∧
        ((s.executeScene env).2.m_frameCtx i).usedOnce = true) ∧
      Event.signalFrameFence (s.executeScene env).2.m_lastSignaledFence ∈ (s.executeScene env).2.trace) := by
  have hq := quiet_ensureOutputs env.resources (Quiet.reflQ s)
  unfold executeScene
  dsimp only
  generalize s.ensureOutputs env.resources = outputs at hq ⊢
  have hF1 : Fenced s outputs.2 := Fenced.of_bookkeeping hq.1
  have hg1 : outputs.2.s_geometryBuilt = s.s_geometryBuilt ∧
      outputs.2.m_lastSignaledFence = s.m_lastSignaledFence := by
    have hb := hq.1
    simp only [bookkeeping, Prod.mk.injEq] at hb
    exact ⟨hb.2.2.2.2.2.2.2.2, hb.2.1⟩
  have hF2 := fenced_ensureGeometry outputs.2 env.level
  have hg2 := ensureGeometry_built outputs.2 env.level
  generalize outputs.2.ensureGeometry env.level = geometry at hF2 hg2 ⊢
  have hd := executeDispatch_spec geometry.2 env
  generalize geometry.2.executeDispatch env = r at hd ⊢
  have hg : s.s_geometryBuilt = true →
      geometry.2.s_geometryBuilt = true ∧
        geometry.2.m_lastSignaledFence = s.m_lastSignaledFence := by
    intro h
    rw [hg2 (hg1.1.trans h)]
    exact ⟨hg1.1.trans h, hg1.2⟩
  by_cases c1 : outputs.1 = true
  · rw [if_pos c1]
    exact frame_mono s outputs.2 _ hF1 (fun h => ⟨hg1.1.trans h, hg1.2⟩)
      (frame_early outputs.2 ExecuteExit.noResources (by decide) (by decide)
        (fun h => ExecuteExit.noConfusion h))
  rw [if_neg c1]
  by_cases c2 : geometry.1 = true
  · rw [if_pos c2]
    exact frame_mono s geometry.2 _ (hF1.transF hF2) hg
      (frame_early geometry.2 ExecuteExit.geometryFailed (by decide) (by decide)
        (fun h => ExecuteExit.noConfusion h))
  rw [if_neg c2]
  by_cases c3 : geometry.2.m_pTopLevelAS = 0
  · rw [if_pos c3]
    exact frame_mono s geometry.2 _ (hF1.transF hF2) hg
      (frame_early geometry.2 ExecuteExit.noTopLevelAS (by decide) (by decide)
        (fun h => ExecuteExit.noConfusion h))
  rw [if_neg c3]
  exact frame_mono s geometry.2 r (hF1.transF hF2) hg hd

/-- What every call of `Execute` does to the flag for recorded work, to the
latch and to the fence counters. -/
theorem Execute_spec (s : CD3D_RT) (env : ExecuteEnv F) :
    (s.Execute env).2.m_frameRecordedWork = false ∧
    (((s.Execute env).1 = ExecuteExit.deviceRemoved ∨ (s.Execute env).1 = ExecuteExit.closeFailed) →
      (s.Execute env).2.s_deviceStabilityFailure = true) ∧
    (fencesInOrder s →
      ((s.Execute env).2.m_frameFence ≠ 0 ∨
        ((s.Execute env).1 ≠ ExecuteExit.closeFailed ∧ (s.Execute env).1 ≠ ExecuteExit.done)) →
      fencesInOrder (s.Execute env).2) ∧
    (((s.Execute env).1 = ExecuteExit.closeFailed ∨ (s.Execute env).1 = ExecuteExit.done) →
      (s.Execute env).2.m_frameFence ≠ 0 →
      s.m_lastSignaledFence + 1 ≤ (s.Execute env).2.m_lastSignaledFence ∧
      (s.s_geometryBuilt = true →
        (s.Execute env).2.m_lastSignaledFence = s.m_lastSignaledFence + 1) ∧
      (s.Execute env).2.m_lastDispatchFence = (s.Execute env).2.m_lastSignaledFence ∧
      (∃ i, ((s.Execute env).2.m_frameCtx i).fenceValue = (s.Execute env).2.m_lastSignaledFence ∧
        ((s.Execute env).2.m_frameCtx i).usedOnce = true) ∧
      Event.signalFrameFence (s.Execute env).2.m_lastSignaledFence ∈ (s.Execute env).2.trace) := by
  unfold Execute
  dsimp only
  have k1 : (s.setExecuteCallCount ((s.s_executeCallCount + 1) % 4294967296)).m_frameFence
        = s.m_frameFence ∧
      (s.setExecuteCallCount ((s.s_executeCallCount + 1) % 4294967296)).m_lastDispatchFence
        = s.m_lastDispatchFence ∧
      (s.setExecuteCallCount ((s.s_executeCallCount + 1) % 4294967296)).m_frameCtx
        = s.m_frameCtx ∧
      (s.setExecuteCallCount ((s.s_executeCallCount + 1) % 4294967296)).m_lastSignaledFence
        = s.m_lastSignaledFence ∧
      (s.setExecuteCallCount ((s.s_executeCallCount + 1) % 4294967296)).m_lastASBuildFence
        = s.m_lastASBuildFence ∧
      (s.setExecuteCallCount ((s.s_executeCallCount + 1) % 4294967296)).s_geometryBuilt
        = s.s_geometryBuilt := ⟨rfl, rfl, rfl, rfl, rfl, rfl⟩
  generalize s.setExecuteCallCount ((s.s_executeCallCount + 1) % 4294967296) = s1 at k1 ⊢
  by_cases c1 : s1.s_deviceStabilityFailure = true
  · rw [if_pos c1]
    exact frame_mono_eq s s1 _ k1
      (frame_early s1 ExecuteExit.latched (by decide) (by decide)
        (fun h => ExecuteExit.noConfusion h))
  rw [if_neg c1]
  by_cases c2 : env.isLevelLoading = true
  · rw [if_pos c2]
    have k2 : (if (!s1.s_wasLevelLoading) = true then s1.setWasLevelLoading true
          else s1).m_frameFence = s.m_frameFence ∧
        (if (!s1.s_wasLevelLoading) = true then s1.setWasLevelLoading true
          else s1).m_lastDispatchFence = s.m_lastDispatchFence ∧
        (if (!s1.s_wasLevelLoading) = true then s1.setWasLevelLoading true
          else s1).m_frameCtx = s.m_frameCtx ∧
        (if (!s1.s_wasLevelLoading) = true then s1.setWasLevelLoading true
          else s1).m_lastSignaledFence = s.m_lastSignaledFence ∧
        (if (!s1.s_wasLevelLoading) = true then s1.setWasLevelLoading true
          else s1).m_lastASBuildFence = s.m_lastASBuildFence ∧
        (if (!s1.s_wasLevelLoading) = true then s1.setWasLevelLoading true
          else s1).s_geometryBuilt = s.s_geometryBuilt := by
      split <;> exact k1
    generalize (if (!s1.s_wasLevelLoading) = true then s1.setWasLevelLoading true else s1) = s2
      at k2 ⊢
    exact frame_mono_eq s (s2.setFrameRecordedWork false) _ k2
      (frame_early (s2.setFrameRecordedWork false) ExecuteExit.levelLoading (by decide)
        (by decide) (fun h => ExecuteExit.noConfusion h))
  rw [if_neg c2]
  have k2 : (if s1.s_wasLevelLoading = true then s1.setWasLevelLoading false
        else s1).m_frameFence = s.m_frameFence ∧
      (if s1.s_wasLevelLoading = true then s1.setWasLevelLoading false
        else s1).m_lastDispatchFence = s.m_lastDispatchFence ∧
      (if s1.s_wasLevelLoading = true then s1.setWasLevelLoading false
        else s1).m_frameCtx = s.m_frameCtx ∧
      (if s1.s_wasLevelLoading = true then s1.setWasLevelLoading false
        else s1).m_lastSignaledFence = s.m_lastSignaledFence ∧
      (if s1.s_wasLevelLoading = true then s1.setWasLevelLoading false
        else s1).m_lastASBuildFence = s.m_lastASBuildFence ∧
      (if s1.s_wasLevelLoading = true then s1.setWasLevelLoading false
        else s1).s_geometryBuilt = s.s_geometryBuilt := by
    split <;> exact k1
  generalize (if s1.s_wasLevelLoading = true then s1.setWasLevelLoading false else s1) = s2
    at k2 ⊢
  by_cases c3 : s2.m_pDevice ≠ 0 ∧ FAILED env.deviceRemovedHr = true
  · rw [if_pos c3]
    exact frame_mono_eq s (s2.setDeviceStabilityFailure true) _ k2
      (frame_early (s2.setDeviceStabilityFailure true) ExecuteExit.deviceRemoved (by decide)
        (by decide) (fun _ => rfl))
  rw [if_neg c3]
  split
  · exact frame_mono_eq s (s2.setFrameRecordedWork false) _ k2
      (frame_early (s2.setFrameRecordedWork false) ExecuteExit.notReady (by decide)
        (by decide) (fun h => ExecuteExit.noConfusion h))
  · exact frame_mono_eq s (s2.setFrameRecordedWork false) _ k2
      (executeScene_spec (s2.setFrameRecordedWork false) env)

end FrameThms


/-! ### The latch, zero-sized outputs and the order of the counters -/

section LatchThms

variable {F : Type} [FloatOps F]

theorem latched_call (t : CD3D_RT) (e : ExecuteEnv F) (hl : t.s_deviceStabilityFailure = true) :
    t.Execute e = (ExecuteExit.latched,
      (t.setExecuteCallCount ((t.s_executeCallCount + 1) % 4294967296)).RT_EndFrameAndSignal) := by
  unfold Execute
  dsimp only
  rw [if_pos (show (t.setExecuteCallCount
    ((t.s_executeCallCount + 1) % 4294967296)).s_deviceStabilityFailure = true from hl)]

/-- A call of `Execute` made with the latch set and no work recorded. -/
theorem latched_step (t : CD3D_RT) (e : ExecuteEnv F) (hl : t.s_deviceStabilityFailure = true)
    (hw : t.m_frameRecordedWork = false) :
    (t.Execute e).2.s_deviceStabilityFailure = true ∧
    (t.Execute e).2.m_frameRecordedWork = false ∧
    (t.Execute e).2.m_lastSignaledFence = t.m_lastSignaledFence ∧
    (t.Execute e).2.m_lastDispatchFence = t.m_lastDispatchFence ∧
    (t.Execute e).2.m_frameCtx = t.m_frameCtx ∧
    TraceExt isRelease t (t.Execute e).2 := by
  rw [latched_call t e hl]
  have hi := RT_EndFrameAndSignal_idle
    (t.setExecuteCallCount ((t.s_executeCallCount + 1) % 4294967296)) hw
  have hla := RT_EndFrameAndSignal_latch
    (t.setExecuteCallCount ((t.s_executeCallCount + 1) % 4294967296))
  generalize (t.setExecuteCallCount
    ((t.s_executeCallCount + 1) % 4294967296)).RT_EndFrameAndSignal = r at hi hla ⊢
  obtain ⟨hb, ht⟩ := hi
  simp only [bookkeeping, Prod.mk.injEq] at hb
  obtain ⟨_, b2, b3, _, _, b6, b7, _, _⟩ := hb
  exact ⟨hla.trans hl, b6, b2, b3, b7, (TraceExt.of_eqT rfl).transT ht⟩

/-- A run of `Execute` calls made with the latch set and no work recorded. -/
theorem latched_run (later : List (ExecuteEnv F)) (t : CD3D_RT)
    (hl : t.s_deviceStabilityFailure = true) (hw : t.m_frameRecordedWork = false) :
    (t.executeAll later).s_deviceStabilityFailure = true ∧
    (t.executeAll later).m_frameRecordedWork = false ∧
    (t.executeAll later).m_lastSignaledFence = t.m_lastSignaledFence ∧
    (t.executeAll later).m_lastDispatchFence = t.m_lastDispatchFence ∧
    (t.executeAll later).m_frameCtx = t.m_frameCtx ∧
    TraceExt isRelease t (t.executeAll later) := by
  induction later generalizing t with
  | nil => exact ⟨hl, hw, rfl, rfl, rfl, TraceExt.reflT _ _⟩
  | cons e rest ih =>
    obtain ⟨a1, a2, a3, a4, a5, a6⟩ := latched_step t e hl hw
    obtain ⟨b1, b2, b3, b4, b5, b6⟩ := ih (t.Execute e).2 a1 a2
    have hu : t.executeAll (e :: rest) = (t.Execute e).2.executeAll rest := rfl
    rw [hu]
    exact ⟨b1, b2, b3.trans a3, b4.trans a4, b5.trans a5, a6.transT b6⟩

end LatchThms

section Claims

variable {F : Type} [FloatOps F]

/-- C21: a call of `Execute` that ends at the return for a removed device or
for a failed `Close` leaves the latch `s_deviceStabilityFailure` set and the
flag `m_frameRecordedWork` cleared.  After any number of further `Execute`
calls the next call ends at the first return of the function, the one for the
set latch; all these calls together make `Release` calls only, so they record
no dispatch, submit no list and signal no fence, and they leave
`m_lastSignaledFence`, `m_lastDispatchFence` and the frame contexts as they
were, the flag cleared and the latch set.  A call made with the latch set ends
with the latch set. -/
theorem C21_latch_stops_frames (s : CD3D_RT) (env : ExecuteEnv F)
    (h : (s.Execute env).1 = ExecuteExit.deviceRemoved ∨
      (s.Execute env).1 = ExecuteExit.closeFailed)
    (later : List (ExecuteEnv F)) (next : ExecuteEnv F) :
    ((s.Execute env).2.s_deviceStabilityFailure = true ∧
      (s.Execute env).2.m_frameRecordedWork = false) ∧
    (((s.Execute env).2.executeAll later).Execute next).1 = ExecuteExit.latched ∧
    (∃ added,
      (((s.Execute env).2.executeAll later).Execute next).2.trace =
        (s.Execute env).2.trace ++ added ∧
      (∀ e ∈ added, isRelease e) ∧ signals added = [] ∧
      (∀ cl w h d, Event.dispatchRays cl w h d ∉ added) ∧
      ∀ cl, Event.executeCommandLists cl ∉ added) ∧
    ((((s.Execute env).2.executeAll later).Execute next).2.m_frameRecordedWork = false ∧
      (((s.Execute env).2.executeAll later).Execute next).2.m_lastSignaledFence =
        (s.Execute env).2.m_lastSignaledFence ∧
      (((s.Execute env).2.executeAll later).Execute next).2.m_lastDispatchFence =
        (s.Execute env).2.m_lastDispatchFence ∧
      (((s.Execute env).2.executeAll later).Execute next).2.m_frameCtx =
        (s.Execute env).2.m_frameCtx ∧
      (((s.Execute env).2.executeAll later).Execute next).2.s_deviceStabilityFailure = true) ∧
    ∀ (t : CD3D_RT) (e : ExecuteEnv F), t.s_deviceStabilityFailure = true →
      (t.Execute e).1 = ExecuteExit.latched ∧ (t.Execute e).2.s_deviceStabilityFailure = true := by
  obtain ⟨f1, f2, _, _⟩ := Execute_spec s env
  have hl := f2 h
  generalize (s.Execute env).2 = s1 at f1 hl ⊢
  obtain ⟨a1, a2, a3, a4, a5, a6⟩ := latched_run later s1 hl f1
  have hc := latched_call (s1.executeAll later) next a1
  obtain ⟨b1, b2, b3, b4, b5, b6⟩ := latched_step (s1.executeAll later) next a1 a2
  obtain ⟨added, ha, hp⟩ := a6.transT b6
  refine ⟨⟨hl, f1⟩, by rw [hc], ⟨added, ha, hp, signals_of_isRelease _ hp, ?_, ?_⟩,
    ⟨b2, b3.trans a3, b4.trans a4, b5.trans a5, b1⟩, fun t e ht => ?_⟩
  · intro cl w h d hm
    rcases hp _ hm with ⟨_, _, e⟩ | ⟨_, e⟩ <;> cases e
  · intro cl hm
    rcases hp _ hm with ⟨_, _, e⟩ | ⟨_, e⟩ <;> cases e
  · refine ⟨by rw [latched_call t e ht], ?_⟩
    rw [latched_call t e ht]
    exact (RT_EndFrameAndSignal_latch _).trans ht

theorem ExecuteRayTracingWithDebug_zero_height (t : CD3D_RT) (env : RaysEnv)
    (cl w h : Nat) (h0 : env.giHeight = 0) (c1 : cl ≠ 0) (c2 : t.m_pDevice ≠ 0)
    (c3 : t.m_pDescriptorHeap ≠ 0) (c4 : t.m_pRaytracingOutput ≠ 0)
    (c5 : t.m_pRaytracingPSO ≠ 0) (c6 : t.m_pTopLevelAS ≠ 0) (c7 : env.giWidth ≠ 0)
    (c8 : env.tlasVA ≠ 0) (c9 : env.noDispatch = 0) :
    Event.dispatchRays cl (min env.giWidth 0xFFFFFFFF) 1 1 ∈
      (t.ExecuteRayTracingWithDebug env cl w h).trace := by
  have hW : min env.giWidth 0xFFFFFFFF % 4294967296 = min env.giWidth 0xFFFFFFFF := by
    apply Nat.mod_eq_of_lt
    have := Nat.min_le_right env.giWidth 0xFFFFFFFF
    omega
  have hH : (if env.giHeight ≠ 0 then env.giHeight else 1) = 1 := by
    simp [h0]
  unfold ExecuteRayTracingWithDebug
  dsimp only
  rw [if_neg (by simp [c1, c2, c3, c4]), if_neg c5, if_neg c6, hW, hH, if_neg, if_neg c8,
    if_pos c9]
  · apply mem_trace_transitionOutputs
    show _ ∈ _ ++ [_]
    simp
  · intro hc
    rcases hc with hc | hc
    · have := Nat.min_le_right env.giWidth 0xFFFFFFFF
      omega
    · omega

/-- C23 (as amended): for an output image of width `0`
`ExecuteRayTracingWithDebug` returns with the state as it was, so nothing is
recorded; for one of height `0` and a non-zero width it records, with the
objects at hand, a dispatch one row high.  Whatever the size of the image, a
call of `Execute` ends with `m_frameRecordedWork` cleared, and one that gets
to the `Close` of its command list on a stage with a frame fence has counted
the frame as recorded work: `m_lastSignaledFence` has grown (by exactly 1 when
the geometry was built before), that value was signalled, is the stamp of a
frame context marked as used, and is `m_lastDispatchFence`. -/
theorem C23_zero_sized_output (s : CD3D_RT) (env : ExecuteEnv F) :
    (env.rays.giWidth = 0 → ∀ (t : CD3D_RT) (cl w h : Nat),
      t.ExecuteRayTracingWithDebug env.rays cl w h = t) ∧
    (env.rays.giHeight = 0 → ∀ (t : CD3D_RT) (cl w h : Nat), cl ≠ 0 → t.m_pDevice ≠ 0 →
      t.m_pDescriptorHeap ≠ 0 → t.m_pRaytracingOutput ≠ 0 → t.m_pRaytracingPSO ≠ 0 →
      t.m_pTopLevelAS ≠ 0 → env.rays.giWidth ≠ 0 → env.rays.tlasVA ≠ 0 →
      env.rays.noDispatch = 0 →
      Event.dispatchRays cl (min env.rays.giWidth 0xFFFFFFFF) 1 1 ∈
        (t.ExecuteRayTracingWithDebug env.rays cl w h).trace) ∧
    (s.Execute env).2.m_frameRecordedWork = false ∧
    (((s.Execute env).1 = ExecuteExit.closeFailed ∨ (s.Execute env).1 = ExecuteExit.done) →
      (s.Execute env).2.m_frameFence ≠ 0 →
      s.m_lastSignaledFence + 1 ≤ (s.Execute env).2.m_lastSignaledFence ∧
      (s.s_geometryBuilt = true →
        (s.Execute env).2.m_lastSignaledFence = s.m_lastSignaledFence + 1) ∧
      (s.Execute env).2.m_lastDispatchFence = (s.Execute env).2.m_lastSignaledFence ∧
      (∃ i, ((s.Execute env).2.m_frameCtx i).fenceValue = (s.Execute env).2.m_lastSignaledFence ∧
        ((s.Execute env).2.m_frameCtx i).usedOnce = true) ∧
      Event.signalFrameFence (s.Execute env).2.m_lastSignaledFence ∈ (s.Execute env).2.trace) := by
  obtain ⟨f1, _, _, f4⟩ := Execute_spec s env
  refine ⟨fun h0 t cl w h => ?_,
    fun h0 t cl w h c1 c2 c3 c4 c5 c6 c7 c8 c9 =>
      ExecuteRayTracingWithDebug_zero_height t env.rays cl w h h0 c1 c2 c3 c4 c5 c6 c7 c8 c9,
    f1, f4⟩
  unfold ExecuteRayTracingWithDebug
  dsimp only
  rw [h0]
  split
  · rfl
  split
  · rfl
  split
  · rfl
  rw [if_pos (Or.inl (by decide))]

/-- C25 (as amended): on a stage whose fence counters are in order
(`m_lastDispatchFence`, `m_lastASBuildFence` and the stamp of every frame
context are at most `m_lastSignaledFence`) the counters are in order again
after `CreateLevelGeometryBLASAndTLAS`, after
`CreateTestSceneWithEnhancedSafety`, and after a call of `Execute` that leaves
the stage with a frame fence or ends before the `Close` of the command list;
the value `max(m_lastDispatchFence, m_lastSignaledFence, m_lastASBuildFence)`
that `RT_SafeRelease` computes is then `m_lastSignaledFence`.  The counters of
a newly constructed stage are in order. -/
theorem C25_fences_in_order (s : CD3D_RT) (h : fencesInOrder s) :
    (∀ env : LevelBuildEnv F, fencesInOrder (s.CreateLevelGeometryBLASAndTLAS env).2) ∧
    (∀ env : TestSceneEnv, fencesInOrder (s.CreateTestSceneWithEnhancedSafety F env).2) ∧
    (∀ env : ExecuteEnv F,
      ((s.Execute env).2.m_frameFence ≠ 0 ∨
        ((s.Execute env).1 ≠ ExecuteExit.closeFailed ∧ (s.Execute env).1 ≠ ExecuteExit.done)) →
      fencesInOrder (s.Execute env).2) ∧
    s.maxFence = s.m_lastSignaledFence ∧
    fencesInOrder ({} : CD3D_RT) := by
  refine ⟨fun env => (fenced_CreateLevel s env).inOrder h,
    fun env => (fenced_CreateTestScene s env).inOrder h,
    fun env hc => (Execute_spec s env).2.2.1 h hc, ?_,
    ⟨Nat.le_refl _, Nat.le_refl _, fun _ => Nat.le_refl _⟩⟩
  unfold maxFence
  rw [max_eq_right h.1, max_eq_left h.2.1]

end Claims


/-! ### Releases out of the deferred queue and releases at once -/

/-- One call of `RT_SafeRelease` records at most one event, a `Release` of the
resource it was given, and appends at most one entry, which holds that resource
under the key `protect + 1`; with a frame fence the `Release` is made at a
completed value that has reached `protect`. -/
theorem RT_SafeRelease_call (s : CD3D_RT) (r : Ptr) :
    ∃ added q, (s.RT_SafeRelease r).1.trace = s.trace ++ added ∧
      (s.RT_SafeRelease r).1.m_deferred = s.m_deferred ++ q ∧
      (added = [] ∨ q = []) ∧
      (∀ e ∈ added, added = [e] ∧
        ∃ c, e = Event.release r c ∧ (s.m_frameFence ≠ 0 → s.maxFence ≤ c)) ∧
      (∀ d ∈ q, q = [d] ∧ d = { fenceValue := s.maxFence + 1, resources := [r] } ∧
        s.m_frameFence ≠ 0 ∧
        s.waitForLastASBuild.GetCompletedValue.1 < s.maxFence) := by
  obtain ⟨c, t, hw, -⟩ := waitForLastASBuild_fields s
  have htrace : s.waitForLastASBuild.trace = s.trace := by rw [hw]
  have hdef : s.waitForLastASBuild.m_deferred = s.m_deferred := by rw [hw]
  by_cases hr : r = 0
  · subst hr
    rw [RT_SafeRelease_null]
    exact ⟨[], [], (List.append_nil _).symm, (List.append_nil _).symm, Or.inl rfl,
      fun e he => absurd he (List.not_mem_nil e), fun d hd => absurd hd (List.not_mem_nil d)⟩
  by_cases h : s.m_frameFence = 0 ∨ s.maxFence = 0
  · rw [RT_SafeRelease_unfenced s r hr h]
    refine ⟨[Event.release r s.waitForLastASBuild.fenceCompleted], [], ?_, ?_, Or.inr rfl, ?_,
      fun d hd => absurd hd (List.not_mem_nil d)⟩
    · show s.waitForLastASBuild.trace ++ _ = _
      rw [htrace]
    · show s.waitForLastASBuild.m_deferred = _
      rw [hdef, List.append_nil]
    · intro e he
      have he1 := List.mem_singleton.1 he
      subst he1
      refine ⟨rfl, _, rfl, fun hf => ?_⟩
      rcases h with h | h
      · exact absurd h hf
      · rw [h]; exact Nat.zero_le _
  · have hf : s.m_frameFence ≠ 0 := fun h0 => h (Or.inl h0)
    have hp : s.maxFence ≠ 0 := fun h0 => h (Or.inr h0)
    by_cases hc : s.waitForLastASBuild.GetCompletedValue.1 ≥ s.maxFence
    · rw [RT_SafeRelease_immediate s r hr hf hp hc]
      refine ⟨[Event.release r s.waitForLastASBuild.GetCompletedValue.1], [], ?_, ?_, Or.inr rfl,
        ?_, fun d hd => absurd hd (List.not_mem_nil d)⟩
      · show s.waitForLastASBuild.trace ++ _ = _
        rw [htrace]
      · show s.waitForLastASBuild.m_deferred = _
        rw [hdef, List.append_nil]
      · intro e he
        have he1 := List.mem_singleton.1 he
        subst he1
        exact ⟨rfl, _, rfl, fun _ => hc⟩
    · rw [RT_SafeRelease_deferred s r hr hf hp (by omega)]
      refine ⟨[], [{ fenceValue := s.maxFence + 1, resources := [r] }], ?_, ?_, Or.inl rfl,
        fun e he => absurd he (List.not_mem_nil e), ?_⟩
      · show s.waitForLastASBuild.trace = _
        rw [htrace, List.append_nil]
      · show s.waitForLastASBuild.m_deferred ++ _ = _
        rw [hdef]
      · intro d hd
        have hd1 := List.mem_singleton.1 hd
        subst hd1
        exact ⟨rfl, rfl, hf, by omega⟩

/-- The events the loop over the resources of one entry records. -/
theorem drainResources_trace (key done : Nat) (l : List Ptr) (s : CD3D_RT) :
    ∃ added, (drainResources key done l s).trace = s.trace ++ added ∧
      ∀ e, e ∈ added ↔ ∃ r ∈ l, r ≠ 0 ∧ e = Event.deferredRelease r key done := by
  induction l generalizing s with
  | nil =>
    refine ⟨[], (List.append_nil _).symm, fun e => ⟨fun he => absurd he (List.not_mem_nil e), ?_⟩⟩
    rintro ⟨r, hr, -⟩
    exact absurd hr (List.not_mem_nil r)
  | cons r rest ih =>
    unfold drainResources
    by_cases hr : r ≠ 0
    · rw [if_pos hr]
      obtain ⟨added, e1, m1⟩ := ih (s.emit (Event.deferredRelease r key done))
      refine ⟨Event.deferredRelease r key done :: added, ?_, fun e => ?_⟩
      · rw [e1]
        show (s.trace ++ [_]) ++ added = _
        rw [List.append_assoc]
        rfl
      · rw [List.mem_cons, m1]
        constructor
        · rintro (h | ⟨x, hx, hx0, he⟩)
          · exact ⟨r, List.mem_cons_self _ _, hr, h⟩
          · exact ⟨x, List.mem_cons_of_mem _ hx, hx0, he⟩
        · rintro ⟨x, hx, hx0, he⟩
          rcases List.mem_cons.1 hx with h | h
          · subst h
            exact Or.inl he
          · exact Or.inr ⟨x, h, hx0, he⟩
    · rw [if_neg hr]
      obtain ⟨added, e1, m1⟩ := ih s
      refine ⟨added, e1, fun e => ?_⟩
      rw [m1]
      constructor
      · rintro ⟨x, hx, hx0, he⟩
        exact ⟨x, List.mem_cons_of_mem _ hx, hx0, he⟩
      · rintro ⟨x, hx, hx0, he⟩
        rcases List.mem_cons.1 hx with h | h
        · subst h
          exact absurd hx0 hr
        · exact ⟨x, h, hx0, he⟩

/-- The events the loop of the drain records: one release for every non-null
resource of every entry whose key the completed value has reached. -/
theorem drainDeferred_trace (done : Nat) (l : List RT_DeferredRelease) (s : CD3D_RT) :
    ∃ added, (drainDeferred done l s).trace = s.trace ++ added ∧
      ∀ e, e ∈ added ↔ ∃ d ∈ l, d.fenceValue ≤ done ∧
        ∃ r ∈ d.resources, r ≠ 0 ∧ e = Event.deferredRelease r d.fenceValue done := by
  induction l generalizing s with
  | nil =>
    refine ⟨[], (List.append_nil _).symm, fun e => ⟨fun he => absurd he (List.not_mem_nil e), ?_⟩⟩
    rintro ⟨d, hd, -⟩
    exact absurd hd (List.not_mem_nil d)
  | cons d rest ih =>
    unfold drainDeferred
    by_cases hd : done ≥ d.fenceValue
    · rw [if_pos hd]
      obtain ⟨a1, e1, m1⟩ := drainResources_trace d.fenceValue done d.resources s
      obtain ⟨a2, e2, m2⟩ := ih (drainResources d.fenceValue done d.resources s)
      refine ⟨a1 ++ a2, by rw [e2, e1, List.append_assoc], fun e => ?_⟩
      rw [List.mem_append, m1, m2]
      constructor
      · rintro (h | ⟨x, hx, hk, h⟩)
        · exact ⟨d, List.mem_cons_self _ _, hd, h⟩
        · exact ⟨x, List.mem_cons_of_mem _ hx, hk, h⟩
      · rintro ⟨x, hx, hk, h⟩
        rcases List.mem_cons.1 hx with h0 | h0
        · subst h0
          exact Or.inl h
        · exact Or.inr ⟨x, h0, hk, h⟩
    · rw [if_neg hd]
      obtain ⟨a2, e2, m2⟩ := ih s
      refine ⟨a2, e2, fun e => ?_⟩
      rw [m2]
      constructor
      · rintro ⟨x, hx, hk, h⟩
        exact ⟨x, List.mem_cons_of_mem _ hx, hk, h⟩
      · rintro ⟨x, hx, hk, h⟩
        rcases List.mem_cons.1 hx with h0 | h0
        · subst h0
          exact absurd hk hd
        · exact ⟨x, h0, hk, h⟩

/-- The drain of `Shutdown` on a stage with a frame fence: the queue is empty
afterwards and the releases recorded are those of the entries whose key the
completed value read has reached. -/
theorem drainQueue_exact (s : CD3D_RT) (hf : s.m_frameFence ≠ 0) :
    s.drainQueue.m_deferred = [] ∧
    ∃ added, s.drainQueue.trace = s.trace ++ added ∧
      ∀ e, e ∈ added ↔ ∃ d ∈ s.m_deferred, d.fenceValue ≤ s.advance.fenceCompleted ∧
        ∃ r ∈ d.resources, r ≠ 0 ∧
          e = Event.deferredRelease r d.fenceValue s.advance.fenceCompleted := by
  unfold drainQueue
  rw [if_pos hf]
  refine ⟨rfl, ?_⟩
  obtain ⟨added, e1, m1⟩ := drainDeferred_trace s.advance.fenceCompleted s.m_deferred s.advance
  exact ⟨added, e1, m1⟩

/-- An event that is no release out of the deferred queue. -/
theorem notDeferred_id (e : Event) (h : ∀ r k d, e ≠ Event.deferredRelease r k d) :
    ∀ r k d, e ≠ Event.deferredRelease r k d := h

/-- `Shutdown` on a stage with a frame fence that was not shut down before: the
releases out of the deferred queue it records are those of the drain, made at
the completed value `c` the drain reads, for the entries that were in the queue
with a key `<= c`. -/
theorem Shutdown_drains (s : CD3D_RT) (env : ShutdownEnv) (hc : s.s_shutdownCompleted = false)
    (hp : s.s_shutdownInProgress = false) (hf : s.m_frameFence ≠ 0) :
    ∃ added, (s.Shutdown env).trace = s.trace ++ added ∧
      ∀ r key done, Event.deferredRelease r key done ∈ added ↔
        done = s.advance.fenceCompleted ∧ key ≤ done ∧ r ≠ 0 ∧
          ∃ d ∈ s.m_deferred, d.fenceValue = key ∧ r ∈ d.resources := by
  have hP := notDeferred_id
  have hS : (s.Shutdown env).trace =
      ((({ s with s_shutdownInProgress := true } :
        CD3D_RT).shutdownSignal.drainQueue.releaseScene.releaseGlobals
          env).releaseDevice.RT_ShutdownFrameContexts.2).trace := by
    unfold Shutdown
    rw [hc, hp]
    rfl
  rw [hS]
  have h0 : TraceExt (fun e => ∀ r k d, e ≠ Event.deferredRelease r k d) s
      ({ s with s_shutdownInProgress := true } : CD3D_RT).shutdownSignal :=
    step_shutdownSignal hP ((TraceExt.reflT _ s).transT (TraceExt.of_eqT rfl))
  have f1 : ({ s with s_shutdownInProgress := true } : CD3D_RT).shutdownSignal.m_deferred =
      s.m_deferred := by
    unfold shutdownSignal
    split <;> rfl
  have f2 : ({ s with s_shutdownInProgress := true } : CD3D_RT).shutdownSignal.advance.fenceCompleted
      = s.advance.fenceCompleted := by
    unfold shutdownSignal
    split <;> rfl
  have f3 : ({ s with s_shutdownInProgress := true } : CD3D_RT).shutdownSignal.m_frameFence ≠ 0 := by
    unfold shutdownSignal
    split <;> exact hf
  generalize ({ s with s_shutdownInProgress := true } : CD3D_RT).shutdownSignal = s1
    at h0 f1 f2 f3 ⊢
  obtain ⟨-, a2, e2, m2⟩ := drainQueue_exact s1 f3
  have h3 : TraceExt (fun e => ∀ r k d, e ≠ Event.deferredRelease r k d) s1.drainQueue
      ((s1.drainQueue.releaseScene.releaseGlobals env).releaseDevice.RT_ShutdownFrameContexts.2) :=
    step_RT_ShutdownFrameContexts hP (step_releaseDevice hP (step_releaseGlobals hP env
      (step_releaseScene hP (TraceExt.reflT _ _))))
  generalize ((s1.drainQueue.releaseScene.releaseGlobals env).releaseDevice.RT_ShutdownFrameContexts.2)
    = s5 at h3 ⊢
  obtain ⟨a1, e1, p1⟩ := h0
  obtain ⟨a3, e3, p3⟩ := h3
  refine ⟨a1 ++ (a2 ++ a3), ?_, fun r key done => ?_⟩
  · rw [e3, e2, e1, List.append_assoc, List.append_assoc]
  · rw [List.mem_append, List.mem_append, m2, f1, f2]
    constructor
    · rintro (h | h | h)
      · exact absurd rfl (p1 _ h r key done)
      · obtain ⟨d, hd, hk, x, hx, hx0, he⟩ := h
        injection he with h1 h2 h3
        subst h1 h2 h3
        exact ⟨rfl, hk, hx0, d, hd, rfl, hx⟩
      · exact absurd rfl (p3 _ h r key done)
    · rintro ⟨h1, h2, h3, d, hd, hk, hx⟩
      subst h1 hk
      exact Or.inr (Or.inl ⟨d, hd, h2, r, hx, h3, rfl⟩)

section QueueRuns

variable {F : Type} [FloatOps F]

/-- An operation other than `Shutdown` records no release out of the queue. -/
theorem step_noDrain {s0 s : CD3D_RT} (op : Op F) (hop : op.isShutdown = false)
    (h : TraceExt (fun e => ∀ r k d, e ≠ Event.deferredRelease r k d) s0 s) :
    TraceExt (fun e => ∀ r k d, e ≠ Event.deferredRelease r k d) s0 (s.step op) := by
  have hP := notDeferred_id
  cases op with
  | safeRelease r => exact step_RT_SafeRelease hP r h
  | deferRelease r => exact step_RT_DeferRelease r h
  | releaseASBuffers b => exact step_RT_ReleaseASBuffers hP b h
  | clearKeepAliveUploads => exact step_ClearKeepAliveUploads hP h
  | beginFrame env => exact step_RT_BeginFrameAllocator hP env h
  | recordWork => exact step_recordWork h
  | endFrame => exact step_RT_EndFrameAndSignal hP h
  | waitForLastDispatch => exact step_RT_WaitForLastDispatch h
  | buildLevel env => exact step_CreateLevelGeometryBLASAndTLAS hP env s h
  | buildTestScene env => exact step_CreateTestSceneWithEnhancedSafety hP env s h
  | update env => exact step_UpdateAccelerationStructures hP env h
  | shutdown env => exact absurd hop (fun e => Bool.noConfusion e)

theorem run_noDrain {s0 : CD3D_RT} (ops : List (Op F))
    (hops : ∀ op ∈ ops, op.isShutdown = false) (s : CD3D_RT)
    (h : TraceExt (fun e => ∀ r k d, e ≠ Event.deferredRelease r k d) s0 s) :
    TraceExt (fun e => ∀ r k d, e ≠ Event.deferredRelease r k d) s0 (s.run ops) := by
  induction ops generalizing s with
  | nil => exact h
  | cons op rest ih =>
    unfold run
    rw [List.foldl_cons]
    exact ih (fun o ho => hops o (List.mem_cons_of_mem _ ho)) _
      (step_noDrain op (hops op (List.mem_cons_self _ _)) h)

theorem RT_InitFrameContexts_m_deferred (s : CD3D_RT) (env : InitFrameEnv) :
    (s.RT_InitFrameContexts env).m_deferred = s.m_deferred := by
  unfold RT_InitFrameContexts
  split
  · rfl
  · simp only
    cases env.fence <;> rfl

theorem waitForFrameContext_m_deferred (s : CD3D_RT) (fenceValue : Nat) :
    (s.waitForFrameContext fenceValue).m_deferred = s.m_deferred := by
  unfold waitForFrameContext
  split
  · simp only
    split <;> split <;> rfl
  · rfl

theorem RT_BeginFrameAllocator_m_deferred (s : CD3D_RT) (env : BeginFrameEnv) :
    (s.RT_BeginFrameAllocator env).2.m_deferred = s.m_deferred := by
  unfold RT_BeginFrameAllocator
  refine ite_cases (fun r : Ptr × CD3D_RT => r.2.m_deferred = s.m_deferred) _ _ _ rfl ?_
  simp only
  have h1 : (if s.m_frameFence = 0 then s.RT_InitFrameContexts env.init else s).m_deferred =
      s.m_deferred := by
    split
    · exact RT_InitFrameContexts_m_deferred s env.init
    · rfl
  generalize (if s.m_frameFence = 0 then s.RT_InitFrameContexts env.init else s) = s1 at h1 ⊢
  refine ite_cases (fun r : Ptr × CD3D_RT => r.2.m_deferred = s.m_deferred) _ _ _ ?_ ?_
  · refine ite_cases (fun r : Ptr × CD3D_RT => r.2.m_deferred = s.m_deferred) _ _ _ ?_ ?_
    · exact h1
    · exact h1
  · have h2 := waitForFrameContext_m_deferred s1 (s1.m_frameCtx s1.ctxIndex).fenceValue
    generalize s1.waitForFrameContext (s1.m_frameCtx s1.ctxIndex).fenceValue = s2 at h2 ⊢
    exact h2.trans h1

theorem deferredExt_UpdateAccelerationStructures (s : CD3D_RT) (env : UpdateEnv F) :
    DeferredExt s (s.UpdateAccelerationStructures env) := by
  unfold UpdateAccelerationStructures
  simp only
  have h0 : DeferredExt s ({ s with frameCounter := (s.frameCounter + 1) % 4294967296 } : CD3D_RT) :=
    DeferredExt.of_eqD rfl
  generalize ({ s with frameCounter := (s.frameCounter + 1) % 4294967296 } : CD3D_RT) = s1
    at h0 ⊢
  refine ite_cases (fun r : CD3D_RT => DeferredExt s r) _ _ _ h0 ?_
  refine ite_cases (fun r : CD3D_RT => DeferredExt s r) _ _ _ h0 ?_
  have h1 := h0.transD (deferredExt_RT_WaitForLastDispatch s1)
  generalize s1.RT_WaitForLastDispatch = s2 at h1 ⊢
  have h2 : DeferredExt s (((s2.detachScene.ClearKeepAliveUploads.setTopLevelAS 0).setTlasBuffers
      {}).setBlasBuffers {}) :=
    ((h1.transD (DeferredExt.of_eqD rfl : DeferredExt s2 s2.detachScene)).transD
      (deferredExt_ClearKeepAliveUploads _)).transD (DeferredExt.of_eqD rfl)
  generalize ((s2.detachScene.ClearKeepAliveUploads.setTopLevelAS 0).setTlasBuffers
    {}).setBlasBuffers {} = s3 at h2 ⊢
  have h3 : DeferredExt s (s3.CreateSceneBLASAndTLASFromView env.level).2 :=
    h2.transD (grows_CreateLevel s3 env.level).2
  generalize s3.CreateSceneBLASAndTLASFromView env.level = built at h3 ⊢
  have h4 : DeferredExt s (if FAILED built.1 = true ∨ built.2.m_pTopLevelAS = 0 then
      (built.2.CreateTestSceneWithEnhancedSafety F env.test).2 else built.2) :=
    ite_cases (fun r : CD3D_RT => DeferredExt s r) _ _ _
      (h3.transD (deferredExt_CreateTestScene built.2 env.test)) h3
  generalize (if FAILED built.1 = true ∨ built.2.m_pTopLevelAS = 0 then
      (built.2.CreateTestSceneWithEnhancedSafety F env.test).2 else built.2) = s4 at h4 ⊢
  exact ((((h4.transD (deferredExt_RT_ReleaseASBuffers _ _)).transD
    (deferredExt_RT_ReleaseASBuffers _ _)).transD (grows_deferEachASBuffers _ _).2).transD
    (deferredExt_safeReleaseEach _ _))

/-- An operation other than `Shutdown` and `RT_DeferRelease` leaves every entry
of the deferred queue in place and appends entries at most. -/
theorem step_keepsQueue (s : CD3D_RT) (op : Op F) (hop : op.isShutdown = false)
    (hd : op.isDeferRelease = false) : DeferredExt s (s.step op) := by
  cases op with
  | safeRelease r => exact deferredExt_RT_SafeRelease s r
  | deferRelease r => exact absurd hd (fun e => Bool.noConfusion e)
  | releaseASBuffers b => exact deferredExt_RT_ReleaseASBuffers s b
  | clearKeepAliveUploads => exact deferredExt_ClearKeepAliveUploads s
  | beginFrame env => exact DeferredExt.of_eqD (RT_BeginFrameAllocator_m_deferred s env)
  | recordWork => exact DeferredExt.of_eqD rfl
  | endFrame => exact DeferredExt.of_eqD (RT_EndFrameAndSignal_m_deferred s)
  | waitForLastDispatch => exact deferredExt_RT_WaitForLastDispatch s
  | buildLevel env => exact (grows_CreateLevel s env).2
  | buildTestScene env => exact deferredExt_CreateTestScene s env
  | update env => exact deferredExt_UpdateAccelerationStructures s env
  | shutdown env => exact absurd hop (fun e => Bool.noConfusion e)

theorem run_keepsQueue {s0 : CD3D_RT} (ops : List (Op F))
    (hops : ∀ op ∈ ops, op.isShutdown = false)
    (hds : ∀ op ∈ ops, op.isDeferRelease = false) (s : CD3D_RT) (h : DeferredExt s0 s) :
    DeferredExt s0 (s.run ops) := by
  induction ops generalizing s with
  | nil => exact h
  | cons op rest ih =>
    unfold run
    rw [List.foldl_cons]
    exact ih (fun o ho => hops o (List.mem_cons_of_mem _ ho))
      (fun o ho => hds o (List.mem_cons_of_mem _ ho)) _
      (h.transD (step_keepsQueue s op (hops op (List.mem_cons_self _ _))
        (hds op (List.mem_cons_self _ _))))

end QueueRuns

end CD3D_RT

/-! ### Evaluations on concrete inputs -/

/-- C7 (counterexample): of two candidates with room for one, the record kept
is the one whose nearest vertex is at squared distance 25 from the viewpoint,
and the record dropped is the one whose nearest vertex is at squared distance
1: its first vertex is at squared distance 100. -/
theorem C7_counterexample :
    1 < [farFirstVertex, triangleAt "near" 5].length ∧
    RT_SortKeepNearest [farFirstVertex, triangleAt "near" 5] originCam.position 1 =
      [triangleAt "near" 5] ∧
    farFirstVertex ∉ RT_SortKeepNearest [farFirstVertex, triangleAt "near" 5]
      originCam.position 1 ∧
    nearestVertexDistance originCam.position (triangleAt "near" 5) = Dec.ofInt 25 ∧
    nearestVertexDistance originCam.position farFirstVertex = Dec.ofInt 1 ∧
    sortDistance originCam.position farFirstVertex = Dec.ofInt 100 ∧
    FloatOps.lt (nearestVertexDistance originCam.position farFirstVertex)
      (nearestVertexDistance originCam.position (triangleAt "near" 5)) = true := by
  decide

/-- C7 (amended) on three candidates, the far one first, with room for two: the
two near ones are kept. -/
theorem C7_witness :
    2 < threeTriangles.length ∧
    RT_SortKeepNearest threeTriangles originCam.position 2 =
      [triangleAt "a" 1, triangleAt "b" 1] ∧
    ∃ dropped : List (SafeGeometryData Dec),
      (RT_SortKeepNearest threeTriangles originCam.position 2 ++ dropped).Perm threeTriangles ∧
      (RT_SortKeepNearest threeTriangles originCam.position 2).length = 2 ∧
      (∀ k ∈ RT_SortKeepNearest threeTriangles originCam.position 2, ∀ d ∈ dropped,
        FloatOps.lt (sortDistance originCam.position d)
          (sortDistance originCam.position k) = false) ∧
      ∀ k ∈ RT_SortKeepNearest threeTriangles originCam.position 2, ∀ d ∈ dropped,
        ∀ (vk vd : Vec3 Dec) (rk rd : List (Vec3 Dec)),
          k.vertices = vk :: rk → d.vertices = vd :: rd →
            FloatOps.lt (vd.sub originCam.position).GetLengthSquared
              (vk.sub originCam.position).GetLengthSquared = false :=
  ⟨by decide, by decide,
    (C7_keeps_nearest_by_first_vertex threeTriangles originCam.position 2
      (by decide) (by decide) (by decide)).1.imp
      fun _ h => ⟨h.1, h.2.1, h.2.2.1, h.2.2.2.1⟩⟩

/-- C8 on three candidates: all three leave the selection stage. -/
theorem C8_witness :
    selectLevelGeometry threeTriangles none originCam =
        some [triangleAt "a" 1, triangleAt "b" 1, triangleAt "c" 300] ∧
      [triangleAt "a" 1, triangleAt "b" 1, triangleAt "c" 300].length ≤ 8 :=
  ⟨by decide, (@CD3D_RT.C8_bounded_working_set Dec _).2.1 threeTriangles none originCam _
    (by decide)⟩

/-- C9 (amended) on three candidates: the two near ones come out in their input
order. -/
theorem C9_witness :
    RT_SortKeepNearest threeTriangles originCam.position 2 =
        [triangleAt "a" 1, triangleAt "b" 1] ∧
    ((RT_SortKeepNearest threeTriangles originCam.position 2).Pairwise
        (fun a b => FloatOps.lt (sortDistance originCam.position b)
          (sortDistance originCam.position a) = false) ∧
      ∀ x ∈ threeTriangles,
        ((RT_SortKeepNearest threeTriangles originCam.position 2).filter
            (sameDistance originCam.position x)) <+:
          (threeTriangles.filter (sameDistance originCam.position x))) :=
  ⟨by decide, C9_sorted_by_first_vertex_stable threeTriangles originCam.position 2
    (by decide) (by decide)⟩

/-- C9 (counterexample): of two records, the one whose nearest vertex is the
nearer to the viewpoint (squared distance 1 against 25) comes second in the
output, its first vertex being the farther (squared distance 100). -/
theorem C9_counterexample :
    RT_SortKeepNearest [farFirstVertex, triangleAt "near" 5] originCam.position 8 =
        [triangleAt "near" 5, farFirstVertex] ∧
      FloatOps.lt (nearestVertexDistance originCam.position farFirstVertex)
        (nearestVertexDistance originCam.position (triangleAt "near" 5)) = true := by
  decide

/-- C10 (counterexample): on the empty candidate list no record lies within the
radius, yet the selection stage appends no quad and ends the call. -/
theorem C10_counterexample :
    hasNearGeometry ([] : List (SafeGeometryData Dec)) originCam.position = false ∧
      selectLevelGeometry ([] : List (SafeGeometryData Dec)) none originCam = none := by
  decide

/-- C10 (amended) on one far candidate: the quad is appended and sorts first. -/
theorem C10_witness :
    RT_AppendTerrainPatch [triangleAt "far" 300] none ≠ [] ∧
    hasNearGeometry (RT_AppendTerrainPatch [triangleAt "far" 300] none) originCam.position =
      false ∧
    (selectLevelGeometry [triangleAt "far" 300] none originCam).map
        (fun l => l.map (fun g => g.debugName)) = some ["DebugQuadNearCam", "far"] ∧
    ∃ l, selectLevelGeometry [triangleAt "far" 300] none originCam = some l ∧ l ≠ [] :=
  ⟨by decide, by decide, by decide,
    ((C10_fallback_quad [triangleAt "far" 300] none originCam).2 (by decide)).2.2⟩

/-- C19 on a triangle over three vertices whose last index is `3`. -/
theorem C19_witness :
    (3 ≤ indexPastEnd.vertices.length ∧ indexPastEnd.indices.length % 3 = 0 ∧
      3 ∈ indexPastEnd.indices) ∧
    ("index " ++ toString (maxIndex indexPastEnd.indices) ++ " out of range (v=" ++
        toString indexPastEnd.vertices.length ++ ")" = "index 3 out of range (v=3)") ∧
    ValidateMeshData indexPastEnd "" =
      some (false, "index " ++ toString (maxIndex indexPastEnd.indices) ++
        " out of range (v=" ++ toString indexPastEnd.vertices.length ++ ")") ∧
    ∀ outGeometry : List (SafeGeometryData Dec),
      RT_AppendTerrainPatch outGeometry (some indexPastEnd) = outGeometry :=
  ⟨by decide, by decide,
    (C19_index_out_of_range indexPastEnd "" (by decide) (by decide) (by decide) (by decide)
      ⟨3, by decide, by decide⟩).2.1,
    (C19_index_out_of_range indexPastEnd "" (by decide) (by decide) (by decide) (by decide)
      ⟨3, by decide, by decide⟩).2.2.1⟩

/-- C20 on three copies of a container of 32 bytes. -/
theorem C20_witness :
    ValidateCompiledShaders
        { rayGenBytecode := smallContainer
          missBytecode := smallContainer
          closestHitBytecode := smallContainer } = true ∧
    4 ≤ smallContainer.length ∧
    (littleEndian (smallContainer.take 4) = 0x43425844 ↔
      smallContainer.take 4 = [0x44, 0x58, 0x42, 0x43]) :=
  ⟨by decide, by decide, (C20_ValidateCompiledShaders_iff
    { rayGenBytecode := smallContainer
      missBytecode := smallContainer
      closestHitBytecode := smallContainer }).2 smallContainer (by decide)⟩

namespace CD3D_RT

/-- C3 on a stage whose fence is behind: resource `7` is queued with key
`protect + 1` and not released. -/
theorem C3_witness :
    (fenceBehind.m_frameFence ≠ 0 ∧ 0 < fenceBehind.maxFence ∧
      fenceBehind.waitForLastASBuild.GetCompletedValue.1 < fenceBehind.maxFence) ∧
    (fenceBehind.RT_SafeRelease 7).2 = 0 ∧
    (fenceBehind.RT_SafeRelease 7).1.trace = fenceBehind.trace ∧
    (fenceBehind.RT_SafeRelease 7).1.m_deferred =
      fenceBehind.m_deferred ++ [{ fenceValue := fenceBehind.maxFence + 1, resources := [7] }] :=
  ⟨by decide,
    ((C3_RT_SafeRelease fenceBehind).2 7 (by decide) (by decide) (by decide)).1,
    ((C3_RT_SafeRelease fenceBehind).2 7 (by decide) (by decide) (by decide)).2.2 (by decide)⟩

/-- C4 (fails on the code): after fifteen frames with recorded work on a GPU
that completes nothing, context 0 is stamped with fence value 1 and the frame
fence stands at 0; the next `RT_BeginFrameAllocator` waits, the wait runs out,
and `Reset` is called on the allocator of context 0 all the same. -/
theorem C4_reset_while_fence_pending :
    ((deviceReady.run fifteenFrames).m_frameCtx (deviceReady.run fifteenFrames).ctxIndex).fenceValue
        = 1 ∧
      ((deviceReady.run fifteenFrames).RT_BeginFrameAllocator beginEnv0).2.fenceCompleted = 0 ∧
      Event.allocatorReset 0 1 0 ∈
        ((deviceReady.run fifteenFrames).RT_BeginFrameAllocator beginEnv0).2.trace := by
  decide!

/-- C5 on the first frame of a stage, after the allocator was handed out and
work was recorded. -/
theorem C5_witness :
    ((deviceReady.RT_BeginFrameAllocator beginEnv0).2.recordWork.m_frameFence ≠ 0 ∧
      (deviceReady.RT_BeginFrameAllocator beginEnv0).2.recordWork.m_frameRecordedWork = true) ∧
    (deviceReady.RT_BeginFrameAllocator beginEnv0).2.recordWork.RT_EndFrameAndSignal.m_lastSignaledFence
      = (deviceReady.RT_BeginFrameAllocator beginEnv0).2.recordWork.m_lastSignaledFence + 1 ∧
    (deviceReady.RT_BeginFrameAllocator beginEnv0).2.recordWork.RT_EndFrameAndSignal.m_frameIndex
      = (deviceReady.RT_BeginFrameAllocator beginEnv0).2.recordWork.m_frameIndex + 1 :=
  ⟨by decide,
    ((C5_RT_EndFrameAndSignal.1 (deviceReady.RT_BeginFrameAllocator beginEnv0).2.recordWork
      (by decide)).1 (by decide)).1,
    (C5_RT_EndFrameAndSignal.1 (deviceReady.RT_BeginFrameAllocator beginEnv0).2.recordWork
      (by decide)).2.2.2⟩

/-- C6 (counterexample): a rebuild over an installed scene gets to its command
list, the allocation of the only vertex buffer fails and the call returns
`E_FAIL`; the top-level pointer, `10` before, is null afterwards, the list of
bottom-level results is empty and `Release` was called on the buffers `10` and
`20` of the installed structures. -/
theorem C6_counterexample :
    reachesCommandList installedScene allocationFails = true ∧
    FAILED (installedScene.CreateLevelGeometryBLASAndTLAS allocationFails).1 = true ∧
    installedScene.m_pTopLevelAS = 10 ∧
    (installedScene.CreateLevelGeometryBLASAndTLAS allocationFails).2.m_pTopLevelAS = 0 ∧
    installedScene.m_sceneBLASResults = [20] ∧
    (installedScene.CreateLevelGeometryBLASAndTLAS allocationFails).2.m_sceneBLASResults = [] ∧
    Event.release 10 0 ∈ (installedScene.CreateLevelGeometryBLASAndTLAS allocationFails).2.trace ∧
    Event.release 20 0 ∈ (installedScene.CreateLevelGeometryBLASAndTLAS allocationFails).2.trace := by
  decide

/-- C6 (amended) on the failed rebuild over an installed scene: the buffers `20`
and `10` were handed to the release path and the top-level pointer is null. -/
theorem C6_witness :
    reachesCommandList installedScene allocationFails = true ∧
    HandedOver 20 installedScene
      (installedScene.CreateLevelGeometryBLASAndTLAS allocationFails).2 ∧
    HandedOver 10 installedScene
      (installedScene.CreateLevelGeometryBLASAndTLAS allocationFails).2 ∧
    (installedScene.CreateLevelGeometryBLASAndTLAS allocationFails).2.m_pTopLevelAS = 0 :=
  ⟨by decide,
    (((@C6_rebuild_clears_first Dec _ installedScene).1 allocationFails).2 (by decide)).1 20
      (by decide) (by decide),
    (((@C6_rebuild_clears_first Dec _ installedScene).1 allocationFails).2 (by decide)).2.1
      (by decide),
    (((@C6_rebuild_clears_first Dec _ installedScene).1 allocationFails).2 (by decide)).2.2
      (by decide) (by decide)⟩

/-- C11 on an installed scene whose call is the 3600th while streaming is busy:
the scene stays as it is. -/
theorem C11_witness :
    (busyEnv.streamingBusy = true ∧ (rebuildDue.frameCounter + 1) % 4294967296 % 3600 = 0) ∧
    (rebuildDue.UpdateAccelerationStructures busyEnv).m_pTopLevelAS = rebuildDue.m_pTopLevelAS ∧
    (rebuildDue.UpdateAccelerationStructures busyEnv).m_deferred = rebuildDue.m_deferred ∧
    (FAILED (rebuildDue.CreateLevelGeometryBLASAndTLAS { oneTriangleBuild with
        streamingBusy := true }).1 = true ∧
      (rebuildDue.CreateLevelGeometryBLASAndTLAS { oneTriangleBuild with
        streamingBusy := true }).2 = rebuildDue) :=
  ⟨by decide,
    ((@C11_rebuild_skip Dec _ rebuildDue).1 busyEnv (Or.inl (by decide))).2.1,
    ((@C11_rebuild_skip Dec _ rebuildDue).1 busyEnv (Or.inl (by decide))).2.2.2.2.2.2.1,
    (@C11_rebuild_skip Dec _ rebuildDue).2 { oneTriangleBuild with streamingBusy := true }
      (by decide)⟩

/-- C12 (fails on the code): `m_pTopLevelAS` is assigned before `Close` is
called on the command list of the build.  A level build whose `Close` fails
returns `E_FAIL` with `m_pTopLevelAS` set to the result buffer `53`; the calls
made are the recording of the two builds and the write of the instance array,
no list was submitted and no fence signalled.  The test-scene build does the
same.  A level build for which no fence can be created returns `S_OK` with the
structure installed, the list submitted and no fence signalled. -/
theorem C12_installed_before_submission :
    (deviceReady.m_pTopLevelAS = 0 ∧
      (deviceReady.CreateLevelGeometryBLASAndTLAS closeFails).1 = E_FAIL ∧
      (deviceReady.CreateLevelGeometryBLASAndTLAS closeFails).2.m_pTopLevelAS = 53 ∧
      (deviceReady.CreateLevelGeometryBLASAndTLAS closeFails).2.trace =
        [Event.buildAS 31 false 1 4500, Event.instanceDescs (instanceDescsFor [4500]),
          Event.buildAS 31 true 1 5300]) ∧
    ((deviceReady.CreateTestSceneWithEnhancedSafety Dec testSceneCloseFails).1 = E_FAIL ∧
      (deviceReady.CreateTestSceneWithEnhancedSafety Dec testSceneCloseFails).2.m_pTopLevelAS
        = 53 ∧
      signals (deviceReady.CreateTestSceneWithEnhancedSafety Dec testSceneCloseFails).2.trace
        = [] ∧
      Event.executeCommandLists 31 ∉
        (deviceReady.CreateTestSceneWithEnhancedSafety Dec testSceneCloseFails).2.trace) ∧
    ((deviceReady.CreateLevelGeometryBLASAndTLAS noBuildFence).1 = S_OK ∧
      (deviceReady.CreateLevelGeometryBLASAndTLAS noBuildFence).2.m_pTopLevelAS = 53 ∧
      (deviceReady.CreateLevelGeometryBLASAndTLAS noBuildFence).2.trace =
        [Event.buildAS 31 false 1 4500, Event.instanceDescs (instanceDescsFor [4500]),
          Event.buildAS 31 true 1 5300, Event.executeCommandLists 31]) := by
  decide

/-- C13 on a list of two addresses and on the first build of a level of one
triangle: `BuildTopLevelAS` writes the array of the two descriptors with the
addresses `4500` and `4600`, and the level build, which succeeds, writes the
array of the one descriptor with the address `4500` of the structure it
built; so does the same build when `Close` fails on the command list after the
array was written. -/
theorem C13_witness :
    (([4500, 4600] : List Nat)[1]? = some 4600 ∧
      (instanceDescsFor [4500, 4600])[1]? = some
        ({ Transform := [1, 0, 0, 0, 0, 1, 0, 0, 0, 0, 1, 0]
           InstanceID := 1
           InstanceMask := 0xFF
           InstanceContributionToHitGroupIndex := 0
           Flags := 0
           AccelerationStructure := 4600 } : InstanceDesc)) ∧
    (∀ i, (oneTriangleBuild.records i).blas.result ≠ 0 ∧
      (oneTriangleBuild.records i).blas.resultVA ≠ 0) ∧
    (deviceReady.CreateLevelGeometryBLASAndTLAS oneTriangleBuild).2.m_sceneBLAS.map
      (fun b => b.resultVA) = [4500] ∧
    (∃ added, (deviceReady.CreateLevelGeometryBLASAndTLAS oneTriangleBuild).2.trace =
        deviceReady.trace ++ added ∧
      (∀ descs, Event.instanceDescs descs ∈ added →
        descs = instanceDescsFor (added.filterMap blasDest)) ∧
      (reachesCommandList deviceReady oneTriangleBuild = true →
        added.filterMap blasDest =
          (deviceReady.CreateLevelGeometryBLASAndTLAS oneTriangleBuild).2.m_sceneBLAS.map
            fun b => b.resultVA)) ∧
    ((deviceReady.BuildTopLevelAS oneTriangleBuild.tlas 31 [4500, 4600] {}).2.1.trace =
        [Event.instanceDescs
          [{ Transform := [1, 0, 0, 0, 0, 1, 0, 0, 0, 0, 1, 0]
             InstanceID := 0
             InstanceMask := 0xFF
             InstanceContributionToHitGroupIndex := 0
             Flags := 0
             AccelerationStructure := 4500 },
           { Transform := [1, 0, 0, 0, 0, 1, 0, 0, 0, 0, 1, 0]
             InstanceID := 1
             InstanceMask := 0xFF
             InstanceContributionToHitGroupIndex := 0
             Flags := 0
             AccelerationStructure := 4600 }],
          Event.buildAS 31 true 2 5300] ∧
      ∃ rest, (deviceReady.BuildTopLevelAS oneTriangleBuild.tlas 31 [4500, 4600] {}).2.1.trace =
          (deviceReady.RT_ReleaseASBuffers {}).1.trace ++
            Event.instanceDescs (instanceDescsFor [4500, 4600]) :: rest ∧
        ∀ e ∈ rest, ∀ descs, e ≠ Event.instanceDescs descs) ∧
    ((deviceReady.CreateLevelGeometryBLASAndTLAS oneTriangleBuild).1 = S_OK ∧
      (deviceReady.CreateLevelGeometryBLASAndTLAS oneTriangleBuild).2.blasVaList = [4500] ∧
      (deviceReady.CreateLevelGeometryBLASAndTLAS oneTriangleBuild).2.trace =
        [Event.buildAS 31 false 1 4500,
          Event.instanceDescs
            [{ Transform := [1, 0, 0, 0, 0, 1, 0, 0, 0, 0, 1, 0]
               InstanceID := 0
               InstanceMask := 0xFF
               InstanceContributionToHitGroupIndex := 0
               Flags := 0
               AccelerationStructure := 4500 }],
          Event.buildAS 31 true 1 5300, Event.executeCommandLists 31,
          Event.signalBuildFence 1] ∧
      ∃ added, (deviceReady.CreateLevelGeometryBLASAndTLAS oneTriangleBuild).2.trace =
          deviceReady.trace ++ added ∧
        Event.instanceDescs (instanceDescsFor
          (deviceReady.CreateLevelGeometryBLASAndTLAS oneTriangleBuild).2.blasVaList) ∈ added) ∧
    (reachesCommandList deviceReady closeFails = true ∧
      (deviceReady.CreateLevelGeometryBLASAndTLAS closeFails).1 = E_FAIL ∧
      (deviceReady.CreateLevelGeometryBLASAndTLAS closeFails).2.blasVaList = [4500] ∧
      ∃ added, (deviceReady.CreateLevelGeometryBLASAndTLAS closeFails).2.trace =
          deviceReady.trace ++ added ∧
        Event.instanceDescs (instanceDescsFor
          (deviceReady.CreateLevelGeometryBLASAndTLAS closeFails).2.blasVaList) ∈ added) :=
  ⟨⟨by decide, ((@C13_instance_array Dec _).1 [4500, 4600]).2 1 4600 (by decide)⟩,
    fun _ => (by decide : (45 : Nat) ≠ 0 ∧ (4500 : Nat) ≠ 0), by decide,
    (@C13_instance_array Dec _).2.2.2.1 deviceReady oneTriangleBuild
      (fun _ => (by decide : (45 : Nat) ≠ 0 ∧ (4500 : Nat) ≠ 0)),
    ⟨by decide,
      (@C13_instance_array Dec _).2.2.2.2.1 deviceReady oneTriangleBuild.tlas 31 [4500, 4600] {}
        (by decide) (by decide) (by decide) (by decide) (by decide) (by decide) (by decide)
        (by decide) (by decide) (by decide)⟩,
    ⟨by decide, by decide, by decide,
      (@C13_instance_array Dec _).2.2.2.2.2.1 deviceReady oneTriangleBuild (by decide)⟩,
    ⟨by decide, by decide, by decide,
      (@C13_instance_array Dec _).2.2.2.2.2.2 deviceReady closeFails (by decide) (by decide)
        (by decide) (by decide) (by decide) (by decide) (by decide) (by decide) (by decide)⟩⟩

/-- C16 on one frame with recorded work. -/
theorem C16_witness :
    ((signals deviceReady.trace).Pairwise (· < ·) ∧
      ∀ v ∈ signals deviceReady.trace, v ≤ deviceReady.m_lastSignaledFence) ∧
    signals (deviceReady.run oneFrame).trace = [1] ∧
    ((signals (deviceReady.run oneFrame).trace).Pairwise (· < ·) ∧
      ∀ v ∈ signals (deviceReady.run oneFrame).trace,
        v ≤ (deviceReady.run oneFrame).m_lastSignaledFence) :=
  ⟨by decide, by decide,
    (C16_signaled_counter_monotone deviceReady).2.1 oneFrame (by decide)⟩

/-- C17 on a frame of a stage whose geometry was built earlier and whose
top-level structure is not installed. -/
theorem C17_witness :
    (sceneLost.Execute calmFrame).1 = ExecuteExit.noTopLevelAS ∧
    (sceneLost.Execute calmFrame).2.trace = [] ∧
    (sceneLost.Execute calmFrame).2.m_lastSignaledFence = sceneLost.m_lastSignaledFence ∧
    (sceneLost.Execute calmFrame).2.m_lastDispatchFence = sceneLost.m_lastDispatchFence ∧
    (sceneLost.Execute calmFrame).2.m_lastASBuildFence = sceneLost.m_lastASBuildFence ∧
    (sceneLost.Execute calmFrame).2.m_frameCtx = sceneLost.m_frameCtx ∧
    (sceneLost.Execute calmFrame).2.m_frameIndex = sceneLost.m_frameIndex + 1 ∧
    (sceneLost.Execute calmFrame).2.m_frameRecordedWork = false :=
  ⟨by decide, by decide,
    (C17_frame_without_top_level_AS sceneLost calmFrame (by decide)).2.2⟩

/-- C18 (counterexample): the description of the output image gives the width
`4` and the height `0`; the dispatch recorded has Width `4` and Height `1`, and
the constants uploaded carry `ScreenWidth = 4` and `ScreenHeight = 1`. -/
theorem C18_counterexample :
    output4x0.giWidth = 4 ∧ output4x0.giHeight = 0 ∧
    (sceneInstalled.ExecuteRayTracingWithDebug output4x0 31 640 480).trace =
      [Event.transition 31 62 0 8, Event.uploadConstants 4 1, Event.dispatchRays 31 4 1 1,
        Event.transition 31 62 8 192] := by
  decide

/-- C18 (amended) on an output image 4 wide and 3 high, the caller asking for
640 by 480: the dispatch recorded is 4 by 3 by 1. -/
theorem C18_witness :
    (0 < output4x3.giHeight ∧ output4x3.giWidth ≤ 0xFFFFFFFF) ∧
    (min output4x3.giWidth 0xFFFFFFFF = output4x3.giWidth ∧
      (if output4x3.giHeight = 0 then 1 else output4x3.giHeight) = output4x3.giHeight) ∧
    Event.dispatchRays 31 4 3 1 ∈
      (sceneInstalled.ExecuteRayTracingWithDebug output4x3 31 640 480).trace :=
  ⟨by decide, (C18_dispatch_size sceneInstalled output4x3 31).2.2.1 (by decide) (by decide),
    (C18_dispatch_size sceneInstalled output4x3 31).2.2.2 640 480 (by decide) (by decide)
      (by decide) (by decide) (by decide) (by decide) (by decide) (by decide) (by decide)⟩

end CD3D_RT

/-- C28 on a triangle over three vertices: the record is accepted, and every
read of the loop is inside the two vectors. -/
theorem C28_witness :
    maxIndex (triangleAt "a" 1).indices < (triangleAt "a" 1).vertices.length ∧
    (∃ idx p, (triangleAt "a" 1).indices[0 + 2]? = some idx ∧
      idx < (triangleAt "a" 1).vertices.length ∧ (triangleAt "a" 1).vertices[idx]? = some p) ∧
    (triangleLoop (triangleAt "a" 1) (triangleAt "a" 1).indices.length 101 (3 * 0)).isSome
      = true :=
  ⟨by decide,
    ((C28_reads_in_bounds (triangleAt "a" 1) "").2.1 (by decide)).1 0 2 (by decide) (by decide),
    ((C28_reads_in_bounds (triangleAt "a" 1) "").2.1 (by decide)).2 101 0 (by decide)
      (by decide)⟩

/-- C29 on a triangle whose last index is out of range: both inline copies
reject it with the reason `ValidateMeshData` gives. -/
theorem C29_witness :
    ValidateMeshData indexPastEnd "" = some (false, "index 3 out of range (v=3)") ∧
    inlineValidationError indexPastEnd = some "index 3 out of range (v=3)" ∧
    proceduralValidationError indexPastEnd = some "index 3 out of range (v=3)" :=
  ⟨by decide,
    ((C29_inline_copies_agree indexPastEnd "").2.2.2.2 "index 3 out of range (v=3)"
      (by decide)).2⟩

set_option maxRecDepth 100000 in
/-- C30 on a compiler for which neither the compilation nor the load of
precompiled shaders succeeds: the placeholders are generated, the compilation
reports success and `CompileAndLoadShaders` returns `S_OK`. -/
theorem C30_witness :
    (({} : CCompiler).CompileRayTracingShaders noShaderFiles).1 = true ∧
    (({} : CCompiler).CompileRayTracingShaders noShaderFiles).2.ValidateShaderBytecode = true ∧
    ValidateCompiledShaders
      (({} : CCompiler).CompileRayTracingShaders noShaderFiles).2.getBytecode = true ∧
    (CD3D_RT.deviceReady.CompileAndLoadShaders {} noShaderFiles).1 = S_OK :=
  ⟨by decide!,
    (C30_compiler_check_implies_pipeline_check.2.2.1 {} noShaderFiles (by decide!)).1,
    (C30_compiler_check_implies_pipeline_check.2.2.1 {} noShaderFiles (by decide!)).2,
    congrArg Prod.fst
      ((C30_compiler_check_implies_pipeline_check.2.2.2.1 CD3D_RT.deviceReady {} noShaderFiles
        rfl).1 (by decide!))⟩

namespace CD3D_RT

/-- C21 on a stage with an installed scene: a frame in which
`GetDeviceRemovedReason` fails sets the latch; the call after one further frame
ends at the return for the latch, no event is recorded and
`m_lastSignaledFence` stays at `5`. -/
theorem C21_witness :
    (sceneInstalled.Execute deviceLost).1 = ExecuteExit.deviceRemoved ∧
    (sceneInstalled.Execute deviceLost).2.m_lastSignaledFence = 5 ∧
    (((sceneInstalled.Execute deviceLost).2.executeAll [tracingFrame]).Execute tracingFrame).1 =
      ExecuteExit.latched ∧
    (((sceneInstalled.Execute deviceLost).2.executeAll [tracingFrame]).Execute
      tracingFrame).2.m_lastSignaledFence = (sceneInstalled.Execute deviceLost).2.m_lastSignaledFence ∧
    (((sceneInstalled.Execute deviceLost).2.executeAll [tracingFrame]).Execute
      tracingFrame).2.s_deviceStabilityFailure = true :=
  ⟨by decide, by decide,
    (C21_latch_stops_frames sceneInstalled deviceLost (Or.inl (by decide)) [tracingFrame]
      tracingFrame).2.1,
    (C21_latch_stops_frames sceneInstalled deviceLost (Or.inl (by decide)) [tracingFrame]
      tracingFrame).2.2.2.1.2.1,
    (C21_latch_stops_frames sceneInstalled deviceLost (Or.inl (by decide)) [tracingFrame]
      tracingFrame).2.2.2.1.2.2.2.2⟩

/-- C22 (counterexample): on a stage with device, queue and output `62` but no
top-level structure, the compose pass returns `S_OK` and records the draw and
submits its list; on a stage without a device, which has no output either, it
returns `E_FAIL`. -/
theorem C22_counterexample :
    (sceneLost.m_pTopLevelAS = 0 ∧
      (sceneLost.ComposeToHDROneShot composeReady).1 = S_OK ∧
      (sceneLost.ComposeToHDROneShot composeReady).2.trace =
        [Event.transition 81 62 0 192, Event.transition 81 62 0 192, Event.drawInstanced 81,
          Event.executeCommandLists 81]) ∧
    (({} : CD3D_RT).m_pRaytracingOutput = 0 ∧
      (({} : CD3D_RT).ComposeToHDROneShot composeReady).1 = E_FAIL ∧ E_FAIL ≠ S_FALSE) := by
  decide

/-- C22 (amended) on a stage with device and queue but no output: the result is
`S_FALSE` and the trace stays empty. -/
theorem C22_witness :
    (deviceReady.ComposeToHDROneShot composeReady).1 = S_FALSE ∧
    (deviceReady.ComposeToHDROneShot composeReady).2.bookkeeping = deviceReady.bookkeeping :=
  ⟨(C22_compose_nothing_to_do deviceReady composeReady).1.2
      ⟨⟨by decide, by decide⟩, Or.inl rfl⟩,
    ((C22_compose_nothing_to_do deviceReady composeReady).2.1
      ((C22_compose_nothing_to_do deviceReady composeReady).1.2
        ⟨⟨by decide, by decide⟩, Or.inl rfl⟩)).1⟩

/-- C23 (counterexample): with an output image `0` wide the frame records no
dispatch, yet its command list is submitted, the fence is signalled with `6`,
`m_lastSignaledFence` and `m_lastDispatchFence` go from `5` to `6` and the
context of the frame is stamped with `6`; with an image `0` high a dispatch of
4 by 1 is recorded. -/
theorem C23_counterexample :
    (zeroWidthFrame.rays.giWidth = 0 ∧
      (sceneInstalled.Execute zeroWidthFrame).1 = ExecuteExit.done ∧
      (sceneInstalled.Execute zeroWidthFrame).2.trace =
        [Event.executeCommandLists 31, Event.signalFrameFence 6] ∧
      sceneInstalled.m_lastSignaledFence = 5 ∧ sceneInstalled.m_lastDispatchFence = 5 ∧
      (sceneInstalled.Execute zeroWidthFrame).2.m_lastSignaledFence = 6 ∧
      (sceneInstalled.Execute zeroWidthFrame).2.m_lastDispatchFence = 6 ∧
      (sceneInstalled.m_frameCtx sceneInstalled.ctxIndex).fenceValue = 0 ∧
      (sceneInstalled.Execute zeroWidthFrame).2.m_frameCtx sceneInstalled.ctxIndex =
        { pAllocator := 4, fenceValue := 6, usedOnce := true }) ∧
    (zeroHeightFrame.rays.giHeight = 0 ∧
      (sceneInstalled.Execute zeroHeightFrame).2.trace =
        [Event.transition 31 62 0 8, Event.uploadConstants 4 1, Event.dispatchRays 31 4 1 1,
          Event.transition 31 62 8 192, Event.executeCommandLists 31,
          Event.signalFrameFence 6]) := by
  decide

/-- C23 (amended) on the frame with an output image `0` wide: the call gets to
the `Close` of its list and `m_lastSignaledFence` grows by exactly 1. -/
theorem C23_witness :
    (sceneInstalled.Execute zeroWidthFrame).1 = ExecuteExit.done ∧
    (sceneInstalled.Execute zeroWidthFrame).2.m_frameFence ≠ 0 ∧
    (sceneInstalled.Execute zeroWidthFrame).2.m_lastSignaledFence =
      sceneInstalled.m_lastSignaledFence + 1 ∧
    (sceneInstalled.Execute zeroWidthFrame).2.m_lastDispatchFence =
      (sceneInstalled.Execute zeroWidthFrame).2.m_lastSignaledFence :=
  ⟨by decide, by decide,
    ((C23_zero_sized_output sceneInstalled zeroWidthFrame).2.2.2 (Or.inr (by decide))
      (by decide)).2.1 rfl,
    ((C23_zero_sized_output sceneInstalled zeroWidthFrame).2.2.2 (Or.inr (by decide))
      (by decide)).2.2.1⟩

theorem manyVertices_length : manyVertices.vertices.length = 1000001 := by
  show ([vec 0 0 0, vec 1 0 0, vec 0 1 0] ++ List.replicate 999998 (vec 0 0 0)).length = 1000001
  rw [List.length_append, List.length_replicate]
  rfl

theorem manyVertices_0 : manyVertices.vertices[0]? = some (vec 0 0 0) := by
  show ([vec 0 0 0, vec 1 0 0, vec 0 1 0] ++ List.replicate 999998 (vec 0 0 0))[0]? = _
  rw [List.getElem?_append_left (by decide)]
  simp

theorem manyVertices_1 : manyVertices.vertices[1]? = some (vec 1 0 0) := by
  show ([vec 0 0 0, vec 1 0 0, vec 0 1 0] ++ List.replicate 999998 (vec 0 0 0))[1]? = _
  rw [List.getElem?_append_left (by decide)]
  simp

theorem manyVertices_2 : manyVertices.vertices[2]? = some (vec 0 1 0) := by
  show ([vec 0 0 0, vec 1 0 0, vec 0 1 0] ++ List.replicate 999998 (vec 0 0 0))[2]? = _
  rw [List.getElem?_append_left (by decide)]
  simp

/-- C25 (counterexample): on a stage whose counters are all `0` and on a device
on which `CreateFence` fails for the frame fence, a frame that traces ends at
the end of `Execute` with `m_lastDispatchFence = 1` above
`m_lastSignaledFence = 0`; the value `RT_SafeRelease` would compute is `1`. -/
theorem C25_counterexample :
    fencesInOrder beforeFirstFrame ∧
    (beforeFirstFrame.Execute unfencedFrame).1 = ExecuteExit.done ∧
    (beforeFirstFrame.Execute unfencedFrame).2.m_frameFence = 0 ∧
    (beforeFirstFrame.Execute unfencedFrame).2.m_lastDispatchFence = 1 ∧
    (beforeFirstFrame.Execute unfencedFrame).2.m_lastSignaledFence = 0 ∧
    (beforeFirstFrame.Execute unfencedFrame).2.maxFence = 1 ∧
    ¬ fencesInOrder (beforeFirstFrame.Execute unfencedFrame).2 :=
  ⟨⟨Nat.le_refl _, Nat.le_refl _, fun _ => Nat.le_refl _⟩, by decide, by decide, by decide,
    by decide, by decide, fun h => absurd h.1 (by decide)⟩

/-- C25 (amended) on a stage with an installed scene and a frame fence, whose
counters stand at `5`: they are in order after a frame that traces and after a
build of the level. -/
theorem C25_witness :
    fencesInOrder sceneInstalled ∧
    (sceneInstalled.Execute tracingFrame).2.m_frameFence ≠ 0 ∧
    fencesInOrder (sceneInstalled.Execute tracingFrame).2 ∧
    fencesInOrder (sceneInstalled.CreateLevelGeometryBLASAndTLAS oneTriangleBuild).2 ∧
    sceneInstalled.maxFence = sceneInstalled.m_lastSignaledFence :=
  ⟨⟨Nat.le_refl _, Nat.zero_le _, fun _ => Nat.zero_le _⟩, by decide,
    (@C25_fences_in_order Dec _ sceneInstalled
      ⟨Nat.le_refl _, Nat.zero_le _, fun _ => Nat.zero_le _⟩).2.2.1 tracingFrame
        (Or.inl (by decide)),
    (@C25_fences_in_order Dec _ sceneInstalled
      ⟨Nat.le_refl _, Nat.zero_le _, fun _ => Nat.zero_le _⟩).1 oneTriangleBuild,
    (@C25_fences_in_order Dec _ sceneInstalled
      ⟨Nat.le_refl _, Nat.zero_le _, fun _ => Nat.zero_le _⟩).2.2.2.1⟩

/-- C26 on a stage whose contexts all hold allocator `4` and the stamp `7`,
with a `Reset` that succeeds: the allocator `4` is returned, `usedOnce` is
cleared and the stamp is still `7`. -/
theorem C26_witness :
    (stampedContexts.m_frameCtx stampedContexts.ctxIndex).fenceValue = 7 ∧
    FAILED beginEnv0.resetHr = false ∧
    (stampedContexts.RT_BeginFrameAllocator beginEnv0).1 = 4 ∧
    ((stampedContexts.RT_BeginFrameAllocator beginEnv0).2.m_frameCtx
      stampedContexts.ctxIndex).usedOnce = false ∧
    ((stampedContexts.RT_BeginFrameAllocator beginEnv0).2.m_frameCtx
      stampedContexts.ctxIndex).fenceValue = 7 :=
  ⟨by decide, by decide,
    (C26_stamp_kept_when_reset_succeeds stampedContexts beginEnv0 (by decide) (by decide)
      (by decide) (by decide)).1,
    (C26_stamp_kept_when_reset_succeeds stampedContexts beginEnv0 (by decide) (by decide)
      (by decide) (by decide)).2.1,
    (C26_stamp_kept_when_reset_succeeds stampedContexts beginEnv0 (by decide) (by decide)
      (by decide) (by decide)).2.2.2 (by decide)⟩

/-- C27 (fails on the code): the barrier `RT_TransitionTracked` records takes
its `StateBefore` from the tracked variable it is handed, and each output has a
variable of its own.  When the reflection texture is missing,
`CreateRayTracingResources` binds the reflection output to the resource of the
GI output and sets both variables to `COMMON`; the next
`ExecuteRayTracingWithDebug` records, for that one resource, the barrier
`COMMON -> UNORDERED_ACCESS` twice, and later `UNORDERED_ACCESS -> kSRV` twice,
so whatever state the resource was created in, the second barrier names a
`StateBefore` that is not the `StateAfter` of the one before.  When the
stand-alone ambient-occlusion output is created, in `UNORDERED_ACCESS`, its
variable is `COMMON`, and the first barrier recorded for it names `COMMON`.
With three textures of their own, starting in `COMMON`, the barriers are
consistent.  In all three cases the tracked states are `kSRV` at the end. -/
theorem C27_barrier_state_before_diverges :
    (∀ (s : CD3D_RT) (cl res tracked new : Nat), cl ≠ 0 → res ≠ 0 → tracked ≠ new →
      s.RT_TransitionTracked cl res tracked new =
        (s.emit (Event.transition cl res tracked new), new)) ∧
    ((readyForOutputs.CreateRayTracingResources noReflTexture).1 = S_OK ∧
      (readyForOutputs.CreateRayTracingResources noReflTexture).2.m_pRaytracingOutput = 62 ∧
      (readyForOutputs.CreateRayTracingResources noReflTexture).2.m_pReflectionOutput = 62 ∧
      ((readyForOutputs.CreateRayTracingResources noReflTexture).2.ExecuteRayTracingWithDebug
          output4x3 31 4 3).trace =
        [Event.transition 31 62 0 8, Event.transition 31 62 0 8, Event.transition 31 64 0 8,
          Event.uploadConstants 4 3, Event.dispatchRays 31 4 3 1,
          Event.transition 31 62 8 192, Event.transition 31 62 8 192,
          Event.transition 31 64 8 192] ∧
      ∀ created : Ptr → Nat, barriersConsistent created
        ((readyForOutputs.CreateRayTracingResources noReflTexture).2.ExecuteRayTracingWithDebug
          output4x3 31 4 3).trace = false) ∧
    ((readyForOutputs.CreateRayTracingResources noAOTexture).1 = S_OK ∧
      (readyForOutputs.CreateRayTracingResources noAOTexture).2.g_pRT_AOOutput = 70 ∧
      aoFallbackInitialState = D3D12_RESOURCE_STATE_UNORDERED_ACCESS ∧
      ((readyForOutputs.CreateRayTracingResources noAOTexture).2.ExecuteRayTracingWithDebug
          output4x3 31 4 3).trace =
        [Event.transition 31 62 0 8, Event.transition 31 63 0 8, Event.transition 31 70 0 8,
          Event.uploadConstants 4 3, Event.dispatchRays 31 4 3 1,
          Event.transition 31 62 8 192, Event.transition 31 63 8 192,
          Event.transition 31 70 8 192] ∧
      ∀ created : Ptr → Nat, created 70 = aoFallbackInitialState →
        barriersConsistent created
          ((readyForOutputs.CreateRayTracingResources noAOTexture).2.ExecuteRayTracingWithDebug
            output4x3 31 4 3).trace = false) ∧
    ((readyForOutputs.CreateRayTracingResources outputsEnv).1 = S_OK ∧
      barriersConsistent (fun _ => D3D12_RESOURCE_STATE_COMMON)
        ((readyForOutputs.CreateRayTracingResources outputsEnv).2.ExecuteRayTracingWithDebug
          output4x3 31 4 3).trace = true) ∧
    (∀ env ∈ [noReflTexture, noAOTexture, outputsEnv],
      ((readyForOutputs.CreateRayTracingResources env).2.ExecuteRayTracingWithDebug
        output4x3 31 4 3).g_RT_GIState = 192 ∧
      ((readyForOutputs.CreateRayTracingResources env).2.ExecuteRayTracingWithDebug
        output4x3 31 4 3).g_RT_ReflState = 192 ∧
      ((readyForOutputs.CreateRayTracingResources env).2.ExecuteRayTracingWithDebug
        output4x3 31 4 3).g_RT_AOState = 192) := by
  have t1 : ((readyForOutputs.CreateRayTracingResources noReflTexture).2.ExecuteRayTracingWithDebug
        output4x3 31 4 3).trace =
      [Event.transition 31 62 0 8, Event.transition 31 62 0 8, Event.transition 31 64 0 8,
        Event.uploadConstants 4 3, Event.dispatchRays 31 4 3 1,
        Event.transition 31 62 8 192, Event.transition 31 62 8 192,
        Event.transition 31 64 8 192] := by decide
  have t2 : ((readyForOutputs.CreateRayTracingResources noAOTexture).2.ExecuteRayTracingWithDebug
        output4x3 31 4 3).trace =
      [Event.transition 31 62 0 8, Event.transition 31 63 0 8, Event.transition 31 70 0 8,
        Event.uploadConstants 4 3, Event.dispatchRays 31 4 3 1,
        Event.transition 31 62 8 192, Event.transition 31 63 8 192,
        Event.transition 31 70 8 192] := by decide
  refine ⟨?_, ⟨by decide, by decide, by decide, t1, ?_⟩, ⟨by decide, by decide, rfl, t2, ?_⟩,
    by decide, ?_⟩
  · intro s cl res tracked new h1 h2 h3
    unfold RT_TransitionTracked
    rw [if_neg (by rintro (h | h) <;> contradiction), if_neg h3]
  · intro created
    rw [t1]
    simp [barriersConsistent]
  · intro created hc
    rw [t2]
    have h70 : created 70 ≠ 0 := by
      rw [hc]
      decide
    simp [barriersConsistent, Function.update, h70]
  · intro env henv
    simp only [List.mem_cons, List.mem_singleton, List.not_mem_nil, or_false] at henv
    rcases henv with rfl | rfl | rfl <;> decide

end CD3D_RT

end D3D_RT
